import Mathlib

/-! Sloped rounded rectangle geometry (RayLIB_cozmo).

A shallow embedding of the drawing routines of `src/Basic_0/main_9.cpp`,
`src/Basic_0/main_10.cpp`,
`src/Basic_0/main_11.cpp`, `src/Basic_0/main_12.cpp` and
`src/Basic_0/main_13.cpp`, and of the `segments` handling of their harnesses;
of `MyDrawRectangleRounded` (`src/Basic_0/main_8_basic.cpp`), `DrawStar`
(`src/Basic_0/main_7.cpp`), `DrawLineDashed` (`src/Basic_0/main_5.cpp`) and
`EyeDrawer::Draw` (`src/main_4.cpp`).

* `float` values are read as exact rationals (`ℚ`); `fmaxf`/`fminf` are the
  rational maximum and minimum.  Where the rounding of a `float` operation
  decides a property, the routine is embedded again with the arithmetic as a
  parameter (`FloatArith`, namespace `WithArith`), instantiated with exact
  arithmetic and with IEEE 754 binary32 arithmetic (`binary32`).
* A drawing routine is a function returning the list of raylib calls it makes,
  in call order.  Every raylib call is a constructor of `Primitive` carrying
  the arguments as the callee receives them; in particular the `int`
  parameters of `DrawRectangle` receive their `float` arguments through the C
  conversion `float -> int`, which truncates toward zero (`toInt`).
-/

namespace RayLIBCozmo

/-! ## Data model (raylib.h) -/

/-- The raylib `Rectangle` record: `x`, `y`, `width`, `height`. -/
structure Rectangle where
  x : ℚ
  y : ℚ
  width : ℚ
  height : ℚ
  deriving DecidableEq

/-- The raylib `Vector2` record. -/
structure Vector2 where
  x : ℚ
  y : ℚ
  deriving DecidableEq

/-- The raylib `Color` record, four channels in `0..255`. -/
structure Color where
  r : Nat
  g : Nat
  b : Nat
  a : Nat
  deriving DecidableEq

/-- One raylib drawing call with the arguments the callee receives. -/
inductive Primitive where
  | DrawRectangle (posX posY width height : Int) (color : Color)
  | DrawRectangleRec (rec : Rectangle) (color : Color)
  | DrawTriangleFan (points : List Vector2) (pointCount : Int) (color : Color)
  | DrawCircleSector (center : Vector2) (radius startAngle endAngle : ℚ)
      (segments : Int) (color : Color)
  | DrawLineEx (startPos endPos : Vector2) (thick : ℚ) (color : Color)
  | DrawCircleSectorLines (center : Vector2) (radius startAngle endAngle : ℚ)
      (segments : Int) (color : Color)
  | DrawTriangle (v1 v2 v3 : Vector2) (color : Color)
  | DrawLineV (startPos endPos : Vector2) (color : Color)
  | DrawCircleLines (centerX centerY : Int) (radius : ℚ) (color : Color)
  | DrawTriangleLines (v1 v2 v3 : Vector2) (color : Color)
  deriving DecidableEq

/-- The C conversion from `float` to `int`: truncation toward zero. -/
def toInt (q : ℚ) : Int := Int.tdiv q.num (q.den : Int)

/-- The C library `fmaxf` on exact values. -/
def fmaxf (a b : ℚ) : ℚ := max a b

/-- The C library `fminf` on exact values. -/
def fminf (a b : ℚ) : ℚ := min a b

/-! ## `src/Basic_0/main_11.cpp` -/

namespace Main11

/-- The fill routine of `main_11.cpp`, lines 4-95: the raylib calls in order. -/
def MyDrawSlopedRoundedRectangle (rec : Rectangle) (radiusBottom radiusTop slopeFactor : ℚ)
    (segments : Int) (color : Color) : List Primitive :=
  -- 1. Calculate and constrain radii
  let radiusBottom := fmaxf 0 radiusBottom
  let radiusTop := fmaxf 0 radiusTop
  let maxRadius := fminf rec.width rec.height / 2
  let radiusBottom := fminf radiusBottom maxRadius
  let radiusTop := fminf radiusTop maxRadius
  -- 2. Calculate coordinates and slope offset
  let actualSlopeShift := slopeFactor * rec.height
  let y_top_straight := rec.y + radiusTop
  let y_bottom_straight := rec.y + rec.height - radiusBottom
  let x_tr_corner_sloped := rec.x + rec.width - actualSlopeShift
  let centers0 : Vector2 := ⟨rec.x + radiusTop, y_top_straight⟩
  let centers1 : Vector2 := ⟨x_tr_corner_sloped - radiusTop, y_top_straight⟩
  let centers2 : Vector2 := ⟨rec.x + rec.width - radiusBottom, y_bottom_straight⟩
  let centers3 : Vector2 := ⟨rec.x + radiusBottom, y_bottom_straight⟩
  let top_straight_width := centers1.x - centers0.x
  -- 3. A. central fill, B. bottom horizontal fill
  [ Primitive.DrawRectangle (toInt rec.x) (toInt y_top_straight) (toInt rec.width)
      (toInt (y_bottom_straight - y_top_straight)) color,
    Primitive.DrawRectangle (toInt centers3.x) (toInt y_bottom_straight)
      (toInt (centers2.x - centers3.x)) (toInt radiusBottom) color ]
  -- C. top fill: conditional trapezoid or simple rectangle
  ++ (if top_straight_width > 0 then
        [ Primitive.DrawTriangleFan
            [ ⟨centers0.x, rec.y⟩, ⟨centers1.x, rec.y⟩,
              ⟨centers1.x, y_top_straight⟩, ⟨centers0.x, y_top_straight⟩ ] 4 color ]
      else
        [ Primitive.DrawRectangle (toInt rec.x) (toInt rec.y) (toInt rec.width)
            (toInt radiusTop) color ])
  -- D. left vertical strip, E. right vertical fill
  ++ [ Primitive.DrawRectangle (toInt rec.x) (toInt centers0.y) (toInt radiusTop)
         (toInt (centers3.y - centers0.y)) color,
       Primitive.DrawTriangleFan
         [ ⟨centers1.x + radiusTop, y_top_straight⟩, ⟨x_tr_corner_sloped, y_top_straight⟩,
           ⟨rec.x + rec.width, y_bottom_straight⟩, ⟨centers2.x + radiusBottom, y_bottom_straight⟩ ]
         4 color,
       -- 4. the four corner arcs
       Primitive.DrawCircleSector centers0 radiusTop 180 270 segments color,
       Primitive.DrawCircleSector centers1 radiusTop 270 360 segments color,
       Primitive.DrawCircleSector centers2 radiusBottom 0 90 segments color,
       Primitive.DrawCircleSector centers3 radiusBottom 90 180 segments color ]

end Main11

/-! ## `src/Basic_0/main_12.cpp` -/

namespace Main12

/-- The fill routine as `main_12.cpp` defines it, lines 83-88: the body is
empty there, so no raylib call is made. -/
def MyDrawSlopedRoundedRectangle (_rec : Rectangle) (_radiusBottom _radiusTop _slopeFactor : ℚ)
    (_segments : Int) (_color : Color) : List Primitive :=
  []

/-- The outline routine of `main_12.cpp`, lines 91-174: the raylib calls in order. -/
def MyDrawSlopedRoundedRectangleWires (rec : Rectangle) (radiusBottom radiusTop slopeFactor : ℚ)
    (segments : Int) (color : Color) (thickness : ℚ) : List Primitive :=
  -- 1. Calculate parameters and centers
  let radiusBottom := fmaxf 0 radiusBottom
  let radiusTop := fmaxf 0 radiusTop
  let maxRadius := fminf rec.width rec.height / 2
  let radiusBottom := fminf radiusBottom maxRadius
  let radiusTop := fminf radiusTop maxRadius
  let actualSlopeShift := slopeFactor * rec.height
  let y_top_straight := rec.y + radiusTop
  let y_bottom_straight := rec.y + rec.height - radiusBottom
  let x_tr_corner_sloped := rec.x + rec.width - actualSlopeShift
  let centers0 : Vector2 := ⟨rec.x + radiusTop, y_top_straight⟩
  let centers1 : Vector2 := ⟨x_tr_corner_sloped - radiusTop, y_top_straight⟩
  let centers2 : Vector2 := ⟨rec.x + rec.width - radiusBottom, y_bottom_straight⟩
  let centers3 : Vector2 := ⟨rec.x + radiusBottom, y_bottom_straight⟩
  -- 2. The corner points of the straight-line segments (`p[4]`, `p[5]` are
  -- computed by the source and never passed to a call)
  let p0 : Vector2 := ⟨centers3.x - radiusBottom, centers3.y⟩
  let p1 : Vector2 := ⟨centers0.x - radiusTop, centers0.y⟩
  let p2 : Vector2 := ⟨centers0.x, centers0.y - radiusTop⟩
  let p3 : Vector2 := ⟨centers1.x, centers1.y - radiusTop⟩
  let p6 : Vector2 := ⟨centers2.x, centers2.y + radiusBottom⟩
  let p7 : Vector2 := ⟨centers3.x, centers3.y + radiusBottom⟩
  let right_top : Vector2 := ⟨centers1.x + radiusTop, centers1.y⟩
  let right_bottom : Vector2 := ⟨centers2.x + radiusBottom, centers2.y⟩
  -- 3. The four straight-line segments
  [ Primitive.DrawLineEx p0 p1 thickness color,
    Primitive.DrawLineEx p2 p3 thickness color,
    Primitive.DrawLineEx right_top right_bottom thickness color,
    Primitive.DrawLineEx p7 p6 thickness color,
    -- 4. The four corner arcs
    Primitive.DrawCircleSectorLines centers0 radiusTop 180 270 segments color,
    Primitive.DrawCircleSectorLines centers1 radiusTop 270 360 segments color,
    Primitive.DrawCircleSectorLines centers2 radiusBottom 0 90 segments color,
    Primitive.DrawCircleSectorLines centers3 radiusBottom 90 180 segments color ]

end Main12

/-! ## `src/Basic_0/main_13.cpp` -/

namespace Main13

/-- The fill routine of `main_13.cpp`, lines 74-168: the raylib calls in order. -/
def MyDrawSlopedRoundedRectangle (rec : Rectangle) (radiusBottom radiusTop slopeFactor : ℚ)
    (segments : Int) (color : Color) : List Primitive :=
  -- 1. Calculate and constrain radii
  let radiusBottom := fmaxf 0 radiusBottom
  let radiusTop := fmaxf 0 radiusTop
  let maxRadius := fminf rec.width rec.height / 2
  let radiusBottom := fminf radiusBottom maxRadius
  let radiusTop := fminf radiusTop maxRadius
  -- 2. Calculate coordinates and slope offset
  let actualSlopeShift := slopeFactor * rec.height
  let y_top_straight := rec.y + radiusTop
  let y_bottom_straight := rec.y + rec.height - radiusBottom
  let x_tr_corner_sloped := rec.x + rec.width - actualSlopeShift
  let centers0 : Vector2 := ⟨rec.x + radiusTop, y_top_straight⟩
  let centers1 : Vector2 := ⟨x_tr_corner_sloped - radiusTop, y_top_straight⟩
  let centers2 : Vector2 := ⟨rec.x + rec.width - radiusBottom, y_bottom_straight⟩
  let centers3 : Vector2 := ⟨rec.x + radiusBottom, y_bottom_straight⟩
  let top_straight_width := centers1.x - centers0.x
  -- 3. A. central fill, B. bottom horizontal fill
  [ Primitive.DrawRectangle (toInt rec.x) (toInt y_top_straight) (toInt rec.width)
      (toInt (y_bottom_straight - y_top_straight)) color,
    Primitive.DrawRectangle (toInt centers3.x) (toInt y_bottom_straight)
      (toInt (centers2.x - centers3.x)) (toInt radiusBottom) color ]
  -- C. top fill: conditional trapezoid or simple rectangle
  ++ (if top_straight_width > 0 then
        [ Primitive.DrawTriangleFan
            [ ⟨centers0.x, rec.y⟩, ⟨centers1.x, rec.y⟩,
              ⟨centers1.x, y_top_straight⟩, ⟨centers0.x, y_top_straight⟩ ] 4 color ]
      else
        [ Primitive.DrawRectangle (toInt rec.x) (toInt rec.y) (toInt rec.width)
            (toInt radiusTop) color ])
  -- D. left vertical strip, E. right vertical fill
  ++ [ Primitive.DrawRectangle (toInt rec.x) (toInt centers0.y) (toInt radiusTop)
         (toInt (centers3.y - centers0.y)) color,
       Primitive.DrawTriangleFan
         [ ⟨centers1.x + radiusTop, y_top_straight⟩, ⟨x_tr_corner_sloped, y_top_straight⟩,
           ⟨rec.x + rec.width, y_bottom_straight⟩, ⟨centers2.x + radiusBottom, y_bottom_straight⟩ ]
         4 color,
       -- 4. the four corner arcs
       Primitive.DrawCircleSector centers0 radiusTop 180 270 segments color,
       Primitive.DrawCircleSector centers1 radiusTop 270 360 segments color,
       Primitive.DrawCircleSector centers2 radiusBottom 0 90 segments color,
       Primitive.DrawCircleSector centers3 radiusBottom 90 180 segments color ]

end Main13

/-- The C library `fabsf` on exact values. -/
def fabsf (a : ℚ) : ℚ := |a|

/-! ## `src/Basic_0/main_9.cpp` -/

namespace Main9

/-- The fill routine of `main_9.cpp`, lines 15-157, the earliest revision: the
raylib calls in order.  The threshold `0.001f` is read as `1/1000`. -/
def MyDrawSlopedRoundedRectangle (rec : Rectangle) (radiusBottom radiusTop slopeFactor : ℚ)
    (segments : Int) (color : Color) : List Primitive :=
  -- Ensure radii are not negative
  let radiusBottom := fmaxf 0 radiusBottom
  let radiusTop := fmaxf 0 radiusTop
  -- Limit radii to half of the respective side
  let radiusBottom := fminf radiusBottom (rec.height / 2)
  let radiusTop := fminf radiusTop (rec.height / 2)
  let radiusBottom := fminf radiusBottom (rec.width / 2)
  let radiusTop := fminf radiusTop (rec.width / 2)
  if radiusBottom ≤ 0 ∧ radiusTop ≤ 0 ∧ fabsf slopeFactor < 1 / 1000 then
    [ Primitive.DrawRectangleRec rec color ]
  else
    let actualSlopeShift := slopeFactor * rec.height
    let pBL : Vector2 := ⟨rec.x, rec.y + rec.height⟩
    let pBR : Vector2 := ⟨rec.x + rec.width, rec.y + rec.height⟩
    -- `pTR.x += actualSlopeShift` is overwritten by the assignment that follows it
    let pTR : Vector2 := ⟨rec.x + rec.width - actualSlopeShift, rec.y⟩
    let centerBL_arc : Vector2 := ⟨pBL.x + radiusBottom, pBL.y - radiusBottom⟩
    let centerBR_arc : Vector2 := ⟨pBR.x - radiusBottom, pBR.y - radiusBottom⟩
    let innerTopLeft_rect : Vector2 := ⟨rec.x + radiusTop, rec.y⟩
    let innerTopRight_rect : Vector2 := ⟨pTR.x - radiusTop, rec.y⟩
    let innerTopLeft_rect_bottom : Vector2 := ⟨rec.x + radiusTop, rec.y + radiusTop⟩
    let innerTopRight_rect_bottom : Vector2 := ⟨pTR.x - radiusTop, rec.y + radiusTop⟩
    let centerTL_arc : Vector2 := ⟨rec.x + radiusTop, rec.y + radiusTop⟩
    let centerTR_arc : Vector2 := ⟨pTR.x - radiusTop, rec.y + radiusTop⟩
    [ -- A. main central rectangle, B. bottom horizontal rectangle
      Primitive.DrawRectangle (toInt rec.x) (toInt (rec.y + radiusTop)) (toInt rec.width)
        (toInt (rec.height - radiusTop - radiusBottom)) color,
      Primitive.DrawRectangle (toInt (rec.x + radiusBottom))
        (toInt (rec.y + rec.height - radiusBottom)) (toInt (rec.width - 2 * radiusBottom))
        (toInt radiusBottom) color,
      -- C. bottom-left arc, D. bottom-right arc
      Primitive.DrawCircleSector centerBL_arc radiusBottom 90 180 segments color,
      Primitive.DrawCircleSector centerBR_arc radiusBottom 0 90 segments color,
      -- E. top fill (the test `innerTopRight_rect.x < innerTopLeft_rect.x` has an empty body)
      Primitive.DrawTriangleFan
        [ innerTopLeft_rect, innerTopRight_rect, innerTopRight_rect_bottom,
          innerTopLeft_rect_bottom ] 4 color,
      -- F. top-left arc, G. top-right arc
      Primitive.DrawCircleSector centerTL_arc radiusTop 180 270 segments color,
      Primitive.DrawCircleSector centerTR_arc radiusTop 270 360 segments color,
      -- H. left strips and right strip
      Primitive.DrawRectangle (toInt rec.x) (toInt (rec.y + radiusTop)) (toInt radiusBottom)
        (toInt (rec.height - radiusTop - radiusBottom)) color,
      Primitive.DrawRectangle (toInt rec.x) (toInt (rec.y + radiusTop)) (toInt radiusTop)
        (toInt (rec.height - radiusTop - radiusBottom)) color,
      Primitive.DrawTriangleFan
        [ ⟨pTR.x - radiusTop, rec.y + radiusTop⟩, ⟨pTR.x, rec.y + radiusTop⟩,
          ⟨pBR.x, rec.y + rec.height - radiusBottom⟩,
          ⟨pBR.x - radiusBottom, rec.y + rec.height - radiusBottom⟩ ] 4 color ]

end Main9

/-! ## `src/Basic_0/main_10.cpp` -/

namespace Main10

/-- The fill routine of `main_10.cpp`, lines 4-87, the revision before
`main_11.cpp`: the raylib calls in order. -/
def MyDrawSlopedRoundedRectangle (rec : Rectangle) (radiusBottom radiusTop slopeFactor : ℚ)
    (segments : Int) (color : Color) : List Primitive :=
  -- 1. Calculate and constrain radii
  let radiusBottom := fmaxf 0 radiusBottom
  let radiusTop := fmaxf 0 radiusTop
  let maxRadius := fminf rec.width rec.height / 2
  let radiusBottom := fminf radiusBottom maxRadius
  let radiusTop := fminf radiusTop maxRadius
  -- 2. Calculate coordinates and slope offset
  let actualSlopeShift := slopeFactor * rec.height
  let arcCenterY := rec.y + radiusTop
  let arcBottomCenterY := rec.y + rec.height - radiusBottom
  let centers0 : Vector2 := ⟨rec.x + radiusTop, arcCenterY⟩
  let centers1 : Vector2 := ⟨rec.x + rec.width - actualSlopeShift - radiusTop, arcCenterY⟩
  let centers2 : Vector2 := ⟨rec.x + rec.width - radiusBottom, arcBottomCenterY⟩
  let centers3 : Vector2 := ⟨rec.x + radiusBottom, arcBottomCenterY⟩
  [ -- A. vertical center section
    Primitive.DrawRectangle (toInt rec.x) (toInt arcCenterY) (toInt rec.width)
      (toInt (rec.height - radiusTop - radiusBottom)) color,
    -- B. top sloped trapezoid
    Primitive.DrawTriangleFan
      [ ⟨centers0.x, rec.y⟩, ⟨centers1.x, rec.y⟩,
        ⟨centers1.x, arcCenterY⟩, ⟨centers0.x, arcCenterY⟩ ] 4 color,
    -- C. bottom horizontal rectangle
    Primitive.DrawRectangle (toInt centers3.x) (toInt arcBottomCenterY)
      (toInt (centers2.x - centers3.x)) (toInt radiusBottom) color,
    -- D. left vertical strip
    Primitive.DrawRectangle (toInt rec.x) (toInt centers0.y) (toInt radiusTop)
      (toInt (centers3.y - centers0.y)) color,
    -- E. right vertical strip
    Primitive.DrawTriangleFan
      [ ⟨centers1.x, arcCenterY⟩, ⟨centers1.x + radiusTop, arcCenterY⟩,
        ⟨rec.x + rec.width, arcBottomCenterY⟩, ⟨centers2.x, arcBottomCenterY⟩ ] 4 color,
    -- 4. the four corner arcs
    Primitive.DrawCircleSector centers0 radiusTop 180 270 segments color,
    Primitive.DrawCircleSector centers1 radiusTop 270 360 segments color,
    Primitive.DrawCircleSector centers2 radiusBottom 0 90 segments color,
    Primitive.DrawCircleSector centers3 radiusBottom 90 180 segments color ]

end Main10

/-! ## The keyboard harnesses of `main_11.cpp` and `main_12.cpp`

Only the `segments` variable of `main` is followed: no other statement of the
frame loop reads or writes it before the draw calls.  A frame is the pair of
key states `(IsKeyDown(KEY_F), IsKeyDown(KEY_G))`; `segments - 1` and
`segments + 1` are `int` values converted to `float` for `fmaxf` / `fminf`,
whose result is converted back to `int` by the assignment. -/

namespace Main11

/-- The initial value of `segments` in `main`, `main_11.cpp` line 113. -/
def initialSegments : Int := 16

/-- Lines 135-136 of `main_11.cpp`: the update of `segments` in one frame. -/
def updateSegments (segments : Int) (keyF keyG : Bool) : Int :=
  let segments := if keyF then toInt (fmaxf 3 ((segments - 1 : Int) : ℚ)) else segments
  let segments := if keyG then toInt (fminf 360 ((segments + 1 : Int) : ℚ)) else segments
  segments

/-- The value of `segments` passed to `MyDrawSlopedRoundedRectangle` in the
last of the given frames (the initial value when there is no frame). -/
def segmentsAfter (frames : List (Bool × Bool)) : Int :=
  frames.foldl (fun segments keys => updateSegments segments keys.1 keys.2) initialSegments

/-- The values of `segments` passed to `MyDrawSlopedRoundedRectangle`, one per
frame, in frame order. -/
def segmentsPassed (frames : List (Bool × Bool)) : List Int :=
  (frames.scanl (fun segments keys => updateSegments segments keys.1 keys.2)
    initialSegments).tail

end Main11

namespace Main12

/-- The initial value of `segments` in `main`, `main_12.cpp` line 23. -/
def initialSegments : Int := 16

/-- Lines 36-37 of `main_12.cpp`: the update of `segments` in one frame. -/
def updateSegments (segments : Int) (keyF keyG : Bool) : Int :=
  let segments := if keyF then toInt (fmaxf 3 ((segments - 1 : Int) : ℚ)) else segments
  let segments := if keyG then toInt (fminf 360 ((segments + 1 : Int) : ℚ)) else segments
  segments

/-- The value of `segments` passed to the two draw routines in the last of the
given frames (the initial value when there is no frame). -/
def segmentsAfter (frames : List (Bool × Bool)) : Int :=
  frames.foldl (fun segments keys => updateSegments segments keys.1 keys.2) initialSegments

/-- The values of `segments` passed to the two draw routines, one per frame,
in frame order. -/
def segmentsPassed (frames : List (Bool × Bool)) : List Int :=
  (frames.scanl (fun segments keys => updateSegments segments keys.1 keys.2)
    initialSegments).tail

end Main12

/-! ## Library functions taken as parameters -/

/-- The library functions and constants the programs use whose values exact
rational arithmetic cannot give (`cosf`, `sinf` of the C library, `DEG2RAD`,
`Vector2Length` and `Vector2Normalize` of raymath): they are not part of the
repository and are taken as parameters. -/
structure FloatLib where
  cosf : ℚ → ℚ
  sinf : ℚ → ℚ
  DEG2RAD : ℚ
  Vector2Length : Vector2 → ℚ
  Vector2Normalize : Vector2 → Vector2

/-- The raymath `Vector2Add`. -/
def Vector2Add (v1 v2 : Vector2) : Vector2 := ⟨v1.x + v2.x, v1.y + v2.y⟩

/-- The raymath `Vector2Subtract`. -/
def Vector2Subtract (v1 v2 : Vector2) : Vector2 := ⟨v1.x - v2.x, v1.y - v2.y⟩

/-- The raymath `Vector2Scale`. -/
def Vector2Scale (v : Vector2) (scale : ℚ) : Vector2 := ⟨v.x * scale, v.y * scale⟩

/-- The C conversion from `float` to `unsigned char` for a value whose
truncation lies in `0..255` (outside that range C leaves it undefined; the
definition then reduces modulo 256). -/
def toUChar (q : ℚ) : Nat := (toInt q % 256).toNat

/-- The raylib colour `BLACK`. -/
def BLACK : Color := ⟨0, 0, 0, 255⟩

/-! ## `src/Basic_0/main_8_basic.cpp` -/

namespace Main8Basic

/-- The rounded rectangle routine of `main_8_basic.cpp`, lines 7-64: the raylib
calls in order. -/
def MyDrawRectangleRounded (rec : Rectangle) (roundness : ℚ) (segments : Int)
    (color : Color) : List Primitive :=
  let minSide := fminf rec.width rec.height
  -- 1. the corner radius
  let radius := (roundness * minSide) / 2
  if radius ≤ 0 then
    [ Primitive.DrawRectangleRec rec color ]
  else
    let centers : Nat → Vector2 := fun i =>
      match i with
      | 0 => ⟨rec.x + radius, rec.y + radius⟩
      | 1 => ⟨rec.x + rec.width - radius, rec.y + radius⟩
      | 2 => ⟨rec.x + rec.width - radius, rec.y + rec.height - radius⟩
      | _ => ⟨rec.x + radius, rec.y + rec.height - radius⟩
    -- 2. the three rectangular fill sections
    [ Primitive.DrawRectangle (toInt rec.x) (toInt (rec.y + radius)) (toInt rec.width)
        (toInt (rec.height - 2 * radius)) color,
      Primitive.DrawRectangle (toInt (rec.x + radius)) (toInt rec.y)
        (toInt (rec.width - 2 * radius)) (toInt radius) color,
      Primitive.DrawRectangle (toInt (rec.x + radius)) (toInt (rec.y + rec.height - radius))
        (toInt (rec.width - 2 * radius)) (toInt radius) color ]
    -- 3. the four corner arcs, `for (int i = 0; i < 4; i++)`
    ++ (List.range 4).map (fun (i : Nat) =>
        let startAngle : ℚ := 90 * (i : ℚ)
        let endAngle : ℚ := startAngle + 90
        let startAngle := if i = 0 then 180 else startAngle
        let endAngle := if i = 0 then 270 else endAngle
        let startAngle := if i = 1 then 270 else startAngle
        let endAngle := if i = 1 then 360 else endAngle
        let startAngle := if i = 2 then 0 else startAngle
        let endAngle := if i = 2 then 90 else endAngle
        let startAngle := if i = 3 then 90 else startAngle
        let endAngle := if i = 3 then 180 else endAngle
        Primitive.DrawCircleSector (centers i) radius startAngle endAngle segments color)

/-- Lines 82-84 of `main`: the update of the global `Roundness` in one frame
(`0.01f` read as `1/100`). -/
def updateRoundness (Roundness : ℚ) (keyRight keyLeft : Bool) : ℚ :=
  let Roundness := if keyRight then Roundness + 1 / 100 else Roundness
  let Roundness := if keyLeft then Roundness - 1 / 100 else Roundness
  fmaxf 0 (fminf 1 Roundness)

end Main8Basic

/-! ## `src/Basic_0/main_7.cpp` -/

/-- The `StarConfig` record of `main_7.cpp`. -/
structure StarConfig where
  CenterX : ℚ
  CenterY : ℚ
  OuterRadius : ℚ
  InnerRadius : ℚ
  RotationDeg : ℚ
  R : ℚ
  G : ℚ
  B : ℚ
  A : ℚ
  deriving DecidableEq

namespace Main7

namespace PolygonDrawer

/-- The value of `currentAngle` at the start of iteration `i` of the vertex
loop of `DrawStar` (lines 33-34 and 44): it starts at `RotationDeg - 90` and
grows by `angleStep = 360 / 10` per iteration. -/
def currentAngle (cfg : StarConfig) : Nat → ℚ
  | 0 => cfg.RotationDeg - 90
  | i + 1 => currentAngle cfg i + 360 / 10

/-- The entry `vertices[i]` as the vertex loop of `DrawStar` writes it
(lines 36-45), for `i` in `0..9`. -/
def vertices (lib : FloatLib) (cfg : StarConfig) (i : Nat) : Vector2 :=
  let radius := if i % 2 = 0 then cfg.OuterRadius else cfg.InnerRadius
  let angleRad := currentAngle cfg i * lib.DEG2RAD
  ⟨cfg.CenterX + radius * lib.cosf angleRad, cfg.CenterY + radius * lib.sinf angleRad⟩

/-- The indices read by the fill loop of `DrawStar` (lines 51-59):
`(i, (i + 2) % 10)` for `i = 0, 2, 4, 6, 8`. -/
def fillIndices : List (Nat × Nat) :=
  (List.range' 0 5 2).map (fun i => (i, (i + 2) % 10))

/-- The indices read by the outline loop of `DrawStar` (lines 64-67):
`(i, (i + 1) % 10)` for `i = 0, .., 9`. -/
def outlineIndices : List (Nat × Nat) :=
  (List.range 10).map (fun i => (i, (i + 1) % 10))

/-- The routine `PolygonDrawer::DrawStar` of `main_7.cpp`, lines 23-68: the
raylib calls in order, five triangles and then ten lines. -/
def DrawStar (lib : FloatLib) (cfg : StarConfig) : List Primitive :=
  let starColor : Color := ⟨toUChar cfg.R, toUChar cfg.G, toUChar cfg.B, toUChar cfg.A⟩
  let centerPoint : Vector2 := ⟨cfg.CenterX, cfg.CenterY⟩
  let thickness : ℚ := 3
  fillIndices.map (fun ij =>
      Primitive.DrawTriangle centerPoint (vertices lib cfg ij.1) (vertices lib cfg ij.2)
        starColor)
  ++ outlineIndices.map (fun ij =>
      Primitive.DrawLineEx (vertices lib cfg ij.1) (vertices lib cfg ij.2) thickness BLACK)

end PolygonDrawer

end Main7

/-! ## `src/Basic_0/main_5.cpp` -/

namespace Main5

namespace ShapeDrawer

/-- The `while` loop of `DrawLineDashed` (lines 373-380) started at the given
`currentLength` and run for at most `fuel` iterations: for every dash drawn,
the value of `currentLength` at `dashStart` and at `dashEnd`, in order; `none`
when the loop has not ended within `fuel` iterations. -/
def dashLoop (lineLength dashLength spaceLength : ℚ) : Nat → ℚ → Option (List (ℚ × ℚ))
  | 0, currentLength => if currentLength < lineLength then none else some []
  | fuel + 1, currentLength =>
    if currentLength < lineLength then
      let atStart := currentLength
      let currentLength := currentLength + dashLength
      let currentLength := if currentLength > lineLength then lineLength else currentLength
      let atEnd := currentLength
      let currentLength := currentLength + spaceLength
      (dashLoop lineLength dashLength spaceLength fuel currentLength).map
        (fun rest => (atStart, atEnd) :: rest)
    else some []

/-- The routine `ShapeDrawer::DrawLineDashed` of `main_5.cpp`, lines 365-381:
the `DrawLineV` calls in order, `none` when the loop has not ended within
`fuel` iterations. -/
def DrawLineDashed (lib : FloatLib) (x1 y1 x2 y2 dashLength spaceLength : ℚ) (color : Color)
    (fuel : Nat) : Option (List Primitive) :=
  let start : Vector2 := ⟨x1, y1⟩
  let endPoint : Vector2 := ⟨x2, y2⟩
  let delta := Vector2Subtract endPoint start
  let lineLength := lib.Vector2Length delta
  let direction := lib.Vector2Normalize delta
  (dashLoop lineLength dashLength spaceLength fuel 0).map (fun dashes =>
    dashes.map (fun se =>
      Primitive.DrawLineV (Vector2Add start (Vector2Scale direction se.1))
        (Vector2Add start (Vector2Scale direction se.2)) color))

end ShapeDrawer

end Main5

/-! ## `src/main_4.cpp` -/

/-- The `EyeConfig` record of `src/main_4.cpp`. -/
structure EyeConfig where
  OffsetX : ℚ
  OffsetY : ℚ
  Height : ℚ
  Width : ℚ
  Slope_Top : ℚ
  Slope_Bottom : ℚ
  Radius_Top : ℚ
  Radius_Bottom : ℚ
  Inverse_Radius_Top : Bool
  Inverse_Radius_Bottom : Bool
  Inverse_Offset_Top : Bool
  Inverse_Offset_Bottom : Bool
  deriving DecidableEq

namespace Main4

namespace EyeDrawer

/-- The local `totalHeight` of `Draw`, lines 33-35. -/
def totalHeight (cfg : EyeConfig) : ℚ :=
  let delta_y_top := cfg.Height * cfg.Slope_Top / 2
  let delta_y_bottom := cfg.Height * cfg.Slope_Bottom / 2
  cfg.Height + delta_y_top - delta_y_bottom

/-- The locals `(rTop, rBottom)` of `Draw` after the scaling step, lines 37-43.
A division by zero, which exact arithmetic does not define, has the value 0
here. -/
def scaledRadii (cfg : EyeConfig) : ℚ × ℚ :=
  let rTop := cfg.Radius_Top
  let rBottom := cfg.Radius_Bottom
  if rTop + rBottom > totalHeight cfg - 1 then
    let scale := (totalHeight cfg - 1) / (rTop + rBottom)
    (rTop * scale, rBottom * scale)
  else (rTop, rBottom)

/-- The routine `EyeDrawer::Draw` of `src/main_4.cpp`, lines 32-105: the raylib
calls in order. -/
def Draw (centerX centerY : Int) (cfg : EyeConfig) (color : Color) : List Primitive :=
  let delta_y_top := cfg.Height * cfg.Slope_Top / 2
  let delta_y_bottom := cfg.Height * cfg.Slope_Bottom / 2
  let rTop := (scaledRadii cfg).1
  let rBottom := (scaledRadii cfg).2
  let TL : Vector2 := ⟨(centerX : ℚ) + cfg.OffsetX - cfg.Width / 2 + rTop,
    (centerY : ℚ) + cfg.OffsetY - cfg.Height / 2 + rTop - delta_y_top⟩
  let TR : Vector2 := ⟨(centerX : ℚ) + cfg.OffsetX + cfg.Width / 2 - rTop,
    (centerY : ℚ) + cfg.OffsetY - cfg.Height / 2 + rTop + delta_y_top⟩
  let BL : Vector2 := ⟨(centerX : ℚ) + cfg.OffsetX - cfg.Width / 2 + rBottom,
    (centerY : ℚ) + cfg.OffsetY + cfg.Height / 2 - rBottom - delta_y_bottom⟩
  let BR : Vector2 := ⟨(centerX : ℚ) + cfg.OffsetX + cfg.Width / 2 - rBottom,
    (centerY : ℚ) + cfg.OffsetY + cfg.Height / 2 - rBottom + delta_y_bottom⟩
  -- Edges
  [ Primitive.DrawLineV TL TR color, Primitive.DrawLineV BL BR color,
    Primitive.DrawLineV TL BL color, Primitive.DrawLineV TR BR color ]
  -- Rounded corners
  ++ (if rTop > 0 then
        [ Primitive.DrawCircleLines (toInt TL.x) (toInt TL.y) rTop color,
          Primitive.DrawCircleLines (toInt TR.x) (toInt TR.y) rTop color ]
      else [])
  ++ (if rBottom > 0 then
        [ Primitive.DrawCircleLines (toInt BL.x) (toInt BL.y) rBottom color,
          Primitive.DrawCircleLines (toInt BR.x) (toInt BR.y) rBottom color ]
      else [])
  -- Top slope triangle
  ++ (if cfg.Slope_Top ≠ 0 then
        [ Primitive.DrawTriangleLines TL TR
            ⟨(TL.x + TR.x) / 2, TL.y - cfg.Slope_Top * cfg.Height⟩ color ]
      else [])
  -- Bottom slope triangle
  ++ (if cfg.Slope_Bottom ≠ 0 then
        [ Primitive.DrawTriangleLines BL BR
            ⟨(BL.x + BR.x) / 2, BL.y + cfg.Slope_Bottom * cfg.Height⟩ color ]
      else [])

end EyeDrawer

end Main4

/-! ## Observations on a sequence of calls -/

/-- The arguments of a sector call: centre, radius, angular range, segment count. -/
structure SectorData where
  center : Vector2
  radius : ℚ
  startAngle : ℚ
  endAngle : ℚ
  segments : Int
  deriving DecidableEq

/-- The arguments of a `DrawCircleSector` call, `none` for every other call. -/
def Primitive.sector? : Primitive → Option SectorData
  | .DrawCircleSector c r a b n _ => some ⟨c, r, a, b, n⟩
  | _ => none

/-- The arguments of a `DrawCircleSectorLines` call, `none` for every other call. -/
def Primitive.arc? : Primitive → Option SectorData
  | .DrawCircleSectorLines c r a b n _ => some ⟨c, r, a, b, n⟩
  | _ => none

/-- The filled sectors of a call sequence, in call order. -/
def sectorsOf (l : List Primitive) : List SectorData := l.filterMap Primitive.sector?

/-- The sector outlines of a call sequence, in call order. -/
def arcsOf (l : List Primitive) : List SectorData := l.filterMap Primitive.arc?

/-- The kinds of drawing primitive: the five the spec distinguishes (its
section 6), and the triangles and circle outlines of the other programs. -/
inductive Kind where
  | rectangle
  | fan
  | sector
  | line
  | arc
  | triangle
  | circleOutline
  | triangleOutline
  deriving DecidableEq

/-- The kind of a raylib call. -/
def Primitive.kind : Primitive → Kind
  | .DrawRectangle .. => Kind.rectangle
  | .DrawRectangleRec .. => Kind.rectangle
  | .DrawTriangleFan .. => Kind.fan
  | .DrawCircleSector .. => Kind.sector
  | .DrawLineEx .. => Kind.line
  | .DrawCircleSectorLines .. => Kind.arc
  | .DrawTriangle .. => Kind.triangle
  | .DrawLineV .. => Kind.line
  | .DrawCircleLines .. => Kind.circleOutline
  | .DrawTriangleLines .. => Kind.triangleOutline

/-- The arguments of a `DrawLineEx` call (start, end, thickness, colour),
`none` for every other call. -/
def Primitive.line? : Primitive → Option (Vector2 × Vector2 × ℚ × Color)
  | .DrawLineEx p q t c => some (p, q, t, c)
  | _ => none

/-- The line segments of a call sequence, in call order. -/
def linesOf (l : List Primitive) : List (Vector2 × Vector2 × ℚ × Color) :=
  l.filterMap Primitive.line?

/-- The effective radius as the routines compute it from a requested radius
(`main_11.cpp` lines 7-12, `main_12.cpp` lines 94-99, `main_13.cpp` lines 77-82):
`fminf(fmaxf(0, requested), fminf(rec.width, rec.height) / 2)`. -/
def effectiveRadius (rec : Rectangle) (requested : ℚ) : ℚ :=
  fminf (fmaxf 0 requested) (fminf rec.width rec.height / 2)

/-- The effective radius as `main_9.cpp` computes it (lines 17-25):
`fmaxf(0, requested)`, then `fminf` with `rec.height / 2`, then `fminf` with
`rec.width / 2`. -/
def effectiveRadius9 (rec : Rectangle) (requested : ℚ) : ℚ :=
  fminf (fminf (fmaxf 0 requested) (rec.height / 2)) (rec.width / 2)

/-- The arguments of a `DrawTriangle` call, `none` for every other call. -/
def Primitive.triangle? : Primitive → Option (Vector2 × Vector2 × Vector2 × Color)
  | .DrawTriangle a b c col => some (a, b, c, col)
  | _ => none

/-- The filled triangles of a call sequence, in call order. -/
def trianglesOf (l : List Primitive) : List (Vector2 × Vector2 × Vector2 × Color) :=
  l.filterMap Primitive.triangle?

/-! ## Specification-side definitions -/

/-- The spec's `clamp(v, lo, hi)`: `lo` below the range, `hi` above it, `v` inside. -/
def specClamp (v lo hi : ℚ) : ℚ := if v < lo then lo else if hi < v then hi else v

/-- The spec's effective radius, section 3:
`clamp(requested, 0, min(width, height) / 2)`. -/
def specEffectiveRadius (rec : Rectangle) (requested : ℚ) : ℚ :=
  specClamp requested 0 (min rec.width rec.height / 2)

/-- The distance from `p` to `c` when the two share a coordinate (the
displacement is axis-aligned), `none` when they share neither. -/
def axisDistance (p c : Vector2) : Option ℚ :=
  if p.y = c.y then some |p.x - c.x|
  else if p.x = c.x then some |p.y - c.y|
  else none

/-- The four corners of a rectangle: top-left, top-right, bottom-right, bottom-left. -/
def rectCorners (rec : Rectangle) : List Vector2 :=
  [ ⟨rec.x, rec.y⟩, ⟨rec.x + rec.width, rec.y⟩,
    ⟨rec.x + rec.width, rec.y + rec.height⟩, ⟨rec.x, rec.y + rec.height⟩ ]

/-- The endpoints of a list of segments, start before end, in order. -/
def endpointsOf (segs : List (Vector2 × Vector2 × ℚ × Color)) : List Vector2 :=
  segs.flatMap (fun s => [s.1, s.2.1])

/-- The pixels of an axis-aligned rectangle given by its integer corner and
extents: `posX ≤ px < posX + width` and `posY ≤ py < posY + height`. -/
def rectPixels (posX posY width height : Int) (p : Int × Int) : Prop :=
  posX ≤ p.1 ∧ p.1 < posX + width ∧ posY ≤ p.2 ∧ p.2 < posY + height

/-- The pixels a call covers: those of the rectangle for `DrawRectangle`, and
for every other call whatever the given `other` says. -/
def coverage (other : Primitive → Set (Int × Int)) : Primitive → Set (Int × Int)
  | .DrawRectangle posX posY width height _ => {p | rectPixels posX posY width height p}
  | q => other q

/-- The pixels covered by a sequence of calls. -/
def covered (other : Primitive → Set (Int × Int)) (l : List Primitive) : Set (Int × Int) :=
  {p | ∃ q ∈ l, p ∈ coverage other q}

/-! ## `float` arithmetic as a parameter

The definitions above compute with exact rationals.  The routines whose
behaviour depends on how a `float` operation rounds are embedded a second time
below, in the namespace `WithArith`, with the arithmetic as a parameter: a
property proved for every `FloatArith` holds whatever the rounding is, and a
property of the compiled program is evaluated at `binary32`. -/

/-- An interpretation of the C operations `+`, `-`, `*`, `/` on `float` values
and of a decimal `float` literal.  A `float` value is a rational number; the
comparisons, `fmaxf`, `fminf` and the conversion to `int` do not round and are
not part of the interpretation. -/
structure FloatArith where
  add : ℚ → ℚ → ℚ
  sub : ℚ → ℚ → ℚ
  mul : ℚ → ℚ → ℚ
  div : ℚ → ℚ → ℚ
  lit : ℚ → ℚ

/-- Exact arithmetic: no operation rounds. -/
def exactArith : FloatArith :=
  ⟨fun a b => a + b, fun a b => a - b, fun a b => a * b, fun a b => a / b, fun q => q⟩

/-- The integer nearest to `x`, the even one of the two when `x` lies half-way. -/
def roundHalfEven (x : ℚ) : Int :=
  if x - ⌊x⌋ < 1 / 2 then ⌊x⌋
  else if 1 / 2 < x - ⌊x⌋ then ⌊x⌋ + 1
  else if ⌊x⌋ % 2 = 0 then ⌊x⌋ else ⌊x⌋ + 1

/-- The exponent of the spacing of the IEEE 754 binary32 values around `q`
(24-bit significand, least normal exponent `-126`, gradual underflow):
`⌊log2 |q|⌋ - 23`, and `-149` in the subnormal range. -/
def ulpExponent (q : ℚ) : Int := max (Int.log 2 |q|) (-126) - 23

/-- The binary32 value nearest to `q`, ties to the even significand (the IEEE
754 default rounding).  Only finite values are modelled and the exponent is
not bounded above: a result beyond the largest finite binary32 value is
rounded like any other instead of becoming an infinity.  A statement about
`binary32` is a statement about computations on finite values in which no
operation overflows; none does in the evaluations below. -/
def roundBinary32 (q : ℚ) : ℚ := roundHalfEven (q / 2 ^ ulpExponent q) * 2 ^ ulpExponent q

/-- IEEE 754 binary32 arithmetic, the `float` of the compiled program: every
operation returns the exact result rounded to the nearest binary32 value.  A
division by zero, which gives an infinity or a NaN, has the value `0` here. -/
def binary32 : FloatArith :=
  ⟨fun a b => roundBinary32 (a + b), fun a b => roundBinary32 (a - b),
    fun a b => roundBinary32 (a * b), fun a b => roundBinary32 (a / b), roundBinary32⟩

/-- The least value of a 32-bit `int`. -/
def INT_MIN : Int := -2147483648

/-- The greatest value of a 32-bit `int`. -/
def INT_MAX : Int := 2147483647

/-- The C conversion from `float` to a 32-bit `int` with its domain: the
truncated value when it is representable, `none` otherwise (the conversion is
then undefined in C). -/
def toIntChecked (q : ℚ) : Option Int :=
  if INT_MIN ≤ toInt q ∧ toInt q ≤ INT_MAX then some (toInt q) else none

/-- A call `DrawRectangle(x, y, w, h, color)` with four `float` arguments, each
converted to `int`; `none` when one of the conversions is undefined. -/
def drawRectangleChecked (x y w h : ℚ) (color : Color) : Option Primitive := do
  let posX ← toIntChecked x
  let posY ← toIntChecked y
  let width ← toIntChecked w
  let height ← toIntChecked h
  pure (Primitive.DrawRectangle posX posY width height color)

namespace WithArith

/-- The effective radius (`main_11.cpp` lines 7-12, `main_12.cpp` lines 94-99)
with the division by `2.0f` in the arithmetic `A`. -/
def effectiveRadius (A : FloatArith) (rec : Rectangle) (requested : ℚ) : ℚ :=
  fminf (fmaxf 0 requested) (A.div (fminf rec.width rec.height) 2)

/-- The local `y_top_straight` of the fill and outline routines
(`main_11.cpp` line 17, `main_12.cpp` line 103). -/
def y_top_straight (A : FloatArith) (rec : Rectangle) (radiusTop : ℚ) : ℚ :=
  A.add rec.y (effectiveRadius A rec radiusTop)

/-- The local `y_bottom_straight` (`main_11.cpp` line 18, `main_12.cpp` line 104). -/
def y_bottom_straight (A : FloatArith) (rec : Rectangle) (radiusBottom : ℚ) : ℚ :=
  A.sub (A.add rec.y rec.height) (effectiveRadius A rec radiusBottom)

/-- The local `x_tr_corner_sloped` (`main_11.cpp` lines 15 and 20, `main_12.cpp`
lines 101 and 106). -/
def x_tr_corner_sloped (A : FloatArith) (rec : Rectangle) (slopeFactor : ℚ) : ℚ :=
  A.sub (A.add rec.x rec.width) (A.mul slopeFactor rec.height)

/-- The entry `centers[0]`, the top-left centre (`main_11.cpp` line 25). -/
def centers0 (A : FloatArith) (rec : Rectangle) (radiusTop : ℚ) : Vector2 :=
  ⟨A.add rec.x (effectiveRadius A rec radiusTop), y_top_straight A rec radiusTop⟩

/-- The entry `centers[1]`, the top-right centre (`main_11.cpp` line 27). -/
def centers1 (A : FloatArith) (rec : Rectangle) (radiusTop slopeFactor : ℚ) : Vector2 :=
  ⟨A.sub (x_tr_corner_sloped A rec slopeFactor) (effectiveRadius A rec radiusTop),
    y_top_straight A rec radiusTop⟩

/-- The entry `centers[2]`, the bottom-right centre (`main_11.cpp` line 29). -/
def centers2 (A : FloatArith) (rec : Rectangle) (radiusBottom : ℚ) : Vector2 :=
  ⟨A.sub (A.add rec.x rec.width) (effectiveRadius A rec radiusBottom),
    y_bottom_straight A rec radiusBottom⟩

/-- The entry `centers[3]`, the bottom-left centre (`main_11.cpp` line 31). -/
def centers3 (A : FloatArith) (rec : Rectangle) (radiusBottom : ℚ) : Vector2 :=
  ⟨A.add rec.x (effectiveRadius A rec radiusBottom), y_bottom_straight A rec radiusBottom⟩

/-- The local `top_straight_width` of the fill (`main_11.cpp` line 35), the
value its top fill tests against `0.0f`. -/
def top_straight_width (A : FloatArith) (rec : Rectangle) (radiusTop slopeFactor : ℚ) : ℚ :=
  A.sub (centers1 A rec radiusTop slopeFactor).x (centers0 A rec radiusTop).x

/-- The raymath `Vector2Add` in the arithmetic `A`. -/
def Vector2Add (A : FloatArith) (v1 v2 : Vector2) : Vector2 :=
  ⟨A.add v1.x v2.x, A.add v1.y v2.y⟩

/-- The raymath `Vector2Subtract` in the arithmetic `A`. -/
def Vector2Subtract (A : FloatArith) (v1 v2 : Vector2) : Vector2 :=
  ⟨A.sub v1.x v2.x, A.sub v1.y v2.y⟩

/-- The raymath `Vector2Scale` in the arithmetic `A`. -/
def Vector2Scale (A : FloatArith) (v : Vector2) (scale : ℚ) : Vector2 :=
  ⟨A.mul v.x scale, A.mul v.y scale⟩

namespace Main11

/-- The fill routine of `main_11.cpp`, lines 4-95, in the arithmetic `A`: the
raylib calls in order. -/
def MyDrawSlopedRoundedRectangle (A : FloatArith) (rec : Rectangle)
    (radiusBottom radiusTop slopeFactor : ℚ) (segments : Int) (color : Color) :
    List Primitive :=
  -- 1. Calculate and constrain radii
  let radiusBottom := fmaxf 0 radiusBottom
  let radiusTop := fmaxf 0 radiusTop
  let maxRadius := A.div (fminf rec.width rec.height) 2
  let radiusBottom := fminf radiusBottom maxRadius
  let radiusTop := fminf radiusTop maxRadius
  -- 2. Calculate coordinates and slope offset
  let actualSlopeShift := A.mul slopeFactor rec.height
  let y_top_straight := A.add rec.y radiusTop
  let y_bottom_straight := A.sub (A.add rec.y rec.height) radiusBottom
  let x_tr_corner_sloped := A.sub (A.add rec.x rec.width) actualSlopeShift
  let centers0 : Vector2 := ⟨A.add rec.x radiusTop, y_top_straight⟩
  let centers1 : Vector2 := ⟨A.sub x_tr_corner_sloped radiusTop, y_top_straight⟩
  let centers2 : Vector2 := ⟨A.sub (A.add rec.x rec.width) radiusBottom, y_bottom_straight⟩
  let centers3 : Vector2 := ⟨A.add rec.x radiusBottom, y_bottom_straight⟩
  let top_straight_width := A.sub centers1.x centers0.x
  -- 3. A. central fill, B. bottom horizontal fill
  [ Primitive.DrawRectangle (toInt rec.x) (toInt y_top_straight) (toInt rec.width)
      (toInt (A.sub y_bottom_straight y_top_straight)) color,
    Primitive.DrawRectangle (toInt centers3.x) (toInt y_bottom_straight)
      (toInt (A.sub centers2.x centers3.x)) (toInt radiusBottom) color ]
  -- C. top fill: conditional trapezoid or simple rectangle
  ++ (if top_straight_width > 0 then
        [ Primitive.DrawTriangleFan
            [ ⟨centers0.x, rec.y⟩, ⟨centers1.x, rec.y⟩,
              ⟨centers1.x, y_top_straight⟩, ⟨centers0.x, y_top_straight⟩ ] 4 color ]
      else
        [ Primitive.DrawRectangle (toInt rec.x) (toInt rec.y) (toInt rec.width)
            (toInt radiusTop) color ])
  -- D. left vertical strip, E. right vertical fill
  ++ [ Primitive.DrawRectangle (toInt rec.x) (toInt centers0.y) (toInt radiusTop)
         (toInt (A.sub centers3.y centers0.y)) color,
       Primitive.DrawTriangleFan
         [ ⟨A.add centers1.x radiusTop, y_top_straight⟩, ⟨x_tr_corner_sloped, y_top_straight⟩,
           ⟨A.add rec.x rec.width, y_bottom_straight⟩,
           ⟨A.add centers2.x radiusBottom, y_bottom_straight⟩ ]
         4 color,
       -- 4. the four corner arcs
       Primitive.DrawCircleSector centers0 radiusTop 180 270 segments color,
       Primitive.DrawCircleSector centers1 radiusTop 270 360 segments color,
       Primitive.DrawCircleSector centers2 radiusBottom 0 90 segments color,
       Primitive.DrawCircleSector centers3 radiusBottom 90 180 segments color ]

/-- The fill routine of `main_11.cpp`, lines 4-95, in the arithmetic `A` and
with the domain of the conversions to `int`: the raylib calls in order, `none`
when a conversion the routine performs is undefined. -/
def MyDrawSlopedRoundedRectangleChecked (A : FloatArith) (rec : Rectangle)
    (radiusBottom radiusTop slopeFactor : ℚ) (segments : Int) (color : Color) :
    Option (List Primitive) :=
  -- 1. Calculate and constrain radii
  let radiusBottom := fmaxf 0 radiusBottom
  let radiusTop := fmaxf 0 radiusTop
  let maxRadius := A.div (fminf rec.width rec.height) 2
  let radiusBottom := fminf radiusBottom maxRadius
  let radiusTop := fminf radiusTop maxRadius
  -- 2. Calculate coordinates and slope offset
  let actualSlopeShift := A.mul slopeFactor rec.height
  let y_top_straight := A.add rec.y radiusTop
  let y_bottom_straight := A.sub (A.add rec.y rec.height) radiusBottom
  let x_tr_corner_sloped := A.sub (A.add rec.x rec.width) actualSlopeShift
  let centers0 : Vector2 := ⟨A.add rec.x radiusTop, y_top_straight⟩
  let centers1 : Vector2 := ⟨A.sub x_tr_corner_sloped radiusTop, y_top_straight⟩
  let centers2 : Vector2 := ⟨A.sub (A.add rec.x rec.width) radiusBottom, y_bottom_straight⟩
  let centers3 : Vector2 := ⟨A.add rec.x radiusBottom, y_bottom_straight⟩
  let top_straight_width := A.sub centers1.x centers0.x
  do
    -- 3. A. central fill, B. bottom horizontal fill
    let central ← drawRectangleChecked rec.x y_top_straight rec.width
      (A.sub y_bottom_straight y_top_straight) color
    let bottom ← drawRectangleChecked centers3.x y_bottom_straight
      (A.sub centers2.x centers3.x) radiusBottom color
    -- C. top fill: conditional trapezoid or simple rectangle
    let top ←
      if top_straight_width > 0 then
        pure (Primitive.DrawTriangleFan
          [ ⟨centers0.x, rec.y⟩, ⟨centers1.x, rec.y⟩,
            ⟨centers1.x, y_top_straight⟩, ⟨centers0.x, y_top_straight⟩ ] 4 color)
      else drawRectangleChecked rec.x rec.y rec.width radiusTop color
    -- D. left vertical strip, E. right vertical fill
    let left ← drawRectangleChecked rec.x centers0.y radiusTop
      (A.sub centers3.y centers0.y) color
    pure
      [ central, bottom, top, left,
        Primitive.DrawTriangleFan
          [ ⟨A.add centers1.x radiusTop, y_top_straight⟩, ⟨x_tr_corner_sloped, y_top_straight⟩,
            ⟨A.add rec.x rec.width, y_bottom_straight⟩,
            ⟨A.add centers2.x radiusBottom, y_bottom_straight⟩ ]
          4 color,
        -- 4. the four corner arcs
        Primitive.DrawCircleSector centers0 radiusTop 180 270 segments color,
        Primitive.DrawCircleSector centers1 radiusTop 270 360 segments color,
        Primitive.DrawCircleSector centers2 radiusBottom 0 90 segments color,
        Primitive.DrawCircleSector centers3 radiusBottom 90 180 segments color ]

/-- Line 112 of `main`: the initial `slopeFactor`, the literal `0.2f`. -/
def initialSlopeFactor (A : FloatArith) : ℚ := A.lit (2 / 10)

/-- Lines 132-133 of `main`: the update of `slopeFactor` in one frame, from the
state of `KEY_T` and `KEY_Y` (`0.005f` is the literal `5 / 1000`). -/
def updateSlopeFactor (A : FloatArith) (slopeFactor : ℚ) (keyT keyY : Bool) : ℚ :=
  let slopeFactor := if keyT then A.sub slopeFactor (A.lit (5 / 1000)) else slopeFactor
  let slopeFactor := if keyY then A.add slopeFactor (A.lit (5 / 1000)) else slopeFactor
  slopeFactor

/-- The value of `slopeFactor` after the given frames, each a pair
(`KEY_T` down, `KEY_Y` down). -/
def slopeFactorAfter (A : FloatArith) (frames : List (Bool × Bool)) : ℚ :=
  frames.foldl (fun s f => updateSlopeFactor A s f.1 f.2) (initialSlopeFactor A)

end Main11

namespace Main12

/-- The outline routine of `main_12.cpp`, lines 91-174, in the arithmetic `A`:
the raylib calls in order.  The routine converts no value to `int`. -/
def MyDrawSlopedRoundedRectangleWires (A : FloatArith) (rec : Rectangle)
    (radiusBottom radiusTop slopeFactor : ℚ) (segments : Int) (color : Color)
    (thickness : ℚ) : List Primitive :=
  -- 1. Calculate parameters and centers
  let radiusBottom := fmaxf 0 radiusBottom
  let radiusTop := fmaxf 0 radiusTop
  let maxRadius := A.div (fminf rec.width rec.height) 2
  let radiusBottom := fminf radiusBottom maxRadius
  let radiusTop := fminf radiusTop maxRadius
  let actualSlopeShift := A.mul slopeFactor rec.height
  let y_top_straight := A.add rec.y radiusTop
  let y_bottom_straight := A.sub (A.add rec.y rec.height) radiusBottom
  let x_tr_corner_sloped := A.sub (A.add rec.x rec.width) actualSlopeShift
  let centers0 : Vector2 := ⟨A.add rec.x radiusTop, y_top_straight⟩
  let centers1 : Vector2 := ⟨A.sub x_tr_corner_sloped radiusTop, y_top_straight⟩
  let centers2 : Vector2 := ⟨A.sub (A.add rec.x rec.width) radiusBottom, y_bottom_straight⟩
  let centers3 : Vector2 := ⟨A.add rec.x radiusBottom, y_bottom_straight⟩
  -- 2. The corner points of the straight-line segments (`p[4]`, `p[5]` are
  -- computed by the source and never passed to a call)
  let p0 : Vector2 := ⟨A.sub centers3.x radiusBottom, centers3.y⟩
  let p1 : Vector2 := ⟨A.sub centers0.x radiusTop, centers0.y⟩
  let p2 : Vector2 := ⟨centers0.x, A.sub centers0.y radiusTop⟩
  let p3 : Vector2 := ⟨centers1.x, A.sub centers1.y radiusTop⟩
  let p6 : Vector2 := ⟨centers2.x, A.add centers2.y radiusBottom⟩
  let p7 : Vector2 := ⟨centers3.x, A.add centers3.y radiusBottom⟩
  let right_top : Vector2 := ⟨A.add centers1.x radiusTop, centers1.y⟩
  let right_bottom : Vector2 := ⟨A.add centers2.x radiusBottom, centers2.y⟩
  -- 3. The four straight-line segments
  [ Primitive.DrawLineEx p0 p1 thickness color,
    Primitive.DrawLineEx p2 p3 thickness color,
    Primitive.DrawLineEx right_top right_bottom thickness color,
    Primitive.DrawLineEx p7 p6 thickness color,
    -- 4. The four corner arcs
    Primitive.DrawCircleSectorLines centers0 radiusTop 180 270 segments color,
    Primitive.DrawCircleSectorLines centers1 radiusTop 270 360 segments color,
    Primitive.DrawCircleSectorLines centers2 radiusBottom 0 90 segments color,
    Primitive.DrawCircleSectorLines centers3 radiusBottom 90 180 segments color ]

/-- Line 22 of `main`: the initial `slopeFactor`, the literal `0.2f`. -/
def initialSlopeFactor (A : FloatArith) : ℚ := A.lit (2 / 10)

/-- Lines 33-34 of `main`: the update of `slopeFactor` in one frame, from the
state of `KEY_T` and `KEY_Y` (`0.005f` is the literal `5 / 1000`). -/
def updateSlopeFactor (A : FloatArith) (slopeFactor : ℚ) (keyT keyY : Bool) : ℚ :=
  let slopeFactor := if keyT then A.sub slopeFactor (A.lit (5 / 1000)) else slopeFactor
  let slopeFactor := if keyY then A.add slopeFactor (A.lit (5 / 1000)) else slopeFactor
  slopeFactor

/-- The value of `slopeFactor` after the given frames, each a pair
(`KEY_T` down, `KEY_Y` down). -/
def slopeFactorAfter (A : FloatArith) (frames : List (Bool × Bool)) : ℚ :=
  frames.foldl (fun s f => updateSlopeFactor A s f.1 f.2) (initialSlopeFactor A)

end Main12

namespace Main5

namespace ShapeDrawer

/-- The `while` loop of `DrawLineDashed` (lines 373-380) in the arithmetic `A`,
started at the given `currentLength` and run for at most `fuel` iterations: for
every dash drawn, the value of `currentLength` at `dashStart` and at `dashEnd`,
in order; `none` when the loop has not ended within `fuel` iterations. -/
def dashLoop (A : FloatArith) (lineLength dashLength spaceLength : ℚ) :
    Nat → ℚ → Option (List (ℚ × ℚ))
  | 0, currentLength => if currentLength < lineLength then none else some []
  | fuel + 1, currentLength =>
    if currentLength < lineLength then
      let atStart := currentLength
      let currentLength := A.add currentLength dashLength
      let currentLength := if currentLength > lineLength then lineLength else currentLength
      let atEnd := currentLength
      let currentLength := A.add currentLength spaceLength
      (dashLoop A lineLength dashLength spaceLength fuel currentLength).map
        (fun rest => (atStart, atEnd) :: rest)
    else some []

/-- The routine `ShapeDrawer::DrawLineDashed` of `main_5.cpp`, lines 365-381, in
the arithmetic `A`: the `DrawLineV` calls in order, `none` when the loop has
not ended within `fuel` iterations. -/
def DrawLineDashed (A : FloatArith) (lib : FloatLib)
    (x1 y1 x2 y2 dashLength spaceLength : ℚ) (color : Color) (fuel : Nat) :
    Option (List Primitive) :=
  let start : Vector2 := ⟨x1, y1⟩
  let endPoint : Vector2 := ⟨x2, y2⟩
  let delta := Vector2Subtract A endPoint start
  let lineLength := lib.Vector2Length delta
  let direction := lib.Vector2Normalize delta
  (dashLoop A lineLength dashLength spaceLength fuel 0).map (fun dashes =>
    dashes.map (fun se =>
      Primitive.DrawLineV (Vector2Add A start (Vector2Scale A direction se.1))
        (Vector2Add A start (Vector2Scale A direction se.2)) color))

end ShapeDrawer

end Main5

namespace Main4

namespace EyeDrawer

/-- The local `totalHeight` of `Draw`, lines 33-35, in the arithmetic `A`. -/
def totalHeight (A : FloatArith) (cfg : EyeConfig) : ℚ :=
  let delta_y_top := A.div (A.mul cfg.Height cfg.Slope_Top) 2
  let delta_y_bottom := A.div (A.mul cfg.Height cfg.Slope_Bottom) 2
  A.sub (A.add cfg.Height delta_y_top) delta_y_bottom

/-- The locals `(rTop, rBottom)` of `Draw` after the scaling step, lines 37-43,
in the arithmetic `A`. -/
def scaledRadii (A : FloatArith) (cfg : EyeConfig) : ℚ × ℚ :=
  let rTop := cfg.Radius_Top
  let rBottom := cfg.Radius_Bottom
  if A.add rTop rBottom > A.sub (totalHeight A cfg) 1 then
    let scale := A.div (A.sub (totalHeight A cfg) 1) (A.add rTop rBottom)
    (A.mul rTop scale, A.mul rBottom scale)
  else (rTop, rBottom)

end EyeDrawer

end Main4

namespace Main8Basic

/-- The local `radius` of `MyDrawRectangleRounded` (`main_8_basic.cpp`, lines 10
and 14) in the arithmetic `A`: `(roundness * minSide) / 2.0f`. -/
def radius (A : FloatArith) (rec : Rectangle) (roundness : ℚ) : ℚ :=
  A.div (A.mul roundness (fminf rec.width rec.height)) 2

/-- The rounded rectangle routine of `main_8_basic.cpp`, lines 7-64, in the
arithmetic `A`: the raylib calls in order. -/
def MyDrawRectangleRounded (A : FloatArith) (rec : Rectangle) (roundness : ℚ)
    (segments : Int) (color : Color) : List Primitive :=
  let minSide := fminf rec.width rec.height
  -- 1. the corner radius
  let radius := A.div (A.mul roundness minSide) 2
  if radius ≤ 0 then
    [ Primitive.DrawRectangleRec rec color ]
  else
    let centers : Nat → Vector2 := fun i =>
      match i with
      | 0 => ⟨A.add rec.x radius, A.add rec.y radius⟩
      | 1 => ⟨A.sub (A.add rec.x rec.width) radius, A.add rec.y radius⟩
      | 2 => ⟨A.sub (A.add rec.x rec.width) radius, A.sub (A.add rec.y rec.height) radius⟩
      | _ => ⟨A.add rec.x radius, A.sub (A.add rec.y rec.height) radius⟩
    -- 2. the three rectangular fill sections
    [ Primitive.DrawRectangle (toInt rec.x) (toInt (A.add rec.y radius)) (toInt rec.width)
        (toInt (A.sub rec.height (A.mul 2 radius))) color,
      Primitive.DrawRectangle (toInt (A.add rec.x radius)) (toInt rec.y)
        (toInt (A.sub rec.width (A.mul 2 radius))) (toInt radius) color,
      Primitive.DrawRectangle (toInt (A.add rec.x radius))
        (toInt (A.sub (A.add rec.y rec.height) radius))
        (toInt (A.sub rec.width (A.mul 2 radius))) (toInt radius) color ]
    -- 3. the four corner arcs, `for (int i = 0; i < 4; i++)`
    ++ (List.range 4).map (fun (i : Nat) =>
        let startAngle : ℚ := A.mul 90 (i : ℚ)
        let endAngle : ℚ := A.add startAngle 90
        let startAngle := if i = 0 then 180 else startAngle
        let endAngle := if i = 0 then 270 else endAngle
        let startAngle := if i = 1 then 270 else startAngle
        let endAngle := if i = 1 then 360 else endAngle
        let startAngle := if i = 2 then 0 else startAngle
        let endAngle := if i = 2 then 90 else endAngle
        let startAngle := if i = 3 then 90 else startAngle
        let endAngle := if i = 3 then 180 else endAngle
        Primitive.DrawCircleSector (centers i) radius startAngle endAngle segments color)

/-- Lines 82-84 of `main` in the arithmetic `A`: the update of the global
`Roundness` in one frame. -/
def updateRoundness (A : FloatArith) (Roundness : ℚ) (keyRight keyLeft : Bool) : ℚ :=
  let Roundness := if keyRight then A.add Roundness (A.lit (1 / 100)) else Roundness
  let Roundness := if keyLeft then A.sub Roundness (A.lit (1 / 100)) else Roundness
  fmaxf 0 (fminf 1 Roundness)

end Main8Basic

end WithArith

/-! ## Helper lemmas -/

theorem toInt_intCast (n : Int) : toInt (n : ℚ) = n := by
  simp [toInt]

theorem specClamp_eq_min_max (v hi : ℚ) (h : 0 ≤ hi) :
    specClamp v 0 hi = min (max 0 v) hi := by
  unfold specClamp
  split_ifs with h1 h2
  · rw [max_eq_left h1.le, min_eq_left h]
  · rw [max_eq_right (not_lt.mp h1), min_eq_right h2.le]
  · rw [max_eq_right (not_lt.mp h1), min_eq_left (not_lt.mp h2)]

theorem halfMin_nonneg (rec : Rectangle) (hw : 0 ≤ rec.width) (hh : 0 ≤ rec.height) :
    0 ≤ min rec.width rec.height / 2 :=
  div_nonneg (le_min hw hh) (by norm_num)

/-- The fill routine of `main_13.cpp` is the fill routine of `main_11.cpp`. -/
theorem Main13_fill_eq_Main11 (rec : Rectangle) (radiusBottom radiusTop slopeFactor : ℚ)
    (segments : Int) (color : Color) :
    Main13.MyDrawSlopedRoundedRectangle rec radiusBottom radiusTop slopeFactor segments color
      = Main11.MyDrawSlopedRoundedRectangle rec radiusBottom radiusTop slopeFactor segments color :=
  rfl

/-- The sectors of the `main_11.cpp` fill: centre, effective radius, angular
range and segment count of the four `DrawCircleSector` calls, in call order. -/
theorem Main11_sectorsOf (rec : Rectangle) (radiusBottom radiusTop slopeFactor : ℚ)
    (segments : Int) (color : Color) :
    sectorsOf (Main11.MyDrawSlopedRoundedRectangle rec radiusBottom radiusTop slopeFactor
        segments color)
      = [ ⟨⟨rec.x + effectiveRadius rec radiusTop, rec.y + effectiveRadius rec radiusTop⟩,
           effectiveRadius rec radiusTop, 180, 270, segments⟩,
          ⟨⟨rec.x + rec.width - slopeFactor * rec.height - effectiveRadius rec radiusTop,
            rec.y + effectiveRadius rec radiusTop⟩,
           effectiveRadius rec radiusTop, 270, 360, segments⟩,
          ⟨⟨rec.x + rec.width - effectiveRadius rec radiusBottom,
            rec.y + rec.height - effectiveRadius rec radiusBottom⟩,
           effectiveRadius rec radiusBottom, 0, 90, segments⟩,
          ⟨⟨rec.x + effectiveRadius rec radiusBottom,
            rec.y + rec.height - effectiveRadius rec radiusBottom⟩,
           effectiveRadius rec radiusBottom, 90, 180, segments⟩ ] := by
  unfold Main11.MyDrawSlopedRoundedRectangle sectorsOf effectiveRadius
  dsimp only
  split_ifs <;> rfl

/-- The effective radius is the spec's clamp when both extents are non-negative. -/
theorem effectiveRadius_eq_spec (rec : Rectangle) (requested : ℚ)
    (hw : 0 ≤ rec.width) (hh : 0 ≤ rec.height) :
    effectiveRadius rec requested = specEffectiveRadius rec requested := by
  unfold effectiveRadius specEffectiveRadius fmaxf fminf
  exact (specClamp_eq_min_max requested _ (halfMin_nonneg rec hw hh)).symm

/-- The top gap test of the fill, in closed form. -/
theorem top_gap_eq (rec : Rectangle) (slopeFactor r : ℚ) :
    (rec.x + rec.width - slopeFactor * rec.height - r) - (rec.x + r)
      = rec.width - slopeFactor * rec.height - 2 * r := by
  ring

/-- The call sequence of the `main_11.cpp` fill, written with the effective radii. -/
theorem Main11_fill_eq (rec : Rectangle) (radiusBottom radiusTop slopeFactor : ℚ)
    (segments : Int) (color : Color) :
    Main11.MyDrawSlopedRoundedRectangle rec radiusBottom radiusTop slopeFactor segments color
      = [ Primitive.DrawRectangle (toInt rec.x) (toInt (rec.y + effectiveRadius rec radiusTop))
            (toInt rec.width)
            (toInt (rec.y + rec.height - effectiveRadius rec radiusBottom
              - (rec.y + effectiveRadius rec radiusTop))) color,
          Primitive.DrawRectangle (toInt (rec.x + effectiveRadius rec radiusBottom))
            (toInt (rec.y + rec.height - effectiveRadius rec radiusBottom))
            (toInt (rec.x + rec.width - effectiveRadius rec radiusBottom
              - (rec.x + effectiveRadius rec radiusBottom)))
            (toInt (effectiveRadius rec radiusBottom)) color,
          if 0 < rec.width - slopeFactor * rec.height - 2 * effectiveRadius rec radiusTop then
            Primitive.DrawTriangleFan
              [ ⟨rec.x + effectiveRadius rec radiusTop, rec.y⟩,
                ⟨rec.x + rec.width - slopeFactor * rec.height - effectiveRadius rec radiusTop,
                  rec.y⟩,
                ⟨rec.x + rec.width - slopeFactor * rec.height - effectiveRadius rec radiusTop,
                  rec.y + effectiveRadius rec radiusTop⟩,
                ⟨rec.x + effectiveRadius rec radiusTop, rec.y + effectiveRadius rec radiusTop⟩ ]
              4 color
          else
            Primitive.DrawRectangle (toInt rec.x) (toInt rec.y) (toInt rec.width)
              (toInt (effectiveRadius rec radiusTop)) color,
          Primitive.DrawRectangle (toInt rec.x) (toInt (rec.y + effectiveRadius rec radiusTop))
            (toInt (effectiveRadius rec radiusTop))
            (toInt (rec.y + rec.height - effectiveRadius rec radiusBottom
              - (rec.y + effectiveRadius rec radiusTop))) color,
          Primitive.DrawTriangleFan
            [ ⟨rec.x + rec.width - slopeFactor * rec.height - effectiveRadius rec radiusTop
                 + effectiveRadius rec radiusTop, rec.y + effectiveRadius rec radiusTop⟩,
              ⟨rec.x + rec.width - slopeFactor * rec.height,
                rec.y + effectiveRadius rec radiusTop⟩,
              ⟨rec.x + rec.width, rec.y + rec.height - effectiveRadius rec radiusBottom⟩,
              ⟨rec.x + rec.width - effectiveRadius rec radiusBottom
                 + effectiveRadius rec radiusBottom,
                rec.y + rec.height - effectiveRadius rec radiusBottom⟩ ]
            4 color,
          Primitive.DrawCircleSector
            ⟨rec.x + effectiveRadius rec radiusTop, rec.y + effectiveRadius rec radiusTop⟩
            (effectiveRadius rec radiusTop) 180 270 segments color,
          Primitive.DrawCircleSector
            ⟨rec.x + rec.width - slopeFactor * rec.height - effectiveRadius rec radiusTop,
              rec.y + effectiveRadius rec radiusTop⟩
            (effectiveRadius rec radiusTop) 270 360 segments color,
          Primitive.DrawCircleSector
            ⟨rec.x + rec.width - effectiveRadius rec radiusBottom,
              rec.y + rec.height - effectiveRadius rec radiusBottom⟩
            (effectiveRadius rec radiusBottom) 0 90 segments color,
          Primitive.DrawCircleSector
            ⟨rec.x + effectiveRadius rec radiusBottom,
              rec.y + rec.height - effectiveRadius rec radiusBottom⟩
            (effectiveRadius rec radiusBottom) 90 180 segments color ] := by
  unfold Main11.MyDrawSlopedRoundedRectangle effectiveRadius
  dsimp only
  rw [top_gap_eq]
  split_ifs <;> rfl

/-- The call sequence of the `main_12.cpp` outline, written with the effective radii. -/
theorem Main12_wires_eq (rec : Rectangle) (radiusBottom radiusTop slopeFactor : ℚ)
    (segments : Int) (color : Color) (thickness : ℚ) :
    Main12.MyDrawSlopedRoundedRectangleWires rec radiusBottom radiusTop slopeFactor segments
        color thickness
      = [ Primitive.DrawLineEx
            ⟨rec.x, rec.y + rec.height - effectiveRadius rec radiusBottom⟩
            ⟨rec.x, rec.y + effectiveRadius rec radiusTop⟩ thickness color,
          Primitive.DrawLineEx
            ⟨rec.x + effectiveRadius rec radiusTop, rec.y⟩
            ⟨rec.x + rec.width - slopeFactor * rec.height - effectiveRadius rec radiusTop,
              rec.y⟩ thickness color,
          Primitive.DrawLineEx
            ⟨rec.x + rec.width - slopeFactor * rec.height - effectiveRadius rec radiusTop
               + effectiveRadius rec radiusTop, rec.y + effectiveRadius rec radiusTop⟩
            ⟨rec.x + rec.width - effectiveRadius rec radiusBottom
               + effectiveRadius rec radiusBottom,
              rec.y + rec.height - effectiveRadius rec radiusBottom⟩ thickness color,
          Primitive.DrawLineEx
            ⟨rec.x + effectiveRadius rec radiusBottom, rec.y + rec.height⟩
            ⟨rec.x + rec.width - effectiveRadius rec radiusBottom, rec.y + rec.height⟩
            thickness color,
          Primitive.DrawCircleSectorLines
            ⟨rec.x + effectiveRadius rec radiusTop, rec.y + effectiveRadius rec radiusTop⟩
            (effectiveRadius rec radiusTop) 180 270 segments color,
          Primitive.DrawCircleSectorLines
            ⟨rec.x + rec.width - slopeFactor * rec.height - effectiveRadius rec radiusTop,
              rec.y + effectiveRadius rec radiusTop⟩
            (effectiveRadius rec radiusTop) 270 360 segments color,
          Primitive.DrawCircleSectorLines
            ⟨rec.x + rec.width - effectiveRadius rec radiusBottom,
              rec.y + rec.height - effectiveRadius rec radiusBottom⟩
            (effectiveRadius rec radiusBottom) 0 90 segments color,
          Primitive.DrawCircleSectorLines
            ⟨rec.x + effectiveRadius rec radiusBottom,
              rec.y + rec.height - effectiveRadius rec radiusBottom⟩
            (effectiveRadius rec radiusBottom) 90 180 segments color ] := by
  unfold Main12.MyDrawSlopedRoundedRectangleWires effectiveRadius
  simp only [add_sub_cancel_right, sub_add_cancel]

/-- The effective radius is non-negative when both extents are. -/
theorem effectiveRadius_nonneg (rec : Rectangle) (requested : ℚ)
    (hw : 0 ≤ rec.width) (hh : 0 ≤ rec.height) : 0 ≤ effectiveRadius rec requested := by
  unfold effectiveRadius fmaxf fminf
  exact le_min (le_max_left _ _) (halfMin_nonneg rec hw hh)

/-- A point displaced horizontally by `r` from `c` is at axis distance `|r|`. -/
theorem axisDistance_horizontal (c : Vector2) (x r : ℚ) (h : x - c.x = r ∨ c.x - x = r) :
    axisDistance ⟨x, c.y⟩ c = some |r| := by
  unfold axisDistance
  rw [if_pos rfl]
  rcases h with h | h
  · rw [← h]
  · rw [← h, abs_sub_comm]

/-- A point displaced vertically by `r` from `c` is at axis distance `|r|`. -/
theorem axisDistance_vertical (c : Vector2) (y r : ℚ) (h : y - c.y = r ∨ c.y - y = r) :
    axisDistance ⟨c.x, y⟩ c = some |r| := by
  unfold axisDistance
  have hy : |y - c.y| = |r| := by
    rcases h with h | h
    · rw [← h]
    · rw [← h, abs_sub_comm]
  by_cases e : y = c.y
  · rw [if_pos e]
    have : r = 0 := by
      rcases h with h | h <;> rw [← h, e, sub_self]
    rw [this, sub_self, abs_zero]
  · rw [if_neg e, if_pos rfl, hy]

/-- A requested radius of zero stays zero when both extents are non-negative. -/
theorem effectiveRadius_zero (rec : Rectangle) (hw : 0 ≤ rec.width) (hh : 0 ≤ rec.height) :
    effectiveRadius rec 0 = 0 := by
  unfold effectiveRadius fmaxf fminf
  rw [max_self, min_eq_left (halfMin_nonneg rec hw hh)]

/-- The endpoints of the four sides of a quadrilateral, as the outline lists
them, are its four corners taken twice. -/
theorem sides_perm_corners {α : Type} [DecidableEq α] (a b c d : α) :
    [d, a, a, b, b, c, d, c].Perm [a, b, c, d, a, b, c, d] := by
  rw [List.perm_iff_count]
  intro v
  simp only [List.count_cons, List.count_nil]
  omega

/-- The `float` round trip of `fmaxf(3, n)` for an `int` value `n`. -/
theorem toInt_fmaxf_three (n : Int) : toInt (fmaxf 3 (n : ℚ)) = max 3 n := by
  have h : fmaxf 3 (n : ℚ) = ((max 3 n : Int) : ℚ) := by
    unfold fmaxf
    push_cast
    rfl
  rw [h, toInt_intCast]

/-- The `float` round trip of `fminf(360, n)` for an `int` value `n`. -/
theorem toInt_fminf_360 (n : Int) : toInt (fminf 360 (n : ℚ)) = min 360 n := by
  have h : fminf 360 (n : ℚ) = ((min 360 n : Int) : ℚ) := by
    unfold fminf
    push_cast
    rfl
  rw [h, toInt_intCast]

/-- One frame of the `main_11.cpp` harness, in integer terms. -/
theorem Main11_updateSegments_eq (segments : Int) (keyF keyG : Bool) :
    Main11.updateSegments segments keyF keyG
      = (if keyG then min 360 ((if keyF then max 3 (segments - 1) else segments) + 1)
          else (if keyF then max 3 (segments - 1) else segments)) := by
  unfold Main11.updateSegments
  simp only [toInt_fmaxf_three, toInt_fminf_360]

/-- The harness of `main_12.cpp` updates `segments` as that of `main_11.cpp`. -/
theorem Main12_updateSegments_eq_Main11 (segments : Int) (keyF keyG : Bool) :
    Main12.updateSegments segments keyF keyG = Main11.updateSegments segments keyF keyG :=
  rfl

/-- One frame keeps `segments` within `[3, 360]`. -/
theorem Main11_updateSegments_range (segments : Int) (keyF keyG : Bool)
    (h : 3 ≤ segments ∧ segments ≤ 360) :
    3 ≤ Main11.updateSegments segments keyF keyG
      ∧ Main11.updateSegments segments keyF keyG ≤ 360 := by
  rw [Main11_updateSegments_eq]
  cases keyF <;> cases keyG <;> simp <;> omega

/-- Any run of frames started within `[3, 360]` ends within `[3, 360]`. -/
theorem Main11_foldl_range (frames : List (Bool × Bool)) (init : Int)
    (h : 3 ≤ init ∧ init ≤ 360) :
    3 ≤ frames.foldl (fun segments keys => Main11.updateSegments segments keys.1 keys.2) init
      ∧ frames.foldl (fun segments keys => Main11.updateSegments segments keys.1 keys.2) init
          ≤ 360 := by
  induction frames generalizing init with
  | nil => exact h
  | cons k ks ih =>
    rw [List.foldl_cons]
    exact ih _ (Main11_updateSegments_range init k.1 k.2 h)

/-- Every value met in a run of frames started within `[3, 360]` is within `[3, 360]`. -/
theorem Main11_scanl_range (frames : List (Bool × Bool)) (init : Int)
    (h : 3 ≤ init ∧ init ≤ 360) :
    (frames.scanl (fun segments keys => Main11.updateSegments segments keys.1 keys.2)
      init).all (fun s => decide (3 ≤ s ∧ s ≤ 360)) = true := by
  induction frames generalizing init with
  | nil => simpa [List.scanl] using h
  | cons k ks ih =>
    rw [List.scanl_cons, List.singleton_append, List.all_cons,
      ih _ (Main11_updateSegments_range init k.1 k.2 h)]
    simpa using h

/-- The segment values passed to the draw routine, for a run started at `init`. -/
theorem Main11_scanl_tail_range (frames : List (Bool × Bool)) (init : Int)
    (h : 3 ≤ init ∧ init ≤ 360) :
    (frames.scanl (fun segments keys => Main11.updateSegments segments keys.1 keys.2)
      init).tail.all (fun s => decide (3 ≤ s ∧ s ≤ 360)) = true := by
  cases frames with
  | nil => rfl
  | cons k ks =>
    rw [List.scanl_cons, List.singleton_append, List.tail_cons]
    exact Main11_scanl_range ks _ (Main11_updateSegments_range init k.1 k.2 h)

/-- The sector outlines of the `main_12.cpp` outline: centre, effective radius,
angular range and segment count of the four calls, in call order. -/
theorem Main12_arcsOf (rec : Rectangle) (radiusBottom radiusTop slopeFactor : ℚ)
    (segments : Int) (color : Color) (thickness : ℚ) :
    arcsOf (Main12.MyDrawSlopedRoundedRectangleWires rec radiusBottom radiusTop slopeFactor
        segments color thickness)
      = [ ⟨⟨rec.x + effectiveRadius rec radiusTop, rec.y + effectiveRadius rec radiusTop⟩,
           effectiveRadius rec radiusTop, 180, 270, segments⟩,
          ⟨⟨rec.x + rec.width - slopeFactor * rec.height - effectiveRadius rec radiusTop,
            rec.y + effectiveRadius rec radiusTop⟩,
           effectiveRadius rec radiusTop, 270, 360, segments⟩,
          ⟨⟨rec.x + rec.width - effectiveRadius rec radiusBottom,
            rec.y + rec.height - effectiveRadius rec radiusBottom⟩,
           effectiveRadius rec radiusBottom, 0, 90, segments⟩,
          ⟨⟨rec.x + effectiveRadius rec radiusBottom,
            rec.y + rec.height - effectiveRadius rec radiusBottom⟩,
           effectiveRadius rec radiusBottom, 90, 180, segments⟩ ] := by
  rw [Main12_wires_eq]
  rfl

/-- The effective radius never exceeds half the shorter side. -/
theorem effectiveRadius_le_halfMin (rec : Rectangle) (requested : ℚ) :
    effectiveRadius rec requested ≤ min rec.width rec.height / 2 := by
  unfold effectiveRadius fmaxf fminf
  exact min_le_right _ _

/-- With a zero extent, the other non-negative, half the shorter side is zero. -/
theorem halfMin_eq_zero (rec : Rectangle)
    (h : (rec.width = 0 ∧ 0 ≤ rec.height) ∨ (rec.height = 0 ∧ 0 ≤ rec.width)) :
    min rec.width rec.height / 2 = 0 := by
  rcases h with ⟨hw, hh⟩ | ⟨hh, hw⟩
  · rw [hw, min_eq_left hh, zero_div]
  · rw [hh, min_eq_right hw, zero_div]

/-- With a zero extent, the other non-negative, every effective radius is zero. -/
theorem effectiveRadius_degenerate (rec : Rectangle) (requested : ℚ)
    (h : (rec.width = 0 ∧ 0 ≤ rec.height) ∨ (rec.height = 0 ∧ 0 ≤ rec.width)) :
    effectiveRadius rec requested = 0 := by
  unfold effectiveRadius fmaxf fminf
  rw [halfMin_eq_zero rec h]
  exact min_eq_right (le_max_left _ _)

/-- The sectors of the `main_9.cpp` fill, in call order: none on the early
return, otherwise BottomLeft, BottomRight, TopLeft, TopRight. -/
theorem Main9_sectorsOf (rec : Rectangle) (radiusBottom radiusTop slopeFactor : ℚ)
    (segments : Int) (color : Color) :
    sectorsOf (Main9.MyDrawSlopedRoundedRectangle rec radiusBottom radiusTop slopeFactor
        segments color)
      = if effectiveRadius9 rec radiusBottom ≤ 0 ∧ effectiveRadius9 rec radiusTop ≤ 0
            ∧ |slopeFactor| < 1 / 1000 then []
        else
          [ ⟨⟨rec.x + effectiveRadius9 rec radiusBottom,
              rec.y + rec.height - effectiveRadius9 rec radiusBottom⟩,
             effectiveRadius9 rec radiusBottom, 90, 180, segments⟩,
            ⟨⟨rec.x + rec.width - effectiveRadius9 rec radiusBottom,
              rec.y + rec.height - effectiveRadius9 rec radiusBottom⟩,
             effectiveRadius9 rec radiusBottom, 0, 90, segments⟩,
            ⟨⟨rec.x + effectiveRadius9 rec radiusTop, rec.y + effectiveRadius9 rec radiusTop⟩,
             effectiveRadius9 rec radiusTop, 180, 270, segments⟩,
            ⟨⟨rec.x + rec.width - slopeFactor * rec.height - effectiveRadius9 rec radiusTop,
              rec.y + effectiveRadius9 rec radiusTop⟩,
             effectiveRadius9 rec radiusTop, 270, 360, segments⟩ ] := by
  unfold Main9.MyDrawSlopedRoundedRectangle sectorsOf effectiveRadius9 fabsf
  dsimp only
  split_ifs <;> rfl

/-- On a non-negative value the C truncation is the floor. -/
theorem toInt_of_nonneg (q : ℚ) (h : 0 ≤ q) : toInt q = ⌊q⌋ := by
  unfold toInt
  rw [Rat.floor_def, Int.tdiv_eq_ediv (Rat.num_nonneg.mpr h) (Int.natCast_nonneg _)]

/-- The C truncation of a non-negative value is non-negative. -/
theorem toInt_nonneg (q : ℚ) (h : 0 ≤ q) : 0 ≤ toInt q := by
  rw [toInt_of_nonneg q h]
  exact Int.floor_nonneg.mpr h

/-- The C truncation is monotone on non-negative values. -/
theorem toInt_mono (a b : ℚ) (ha : 0 ≤ a) (hab : a ≤ b) : toInt a ≤ toInt b := by
  rw [toInt_of_nonneg a ha, toInt_of_nonneg b (le_trans ha hab)]
  exact Int.floor_mono hab

/-- The two clamps agree: limiting by `height / 2` and then by `width / 2` is
limiting by half the shorter side. -/
theorem effectiveRadius9_eq (rec : Rectangle) (requested : ℚ) :
    effectiveRadius9 rec requested = effectiveRadius rec requested := by
  unfold effectiveRadius9 effectiveRadius fmaxf fminf
  rw [← min_div_div_right (by norm_num : (0 : ℚ) ≤ 2), min_assoc, min_comm (rec.height / 2)]

/-- The sectors of the `main_10.cpp` fill, in call order. -/
theorem Main10_sectorsOf (rec : Rectangle) (radiusBottom radiusTop slopeFactor : ℚ)
    (segments : Int) (color : Color) :
    sectorsOf (Main10.MyDrawSlopedRoundedRectangle rec radiusBottom radiusTop slopeFactor
        segments color)
      = [ ⟨⟨rec.x + effectiveRadius rec radiusTop, rec.y + effectiveRadius rec radiusTop⟩,
           effectiveRadius rec radiusTop, 180, 270, segments⟩,
          ⟨⟨rec.x + rec.width - slopeFactor * rec.height - effectiveRadius rec radiusTop,
            rec.y + effectiveRadius rec radiusTop⟩,
           effectiveRadius rec radiusTop, 270, 360, segments⟩,
          ⟨⟨rec.x + rec.width - effectiveRadius rec radiusBottom,
            rec.y + rec.height - effectiveRadius rec radiusBottom⟩,
           effectiveRadius rec radiusBottom, 0, 90, segments⟩,
          ⟨⟨rec.x + effectiveRadius rec radiusBottom,
            rec.y + rec.height - effectiveRadius rec radiusBottom⟩,
           effectiveRadius rec radiusBottom, 90, 180, segments⟩ ] := by
  unfold Main10.MyDrawSlopedRoundedRectangle sectorsOf effectiveRadius
  rfl

/-- The index pairs of the fill loop of `DrawStar`, listed. -/
theorem fillIndices_eq :
    Main7.PolygonDrawer.fillIndices = [(0, 2), (2, 4), (4, 6), (6, 8), (8, 0)] := by
  decide

/-- The index pairs of the outline loop of `DrawStar`, listed. -/
theorem outlineIndices_eq :
    Main7.PolygonDrawer.outlineIndices
      = [(0, 1), (1, 2), (2, 3), (3, 4), (4, 5), (5, 6), (6, 7), (7, 8), (8, 9), (9, 0)] := by
  decide

/-- The call sequence of `DrawStar`: the fill triangles, then the outline lines. -/
theorem DrawStar_eq (lib : FloatLib) (cfg : StarConfig) :
    Main7.PolygonDrawer.DrawStar lib cfg
      = Main7.PolygonDrawer.fillIndices.map (fun ij =>
          Primitive.DrawTriangle ⟨cfg.CenterX, cfg.CenterY⟩
            (Main7.PolygonDrawer.vertices lib cfg ij.1)
            (Main7.PolygonDrawer.vertices lib cfg ij.2)
            ⟨toUChar cfg.R, toUChar cfg.G, toUChar cfg.B, toUChar cfg.A⟩)
        ++ Main7.PolygonDrawer.outlineIndices.map (fun ij =>
          Primitive.DrawLineEx (Main7.PolygonDrawer.vertices lib cfg ij.1)
            (Main7.PolygonDrawer.vertices lib cfg ij.2) 3 BLACK) :=
  rfl

/-- A vertex of even index is placed with the outer radius only. -/
theorem vertices_even (lib : FloatLib) (cfg : StarConfig) (innerRadius : ℚ) (k : Nat) :
    Main7.PolygonDrawer.vertices lib
        ⟨cfg.CenterX, cfg.CenterY, cfg.OuterRadius, innerRadius, cfg.RotationDeg, cfg.R, cfg.G,
          cfg.B, cfg.A⟩ (2 * k)
      = Main7.PolygonDrawer.vertices lib cfg (2 * k) := by
  have hang : ∀ n, Main7.PolygonDrawer.currentAngle
      ⟨cfg.CenterX, cfg.CenterY, cfg.OuterRadius, innerRadius, cfg.RotationDeg, cfg.R, cfg.G,
        cfg.B, cfg.A⟩ n = Main7.PolygonDrawer.currentAngle cfg n := by
    intro n
    induction n with
    | zero => rfl
    | succ n ih =>
      show Main7.PolygonDrawer.currentAngle _ n + 360 / 10
        = Main7.PolygonDrawer.currentAngle cfg n + 360 / 10
      rw [ih]
  unfold Main7.PolygonDrawer.vertices
  simp only [Nat.mul_mod_right, if_true, hang]

/-- A rectangle call covers no pixel outside another rectangle call of the same
corner and height whose width is not smaller. -/
theorem rectPixels_mono_width (posX posY width1 width2 height : Int) (h : width1 ≤ width2)
    (p : Int × Int) (hp : rectPixels posX posY width1 height p) :
    rectPixels posX posY width2 height p := by
  unfold rectPixels at hp ⊢
  obtain ⟨h1, h2, h3, h4⟩ := hp
  exact ⟨h1, by omega, h3, h4⟩

/-- Dropping from a call sequence a call whose coverage lies in that of a call
that stays does not change the pixels covered. -/
theorem covered_eraseIdx (other : Primitive → Set (Int × Int)) (l : List Primitive)
    (i : Nat) (q r : Primitive) (hq : l[i]? = some q) (hr : r ∈ l.eraseIdx i)
    (hsub : coverage other q ⊆ coverage other r) :
    covered other l = covered other (l.eraseIdx i) := by
  ext p
  unfold covered
  constructor
  · rintro ⟨a, ha, hpa⟩
    by_cases haq : a ∈ l.eraseIdx i
    · exact ⟨a, haq, hpa⟩
    · have : a = q := by
        rw [List.mem_iff_getElem?] at ha
        obtain ⟨j, hj⟩ := ha
        by_cases hji : j = i
        · rw [hji, hq] at hj
          exact (Option.some.inj hj).symm
        · exfalso
          apply haq
          rw [List.mem_iff_getElem?]
          by_cases hlt : j < i
          · exact ⟨j, by rw [List.getElem?_eraseIdx, if_pos hlt]; exact hj⟩
          · have hgt : i < j := lt_of_le_of_ne (not_lt.mp hlt) (Ne.symm hji)
            refine ⟨j - 1, ?_⟩
            rw [List.getElem?_eraseIdx, if_neg (by omega)]
            have : j - 1 + 1 = j := by omega
            rw [this]
            exact hj
      rw [this] at hpa
      exact ⟨r, hr, hsub hpa⟩
  · rintro ⟨a, ha, hpa⟩
    exact ⟨a, List.mem_of_mem_eraseIdx ha, hpa⟩

/-- The dash loop with no iteration left. -/
theorem dashLoop_zero (L d sp cur : ℚ) :
    Main5.ShapeDrawer.dashLoop L d sp 0 cur = if cur < L then none else some [] :=
  rfl

/-- One iteration of the dash loop. -/
theorem dashLoop_succ (L d sp : ℚ) (fuel : Nat) (cur : ℚ) :
    Main5.ShapeDrawer.dashLoop L d sp (fuel + 1) cur
      = if cur < L then
          (Main5.ShapeDrawer.dashLoop L d sp fuel ((if cur + d > L then L else cur + d) + sp)).map
            (fun rest => (cur, if cur + d > L then L else cur + d) :: rest)
        else some [] :=
  rfl

/-- The dash loop ends at once when `currentLength` is not below `lineLength`. -/
theorem dashLoop_of_not_lt (L d sp : ℚ) (fuel : Nat) (cur : ℚ) (h : ¬ cur < L) :
    Main5.ShapeDrawer.dashLoop L d sp fuel cur = some [] := by
  cases fuel with
  | zero => rw [dashLoop_zero, if_neg h]
  | succ n => rw [dashLoop_succ, if_neg h]

/-- The dash loop ends within `n` iterations when the rest of the line is at
most `n` dash lengths long. -/
theorem dashLoop_terminates (L d sp : ℚ) (hd : 0 < d) (hsp : 0 ≤ sp) (n : Nat) (cur : ℚ)
    (h : L - cur ≤ n * d) : ∃ l, Main5.ShapeDrawer.dashLoop L d sp n cur = some l := by
  induction n generalizing cur with
  | zero =>
    refine ⟨[], dashLoop_of_not_lt L d sp 0 cur ?_⟩
    simp at h
    linarith
  | succ n ih =>
    by_cases hc : cur < L
    · rw [dashLoop_succ, if_pos hc]
      have hn : (0 : ℚ) ≤ n * d := mul_nonneg (Nat.cast_nonneg n) hd.le
      have hnext : L - ((if cur + d > L then L else cur + d) + sp) ≤ n * d := by
        push_cast at h
        split_ifs with hcap
        · linarith
        · linarith
      obtain ⟨rest, hrest⟩ := ih _ hnext
      exact ⟨_, by rw [hrest]; rfl⟩
    · exact ⟨[], dashLoop_of_not_lt L d sp _ cur hc⟩

/-- A dash loop that has ended gives the same dashes with more iterations allowed. -/
theorem dashLoop_mono (L d sp : ℚ) (fuel : Nat) (cur : ℚ) (l : List (ℚ × ℚ))
    (h : Main5.ShapeDrawer.dashLoop L d sp fuel cur = some l) (k : Nat) :
    Main5.ShapeDrawer.dashLoop L d sp (fuel + k) cur = some l := by
  induction fuel generalizing cur l with
  | zero =>
    rw [dashLoop_zero] at h
    by_cases hc : cur < L
    · rw [if_pos hc] at h
      exact absurd h (by simp)
    · rw [if_neg hc] at h
      rw [dashLoop_of_not_lt L d sp _ cur hc]
      exact h
  | succ n ih =>
    rw [dashLoop_succ] at h
    have e : n + 1 + k = (n + k) + 1 := by omega
    rw [e, dashLoop_succ]
    by_cases hc : cur < L
    · rw [if_pos hc] at h ⊢
      cases hr : Main5.ShapeDrawer.dashLoop L d sp n ((if cur + d > L then L else cur + d) + sp) with
      | none =>
        rw [hr] at h
        exact absurd h (by simp)
      | some rest =>
        rw [hr] at h
        rw [ih _ rest hr]
        exact h
    · rw [if_neg hc] at h ⊢
      exact h

/-- The dashes of a dash loop that has ended: each starts at or after the
initial `currentLength`, is non-empty and ends at or before `lineLength`;
successive dashes start one dash and one space apart and do not overlap; the
first starts at the initial `currentLength`. -/
theorem dashLoop_spec (L d sp : ℚ) (hd : 0 < d) (hsp : 0 ≤ sp) (fuel : Nat) (cur : ℚ)
    (l : List (ℚ × ℚ)) (h : Main5.ShapeDrawer.dashLoop L d sp fuel cur = some l) :
    (∀ se ∈ l, cur ≤ se.1 ∧ se.1 < se.2 ∧ se.2 ≤ L)
    ∧ l.Chain' (fun a b => b.1 = a.1 + d + sp ∧ a.2 ≤ b.1)
    ∧ (∀ first, l.head? = some first → first.1 = cur) := by
  induction fuel generalizing cur l with
  | zero =>
    rw [dashLoop_zero] at h
    by_cases hc : cur < L
    · rw [if_pos hc] at h
      exact absurd h (by simp)
    · rw [if_neg hc] at h
      cases Option.some.inj h
      simp
  | succ n ih =>
    rw [dashLoop_succ] at h
    by_cases hc : cur < L
    · rw [if_pos hc] at h
      cases hr : Main5.ShapeDrawer.dashLoop L d sp n ((if cur + d > L then L else cur + d) + sp) with
      | none =>
        rw [hr] at h
        exact absurd h (by simp)
      | some rest =>
        rw [hr] at h
        cases Option.some.inj h
        obtain ⟨hall, hchain, hhead⟩ := ih _ rest hr
        by_cases hcap : cur + d > L
        · -- the capped dash is the last one
          rw [if_pos hcap] at hr
          have hrest : rest = [] := by
            have := dashLoop_of_not_lt L d sp n (L + sp) (by linarith)
            rw [this] at hr
            exact (Option.some.inj hr).symm
          subst hrest
          simp only [if_pos hcap]
          refine ⟨?_, List.chain'_singleton _, ?_⟩
          · intro se hse
            simp only [List.mem_singleton] at hse
            subst hse
            exact ⟨le_refl _, hc, le_refl _⟩
          · intro first hf
            simp only [List.head?_cons, Option.some.injEq] at hf
            rw [← hf]
        · simp only [if_neg hcap] at hall hchain hhead ⊢
          have hle : cur + d ≤ L := not_lt.mp hcap
          refine ⟨?_, ?_, ?_⟩
          · intro se hse
            rcases List.mem_cons.mp hse with hse | hse
            · subst hse
              exact ⟨le_refl _, by simp only; linarith, hle⟩
            · obtain ⟨h1, h2, h3⟩ := hall se hse
              exact ⟨by linarith, h2, h3⟩
          · rw [List.chain'_cons']
            refine ⟨?_, hchain⟩
            intro b hb
            have := hhead b hb
            simp only
            rw [this]
            exact ⟨rfl, by linarith⟩
          · intro first hf
            simp only [List.head?_cons, Option.some.injEq] at hf
            rw [← hf]
    · rw [if_neg hc] at h
      cases Option.some.inj h
      simp

/-! ## Helper lemmas on the binary32 rounding -/

/-- The binary exponent of a rational lying between two consecutive powers of 2. -/
theorem log_two_eq (q : ℚ) (e : Int) (h1 : (2 : ℚ) ^ e ≤ |q|) (h2 : |q| < (2 : ℚ) ^ (e + 1)) :
    Int.log 2 |q| = e := by
  have hpos : 0 < |q| := lt_of_lt_of_le (by positivity) h1
  apply le_antisymm
  · have := (Int.lt_zpow_iff_log_lt (b := 2) (by norm_num) hpos).mp (by exact_mod_cast h2)
    omega
  · exact (Int.zpow_le_iff_le_log (b := 2) (by norm_num) hpos).mp (by exact_mod_cast h1)

/-- The rounding of a positive rational whose binade is known. -/
theorem roundBinary32_of_pos (q : ℚ) (e : Int) (h1 : (2 : ℚ) ^ e ≤ q)
    (h2 : q < (2 : ℚ) ^ (e + 1)) :
    roundBinary32 q
      = roundHalfEven (q / 2 ^ (max e (-126) - 23)) * 2 ^ (max e (-126) - 23) := by
  have hpos : 0 < q := lt_of_lt_of_le (by positivity) h1
  unfold roundBinary32 ulpExponent
  rw [log_two_eq q e (by rwa [abs_of_pos hpos]) (by rwa [abs_of_pos hpos])]

/-- The rounding of a negative rational whose binade is known. -/
theorem roundBinary32_of_neg (q : ℚ) (e : Int) (h1 : (2 : ℚ) ^ e ≤ -q)
    (h2 : -q < (2 : ℚ) ^ (e + 1)) :
    roundBinary32 q
      = roundHalfEven (q / 2 ^ (max e (-126) - 23)) * 2 ^ (max e (-126) - 23) := by
  have hneg : q < 0 := by
    have : 0 < -q := lt_of_lt_of_le (by positivity) h1
    linarith
  unfold roundBinary32 ulpExponent
  rw [log_two_eq q e (by rwa [abs_of_neg hneg]) (by rwa [abs_of_neg hneg])]

theorem roundBinary32_of_eq_zero (q : ℚ) (h : q = 0) : roundBinary32 q = 0 := by
  subst h
  simp [roundBinary32, roundHalfEven]

theorem roundHalfEven_intCast (m : Int) : roundHalfEven (m : ℚ) = m := by
  simp [roundHalfEven]

/-- The rounding of a positive rational, from its binade and the rounded significand. -/
theorem roundBinary32_pos (q v : ℚ) (e : Int) (h1 : (2 : ℚ) ^ e ≤ q)
    (h2 : q < (2 : ℚ) ^ (e + 1))
    (hv : roundHalfEven (q / 2 ^ (max e (-126) - 23)) * 2 ^ (max e (-126) - 23) = v) :
    roundBinary32 q = v := by
  rw [roundBinary32_of_pos q e h1 h2, hv]

/-- The rounding of a negative rational, from its binade and the rounded significand. -/
theorem roundBinary32_neg (q v : ℚ) (e : Int) (h1 : (2 : ℚ) ^ e ≤ -q)
    (h2 : -q < (2 : ℚ) ^ (e + 1))
    (hv : roundHalfEven (q / 2 ^ (max e (-126) - 23)) * 2 ^ (max e (-126) - 23) = v) :
    roundBinary32 q = v := by
  rw [roundBinary32_of_neg q e h1 h2, hv]

/-- The rounded value lies between the floor and the floor plus one. -/
theorem roundHalfEven_bounds (x : ℚ) : ⌊x⌋ ≤ roundHalfEven x ∧ roundHalfEven x ≤ ⌊x⌋ + 1 := by
  unfold roundHalfEven
  split_ifs <;> constructor <;> omega

/-- Rounding to the nearest integer, ties to even, is monotone. -/
theorem roundHalfEven_mono (x y : ℚ) (h : x ≤ y) : roundHalfEven x ≤ roundHalfEven y := by
  have hf : ⌊x⌋ ≤ ⌊y⌋ := Int.floor_mono h
  rcases lt_or_eq_of_le hf with hlt | heq
  · have h1 := (roundHalfEven_bounds x).2
    have h2 := (roundHalfEven_bounds y).1
    omega
  · unfold roundHalfEven
    rw [heq]
    split_ifs <;> first | omega | (exfalso; linarith)

theorem roundHalfEven_zero : roundHalfEven 0 = 0 := by
  simp [roundHalfEven]

/-- Bounds of the binary exponent: `2 ^ log ≤ |q| < 2 ^ (log + 1)` for `q ≠ 0`. -/
theorem log_two_bounds (q : ℚ) (h : q ≠ 0) :
    (2 : ℚ) ^ Int.log 2 |q| ≤ |q| ∧ |q| < (2 : ℚ) ^ (Int.log 2 |q| + 1) := by
  have hpos : 0 < |q| := abs_pos.mpr h
  constructor
  · have := Int.zpow_log_le_self (b := 2) (by norm_num) hpos
    exact_mod_cast this
  · have := Int.lt_zpow_succ_log_self (b := 2) (by norm_num) |q|
    exact_mod_cast this

/-- The scaled significand is below `2 ^ 24` in absolute value. -/
theorem abs_div_ulp_lt (q : ℚ) : |q / 2 ^ ulpExponent q| < 2 ^ (24 : Int) := by
  have hp : (0 : ℚ) < 2 ^ ulpExponent q := by positivity
  rw [abs_div, abs_of_pos hp, div_lt_iff₀ hp, ← zpow_add₀ (by norm_num : (2 : ℚ) ≠ 0)]
  rcases eq_or_ne q 0 with h0 | h0
  · subst h0
    simp
    positivity
  · have hb := (log_two_bounds q h0).2
    refine lt_of_lt_of_le hb ?_
    apply zpow_le_zpow_right₀ (by norm_num)
    unfold ulpExponent
    omega

/-- The rounded significand is at most `2 ^ 24` in absolute value. -/
theorem roundHalfEven_div_ulp_bounds (q : ℚ) :
    -(2 ^ 24 : Int) ≤ roundHalfEven (q / 2 ^ ulpExponent q)
      ∧ roundHalfEven (q / 2 ^ ulpExponent q) ≤ (2 ^ 24 : Int) := by
  have h := abs_lt.mp (abs_div_ulp_lt q)
  constructor
  · have := roundHalfEven_mono ((-(2 ^ 24 : Int) : Int) : ℚ) _
      (by push_cast; norm_num at h ⊢; linarith [h.1])
    rwa [roundHalfEven_intCast] at this
  · have := roundHalfEven_mono _ (((2 ^ 24 : Int) : Int) : ℚ)
      (by push_cast; norm_num at h ⊢; linarith [h.2])
    rwa [roundHalfEven_intCast] at this

/-- The rounding of a non-positive rational is non-positive. -/
theorem roundBinary32_nonpos (q : ℚ) (h : q ≤ 0) : roundBinary32 q ≤ 0 := by
  unfold roundBinary32
  have hp : (0 : ℚ) < 2 ^ ulpExponent q := by positivity
  have h1 : q / 2 ^ ulpExponent q ≤ 0 := div_nonpos_of_nonpos_of_nonneg h hp.le
  have h2 := roundHalfEven_mono _ _ h1
  rw [roundHalfEven_zero] at h2
  have h3 : (roundHalfEven (q / 2 ^ ulpExponent q) : ℚ) ≤ 0 := by exact_mod_cast h2
  exact mul_nonpos_of_nonpos_of_nonneg h3 hp.le

/-- The rounding of a non-negative rational is non-negative. -/
theorem roundBinary32_nonneg (q : ℚ) (h : 0 ≤ q) : 0 ≤ roundBinary32 q := by
  unfold roundBinary32
  have hp : (0 : ℚ) < 2 ^ ulpExponent q := by positivity
  have h1 : 0 ≤ q / 2 ^ ulpExponent q := div_nonneg h hp.le
  have h2 := roundHalfEven_mono _ _ h1
  rw [roundHalfEven_zero] at h2
  have h3 : (0 : ℚ) ≤ (roundHalfEven (q / 2 ^ ulpExponent q) : ℚ) := by exact_mod_cast h2
  exact mul_nonneg h3 hp.le

/-- The rounding is at most `2 ^ (E + 1)` in absolute value, `E` the exponent
of the binade. -/
theorem roundBinary32_abs_le (q : ℚ) :
    -(2 : ℚ) ^ (ulpExponent q + 24) ≤ roundBinary32 q
      ∧ roundBinary32 q ≤ (2 : ℚ) ^ (ulpExponent q + 24) := by
  have hp : (0 : ℚ) < 2 ^ ulpExponent q := by positivity
  have hb := roundHalfEven_div_ulp_bounds q
  have e24 : (2 : ℚ) ^ (ulpExponent q + 24) = 2 ^ (24 : Nat) * 2 ^ ulpExponent q := by
    rw [zpow_add₀ (by norm_num : (2 : ℚ) ≠ 0), mul_comm]
    norm_num
  unfold roundBinary32
  rw [e24]
  constructor
  · have : ((-(2 ^ 24 : Int) : Int) : ℚ) ≤ (roundHalfEven (q / 2 ^ ulpExponent q) : ℚ) := by
      exact_mod_cast hb.1
    have := mul_le_mul_of_nonneg_right this hp.le
    push_cast at this
    linarith
  · have : (roundHalfEven (q / 2 ^ ulpExponent q) : ℚ) ≤ (((2 ^ 24 : Int) : Int) : ℚ) := by
      exact_mod_cast hb.2
    have := mul_le_mul_of_nonneg_right this hp.le
    push_cast at this
    linarith

/-- A positive rational in a normal binade rounds to at least the lower end of
the binade. -/
theorem roundBinary32_ge_of_normal (q : ℚ) (hq : 0 < q) (hn : -126 < ulpExponent q + 23) :
    (2 : ℚ) ^ (ulpExponent q + 23) ≤ roundBinary32 q := by
  have hp : (0 : ℚ) < 2 ^ ulpExponent q := by positivity
  have hL : ulpExponent q + 23 = Int.log 2 |q| := by
    unfold ulpExponent at hn ⊢
    omega
  have hb := (log_two_bounds q hq.ne').1
  rw [← hL, abs_of_pos hq] at hb
  have e23 : (2 : ℚ) ^ (ulpExponent q + 23) = 2 ^ (23 : Nat) * 2 ^ ulpExponent q := by
    rw [zpow_add₀ (by norm_num : (2 : ℚ) ≠ 0), mul_comm]
    norm_num
  have hx : (((2 ^ 23 : Int) : Int) : ℚ) ≤ q / 2 ^ ulpExponent q := by
    rw [le_div_iff₀ hp]
    push_cast
    rw [e23] at hb
    linarith
  have hm := roundHalfEven_mono _ _ hx
  rw [roundHalfEven_intCast] at hm
  have hm2 : (((2 ^ 23 : Int) : Int) : ℚ) ≤ (roundHalfEven (q / 2 ^ ulpExponent q) : ℚ) := by
    exact_mod_cast hm
  have := mul_le_mul_of_nonneg_right hm2 hp.le
  unfold roundBinary32
  rw [e23]
  push_cast at this
  linarith

/-- A negative rational in a normal binade rounds to at most minus the lower
end of the binade. -/
theorem roundBinary32_le_of_normal (q : ℚ) (hq : q < 0) (hn : -126 < ulpExponent q + 23) :
    roundBinary32 q ≤ -(2 : ℚ) ^ (ulpExponent q + 23) := by
  have hp : (0 : ℚ) < 2 ^ ulpExponent q := by positivity
  have hL : ulpExponent q + 23 = Int.log 2 |q| := by
    unfold ulpExponent at hn ⊢
    omega
  have hb := (log_two_bounds q hq.ne).1
  rw [← hL, abs_of_neg hq] at hb
  have e23 : (2 : ℚ) ^ (ulpExponent q + 23) = 2 ^ (23 : Nat) * 2 ^ ulpExponent q := by
    rw [zpow_add₀ (by norm_num : (2 : ℚ) ≠ 0), mul_comm]
    norm_num
  have hx : q / 2 ^ ulpExponent q ≤ ((-(2 ^ 23 : Int) : Int) : ℚ) := by
    rw [div_le_iff₀ hp]
    push_cast
    rw [e23] at hb
    linarith
  have hm := roundHalfEven_mono _ _ hx
  rw [roundHalfEven_intCast] at hm
  have hm2 : (roundHalfEven (q / 2 ^ ulpExponent q) : ℚ) ≤ ((-(2 ^ 23 : Int) : Int) : ℚ) := by
    exact_mod_cast hm
  have := mul_le_mul_of_nonneg_right hm2 hp.le
  unfold roundBinary32
  rw [e23]
  push_cast at this
  linarith

/-- The exponent of the unit in the last place grows with the magnitude. -/
theorem ulpExponent_mono (a b : ℚ) (ha : a ≠ 0) (h : |a| ≤ |b|) :
    ulpExponent a ≤ ulpExponent b := by
  have := Int.log_mono_right (b := 2) (abs_pos.mpr ha) h
  unfold ulpExponent
  omega

/-- The binary32 rounding is monotone. -/
theorem roundBinary32_mono (a b : ℚ) (h : a ≤ b) : roundBinary32 a ≤ roundBinary32 b := by
  rcases le_or_lt a 0 with ha | ha
  · rcases le_or_lt 0 b with hb | hb
    · exact le_trans (roundBinary32_nonpos a ha) (roundBinary32_nonneg b hb)
    · -- both negative
      have ha0 : a < 0 := lt_of_le_of_lt h hb
      have hab : |b| ≤ |a| := by
        rw [abs_of_neg ha0, abs_of_neg hb]
        linarith
      have hu := ulpExponent_mono b a hb.ne hab
      rcases lt_or_eq_of_le hu with hlt | heq
      · have h1 := roundBinary32_le_of_normal a ha0 (by unfold ulpExponent at hlt ⊢; omega)
        have h2 := (roundBinary32_abs_le b).1
        have h3 : (2 : ℚ) ^ (ulpExponent b + 24) ≤ 2 ^ (ulpExponent a + 23) :=
          zpow_le_zpow_right₀ (by norm_num) (by omega)
        linarith
      · unfold roundBinary32
        rw [heq]
        have hp : (0 : ℚ) < 2 ^ ulpExponent a := by positivity
        have hx : a / 2 ^ ulpExponent a ≤ b / 2 ^ ulpExponent a :=
          div_le_div_of_nonneg_right h hp.le
        have hm := roundHalfEven_mono _ _ hx
        have hm2 : (roundHalfEven (a / 2 ^ ulpExponent a) : ℚ)
            ≤ (roundHalfEven (b / 2 ^ ulpExponent a) : ℚ) := by exact_mod_cast hm
        exact mul_le_mul_of_nonneg_right hm2 hp.le
  · -- both positive
    have hb0 : 0 < b := lt_of_lt_of_le ha h
    have hab : |a| ≤ |b| := by
      rw [abs_of_pos ha, abs_of_pos hb0]
      exact h
    have hu := ulpExponent_mono a b ha.ne' hab
    rcases lt_or_eq_of_le hu with hlt | heq
    · have h1 := roundBinary32_ge_of_normal b hb0 (by unfold ulpExponent at hlt ⊢; omega)
      have h2 := (roundBinary32_abs_le a).2
      have h3 : (2 : ℚ) ^ (ulpExponent a + 24) ≤ 2 ^ (ulpExponent b + 23) :=
        zpow_le_zpow_right₀ (by norm_num) (by omega)
      linarith
    · unfold roundBinary32
      rw [heq]
      have hp : (0 : ℚ) < 2 ^ ulpExponent b := by positivity
      have hx : a / 2 ^ ulpExponent b ≤ b / 2 ^ ulpExponent b :=
        div_le_div_of_nonneg_right h hp.le
      have hm := roundHalfEven_mono _ _ hx
      have hm2 : (roundHalfEven (a / 2 ^ ulpExponent b) : ℚ)
          ≤ (roundHalfEven (b / 2 ^ ulpExponent b) : ℚ) := by exact_mod_cast hm
      exact mul_le_mul_of_nonneg_right hm2 hp.le

theorem ulpExponent_ge (q : ℚ) : -149 ≤ ulpExponent q := by
  unfold ulpExponent
  omega

/-- A value with an integer significand of magnitude below `2 ^ 24` at the
exponent of its own binade is its own rounding. -/
theorem roundBinary32_of_significand (m e : Int) (hu : ulpExponent ((m : ℚ) * 2 ^ e) = e) :
    roundBinary32 ((m : ℚ) * 2 ^ e) = (m : ℚ) * 2 ^ e := by
  have hp : (2 : ℚ) ^ e ≠ 0 := by positivity
  unfold roundBinary32
  rw [hu, mul_div_assoc, div_self hp, mul_one, roundHalfEven_intCast]

/-- Rounding a rounded value changes nothing: the values of `roundBinary32` are
binary32 values. -/
theorem roundBinary32_idem (q : ℚ) : roundBinary32 (roundBinary32 q) = roundBinary32 q := by
  have hp : (0 : ℚ) < 2 ^ ulpExponent q := by positivity
  have hge := ulpExponent_ge q
  have hb := roundHalfEven_div_ulp_bounds q
  have hv : roundBinary32 q = (roundHalfEven (q / 2 ^ ulpExponent q) : ℚ) * 2 ^ ulpExponent q := rfl
  have e24 : (2 : ℚ) ^ (ulpExponent q + 24) = 2 ^ (24 : Nat) * 2 ^ ulpExponent q := by
    rw [zpow_add₀ (by norm_num : (2 : ℚ) ≠ 0), mul_comm]
    norm_num
  have e25 : (2 : ℚ) ^ (ulpExponent q + 24 + 1) = 2 ^ (25 : Nat) * 2 ^ ulpExponent q := by
    rw [add_assoc, zpow_add₀ (by norm_num : (2 : ℚ) ≠ 0), mul_comm]
    norm_num
  have e1 : (2 : ℚ) ^ (ulpExponent q + 1) = 2 * 2 ^ ulpExponent q := by
    rw [zpow_add₀ (by norm_num : (2 : ℚ) ≠ 0), mul_comm]
    norm_num
  rcases eq_or_ne (roundHalfEven (q / 2 ^ ulpExponent q)) 0 with h0 | h0
  · rw [hv, h0]
    simp [roundBinary32_of_eq_zero]
  rcases eq_or_ne (roundHalfEven (q / 2 ^ ulpExponent q)) (2 ^ 24) with h24 | h24
  · rw [hv, h24]
    refine roundBinary32_pos _ _ (ulpExponent q + 24) ?_ ?_ ?_
    · rw [e24]
      push_cast
      norm_num
    · rw [e25]
      push_cast
      have : (0 : ℚ) < 2 ^ ulpExponent q := hp
      nlinarith
    · have hm : max (ulpExponent q + 24) (-126) - 23 = ulpExponent q + 1 := by omega
      rw [hm, e1]
      have : ((2 ^ 24 : Int) : ℚ) * 2 ^ ulpExponent q / (2 * 2 ^ ulpExponent q)
          = (((2 ^ 23 : Int) : Int) : ℚ) := by
        field_simp
        ring
      rw [this, roundHalfEven_intCast]
      ring
  rcases eq_or_ne (roundHalfEven (q / 2 ^ ulpExponent q)) (-(2 ^ 24)) with h24n | h24n
  · rw [hv, h24n]
    refine roundBinary32_neg _ _ (ulpExponent q + 24) ?_ ?_ ?_
    · rw [e24]
      push_cast
      norm_num
    · rw [e25]
      push_cast
      have : (0 : ℚ) < 2 ^ ulpExponent q := hp
      nlinarith
    · have hm : max (ulpExponent q + 24) (-126) - 23 = ulpExponent q + 1 := by omega
      rw [hm, e1]
      have : ((-(2 ^ 24) : Int) : ℚ) * 2 ^ ulpExponent q / (2 * 2 ^ ulpExponent q)
          = ((-(2 ^ 23 : Int) : Int) : ℚ) := by
        field_simp
        ring
      rw [this, roundHalfEven_intCast]
      ring
  -- the significand is non-zero and of magnitude below `2 ^ 24`
  have hq0 : q ≠ 0 := by
    intro h
    apply h0
    rw [h]
    simp [roundHalfEven_zero]
  have hv0 : roundBinary32 q ≠ 0 := by
    rw [hv]
    exact mul_ne_zero (by exact_mod_cast h0) hp.ne'
  have hlt : |roundBinary32 q| < (2 : ℚ) ^ (ulpExponent q + 24) := by
    rw [hv, abs_mul, abs_of_pos hp, e24]
    apply mul_lt_mul_of_pos_right _ hp
    have : |roundHalfEven (q / 2 ^ ulpExponent q)| < 2 ^ 24 := by
      rw [abs_lt]
      omega
    have h2 : ((|roundHalfEven (q / 2 ^ ulpExponent q)| : Int) : ℚ) < ((2 ^ 24 : Int) : ℚ) := by
      exact_mod_cast this
    push_cast at h2
    exact h2
  have hlog_lt : Int.log 2 |roundBinary32 q| < ulpExponent q + 24 :=
    (Int.lt_zpow_iff_log_lt (b := 2) (by norm_num) (abs_pos.mpr hv0)).mp (by exact_mod_cast hlt)
  have hlog_ge : -126 < ulpExponent q + 23 → ulpExponent q + 23 ≤ Int.log 2 |roundBinary32 q| := by
    intro hn
    apply (Int.zpow_le_iff_le_log (b := 2) (by norm_num) (abs_pos.mpr hv0)).mp
    rcases lt_or_gt_of_ne hq0 with hneg | hpos
    · have := roundBinary32_le_of_normal q hneg hn
      have hneg2 : roundBinary32 q < 0 := lt_of_le_of_lt this (by
        have : (0 : ℚ) < 2 ^ (ulpExponent q + 23) := by positivity
        linarith)
      rw [abs_of_neg hneg2]
      have : (2 : ℚ) ^ (ulpExponent q + 23) ≤ -roundBinary32 q := by linarith
      exact_mod_cast this
    · have := roundBinary32_ge_of_normal q hpos hn
      have hpos2 : 0 < roundBinary32 q := lt_of_lt_of_le (by positivity) this
      rw [abs_of_pos hpos2]
      exact_mod_cast this
  have hu : ulpExponent (roundBinary32 q) = ulpExponent q := by
    have hE : ulpExponent q = max (Int.log 2 |q|) (-126) - 23 := rfl
    unfold ulpExponent
    rcases lt_or_ge (-126) (ulpExponent q + 23) with hn | hn
    · have := hlog_ge hn
      omega
    · omega
  rw [hv] at hu ⊢
  exact roundBinary32_of_significand _ _ hu

/-- The sum of two binary32 values, rounded, is again a binary32 value. -/
theorem binary32_add_idem (a b : ℚ) : roundBinary32 (binary32.add a b) = binary32.add a b :=
  roundBinary32_idem _

/-! ## Helper lemmas on the routines with the arithmetic as a parameter -/

/-- In exact arithmetic the parametrised effective radius is `effectiveRadius`. -/
theorem WithArith_effectiveRadius_exact (rec : Rectangle) (requested : ℚ) :
    WithArith.effectiveRadius exactArith rec requested = effectiveRadius rec requested :=
  rfl

/-- In exact arithmetic the parametrised fill is the fill of `Main11`. -/
theorem WithArith_fill_exact (rec : Rectangle) (radiusBottom radiusTop slopeFactor : ℚ)
    (segments : Int) (color : Color) :
    WithArith.Main11.MyDrawSlopedRoundedRectangle exactArith rec radiusBottom radiusTop
        slopeFactor segments color
      = Main11.MyDrawSlopedRoundedRectangle rec radiusBottom radiusTop slopeFactor segments
          color :=
  rfl

/-- In exact arithmetic the parametrised outline is the outline of `Main12`. -/
theorem WithArith_wires_exact (rec : Rectangle) (radiusBottom radiusTop slopeFactor : ℚ)
    (segments : Int) (color : Color) (thickness : ℚ) :
    WithArith.Main12.MyDrawSlopedRoundedRectangleWires exactArith rec radiusBottom radiusTop
        slopeFactor segments color thickness
      = Main12.MyDrawSlopedRoundedRectangleWires rec radiusBottom radiusTop slopeFactor
          segments color thickness :=
  rfl

/-- In exact arithmetic the parametrised scaling step is that of `Main4`. -/
theorem WithArith_scaledRadii_exact (cfg : EyeConfig) :
    WithArith.Main4.EyeDrawer.scaledRadii exactArith cfg = Main4.EyeDrawer.scaledRadii cfg :=
  rfl

/-- In exact arithmetic the parametrised dash loop is that of `Main5`. -/
theorem WithArith_dashLoop_exact (L d sp : ℚ) (fuel : Nat) (cur : ℚ) :
    WithArith.Main5.ShapeDrawer.dashLoop exactArith L d sp fuel cur
      = Main5.ShapeDrawer.dashLoop L d sp fuel cur := by
  induction fuel generalizing cur with
  | zero => rfl
  | succ fuel ih =>
    unfold WithArith.Main5.ShapeDrawer.dashLoop Main5.ShapeDrawer.dashLoop
    simp only [ih]
    rfl

/-- In exact arithmetic the parametrised `DrawLineDashed` is that of `Main5`. -/
theorem WithArith_DrawLineDashed_exact (lib : FloatLib)
    (x1 y1 x2 y2 dashLength spaceLength : ℚ) (color : Color) (fuel : Nat) :
    WithArith.Main5.ShapeDrawer.DrawLineDashed exactArith lib x1 y1 x2 y2 dashLength
        spaceLength color fuel
      = Main5.ShapeDrawer.DrawLineDashed lib x1 y1 x2 y2 dashLength spaceLength color fuel := by
  unfold WithArith.Main5.ShapeDrawer.DrawLineDashed Main5.ShapeDrawer.DrawLineDashed
  simp only [WithArith_dashLoop_exact]
  rfl

/-- The call sequence of the parametrised fill, written with the named locals
of the source. -/
theorem WithArith_fill_eq (A : FloatArith) (rec : Rectangle)
    (radiusBottom radiusTop slopeFactor : ℚ) (segments : Int) (color : Color) :
    WithArith.Main11.MyDrawSlopedRoundedRectangle A rec radiusBottom radiusTop slopeFactor
        segments color
      = [ Primitive.DrawRectangle (toInt rec.x) (toInt (WithArith.y_top_straight A rec radiusTop))
            (toInt rec.width)
            (toInt (A.sub (WithArith.y_bottom_straight A rec radiusBottom)
              (WithArith.y_top_straight A rec radiusTop))) color,
          Primitive.DrawRectangle (toInt (WithArith.centers3 A rec radiusBottom).x)
            (toInt (WithArith.y_bottom_straight A rec radiusBottom))
            (toInt (A.sub (WithArith.centers2 A rec radiusBottom).x
              (WithArith.centers3 A rec radiusBottom).x))
            (toInt (WithArith.effectiveRadius A rec radiusBottom)) color,
          if 0 < WithArith.top_straight_width A rec radiusTop slopeFactor then
            Primitive.DrawTriangleFan
              [ ⟨(WithArith.centers0 A rec radiusTop).x, rec.y⟩,
                ⟨(WithArith.centers1 A rec radiusTop slopeFactor).x, rec.y⟩,
                ⟨(WithArith.centers1 A rec radiusTop slopeFactor).x,
                  WithArith.y_top_straight A rec radiusTop⟩,
                ⟨(WithArith.centers0 A rec radiusTop).x,
                  WithArith.y_top_straight A rec radiusTop⟩ ]
              4 color
          else
            Primitive.DrawRectangle (toInt rec.x) (toInt rec.y) (toInt rec.width)
              (toInt (WithArith.effectiveRadius A rec radiusTop)) color,
          Primitive.DrawRectangle (toInt rec.x)
            (toInt (WithArith.centers0 A rec radiusTop).y)
            (toInt (WithArith.effectiveRadius A rec radiusTop))
            (toInt (A.sub (WithArith.centers3 A rec radiusBottom).y
              (WithArith.centers0 A rec radiusTop).y)) color,
          Primitive.DrawTriangleFan
            [ ⟨A.add (WithArith.centers1 A rec radiusTop slopeFactor).x
                 (WithArith.effectiveRadius A rec radiusTop),
                WithArith.y_top_straight A rec radiusTop⟩,
              ⟨WithArith.x_tr_corner_sloped A rec slopeFactor,
                WithArith.y_top_straight A rec radiusTop⟩,
              ⟨A.add rec.x rec.width, WithArith.y_bottom_straight A rec radiusBottom⟩,
              ⟨A.add (WithArith.centers2 A rec radiusBottom).x
                 (WithArith.effectiveRadius A rec radiusBottom),
                WithArith.y_bottom_straight A rec radiusBottom⟩ ]
            4 color,
          Primitive.DrawCircleSector (WithArith.centers0 A rec radiusTop)
            (WithArith.effectiveRadius A rec radiusTop) 180 270 segments color,
          Primitive.DrawCircleSector (WithArith.centers1 A rec radiusTop slopeFactor)
            (WithArith.effectiveRadius A rec radiusTop) 270 360 segments color,
          Primitive.DrawCircleSector (WithArith.centers2 A rec radiusBottom)
            (WithArith.effectiveRadius A rec radiusBottom) 0 90 segments color,
          Primitive.DrawCircleSector (WithArith.centers3 A rec radiusBottom)
            (WithArith.effectiveRadius A rec radiusBottom) 90 180 segments color ] := by
  unfold WithArith.Main11.MyDrawSlopedRoundedRectangle WithArith.top_straight_width
    WithArith.centers0 WithArith.centers1 WithArith.centers2 WithArith.centers3
    WithArith.x_tr_corner_sloped WithArith.y_top_straight WithArith.y_bottom_straight
    WithArith.effectiveRadius
  dsimp only
  split_ifs <;> rfl

/-- The sectors of the parametrised fill, in call order. -/
theorem WithArith_fill_sectorsOf (A : FloatArith) (rec : Rectangle)
    (radiusBottom radiusTop slopeFactor : ℚ) (segments : Int) (color : Color) :
    sectorsOf (WithArith.Main11.MyDrawSlopedRoundedRectangle A rec radiusBottom radiusTop
        slopeFactor segments color)
      = [ ⟨WithArith.centers0 A rec radiusTop, WithArith.effectiveRadius A rec radiusTop,
            180, 270, segments⟩,
          ⟨WithArith.centers1 A rec radiusTop slopeFactor,
            WithArith.effectiveRadius A rec radiusTop, 270, 360, segments⟩,
          ⟨WithArith.centers2 A rec radiusBottom, WithArith.effectiveRadius A rec radiusBottom,
            0, 90, segments⟩,
          ⟨WithArith.centers3 A rec radiusBottom, WithArith.effectiveRadius A rec radiusBottom,
            90, 180, segments⟩ ] := by
  rw [WithArith_fill_eq]
  unfold sectorsOf
  split_ifs <;> rfl

/-- The call sequence of the parametrised outline, written with the named
locals of the source. -/
theorem WithArith_wires_eq (A : FloatArith) (rec : Rectangle)
    (radiusBottom radiusTop slopeFactor : ℚ) (segments : Int) (color : Color)
    (thickness : ℚ) :
    WithArith.Main12.MyDrawSlopedRoundedRectangleWires A rec radiusBottom radiusTop
        slopeFactor segments color thickness
      = [ Primitive.DrawLineEx
            ⟨A.sub (WithArith.centers3 A rec radiusBottom).x
                (WithArith.effectiveRadius A rec radiusBottom),
              (WithArith.centers3 A rec radiusBottom).y⟩
            ⟨A.sub (WithArith.centers0 A rec radiusTop).x
                (WithArith.effectiveRadius A rec radiusTop),
              (WithArith.centers0 A rec radiusTop).y⟩ thickness color,
          Primitive.DrawLineEx
            ⟨(WithArith.centers0 A rec radiusTop).x,
              A.sub (WithArith.centers0 A rec radiusTop).y
                (WithArith.effectiveRadius A rec radiusTop)⟩
            ⟨(WithArith.centers1 A rec radiusTop slopeFactor).x,
              A.sub (WithArith.centers1 A rec radiusTop slopeFactor).y
                (WithArith.effectiveRadius A rec radiusTop)⟩ thickness color,
          Primitive.DrawLineEx
            ⟨A.add (WithArith.centers1 A rec radiusTop slopeFactor).x
                (WithArith.effectiveRadius A rec radiusTop),
              (WithArith.centers1 A rec radiusTop slopeFactor).y⟩
            ⟨A.add (WithArith.centers2 A rec radiusBottom).x
                (WithArith.effectiveRadius A rec radiusBottom),
              (WithArith.centers2 A rec radiusBottom).y⟩ thickness color,
          Primitive.DrawLineEx
            ⟨(WithArith.centers3 A rec radiusBottom).x,
              A.add (WithArith.centers3 A rec radiusBottom).y
                (WithArith.effectiveRadius A rec radiusBottom)⟩
            ⟨(WithArith.centers2 A rec radiusBottom).x,
              A.add (WithArith.centers2 A rec radiusBottom).y
                (WithArith.effectiveRadius A rec radiusBottom)⟩ thickness color,
          Primitive.DrawCircleSectorLines (WithArith.centers0 A rec radiusTop)
            (WithArith.effectiveRadius A rec radiusTop) 180 270 segments color,
          Primitive.DrawCircleSectorLines (WithArith.centers1 A rec radiusTop slopeFactor)
            (WithArith.effectiveRadius A rec radiusTop) 270 360 segments color,
          Primitive.DrawCircleSectorLines (WithArith.centers2 A rec radiusBottom)
            (WithArith.effectiveRadius A rec radiusBottom) 0 90 segments color,
          Primitive.DrawCircleSectorLines (WithArith.centers3 A rec radiusBottom)
            (WithArith.effectiveRadius A rec radiusBottom) 90 180 segments color ] :=
  rfl

/-- A checked conversion that succeeds returns the truncated value. -/
theorem toIntChecked_eq_some (q : ℚ) (n : Int) (h : toIntChecked q = some n) : n = toInt q := by
  unfold toIntChecked at h
  split_ifs at h
  exact (Option.some.inj h).symm

/-- A checked conversion of a value in the `int` range succeeds. -/
theorem toIntChecked_of_inRange (q : ℚ) (h : INT_MIN ≤ toInt q ∧ toInt q ≤ INT_MAX) :
    toIntChecked q = some (toInt q) := by
  unfold toIntChecked
  rw [if_pos h]

/-- A checked `DrawRectangle` call that is made carries the truncated arguments. -/
theorem drawRectangleChecked_eq_some (x y w h : ℚ) (color : Color) (p : Primitive)
    (hp : drawRectangleChecked x y w h color = some p) :
    p = Primitive.DrawRectangle (toInt x) (toInt y) (toInt w) (toInt h) color := by
  unfold drawRectangleChecked at hp
  simp only [bind, Option.bind_eq_some, pure, Option.some.injEq] at hp
  obtain ⟨a, ha, b, hb, c, hc, d, hd, rfl⟩ := hp
  rw [toIntChecked_eq_some _ _ ha, toIntChecked_eq_some _ _ hb, toIntChecked_eq_some _ _ hc,
    toIntChecked_eq_some _ _ hd]

/-- A checked `DrawRectangle` call whose arguments are in the `int` range is made. -/
theorem drawRectangleChecked_of_inRange (x y w h : ℚ) (color : Color)
    (hx : INT_MIN ≤ toInt x ∧ toInt x ≤ INT_MAX) (hy : INT_MIN ≤ toInt y ∧ toInt y ≤ INT_MAX)
    (hw : INT_MIN ≤ toInt w ∧ toInt w ≤ INT_MAX) (hh : INT_MIN ≤ toInt h ∧ toInt h ≤ INT_MAX) :
    drawRectangleChecked x y w h color
      = some (Primitive.DrawRectangle (toInt x) (toInt y) (toInt w) (toInt h) color) := by
  unfold drawRectangleChecked
  rw [toIntChecked_of_inRange _ hx, toIntChecked_of_inRange _ hy, toIntChecked_of_inRange _ hw,
    toIntChecked_of_inRange _ hh]
  rfl

/-- A checked `DrawRectangle` call whose third argument is outside the `int`
range is undefined. -/
theorem drawRectangleChecked_width_none (x y w h : ℚ) (color : Color)
    (hw : toIntChecked w = none) : drawRectangleChecked x y w h color = none := by
  unfold drawRectangleChecked
  cases hx : toIntChecked x with
  | none => rfl
  | some a =>
    cases hy : toIntChecked y with
    | none => rfl
    | some b =>
      rw [hw]
      rfl

/-- When the checked fill returns, it returns the call sequence of the fill
with unchecked conversions. -/
theorem Checked_fill_eq_some (A : FloatArith) (rec : Rectangle)
    (radiusBottom radiusTop slopeFactor : ℚ) (segments : Int) (color : Color)
    (l : List Primitive)
    (h : WithArith.Main11.MyDrawSlopedRoundedRectangleChecked A rec radiusBottom radiusTop
        slopeFactor segments color = some l) :
    l = WithArith.Main11.MyDrawSlopedRoundedRectangle A rec radiusBottom radiusTop slopeFactor
        segments color := by
  unfold WithArith.Main11.MyDrawSlopedRoundedRectangleChecked at h
  unfold WithArith.Main11.MyDrawSlopedRoundedRectangle
  dsimp only at h ⊢
  split_ifs at h ⊢ with hgap
  · simp only [bind, Option.bind_eq_some, pure, Option.some.injEq] at h
    obtain ⟨central, hc, bottom, hb, top, ht, left, hl, rfl⟩ := h
    rw [drawRectangleChecked_eq_some _ _ _ _ _ _ hc,
      drawRectangleChecked_eq_some _ _ _ _ _ _ hb,
      drawRectangleChecked_eq_some _ _ _ _ _ _ hl, ← ht]
    rfl
  · simp only [bind, Option.bind_eq_some, pure, Option.some.injEq] at h
    obtain ⟨central, hc, bottom, hb, top, ht, left, hl, rfl⟩ := h
    rw [drawRectangleChecked_eq_some _ _ _ _ _ _ hc,
      drawRectangleChecked_eq_some _ _ _ _ _ _ hb,
      drawRectangleChecked_eq_some _ _ _ _ _ _ hl,
      drawRectangleChecked_eq_some _ _ _ _ _ _ ht]
    rfl

/-- The checked fill returns when every value it converts is in the `int` range. -/
theorem Checked_fill_of_inRange (A : FloatArith) (rec : Rectangle)
    (radiusBottom radiusTop slopeFactor : ℚ) (segments : Int) (color : Color)
    (hr : ∀ q ∈ [ rec.x, rec.y, rec.width, WithArith.y_top_straight A rec radiusTop,
        WithArith.y_bottom_straight A rec radiusBottom,
        A.sub (WithArith.y_bottom_straight A rec radiusBottom)
          (WithArith.y_top_straight A rec radiusTop),
        (WithArith.centers3 A rec radiusBottom).x,
        A.sub (WithArith.centers2 A rec radiusBottom).x
          (WithArith.centers3 A rec radiusBottom).x,
        WithArith.effectiveRadius A rec radiusBottom,
        WithArith.effectiveRadius A rec radiusTop ],
      INT_MIN ≤ toInt q ∧ toInt q ≤ INT_MAX) :
    WithArith.Main11.MyDrawSlopedRoundedRectangleChecked A rec radiusBottom radiusTop
        slopeFactor segments color
      = some (WithArith.Main11.MyDrawSlopedRoundedRectangle A rec radiusBottom radiusTop
          slopeFactor segments color) := by
  simp only [List.mem_cons, List.mem_singleton, List.not_mem_nil, or_false, forall_eq_or_imp,
    forall_eq] at hr
  obtain ⟨h1, h2, h3, h4, h5, h6, h7, h8, h9, h10⟩ := hr
  unfold WithArith.y_top_straight WithArith.y_bottom_straight WithArith.centers3
    WithArith.centers2 WithArith.effectiveRadius at *
  unfold WithArith.Main11.MyDrawSlopedRoundedRectangleChecked
    WithArith.Main11.MyDrawSlopedRoundedRectangle
  dsimp only at *
  rw [drawRectangleChecked_of_inRange _ _ _ _ _ h1 h4 h3 h6,
    drawRectangleChecked_of_inRange _ _ _ _ _ h7 h5 h8 h9,
    drawRectangleChecked_of_inRange _ _ _ _ _ h1 h4 h10 h6]
  split_ifs with hgap
  · rfl
  · rw [drawRectangleChecked_of_inRange _ _ _ _ _ h1 h2 h3 h10]
    rfl

theorem WithArith_effectiveRadius_mk (A : FloatArith) (x y w h requested : ℚ) :
    WithArith.effectiveRadius A ⟨x, y, w, h⟩ requested
      = fminf (fmaxf 0 requested) (A.div (fminf w h) 2) := by
  unfold WithArith.effectiveRadius
  rfl

theorem WithArith_y_top_straight_mk (A : FloatArith) (x y w h radiusTop : ℚ) :
    WithArith.y_top_straight A ⟨x, y, w, h⟩ radiusTop
      = A.add y (WithArith.effectiveRadius A ⟨x, y, w, h⟩ radiusTop) := by
  unfold WithArith.y_top_straight
  rfl

theorem WithArith_y_bottom_straight_mk (A : FloatArith) (x y w h radiusBottom : ℚ) :
    WithArith.y_bottom_straight A ⟨x, y, w, h⟩ radiusBottom
      = A.sub (A.add y h) (WithArith.effectiveRadius A ⟨x, y, w, h⟩ radiusBottom) := by
  unfold WithArith.y_bottom_straight
  rfl

theorem WithArith_x_tr_corner_sloped_mk (A : FloatArith) (x y w h slopeFactor : ℚ) :
    WithArith.x_tr_corner_sloped A ⟨x, y, w, h⟩ slopeFactor
      = A.sub (A.add x w) (A.mul slopeFactor h) := by
  unfold WithArith.x_tr_corner_sloped
  rfl

theorem WithArith_centers0_mk (A : FloatArith) (x y w h radiusTop : ℚ) :
    WithArith.centers0 A ⟨x, y, w, h⟩ radiusTop
      = ⟨A.add x (WithArith.effectiveRadius A ⟨x, y, w, h⟩ radiusTop),
          WithArith.y_top_straight A ⟨x, y, w, h⟩ radiusTop⟩ := by
  unfold WithArith.centers0
  rfl

theorem WithArith_centers1_mk (A : FloatArith) (x y w h radiusTop slopeFactor : ℚ) :
    WithArith.centers1 A ⟨x, y, w, h⟩ radiusTop slopeFactor
      = ⟨A.sub (WithArith.x_tr_corner_sloped A ⟨x, y, w, h⟩ slopeFactor)
            (WithArith.effectiveRadius A ⟨x, y, w, h⟩ radiusTop),
          WithArith.y_top_straight A ⟨x, y, w, h⟩ radiusTop⟩ := by
  unfold WithArith.centers1
  rfl

theorem WithArith_centers2_mk (A : FloatArith) (x y w h radiusBottom : ℚ) :
    WithArith.centers2 A ⟨x, y, w, h⟩ radiusBottom
      = ⟨A.sub (A.add x w) (WithArith.effectiveRadius A ⟨x, y, w, h⟩ radiusBottom),
          WithArith.y_bottom_straight A ⟨x, y, w, h⟩ radiusBottom⟩ := by
  unfold WithArith.centers2
  rfl

theorem WithArith_centers3_mk (A : FloatArith) (x y w h radiusBottom : ℚ) :
    WithArith.centers3 A ⟨x, y, w, h⟩ radiusBottom
      = ⟨A.add x (WithArith.effectiveRadius A ⟨x, y, w, h⟩ radiusBottom),
          WithArith.y_bottom_straight A ⟨x, y, w, h⟩ radiusBottom⟩ := by
  unfold WithArith.centers3
  rfl

theorem WithArith_top_straight_width_eq (A : FloatArith) (rec : Rectangle)
    (radiusTop slopeFactor : ℚ) :
    WithArith.top_straight_width A rec radiusTop slopeFactor
      = A.sub (WithArith.centers1 A rec radiusTop slopeFactor).x
          (WithArith.centers0 A rec radiusTop).x := by
  unfold WithArith.top_straight_width
  rfl

/-- The call sequence of the parametrised fill at a rectangle given by its fields. -/
theorem WithArith_fill_mk (A : FloatArith) (x y w h radiusBottom radiusTop slopeFactor : ℚ)
    (segments : Int) (color : Color) :
    WithArith.Main11.MyDrawSlopedRoundedRectangle A ⟨x, y, w, h⟩ radiusBottom radiusTop
        slopeFactor segments color
      = [ Primitive.DrawRectangle (toInt x)
            (toInt (WithArith.y_top_straight A ⟨x, y, w, h⟩ radiusTop)) (toInt w)
            (toInt (A.sub (WithArith.y_bottom_straight A ⟨x, y, w, h⟩ radiusBottom)
              (WithArith.y_top_straight A ⟨x, y, w, h⟩ radiusTop))) color,
          Primitive.DrawRectangle (toInt (WithArith.centers3 A ⟨x, y, w, h⟩ radiusBottom).x)
            (toInt (WithArith.y_bottom_straight A ⟨x, y, w, h⟩ radiusBottom))
            (toInt (A.sub (WithArith.centers2 A ⟨x, y, w, h⟩ radiusBottom).x
              (WithArith.centers3 A ⟨x, y, w, h⟩ radiusBottom).x))
            (toInt (WithArith.effectiveRadius A ⟨x, y, w, h⟩ radiusBottom)) color,
          if 0 < WithArith.top_straight_width A ⟨x, y, w, h⟩ radiusTop slopeFactor then
            Primitive.DrawTriangleFan
              [ ⟨(WithArith.centers0 A ⟨x, y, w, h⟩ radiusTop).x, y⟩,
                ⟨(WithArith.centers1 A ⟨x, y, w, h⟩ radiusTop slopeFactor).x, y⟩,
                ⟨(WithArith.centers1 A ⟨x, y, w, h⟩ radiusTop slopeFactor).x,
                  WithArith.y_top_straight A ⟨x, y, w, h⟩ radiusTop⟩,
                ⟨(WithArith.centers0 A ⟨x, y, w, h⟩ radiusTop).x,
                  WithArith.y_top_straight A ⟨x, y, w, h⟩ radiusTop⟩ ]
              4 color
          else
            Primitive.DrawRectangle (toInt x) (toInt y) (toInt w)
              (toInt (WithArith.effectiveRadius A ⟨x, y, w, h⟩ radiusTop)) color,
          Primitive.DrawRectangle (toInt x)
            (toInt (WithArith.centers0 A ⟨x, y, w, h⟩ radiusTop).y)
            (toInt (WithArith.effectiveRadius A ⟨x, y, w, h⟩ radiusTop))
            (toInt (A.sub (WithArith.centers3 A ⟨x, y, w, h⟩ radiusBottom).y
              (WithArith.centers0 A ⟨x, y, w, h⟩ radiusTop).y)) color,
          Primitive.DrawTriangleFan
            [ ⟨A.add (WithArith.centers1 A ⟨x, y, w, h⟩ radiusTop slopeFactor).x
                 (WithArith.effectiveRadius A ⟨x, y, w, h⟩ radiusTop),
                WithArith.y_top_straight A ⟨x, y, w, h⟩ radiusTop⟩,
              ⟨WithArith.x_tr_corner_sloped A ⟨x, y, w, h⟩ slopeFactor,
                WithArith.y_top_straight A ⟨x, y, w, h⟩ radiusTop⟩,
              ⟨A.add x w, WithArith.y_bottom_straight A ⟨x, y, w, h⟩ radiusBottom⟩,
              ⟨A.add (WithArith.centers2 A ⟨x, y, w, h⟩ radiusBottom).x
                 (WithArith.effectiveRadius A ⟨x, y, w, h⟩ radiusBottom),
                WithArith.y_bottom_straight A ⟨x, y, w, h⟩ radiusBottom⟩ ]
            4 color,
          Primitive.DrawCircleSector (WithArith.centers0 A ⟨x, y, w, h⟩ radiusTop)
            (WithArith.effectiveRadius A ⟨x, y, w, h⟩ radiusTop) 180 270 segments color,
          Primitive.DrawCircleSector (WithArith.centers1 A ⟨x, y, w, h⟩ radiusTop slopeFactor)
            (WithArith.effectiveRadius A ⟨x, y, w, h⟩ radiusTop) 270 360 segments color,
          Primitive.DrawCircleSector (WithArith.centers2 A ⟨x, y, w, h⟩ radiusBottom)
            (WithArith.effectiveRadius A ⟨x, y, w, h⟩ radiusBottom) 0 90 segments color,
          Primitive.DrawCircleSector (WithArith.centers3 A ⟨x, y, w, h⟩ radiusBottom)
            (WithArith.effectiveRadius A ⟨x, y, w, h⟩ radiusBottom) 90 180 segments color ] :=
  WithArith_fill_eq A ⟨x, y, w, h⟩ radiusBottom radiusTop slopeFactor segments color

theorem WithArith_totalHeight_mk (A : FloatArith)
    (OffsetX OffsetY Height Width Slope_Top Slope_Bottom Radius_Top Radius_Bottom : ℚ)
    (b1 b2 b3 b4 : Bool) :
    WithArith.Main4.EyeDrawer.totalHeight A
        ⟨OffsetX, OffsetY, Height, Width, Slope_Top, Slope_Bottom, Radius_Top, Radius_Bottom,
          b1, b2, b3, b4⟩
      = A.sub (A.add Height (A.div (A.mul Height Slope_Top) 2))
          (A.div (A.mul Height Slope_Bottom) 2) := by
  unfold WithArith.Main4.EyeDrawer.totalHeight
  rfl

theorem WithArith_scaledRadii_mk (A : FloatArith)
    (OffsetX OffsetY Height Width Slope_Top Slope_Bottom Radius_Top Radius_Bottom : ℚ)
    (b1 b2 b3 b4 : Bool) :
    WithArith.Main4.EyeDrawer.scaledRadii A
        ⟨OffsetX, OffsetY, Height, Width, Slope_Top, Slope_Bottom, Radius_Top, Radius_Bottom,
          b1, b2, b3, b4⟩
      = (if A.add Radius_Top Radius_Bottom
            > A.sub (WithArith.Main4.EyeDrawer.totalHeight A
                ⟨OffsetX, OffsetY, Height, Width, Slope_Top, Slope_Bottom, Radius_Top,
                  Radius_Bottom, b1, b2, b3, b4⟩) 1 then
          (A.mul Radius_Top
              (A.div
                (A.sub (WithArith.Main4.EyeDrawer.totalHeight A
                  ⟨OffsetX, OffsetY, Height, Width, Slope_Top, Slope_Bottom, Radius_Top,
                    Radius_Bottom, b1, b2, b3, b4⟩) 1)
                (A.add Radius_Top Radius_Bottom)),
            A.mul Radius_Bottom
              (A.div
                (A.sub (WithArith.Main4.EyeDrawer.totalHeight A
                  ⟨OffsetX, OffsetY, Height, Width, Slope_Top, Slope_Bottom, Radius_Top,
                    Radius_Bottom, b1, b2, b3, b4⟩) 1)
                (A.add Radius_Top Radius_Bottom)))
        else (Radius_Top, Radius_Bottom)) := by
  unfold WithArith.Main4.EyeDrawer.scaledRadii
  rfl

/-- Truncating two non-negative summands separately loses at most one unit
against truncating their sum. -/
theorem toInt_add_bounds (a d : ℚ) (ha : 0 ≤ a) (hd : 0 ≤ d) :
    toInt (a + d) - 1 ≤ toInt a + toInt d ∧ toInt a + toInt d ≤ toInt (a + d) := by
  rw [toInt_of_nonneg a ha, toInt_of_nonneg d hd, toInt_of_nonneg (a + d) (add_nonneg ha hd)]
  exact ⟨Int.le_floor_add_floor a d, Int.le_floor_add a d⟩

/-- The truncation of a non-negative rational with a known integer part. -/
theorem toInt_eq_of_floor (q : ℚ) (n : Int) (h0 : 0 ≤ q) (h1 : (n : ℚ) ≤ q)
    (h2 : q < (n : ℚ) + 1) : toInt q = n := by
  rw [toInt_of_nonneg q h0]
  exact Int.floor_eq_iff.mpr ⟨h1, h2⟩

/-- In binary32 arithmetic, eight frames with `KEY_Y` down take the `slopeFactor`
of the `main_11.cpp` harness from `0.2f` to `16106125 / 2^26`, about
`0.23999996`. -/
theorem slopeFactorAfter_8_KEY_Y :
    WithArith.Main11.slopeFactorAfter binary32 (List.replicate 8 (false, true))
      = 16106125 / 67108864 := by
  have s1 : binary32.lit (2 / 10) = (13421773 / 67108864) :=
    roundBinary32_pos _ _ (-3) (by norm_num) (by norm_num) (by norm_num [roundHalfEven])
  have s2 : binary32.lit (5 / 1000) = (5368709 / 1073741824) :=
    roundBinary32_pos _ _ (-8) (by norm_num) (by norm_num) (by norm_num [roundHalfEven])
  have s3 : binary32.add (13421773 / 67108864) (5368709 / 1073741824) = (13757317 / 67108864) :=
    roundBinary32_pos _ _ (-3) (by norm_num) (by norm_num) (by norm_num [roundHalfEven])
  have s4 : binary32.add (13757317 / 67108864) (5368709 / 1073741824) = (14092861 / 67108864) :=
    roundBinary32_pos _ _ (-3) (by norm_num) (by norm_num) (by norm_num [roundHalfEven])
  have s5 : binary32.add (14092861 / 67108864) (5368709 / 1073741824) = (14428405 / 67108864) :=
    roundBinary32_pos _ _ (-3) (by norm_num) (by norm_num) (by norm_num [roundHalfEven])
  have s6 : binary32.add (14428405 / 67108864) (5368709 / 1073741824) = (14763949 / 67108864) :=
    roundBinary32_pos _ _ (-3) (by norm_num) (by norm_num) (by norm_num [roundHalfEven])
  have s7 : binary32.add (14763949 / 67108864) (5368709 / 1073741824) = (15099493 / 67108864) :=
    roundBinary32_pos _ _ (-3) (by norm_num) (by norm_num) (by norm_num [roundHalfEven])
  have s8 : binary32.add (15099493 / 67108864) (5368709 / 1073741824) = (15435037 / 67108864) :=
    roundBinary32_pos _ _ (-3) (by norm_num) (by norm_num) (by norm_num [roundHalfEven])
  have s9 : binary32.add (15435037 / 67108864) (5368709 / 1073741824) = (15770581 / 67108864) :=
    roundBinary32_pos _ _ (-3) (by norm_num) (by norm_num) (by norm_num [roundHalfEven])
  have s10 : binary32.add (15770581 / 67108864) (5368709 / 1073741824) = (16106125 / 67108864) :=
    roundBinary32_pos _ _ (-3) (by norm_num) (by norm_num) (by norm_num [roundHalfEven])
  simp only [WithArith.Main11.slopeFactorAfter, WithArith.Main11.initialSlopeFactor,
    WithArith.Main11.updateSlopeFactor, List.replicate, List.foldl, if_true, if_false,
    Bool.false_eq_true, s1, s2, s3, s4, s5, s6, s7, s8, s9, s10]


set_option maxRecDepth 20000 in
/-- In binary32 arithmetic, forty frames with `KEY_T` down take the
`slopeFactor` of the `main_11.cpp` harness from `0.2f` to `7 / 2^27`, about
`5.2e-8`. -/
theorem slopeFactorAfter_40_KEY_T :
    WithArith.Main11.slopeFactorAfter binary32 (List.replicate 40 (true, false))
      = 7 / 134217728 := by
  have s1 : binary32.lit (2 / 10) = (13421773 / 67108864) :=
    roundBinary32_pos _ _ (-3) (by norm_num) (by norm_num) (by norm_num [roundHalfEven])
  have s2 : binary32.lit (5 / 1000) = (5368709 / 1073741824) :=
    roundBinary32_pos _ _ (-8) (by norm_num) (by norm_num) (by norm_num [roundHalfEven])
  have s3 : binary32.sub (13421773 / 67108864) (5368709 / 1073741824) = (13086229 / 67108864) :=
    roundBinary32_pos _ _ (-3) (by norm_num) (by norm_num) (by norm_num [roundHalfEven])
  have s4 : binary32.sub (13086229 / 67108864) (5368709 / 1073741824) = (12750685 / 67108864) :=
    roundBinary32_pos _ _ (-3) (by norm_num) (by norm_num) (by norm_num [roundHalfEven])
  have s5 : binary32.sub (12750685 / 67108864) (5368709 / 1073741824) = (12415141 / 67108864) :=
    roundBinary32_pos _ _ (-3) (by norm_num) (by norm_num) (by norm_num [roundHalfEven])
  have s6 : binary32.sub (12415141 / 67108864) (5368709 / 1073741824) = (12079597 / 67108864) :=
    roundBinary32_pos _ _ (-3) (by norm_num) (by norm_num) (by norm_num [roundHalfEven])
  have s7 : binary32.sub (12079597 / 67108864) (5368709 / 1073741824) = (11744053 / 67108864) :=
    roundBinary32_pos _ _ (-3) (by norm_num) (by norm_num) (by norm_num [roundHalfEven])
  have s8 : binary32.sub (11744053 / 67108864) (5368709 / 1073741824) = (11408509 / 67108864) :=
    roundBinary32_pos _ _ (-3) (by norm_num) (by norm_num) (by norm_num [roundHalfEven])
  have s9 : binary32.sub (11408509 / 67108864) (5368709 / 1073741824) = (11072965 / 67108864) :=
    roundBinary32_pos _ _ (-3) (by norm_num) (by norm_num) (by norm_num [roundHalfEven])
  have s10 : binary32.sub (11072965 / 67108864) (5368709 / 1073741824) = (10737421 / 67108864) :=
    roundBinary32_pos _ _ (-3) (by norm_num) (by norm_num) (by norm_num [roundHalfEven])
  have s11 : binary32.sub (10737421 / 67108864) (5368709 / 1073741824) = (10401877 / 67108864) :=
    roundBinary32_pos _ _ (-3) (by norm_num) (by norm_num) (by norm_num [roundHalfEven])
  have s12 : binary32.sub (10401877 / 67108864) (5368709 / 1073741824) = (10066333 / 67108864) :=
    roundBinary32_pos _ _ (-3) (by norm_num) (by norm_num) (by norm_num [roundHalfEven])
  have s13 : binary32.sub (10066333 / 67108864) (5368709 / 1073741824) = (9730789 / 67108864) :=
    roundBinary32_pos _ _ (-3) (by norm_num) (by norm_num) (by norm_num [roundHalfEven])
  have s14 : binary32.sub (9730789 / 67108864) (5368709 / 1073741824) = (9395245 / 67108864) :=
    roundBinary32_pos _ _ (-3) (by norm_num) (by norm_num) (by norm_num [roundHalfEven])
  have s15 : binary32.sub (9395245 / 67108864) (5368709 / 1073741824) = (9059701 / 67108864) :=
    roundBinary32_pos _ _ (-3) (by norm_num) (by norm_num) (by norm_num [roundHalfEven])
  have s16 : binary32.sub (9059701 / 67108864) (5368709 / 1073741824) = (8724157 / 67108864) :=
    roundBinary32_pos _ _ (-3) (by norm_num) (by norm_num) (by norm_num [roundHalfEven])
  have s17 : binary32.sub (8724157 / 67108864) (5368709 / 1073741824) = (8388613 / 67108864) :=
    roundBinary32_pos _ _ (-3) (by norm_num) (by norm_num) (by norm_num [roundHalfEven])
  have s18 : binary32.sub (8388613 / 67108864) (5368709 / 1073741824) = (16106137 / 134217728) :=
    roundBinary32_pos _ _ (-4) (by norm_num) (by norm_num) (by norm_num [roundHalfEven])
  have s19 : binary32.sub (16106137 / 134217728) (5368709 / 1073741824) = (1929381 / 16777216) :=
    roundBinary32_pos _ _ (-4) (by norm_num) (by norm_num) (by norm_num [roundHalfEven])
  have s20 : binary32.sub (1929381 / 16777216) (5368709 / 1073741824) = (14763959 / 134217728) :=
    roundBinary32_pos _ _ (-4) (by norm_num) (by norm_num) (by norm_num [roundHalfEven])
  have s21 : binary32.sub (14763959 / 134217728) (5368709 / 1073741824) = (7046435 / 67108864) :=
    roundBinary32_pos _ _ (-4) (by norm_num) (by norm_num) (by norm_num [roundHalfEven])
  have s22 : binary32.sub (7046435 / 67108864) (5368709 / 1073741824) = (13421781 / 134217728) :=
    roundBinary32_pos _ _ (-4) (by norm_num) (by norm_num) (by norm_num [roundHalfEven])
  have s23 : binary32.sub (13421781 / 134217728) (5368709 / 1073741824) = (3187673 / 33554432) :=
    roundBinary32_pos _ _ (-4) (by norm_num) (by norm_num) (by norm_num [roundHalfEven])
  have s24 : binary32.sub (3187673 / 33554432) (5368709 / 1073741824) = (12079603 / 134217728) :=
    roundBinary32_pos _ _ (-4) (by norm_num) (by norm_num) (by norm_num [roundHalfEven])
  have s25 : binary32.sub (12079603 / 134217728) (5368709 / 1073741824) = (5704257 / 67108864) :=
    roundBinary32_pos _ _ (-4) (by norm_num) (by norm_num) (by norm_num [roundHalfEven])
  have s26 : binary32.sub (5704257 / 67108864) (5368709 / 1073741824) = (10737425 / 134217728) :=
    roundBinary32_pos _ _ (-4) (by norm_num) (by norm_num) (by norm_num [roundHalfEven])
  have s27 : binary32.sub (10737425 / 134217728) (5368709 / 1073741824) = (314573 / 4194304) :=
    roundBinary32_pos _ _ (-4) (by norm_num) (by norm_num) (by norm_num [roundHalfEven])
  have s28 : binary32.sub (314573 / 4194304) (5368709 / 1073741824) = (9395247 / 134217728) :=
    roundBinary32_pos _ _ (-4) (by norm_num) (by norm_num) (by norm_num [roundHalfEven])
  have s29 : binary32.sub (9395247 / 134217728) (5368709 / 1073741824) = (4362079 / 67108864) :=
    roundBinary32_pos _ _ (-4) (by norm_num) (by norm_num) (by norm_num [roundHalfEven])
  have s30 : binary32.sub (4362079 / 67108864) (5368709 / 1073741824) = (16106139 / 268435456) :=
    roundBinary32_pos _ _ (-5) (by norm_num) (by norm_num) (by norm_num [roundHalfEven])
  have s31 : binary32.sub (16106139 / 268435456) (5368709 / 1073741824) = (7381981 / 134217728) :=
    roundBinary32_pos _ _ (-5) (by norm_num) (by norm_num) (by norm_num [roundHalfEven])
  have s32 : binary32.sub (7381981 / 134217728) (5368709 / 1073741824) = (13421785 / 268435456) :=
    roundBinary32_pos _ _ (-5) (by norm_num) (by norm_num) (by norm_num [roundHalfEven])
  have s33 : binary32.sub (13421785 / 268435456) (5368709 / 1073741824) = (1509951 / 33554432) :=
    roundBinary32_pos _ _ (-5) (by norm_num) (by norm_num) (by norm_num [roundHalfEven])
  have s34 : binary32.sub (1509951 / 33554432) (5368709 / 1073741824) = (10737431 / 268435456) :=
    roundBinary32_pos _ _ (-5) (by norm_num) (by norm_num) (by norm_num [roundHalfEven])
  have s35 : binary32.sub (10737431 / 268435456) (5368709 / 1073741824) = (4697627 / 134217728) :=
    roundBinary32_pos _ _ (-5) (by norm_num) (by norm_num) (by norm_num [roundHalfEven])
  have s36 : binary32.sub (4697627 / 134217728) (5368709 / 1073741824) = (8053077 / 268435456) :=
    roundBinary32_pos _ _ (-6) (by norm_num) (by norm_num) (by norm_num [roundHalfEven])
  have s37 : binary32.sub (8053077 / 268435456) (5368709 / 1073741824) = (1677725 / 67108864) :=
    roundBinary32_pos _ _ (-6) (by norm_num) (by norm_num) (by norm_num [roundHalfEven])
  have s38 : binary32.sub (1677725 / 67108864) (5368709 / 1073741824) = (5368723 / 268435456) :=
    roundBinary32_pos _ _ (-6) (by norm_num) (by norm_num) (by norm_num [roundHalfEven])
  have s39 : binary32.sub (5368723 / 268435456) (5368709 / 1073741824) = (16106183 / 1073741824) :=
    roundBinary32_pos _ _ (-7) (by norm_num) (by norm_num) (by norm_num [roundHalfEven])
  have s40 : binary32.sub (16106183 / 1073741824) (5368709 / 1073741824) = (5368737 / 536870912) :=
    roundBinary32_pos _ _ (-7) (by norm_num) (by norm_num) (by norm_num [roundHalfEven])
  have s41 : binary32.sub (5368737 / 536870912) (5368709 / 1073741824) = (5368765 / 1073741824) :=
    roundBinary32_pos _ _ (-8) (by norm_num) (by norm_num) (by norm_num [roundHalfEven])
  have s42 : binary32.sub (5368765 / 1073741824) (5368709 / 1073741824) = (7 / 134217728) :=
    roundBinary32_pos _ _ (-25) (by norm_num) (by norm_num) (by norm_num [roundHalfEven])
  simp only [WithArith.Main11.slopeFactorAfter, WithArith.Main11.initialSlopeFactor,
    WithArith.Main11.updateSlopeFactor, List.replicate, List.foldl, if_true, if_false,
    Bool.false_eq_true, s1, s2, s3, s4, s5, s6, s7, s8, s9, s10, s11, s12, s13, s14, s15, s16, s17,
        s18, s19, s20, s21, s22, s23, s24, s25, s26, s27, s28, s29, s30, s31, s32, s33, s34, s35,
        s36, s37, s38, s39, s40, s41, s42]

/-- The harness of `main_12.cpp` updates `slopeFactor` as that of `main_11.cpp` does. -/
theorem Main12_slopeFactorAfter_eq (A : FloatArith) (frames : List (Bool × Bool)) :
    WithArith.Main12.slopeFactorAfter A frames = WithArith.Main11.slopeFactorAfter A frames :=
  rfl

/-! ### The fill of `main_11.cpp` in binary32 arithmetic: order facts -/

/-- A binary32 difference that is positive has a positive exact difference. -/
theorem binary32_sub_pos_imp (a b : ℚ) (h : 0 < binary32.sub a b) : b < a := by
  by_contra hc
  have h1 : a - b ≤ 0 := by linarith [not_lt.mp hc]
  have h2 : binary32.sub a b ≤ 0 := roundBinary32_nonpos _ h1
  linarith

/-- In binary32 arithmetic the sloped corner does not move right when the slope
factor grows, for a rectangle of non-negative height. -/
theorem binary32_x_tr_corner_sloped_antitone (rec : Rectangle) (s1 s2 : ℚ)
    (hh : 0 ≤ rec.height) (hs : s1 ≤ s2) :
    WithArith.x_tr_corner_sloped binary32 rec s2 ≤ WithArith.x_tr_corner_sloped binary32 rec s1 :=
        by
  unfold WithArith.x_tr_corner_sloped
  have h1 : binary32.mul s1 rec.height ≤ binary32.mul s2 rec.height :=
    roundBinary32_mono _ _ (mul_le_mul_of_nonneg_right hs hh)
  exact roundBinary32_mono _ _ (by linarith)

/-- In binary32 arithmetic the TopRight centre does not move right when the
slope factor grows, for a rectangle of non-negative height. -/
theorem binary32_centers1_antitone (rec : Rectangle) (radiusTop s1 s2 : ℚ)
    (hh : 0 ≤ rec.height) (hs : s1 ≤ s2) :
    (WithArith.centers1 binary32 rec radiusTop s2).x
      ≤ (WithArith.centers1 binary32 rec radiusTop s1).x := by
  have h := binary32_x_tr_corner_sloped_antitone rec s1 s2 hh hs
  unfold WithArith.centers1
  exact roundBinary32_mono _ _ (by linarith)

/-- In binary32 arithmetic a zero slope factor leaves the sloped corner at the
computed `rec.x + rec.width`. -/
theorem binary32_x_tr_corner_sloped_zero (rec : Rectangle) :
    WithArith.x_tr_corner_sloped binary32 rec 0 = binary32.add rec.x rec.width := by
  unfold WithArith.x_tr_corner_sloped
  have h0 : binary32.mul 0 rec.height = 0 := roundBinary32_of_eq_zero _ (by ring)
  rw [h0]
  have : binary32.sub (binary32.add rec.x rec.width) 0
      = roundBinary32 (roundBinary32 (rec.x + rec.width)) := by
    show roundBinary32 (roundBinary32 (rec.x + rec.width) - 0) = _
    rw [sub_zero]
  rw [this, roundBinary32_idem]
  rfl

/-! ### `MyDrawRectangleRounded` with the arithmetic as a parameter -/

/-- In exact arithmetic the parametrised rounded rectangle routine is that of
`Main8Basic`. -/
theorem WithArith_rounded_exact (rec : Rectangle) (roundness : ℚ) (segments : Int)
    (color : Color) :
    WithArith.Main8Basic.MyDrawRectangleRounded exactArith rec roundness segments color
      = Main8Basic.MyDrawRectangleRounded rec roundness segments color :=
  rfl

/-- The call sequence of the parametrised rounded rectangle routine, written
with its local `radius`. -/
theorem WithArith_rounded_eq (A : FloatArith) (rec : Rectangle) (roundness : ℚ)
    (segments : Int) (color : Color) :
    WithArith.Main8Basic.MyDrawRectangleRounded A rec roundness segments color
      = (if WithArith.Main8Basic.radius A rec roundness ≤ 0 then
          [ Primitive.DrawRectangleRec rec color ]
        else
          [ Primitive.DrawRectangle (toInt rec.x)
              (toInt (A.add rec.y (WithArith.Main8Basic.radius A rec roundness)))
              (toInt rec.width)
              (toInt (A.sub rec.height (A.mul 2 (WithArith.Main8Basic.radius A rec roundness))))
              color,
            Primitive.DrawRectangle
              (toInt (A.add rec.x (WithArith.Main8Basic.radius A rec roundness))) (toInt rec.y)
              (toInt (A.sub rec.width (A.mul 2 (WithArith.Main8Basic.radius A rec roundness))))
              (toInt (WithArith.Main8Basic.radius A rec roundness)) color,
            Primitive.DrawRectangle
              (toInt (A.add rec.x (WithArith.Main8Basic.radius A rec roundness)))
              (toInt (A.sub (A.add rec.y rec.height)
                (WithArith.Main8Basic.radius A rec roundness)))
              (toInt (A.sub rec.width (A.mul 2 (WithArith.Main8Basic.radius A rec roundness))))
              (toInt (WithArith.Main8Basic.radius A rec roundness)) color,
            Primitive.DrawCircleSector
              ⟨A.add rec.x (WithArith.Main8Basic.radius A rec roundness),
                A.add rec.y (WithArith.Main8Basic.radius A rec roundness)⟩
              (WithArith.Main8Basic.radius A rec roundness) 180 270 segments color,
            Primitive.DrawCircleSector
              ⟨A.sub (A.add rec.x rec.width) (WithArith.Main8Basic.radius A rec roundness),
                A.add rec.y (WithArith.Main8Basic.radius A rec roundness)⟩
              (WithArith.Main8Basic.radius A rec roundness) 270 360 segments color,
            Primitive.DrawCircleSector
              ⟨A.sub (A.add rec.x rec.width) (WithArith.Main8Basic.radius A rec roundness),
                A.sub (A.add rec.y rec.height) (WithArith.Main8Basic.radius A rec roundness)⟩
              (WithArith.Main8Basic.radius A rec roundness) 0 90 segments color,
            Primitive.DrawCircleSector
              ⟨A.add rec.x (WithArith.Main8Basic.radius A rec roundness),
                A.sub (A.add rec.y rec.height) (WithArith.Main8Basic.radius A rec roundness)⟩
              (WithArith.Main8Basic.radius A rec roundness) 90 180 segments color ]) := by
  unfold WithArith.Main8Basic.MyDrawRectangleRounded WithArith.Main8Basic.radius
  dsimp only
  split_ifs
  · rfl
  · norm_num [List.range, List.range.loop]

theorem WithArith_rounded_radius_mk (A : FloatArith) (x y w h roundness : ℚ) :
    WithArith.Main8Basic.radius A ⟨x, y, w, h⟩ roundness
      = A.div (A.mul roundness (fminf w h)) 2 := by
  unfold WithArith.Main8Basic.radius
  rfl

/-- In binary32 arithmetic the radius for `roundness = 0` is `0`. -/
theorem binary32_rounded_radius_zero (rec : Rectangle) :
    WithArith.Main8Basic.radius binary32 rec 0 = 0 := by
  unfold WithArith.Main8Basic.radius
  have h0 : binary32.mul 0 (fminf rec.width rec.height) = 0 :=
    roundBinary32_of_eq_zero _ (by ring)
  rw [h0]
  exact roundBinary32_of_eq_zero _ (by norm_num)

/-- In binary32 arithmetic, for `roundness ≤ 1` and a non-negative shorter side
that is a binary32 value, the radius is at most the computed half of the
shorter side. -/
theorem binary32_rounded_radius_le (rec : Rectangle) (roundness : ℚ) (h1 : roundness ≤ 1)
    (hm : 0 ≤ fminf rec.width rec.height)
    (hrep : roundBinary32 (fminf rec.width rec.height) = fminf rec.width rec.height) :
    WithArith.Main8Basic.radius binary32 rec roundness
      ≤ binary32.div (fminf rec.width rec.height) 2 := by
  unfold WithArith.Main8Basic.radius
  have hp : roundness * fminf rec.width rec.height ≤ fminf rec.width rec.height := by
    have := mul_le_mul_of_nonneg_right h1 hm
    linarith
  have h2 : binary32.mul roundness (fminf rec.width rec.height)
      ≤ fminf rec.width rec.height := by
    have := roundBinary32_mono _ _ hp
    rwa [hrep] at this
  exact roundBinary32_mono _ _ (by linarith)

/-- In binary32 arithmetic a positive radius for `roundness ≥ 0` needs a
positive shorter side. -/
theorem binary32_rounded_radius_pos_imp (rec : Rectangle) (roundness : ℚ) (h0 : 0 ≤ roundness)
    (hr : 0 < WithArith.Main8Basic.radius binary32 rec roundness) :
    0 < fminf rec.width rec.height := by
  by_contra hc
  have hm : fminf rec.width rec.height ≤ 0 := not_lt.mp hc
  have h1 : binary32.mul roundness (fminf rec.width rec.height) ≤ 0 :=
    roundBinary32_nonpos _ (mul_nonpos_of_nonneg_of_nonpos h0 hm)
  have h2 : WithArith.Main8Basic.radius binary32 rec roundness ≤ 0 := by
    unfold WithArith.Main8Basic.radius
    exact roundBinary32_nonpos _ (by linarith)
  linarith

/-! ## Claims -/

/-- C1 (radius clamping in the fill of `main_11.cpp` / `main_13.cpp`): for a
rectangle with `width ≥ 0` and `height ≥ 0` and any requested radii, the radius
carried by each emitted sector is the spec's
`clamp(requested, 0, min(width, height) / 2)`, which equals
`min(max(0, requested), min(width, height) / 2)`: the two top sectors use the
clamped `radiusTop`, the two bottom sectors the clamped `radiusBottom`, both
against the same maximum, and neither exceeds `min(width, height) / 2`. -/
theorem C1_radius_clamp (rec : Rectangle) (radiusBottom radiusTop slopeFactor : ℚ)
    (segments : Int) (color : Color) (hw : 0 ≤ rec.width) (hh : 0 ≤ rec.height) :
    (sectorsOf (Main11.MyDrawSlopedRoundedRectangle rec radiusBottom radiusTop slopeFactor
        segments color)).map SectorData.radius
      = [ specEffectiveRadius rec radiusTop, specEffectiveRadius rec radiusTop,
          specEffectiveRadius rec radiusBottom, specEffectiveRadius rec radiusBottom ]
    ∧ (sectorsOf (Main13.MyDrawSlopedRoundedRectangle rec radiusBottom radiusTop slopeFactor
        segments color)).map SectorData.radius
      = [ specEffectiveRadius rec radiusTop, specEffectiveRadius rec radiusTop,
          specEffectiveRadius rec radiusBottom, specEffectiveRadius rec radiusBottom ]
    ∧ specEffectiveRadius rec radiusTop
        = min (max 0 radiusTop) (min rec.width rec.height / 2)
    ∧ specEffectiveRadius rec radiusBottom
        = min (max 0 radiusBottom) (min rec.width rec.height / 2)
    ∧ specEffectiveRadius rec radiusTop ≤ min rec.width rec.height / 2
    ∧ specEffectiveRadius rec radiusBottom ≤ min rec.width rec.height / 2 := by
  have hM := halfMin_nonneg rec hw hh
  have hT := specClamp_eq_min_max radiusTop _ hM
  have hB := specClamp_eq_min_max radiusBottom _ hM
  have eT := effectiveRadius_eq_spec rec radiusTop hw hh
  have eB := effectiveRadius_eq_spec rec radiusBottom hw hh
  refine ⟨?_, ?_, hT, hB, ?_, ?_⟩
  · rw [Main11_sectorsOf]
    simp only [eT, eB, List.map_cons, List.map_nil]
  · rw [Main13_fill_eq_Main11, Main11_sectorsOf]
    simp only [eT, eB, List.map_cons, List.map_nil]
  · rw [specEffectiveRadius, hT]
    exact min_le_right _ _
  · rw [specEffectiveRadius, hB]
    exact min_le_right _ _

/-- C1 at `rec = {0, 0, 200, 100}` with requested radii `1000` (top) and `-5`
(bottom): the sector radii are `50, 50, 0, 0`. -/
theorem C1_radius_clamp_witness :
    (0 : ℚ) ≤ (⟨0, 0, 200, 100⟩ : Rectangle).width
    ∧ (0 : ℚ) ≤ (⟨0, 0, 200, 100⟩ : Rectangle).height
    ∧ (sectorsOf (Main11.MyDrawSlopedRoundedRectangle ⟨0, 0, 200, 100⟩ (-5) 1000 0 16
        ⟨0, 121, 241, 255⟩)).map SectorData.radius = [50, 50, 0, 0]
    ∧ specEffectiveRadius ⟨0, 0, 200, 100⟩ 1000 ≤ 50 := by
  have h := C1_radius_clamp ⟨0, 0, 200, 100⟩ (-5) 1000 0 16 ⟨0, 121, 241, 255⟩
    (by norm_num) (by norm_num)
  have e1 : specEffectiveRadius ⟨0, 0, 200, 100⟩ 1000 = 50 := by
    norm_num [specEffectiveRadius, specClamp]
  have e2 : specEffectiveRadius ⟨0, 0, 200, 100⟩ (-5) = 0 := by
    norm_num [specEffectiveRadius, specClamp]
  refine ⟨by norm_num, by norm_num, ?_, ?_⟩
  · rw [h.1, e1, e2]
  · rw [e1]

/-- C2 (corner centres in the fill of `main_11.cpp`): for every input, with
`rT`, `rB` the effective radii, the four sectors are centred, in call order, at
TopLeft `(rec.x + rT, rec.y + rT)`, TopRight
`(rec.x + rec.width - slopeFactor * rec.height - rT, rec.y + rT)`, BottomRight
`(rec.x + rec.width - rB, rec.y + rec.height - rB)` and BottomLeft
`(rec.x + rB, rec.y + rec.height - rB)`; for `rec = {0, 0, 200, 100}`, radii
`20` and slope `0` these are `(20,20)`, `(180,20)`, `(180,80)`, `(20,80)`. -/
theorem C2_corner_centres (rec : Rectangle) (radiusBottom radiusTop slopeFactor : ℚ)
    (segments : Int) (color : Color) :
    (sectorsOf (Main11.MyDrawSlopedRoundedRectangle rec radiusBottom radiusTop slopeFactor
        segments color)).map SectorData.center
      = [ ⟨rec.x + effectiveRadius rec radiusTop, rec.y + effectiveRadius rec radiusTop⟩,
          ⟨rec.x + rec.width - slopeFactor * rec.height - effectiveRadius rec radiusTop,
            rec.y + effectiveRadius rec radiusTop⟩,
          ⟨rec.x + rec.width - effectiveRadius rec radiusBottom,
            rec.y + rec.height - effectiveRadius rec radiusBottom⟩,
          ⟨rec.x + effectiveRadius rec radiusBottom,
            rec.y + rec.height - effectiveRadius rec radiusBottom⟩ ]
    ∧ (sectorsOf (Main11.MyDrawSlopedRoundedRectangle ⟨0, 0, 200, 100⟩ 20 20 0
        segments color)).map SectorData.center
      = [ ⟨20, 20⟩, ⟨180, 20⟩, ⟨180, 80⟩, ⟨20, 80⟩ ] := by
  constructor
  · rw [Main11_sectorsOf]
    rfl
  · rw [Main11_sectorsOf]
    norm_num [effectiveRadius, fmaxf, fminf]

/-- C3 (fill emission order in `main_11.cpp`): for every input the calls are,
in this order, the central band rectangle, the bottom band rectangle, the top
fill (a triangle fan or the fallback rectangle), the left strip rectangle, the
right quadrilateral fan, and the sectors TopLeft, TopRight, BottomRight,
BottomLeft.  The first five calls are no sectors and the last four are the
sectors, so whatever follows a sector in the sequence is a sector. -/
theorem C3_emission_order (rec : Rectangle) (radiusBottom radiusTop slopeFactor : ℚ)
    (segments : Int) (color : Color) :
    (Main11.MyDrawSlopedRoundedRectangle rec radiusBottom radiusTop slopeFactor segments
        color).map Primitive.kind
      = [ Kind.rectangle, Kind.rectangle,
          if 0 < rec.width - slopeFactor * rec.height - 2 * effectiveRadius rec radiusTop
            then Kind.fan else Kind.rectangle,
          Kind.rectangle, Kind.fan, Kind.sector, Kind.sector, Kind.sector, Kind.sector ]
    ∧ (Main11.MyDrawSlopedRoundedRectangle rec radiusBottom radiusTop slopeFactor segments
        color).take 2
      = [ Primitive.DrawRectangle (toInt rec.x) (toInt (rec.y + effectiveRadius rec radiusTop))
            (toInt rec.width)
            (toInt (rec.y + rec.height - effectiveRadius rec radiusBottom
              - (rec.y + effectiveRadius rec radiusTop))) color,
          Primitive.DrawRectangle (toInt (rec.x + effectiveRadius rec radiusBottom))
            (toInt (rec.y + rec.height - effectiveRadius rec radiusBottom))
            (toInt (rec.x + rec.width - effectiveRadius rec radiusBottom
              - (rec.x + effectiveRadius rec radiusBottom)))
            (toInt (effectiveRadius rec radiusBottom)) color ]
    ∧ ((Main11.MyDrawSlopedRoundedRectangle rec radiusBottom radiusTop slopeFactor segments
        color).drop 3).take 2
      = [ Primitive.DrawRectangle (toInt rec.x) (toInt (rec.y + effectiveRadius rec radiusTop))
            (toInt (effectiveRadius rec radiusTop))
            (toInt (rec.y + rec.height - effectiveRadius rec radiusBottom
              - (rec.y + effectiveRadius rec radiusTop))) color,
          Primitive.DrawTriangleFan
            [ ⟨rec.x + rec.width - slopeFactor * rec.height,
                rec.y + effectiveRadius rec radiusTop⟩,
              ⟨rec.x + rec.width - slopeFactor * rec.height,
                rec.y + effectiveRadius rec radiusTop⟩,
              ⟨rec.x + rec.width, rec.y + rec.height - effectiveRadius rec radiusBottom⟩,
              ⟨rec.x + rec.width, rec.y + rec.height - effectiveRadius rec radiusBottom⟩ ]
            4 color ]
    ∧ sectorsOf ((Main11.MyDrawSlopedRoundedRectangle rec radiusBottom radiusTop slopeFactor
        segments color).drop 5)
      = sectorsOf (Main11.MyDrawSlopedRoundedRectangle rec radiusBottom radiusTop slopeFactor
        segments color)
    ∧ (sectorsOf (Main11.MyDrawSlopedRoundedRectangle rec radiusBottom radiusTop slopeFactor
        segments color)).map SectorData.center
      = [ ⟨rec.x + effectiveRadius rec radiusTop, rec.y + effectiveRadius rec radiusTop⟩,
          ⟨rec.x + rec.width - slopeFactor * rec.height - effectiveRadius rec radiusTop,
            rec.y + effectiveRadius rec radiusTop⟩,
          ⟨rec.x + rec.width - effectiveRadius rec radiusBottom,
            rec.y + rec.height - effectiveRadius rec radiusBottom⟩,
          ⟨rec.x + effectiveRadius rec radiusBottom,
            rec.y + rec.height - effectiveRadius rec radiusBottom⟩ ]
    ∧ ((Main11.MyDrawSlopedRoundedRectangle rec radiusBottom radiusTop slopeFactor segments
        color).map Primitive.kind).Pairwise
          (fun k k2 => k = Kind.sector → k2 = Kind.sector) := by
  have hk : (Main11.MyDrawSlopedRoundedRectangle rec radiusBottom radiusTop slopeFactor
      segments color).map Primitive.kind
      = [ Kind.rectangle, Kind.rectangle,
          if 0 < rec.width - slopeFactor * rec.height - 2 * effectiveRadius rec radiusTop
            then Kind.fan else Kind.rectangle,
          Kind.rectangle, Kind.fan, Kind.sector, Kind.sector, Kind.sector, Kind.sector ] := by
    rw [Main11_fill_eq]
    split_ifs <;> rfl
  refine ⟨hk, ?_, ?_, ?_, ?_, ?_⟩
  · rw [Main11_fill_eq]
    rfl
  · rw [Main11_fill_eq]
    simp only [List.drop_succ_cons, List.drop_zero, List.take_succ_cons, List.take_zero,
      sub_add_cancel]
  · rw [Main11_fill_eq]
    simp only [List.drop_succ_cons, List.drop_zero, sectorsOf]
    split_ifs <;> rfl
  · rw [Main11_sectorsOf]
    rfl
  · rw [hk]
    split_ifs <;> decide

/-- C4, the claim as stated fails in the arithmetic of the program.  In the
`main_11.cpp` harness, eight frames of `KEY_Y` take `slopeFactor` from `0.2f` to
`16106125 / 2^26`.  For `rec = {150, 100, 120, 250}`, `radiusTop = 30` and that
slope factor the effective top radius is `30` and
`rec.width - slopeFactor * rec.height - 2 * rT` is positive, both exactly
(`295 / 2^25`) and evaluated in binary32 (`2^-17`), so by the claim the top
fill is the fan.  The routine computes `TopRight.x - TopLeft.x = 180 - 180 = 0`
(the sloped corner `270 - 59.99999237` rounds to `210`) and its third call is
the fallback rectangle `DrawRectangle(150, 100, 120, 30)`. -/
theorem C4_closed_form_gap_counterexample :
    WithArith.Main11.slopeFactorAfter binary32 (List.replicate 8 (false, true))
      = 16106125 / 67108864
    ∧ WithArith.effectiveRadius binary32 ⟨150, 100, 120, 250⟩ 30 = 30
    ∧ (120 : ℚ) - 16106125 / 67108864 * 250 - 2 * 30 = 295 / 33554432
    ∧ binary32.sub (binary32.sub 120 (binary32.mul (16106125 / 67108864) 250))
        (binary32.mul 2 30) = 1 / 131072
    ∧ (WithArith.centers1 binary32 ⟨150, 100, 120, 250⟩ 30 (16106125 / 67108864)).x = 180
    ∧ (WithArith.centers0 binary32 ⟨150, 100, 120, 250⟩ 30).x = 180
    ∧ WithArith.top_straight_width binary32 ⟨150, 100, 120, 250⟩ 30 (16106125 / 67108864) = 0
    ∧ (WithArith.Main11.MyDrawSlopedRoundedRectangle binary32 ⟨150, 100, 120, 250⟩ 40 30
        (16106125 / 67108864) 16 ⟨0, 121, 241, 255⟩)[2]?
      = some (Primitive.DrawRectangle 150 100 120 30 ⟨0, 121, 241, 255⟩) := by
  have h1 : fmaxf (0 : ℚ) 40 = 40 := by norm_num [fmaxf]
  have h2 : fmaxf (0 : ℚ) 30 = 30 := by norm_num [fmaxf]
  have h3 : fminf (120 : ℚ) 250 = 120 := by norm_num [fminf]
  have h4 : binary32.div 120 2 = 60 :=
    roundBinary32_pos _ _ 5 (by norm_num) (by norm_num) (by norm_num [roundHalfEven])
  have h5 : fminf (40 : ℚ) 60 = 40 := by norm_num [fminf]
  have h6 : fminf (30 : ℚ) 60 = 30 := by norm_num [fminf]
  have h7 : binary32.mul (16106125 / 67108864) 250 = (7864319 / 131072) :=
    roundBinary32_pos _ _ 5 (by norm_num) (by norm_num) (by norm_num [roundHalfEven])
  have h8 : binary32.add 100 30 = 130 :=
    roundBinary32_pos _ _ 7 (by norm_num) (by norm_num) (by norm_num [roundHalfEven])
  have h9 : binary32.add 100 250 = 350 :=
    roundBinary32_pos _ _ 8 (by norm_num) (by norm_num) (by norm_num [roundHalfEven])
  have h10 : binary32.sub 350 40 = 310 :=
    roundBinary32_pos _ _ 8 (by norm_num) (by norm_num) (by norm_num [roundHalfEven])
  have h11 : binary32.add 150 120 = 270 :=
    roundBinary32_pos _ _ 8 (by norm_num) (by norm_num) (by norm_num [roundHalfEven])
  have h12 : binary32.sub 270 (7864319 / 131072) = 210 :=
    roundBinary32_pos _ _ 7 (by norm_num) (by norm_num) (by norm_num [roundHalfEven])
  have h13 : binary32.add 150 30 = 180 :=
    roundBinary32_pos _ _ 7 (by norm_num) (by norm_num) (by norm_num [roundHalfEven])
  have h14 : binary32.sub 210 30 = 180 :=
    roundBinary32_pos _ _ 7 (by norm_num) (by norm_num) (by norm_num [roundHalfEven])
  have h15 : binary32.sub 270 40 = 230 :=
    roundBinary32_pos _ _ 7 (by norm_num) (by norm_num) (by norm_num [roundHalfEven])
  have h16 : binary32.add 150 40 = 190 :=
    roundBinary32_pos _ _ 7 (by norm_num) (by norm_num) (by norm_num [roundHalfEven])
  have h17 : binary32.sub 180 180 = 0 :=
    roundBinary32_of_eq_zero _ (by norm_num)
  have h18 : binary32.sub 120 (7864319 / 131072) = (7864321 / 131072) :=
    roundBinary32_pos _ _ 5 (by norm_num) (by norm_num) (by norm_num [roundHalfEven])
  have h19 : binary32.mul 2 30 = 60 :=
    roundBinary32_pos _ _ 5 (by norm_num) (by norm_num) (by norm_num [roundHalfEven])
  have h20 : binary32.sub (7864321 / 131072) 60 = (1 / 131072) :=
    roundBinary32_pos _ _ (-17) (by norm_num) (by norm_num) (by norm_num [roundHalfEven])
  have eRB : WithArith.effectiveRadius binary32 ⟨150, 100, 120, 250⟩ 40
      = 40 := by
    simp only [WithArith_effectiveRadius_mk,
      h1, h2, h3, h4, h5, h6, h7, h8, h9, h10, h11, h12, h13, h14, h15, h16, h17]
  have eRT : WithArith.effectiveRadius binary32 ⟨150, 100, 120, 250⟩ 30
      = 30 := by
    simp only [WithArith_effectiveRadius_mk,
      h1, h2, h3, h4, h5, h6, h7, h8, h9, h10, h11, h12, h13, h14, h15, h16, h17]
  have eyT : WithArith.y_top_straight binary32 ⟨150, 100, 120, 250⟩ 30
      = 130 := by
    simp only [WithArith_y_top_straight_mk, eRT,
      h1, h2, h3, h4, h5, h6, h7, h8, h9, h10, h11, h12, h13, h14, h15, h16, h17]
  have eyB : WithArith.y_bottom_straight binary32 ⟨150, 100, 120, 250⟩ 40
      = 310 := by
    simp only [WithArith_y_bottom_straight_mk, eRB,
      h1, h2, h3, h4, h5, h6, h7, h8, h9, h10, h11, h12, h13, h14, h15, h16, h17]
  have exTR : WithArith.x_tr_corner_sloped binary32 ⟨150, 100, 120, 250⟩ (16106125 / 67108864)
      = 210 := by
    simp only [WithArith_x_tr_corner_sloped_mk,
      h1, h2, h3, h4, h5, h6, h7, h8, h9, h10, h11, h12, h13, h14, h15, h16, h17]
  have ec0 : WithArith.centers0 binary32 ⟨150, 100, 120, 250⟩ 30
      = ⟨180, 130⟩ := by
    simp only [WithArith_centers0_mk, eRT, eyT,
      h1, h2, h3, h4, h5, h6, h7, h8, h9, h10, h11, h12, h13, h14, h15, h16, h17]
  have ec1 : WithArith.centers1 binary32 ⟨150, 100, 120, 250⟩ 30 (16106125 / 67108864)
      = ⟨180, 130⟩ := by
    simp only [WithArith_centers1_mk, eRT, eyT, exTR,
      h1, h2, h3, h4, h5, h6, h7, h8, h9, h10, h11, h12, h13, h14, h15, h16, h17]
  have ec2 : WithArith.centers2 binary32 ⟨150, 100, 120, 250⟩ 40
      = ⟨230, 310⟩ := by
    simp only [WithArith_centers2_mk, eRB, eyB,
      h1, h2, h3, h4, h5, h6, h7, h8, h9, h10, h11, h12, h13, h14, h15, h16, h17]
  have ec3 : WithArith.centers3 binary32 ⟨150, 100, 120, 250⟩ 40
      = ⟨190, 310⟩ := by
    simp only [WithArith_centers3_mk, eRB, eyB,
      h1, h2, h3, h4, h5, h6, h7, h8, h9, h10, h11, h12, h13, h14, h15, h16, h17]
  have egap : WithArith.top_straight_width binary32 ⟨150, 100, 120, 250⟩ 30 (16106125 / 67108864)
      = 0 := by
    simp only [WithArith_top_straight_width_eq, ec0, ec1,
      h1, h2, h3, h4, h5, h6, h7, h8, h9, h10, h11, h12, h13, h14, h15, h16, h17]
  refine ⟨slopeFactorAfter_8_KEY_Y, eRT, by norm_num, ?_, ?_, ?_, egap, ?_⟩
  · rw [h7, h19, h18, h20]
  · rw [ec1]
  · rw [ec0]
  · rw [WithArith_fill_mk]
    simp only [List.getElem?_cons_succ, List.getElem?_cons_zero, egap, eRT, lt_self_iff_false,
      if_false]
    norm_num [toInt]

/-- C4 as amended (the top fill is chosen by the gap the routine computes): in
the fill of `main_11.cpp`, whatever the rounding of the `float` operations,
the tested value is `top_straight_width = TopRight.x - TopLeft.x` with
`TopRight.x = ((rec.x + rec.width) - slopeFactor * rec.height) - rT` and
`TopLeft.x = rec.x + rT`.  Every call sequence has nine calls and its third call
is the one top fill: for `top_straight_width > 0` the fan `(TopLeft.x, rec.y)`,
`(TopRight.x, rec.y)`, `(TopRight.x, yTopStraight)`, `(TopLeft.x, yTopStraight)`,
otherwise the rectangle `DrawRectangle(rec.x, rec.y, rec.width, rT)` (arguments
converted to `int`).  In the first case the sequence holds three rectangles and
two fans, in the second four rectangles and one fan, the right fan (fifth
call), so no top fan is emitted.  In binary32 arithmetic the tested value is
positive only if `TopLeft.x < TopRight.x`, so no fan with `TopRight.x` left of
`TopLeft.x` is emitted.  In exact arithmetic the tested value is
`rec.width - slopeFactor * rec.height - 2 * rT`, the parametrised routine is
the routine `Main11.MyDrawSlopedRoundedRectangle`, and the fill of `main_13.cpp`
is the same function. -/
theorem C4_top_fill_dichotomy (A : FloatArith) (rec : Rectangle)
    (radiusBottom radiusTop slopeFactor : ℚ) (segments : Int) (color : Color) :
    WithArith.top_straight_width A rec radiusTop slopeFactor
      = A.sub
          (A.sub (A.sub (A.add rec.x rec.width) (A.mul slopeFactor rec.height))
            (WithArith.effectiveRadius A rec radiusTop))
          (A.add rec.x (WithArith.effectiveRadius A rec radiusTop))
    ∧ (WithArith.Main11.MyDrawSlopedRoundedRectangle A rec radiusBottom radiusTop slopeFactor
        segments color).length = 9
    ∧ (WithArith.Main11.MyDrawSlopedRoundedRectangle A rec radiusBottom radiusTop slopeFactor
        segments color)[2]?
      = some
          (if 0 < WithArith.top_straight_width A rec radiusTop slopeFactor then
            Primitive.DrawTriangleFan
              [ ⟨(WithArith.centers0 A rec radiusTop).x, rec.y⟩,
                ⟨(WithArith.centers1 A rec radiusTop slopeFactor).x, rec.y⟩,
                ⟨(WithArith.centers1 A rec radiusTop slopeFactor).x,
                  WithArith.y_top_straight A rec radiusTop⟩,
                ⟨(WithArith.centers0 A rec radiusTop).x,
                  WithArith.y_top_straight A rec radiusTop⟩ ]
              4 color
          else
            Primitive.DrawRectangle (toInt rec.x) (toInt rec.y) (toInt rec.width)
              (toInt (WithArith.effectiveRadius A rec radiusTop)) color)
    ∧ ((WithArith.Main11.MyDrawSlopedRoundedRectangle A rec radiusBottom radiusTop slopeFactor
        segments color).map
        Primitive.kind).count Kind.rectangle
      = (if 0 < WithArith.top_straight_width A rec radiusTop slopeFactor then 3 else 4)
    ∧ ((WithArith.Main11.MyDrawSlopedRoundedRectangle A rec radiusBottom radiusTop slopeFactor
        segments color).map
        Primitive.kind).count Kind.fan
      = (if 0 < WithArith.top_straight_width A rec radiusTop slopeFactor then 2 else 1)
    ∧ ((WithArith.Main11.MyDrawSlopedRoundedRectangle A rec radiusBottom radiusTop slopeFactor
        segments color)[4]?).map
        Primitive.kind = some Kind.fan
    ∧ (WithArith.top_straight_width binary32 rec radiusTop slopeFactor ≤ 0
        ∨ (WithArith.centers0 binary32 rec radiusTop).x
          < (WithArith.centers1 binary32 rec radiusTop slopeFactor).x)
    ∧ WithArith.top_straight_width exactArith rec radiusTop slopeFactor
      = rec.width - slopeFactor * rec.height - 2 * effectiveRadius rec radiusTop
    ∧ WithArith.Main11.MyDrawSlopedRoundedRectangle exactArith rec radiusBottom radiusTop
        slopeFactor segments color
      = Main11.MyDrawSlopedRoundedRectangle rec radiusBottom radiusTop slopeFactor segments
          color
    ∧ Main13.MyDrawSlopedRoundedRectangle rec radiusBottom radiusTop slopeFactor segments color
      = Main11.MyDrawSlopedRoundedRectangle rec radiusBottom radiusTop slopeFactor segments
          color := by
  refine ⟨rfl, ?_, ?_, ?_, ?_, ?_, ?_, ?_, rfl, Main13_fill_eq_Main11 _ _ _ _ _ _⟩
  · rw [WithArith_fill_eq]
    rfl
  · rw [WithArith_fill_eq]
    rfl
  · rw [WithArith_fill_eq]
    split_ifs <;> rfl
  · rw [WithArith_fill_eq]
    split_ifs <;> rfl
  · rw [WithArith_fill_eq]
    rfl
  · rcases le_or_lt (WithArith.top_straight_width binary32 rec radiusTop slopeFactor) 0
      with h | h
    · exact Or.inl h
    · rw [WithArith_top_straight_width_eq] at h
      exact Or.inr (binary32_sub_pos_imp _ _ h)
  · exact top_gap_eq rec slopeFactor (effectiveRadius rec radiusTop)

/-- C6 (sector parameters in the fill of `main_11.cpp`): for every input the
four sectors are, in call order, (TopLeft centre, `rT`, 180 to 270),
(TopRight centre, `rT`, 270 to 360), (BottomRight centre, `rB`, 0 to 90) and
(BottomLeft centre, `rB`, 90 to 180), all with the caller's `segments`; every
sector spans 90 degrees, and the sectors are the calls 5 to 8 of the nine. -/
theorem C6_sector_parameters (rec : Rectangle) (radiusBottom radiusTop slopeFactor : ℚ)
    (segments : Int) (color : Color) :
    (Main11.MyDrawSlopedRoundedRectangle rec radiusBottom radiusTop slopeFactor segments
        color).drop 5
      = [ Primitive.DrawCircleSector
            ⟨rec.x + effectiveRadius rec radiusTop, rec.y + effectiveRadius rec radiusTop⟩
            (effectiveRadius rec radiusTop) 180 270 segments color,
          Primitive.DrawCircleSector
            ⟨rec.x + rec.width - slopeFactor * rec.height - effectiveRadius rec radiusTop,
              rec.y + effectiveRadius rec radiusTop⟩
            (effectiveRadius rec radiusTop) 270 360 segments color,
          Primitive.DrawCircleSector
            ⟨rec.x + rec.width - effectiveRadius rec radiusBottom,
              rec.y + rec.height - effectiveRadius rec radiusBottom⟩
            (effectiveRadius rec radiusBottom) 0 90 segments color,
          Primitive.DrawCircleSector
            ⟨rec.x + effectiveRadius rec radiusBottom,
              rec.y + rec.height - effectiveRadius rec radiusBottom⟩
            (effectiveRadius rec radiusBottom) 90 180 segments color ]
    ∧ sectorsOf (Main11.MyDrawSlopedRoundedRectangle rec radiusBottom radiusTop slopeFactor
        segments color)
      = sectorsOf ((Main11.MyDrawSlopedRoundedRectangle rec radiusBottom radiusTop slopeFactor
        segments color).drop 5)
    ∧ (sectorsOf (Main11.MyDrawSlopedRoundedRectangle rec radiusBottom radiusTop slopeFactor
        segments color)).map (fun d => d.endAngle - d.startAngle) = [90, 90, 90, 90]
    ∧ (sectorsOf (Main11.MyDrawSlopedRoundedRectangle rec radiusBottom radiusTop slopeFactor
        segments color)).map SectorData.radius
      = [ effectiveRadius rec radiusTop, effectiveRadius rec radiusTop,
          effectiveRadius rec radiusBottom, effectiveRadius rec radiusBottom ]
    ∧ (sectorsOf (Main11.MyDrawSlopedRoundedRectangle rec radiusBottom radiusTop slopeFactor
        segments color)).map SectorData.segments
      = [ segments, segments, segments, segments ] := by
  refine ⟨?_, ?_, ?_, ?_, ?_⟩
  · rw [Main11_fill_eq]
    rfl
  · rw [Main11_fill_eq]
    simp only [List.drop_succ_cons, List.drop_zero, sectorsOf]
    split_ifs <;> rfl
  · rw [Main11_sectorsOf]
    norm_num
  · rw [Main11_sectorsOf]
    rfl
  · rw [Main11_sectorsOf]
    rfl

/-- C7, the claim as stated fails: for `rec = {0, 0, -4, 10}` (reached in the
`main_11.cpp` harness by holding `KEY_A`) and requested radii `3` both effective
radii are `fminf(3, -4 / 2) = -2`; the left segment of the outline runs from
`(0, 12)` to `(0, -2)` and the bottom-left centre is `(-2, 12)`: the endpoint
`(0, 12)` is at the axis-aligned distance `2` from the adjacent centre, which
is not the effective radius `-2`.  The values are the same in exact and in
binary32 arithmetic. -/
theorem C7_tangent_distance_counterexample :
    effectiveRadius ⟨0, 0, -4, 10⟩ 3 = -2
    ∧ WithArith.effectiveRadius binary32 ⟨0, 0, -4, 10⟩ 3 = -2
    ∧ linesOf (Main12.MyDrawSlopedRoundedRectangleWires ⟨0, 0, -4, 10⟩ 3 3 0 16 ⟨0, 0, 0, 255⟩ 2)
      = [ (⟨0, 12⟩, ⟨0, -2⟩, 2, ⟨0, 0, 0, 255⟩), (⟨-2, 0⟩, ⟨-2, 0⟩, 2, ⟨0, 0, 0, 255⟩),
          (⟨-4, -2⟩, ⟨-4, 12⟩, 2, ⟨0, 0, 0, 255⟩), (⟨-2, 10⟩, ⟨-2, 10⟩, 2, ⟨0, 0, 0, 255⟩) ]
    ∧ linesOf (WithArith.Main12.MyDrawSlopedRoundedRectangleWires binary32 ⟨0, 0, -4, 10⟩ 3 3 0 16
        ⟨0, 0, 0, 255⟩ 2)
      = [ (⟨0, 12⟩, ⟨0, -2⟩, 2, ⟨0, 0, 0, 255⟩), (⟨-2, 0⟩, ⟨-2, 0⟩, 2, ⟨0, 0, 0, 255⟩),
          (⟨-4, -2⟩, ⟨-4, 12⟩, 2, ⟨0, 0, 0, 255⟩), (⟨-2, 10⟩, ⟨-2, 10⟩, 2, ⟨0, 0, 0, 255⟩) ]
    ∧ (arcsOf (Main12.MyDrawSlopedRoundedRectangleWires ⟨0, 0, -4, 10⟩ 3 3 0 16 ⟨0, 0, 0, 255⟩
        2)).map (fun d => (d.center, d.radius))
      = [ (⟨-2, -2⟩, -2), (⟨-2, -2⟩, -2), (⟨-2, 12⟩, -2), (⟨-2, 12⟩, -2) ]
    ∧ axisDistance ⟨0, 12⟩ ⟨-2, 12⟩ = some 2
    ∧ (2 : ℚ) ≠ -2 := by
  have e : effectiveRadius ⟨0, 0, -4, 10⟩ 3 = -2 := by
    norm_num [effectiveRadius, fmaxf, fminf]
  have h1 : fmaxf (0 : ℚ) 3 = 3 := by norm_num [fmaxf]
  have h2 : fminf ((-4) : ℚ) 10 = (-4) := by norm_num [fminf]
  have h3 : binary32.div (-4) 2 = (-2) :=
    roundBinary32_neg _ _ 1 (by norm_num) (by norm_num) (by norm_num [roundHalfEven])
  have h4 : fminf (3 : ℚ) (-2) = (-2) := by norm_num [fminf]
  have h5 : binary32.mul 0 10 = 0 :=
    roundBinary32_of_eq_zero _ (by norm_num)
  have h6 : binary32.add 0 (-2) = (-2) :=
    roundBinary32_neg _ _ 1 (by norm_num) (by norm_num) (by norm_num [roundHalfEven])
  have h7 : binary32.add 0 10 = 10 :=
    roundBinary32_pos _ _ 3 (by norm_num) (by norm_num) (by norm_num [roundHalfEven])
  have h8 : binary32.sub 10 (-2) = 12 :=
    roundBinary32_pos _ _ 3 (by norm_num) (by norm_num) (by norm_num [roundHalfEven])
  have h9 : binary32.add 0 (-4) = (-4) :=
    roundBinary32_neg _ _ 2 (by norm_num) (by norm_num) (by norm_num [roundHalfEven])
  have h10 : binary32.sub (-4) 0 = (-4) :=
    roundBinary32_neg _ _ 2 (by norm_num) (by norm_num) (by norm_num [roundHalfEven])
  have h11 : binary32.sub (-4) (-2) = (-2) :=
    roundBinary32_neg _ _ 1 (by norm_num) (by norm_num) (by norm_num [roundHalfEven])
  have h12 : binary32.sub (-2) (-2) = 0 :=
    roundBinary32_of_eq_zero _ (by norm_num)
  have h13 : binary32.add 12 (-2) = 10 :=
    roundBinary32_pos _ _ 3 (by norm_num) (by norm_num) (by norm_num [roundHalfEven])
  have h14 : binary32.add (-2) (-2) = (-4) :=
    roundBinary32_neg _ _ 2 (by norm_num) (by norm_num) (by norm_num [roundHalfEven])
  have eRB : WithArith.effectiveRadius binary32 ⟨0, 0, -4, 10⟩ 3
      = (-2) := by
    simp only [WithArith_effectiveRadius_mk,
      h1, h2, h3, h4, h5, h6, h7, h8, h9, h10, h11, h12, h13, h14]
  have eRT : WithArith.effectiveRadius binary32 ⟨0, 0, -4, 10⟩ 3
      = (-2) := by
    simp only [WithArith_effectiveRadius_mk,
      h1, h2, h3, h4, h5, h6, h7, h8, h9, h10, h11, h12, h13, h14]
  have eyT : WithArith.y_top_straight binary32 ⟨0, 0, -4, 10⟩ 3
      = (-2) := by
    simp only [WithArith_y_top_straight_mk, eRT,
      h1, h2, h3, h4, h5, h6, h7, h8, h9, h10, h11, h12, h13, h14]
  have eyB : WithArith.y_bottom_straight binary32 ⟨0, 0, -4, 10⟩ 3
      = 12 := by
    simp only [WithArith_y_bottom_straight_mk, eRB,
      h1, h2, h3, h4, h5, h6, h7, h8, h9, h10, h11, h12, h13, h14]
  have exTR : WithArith.x_tr_corner_sloped binary32 ⟨0, 0, -4, 10⟩ 0
      = (-4) := by
    simp only [WithArith_x_tr_corner_sloped_mk,
      h1, h2, h3, h4, h5, h6, h7, h8, h9, h10, h11, h12, h13, h14]
  have ec0 : WithArith.centers0 binary32 ⟨0, 0, -4, 10⟩ 3
      = ⟨(-2), (-2)⟩ := by
    simp only [WithArith_centers0_mk, eRT, eyT,
      h1, h2, h3, h4, h5, h6, h7, h8, h9, h10, h11, h12, h13, h14]
  have ec1 : WithArith.centers1 binary32 ⟨0, 0, -4, 10⟩ 3 0
      = ⟨(-2), (-2)⟩ := by
    simp only [WithArith_centers1_mk, eRT, eyT, exTR,
      h1, h2, h3, h4, h5, h6, h7, h8, h9, h10, h11, h12, h13, h14]
  have ec2 : WithArith.centers2 binary32 ⟨0, 0, -4, 10⟩ 3
      = ⟨(-2), 12⟩ := by
    simp only [WithArith_centers2_mk, eRB, eyB,
      h1, h2, h3, h4, h5, h6, h7, h8, h9, h10, h11, h12, h13, h14]
  have ec3 : WithArith.centers3 binary32 ⟨0, 0, -4, 10⟩ 3
      = ⟨(-2), 12⟩ := by
    simp only [WithArith_centers3_mk, eRB, eyB,
      h1, h2, h3, h4, h5, h6, h7, h8, h9, h10, h11, h12, h13, h14]
  have egap : WithArith.top_straight_width binary32 ⟨0, 0, -4, 10⟩ 3 0
      = 0 := by
    simp only [WithArith_top_straight_width_eq, ec0, ec1,
      h1, h2, h3, h4, h5, h6, h7, h8, h9, h10, h11, h12, h13, h14]
  refine ⟨e, eRT, ?_, ?_, ?_, ?_, by norm_num⟩
  · rw [Main12_wires_eq, e]
    norm_num [linesOf]
    rfl
  · rw [WithArith_wires_eq]
    simp only [eRB, eRT, eyT, eyB, exTR, ec0, ec1, ec2, ec3, egap,
      h1, h2, h3, h4, h5, h6, h7, h8, h9, h10, h11, h12, h13, h14]
    rfl
  · rw [Main12_arcsOf, e]
    norm_num
  · norm_num [axisDistance]

/-- C7 as amended (outline emission in `main_12.cpp`).  Whatever the rounding
of the `float` operations, the calls are four line segments followed by four
sector outlines: left `(BottomLeft.x - rB, BottomLeft.y) ->
(TopLeft.x - rT, TopLeft.y)`, top `(TopLeft.x, TopLeft.y - rT) ->
(TopRight.x, TopRight.y - rT)`, right `(TopRight.x + rT, TopRight.y) ->
(BottomRight.x + rB, BottomRight.y)` and bottom
`(BottomLeft.x, BottomLeft.y + rB) -> (BottomRight.x, BottomRight.y + rB)`, each
with the caller's thickness and colour, so that every endpoint is the adjacent
corner centre moved along one axis by that corner's effective radius; the
outlines are TopLeft 180-270, TopRight 270-360, BottomRight 0-90, BottomLeft
90-180 with the centres, radii, ranges and segment counts of the sectors of the
fill of `main_11.cpp`.  In exact arithmetic, with `yT = rec.y + rT` and
`yB = rec.y + rec.height - rB`, the segments are left
`(rec.x, yB) -> (rec.x, yT)`, top `(TopLeft.x, rec.y) -> (TopRight.x, rec.y)`,
right `(TopRight.x + rT, yT) -> (BottomRight.x + rB, yB)` and bottom
`(BottomLeft.x, rec.y + rec.height) -> (BottomRight.x, rec.y + rec.height)`, and
every endpoint is at the axis-aligned distance `|r|` from the adjacent centre,
which is the effective radius `r` itself when the extents are non-negative. -/
theorem C7_outline_emission (A : FloatArith) (rec : Rectangle)
    (radiusBottom radiusTop slopeFactor : ℚ) (segments : Int) (color : Color)
    (thickness : ℚ) :
    let rT := effectiveRadius rec radiusTop
    let rB := effectiveRadius rec radiusBottom
    let yT := rec.y + rT
    let yB := rec.y + rec.height - rB
    let topLeft : Vector2 := ⟨rec.x + rT, yT⟩
    let topRight : Vector2 := ⟨rec.x + rec.width - slopeFactor * rec.height - rT, yT⟩
    let bottomRight : Vector2 := ⟨rec.x + rec.width - rB, yB⟩
    let bottomLeft : Vector2 := ⟨rec.x + rB, yB⟩
    WithArith.Main12.MyDrawSlopedRoundedRectangleWires A rec radiusBottom radiusTop slopeFactor
        segments color thickness
      = [ Primitive.DrawLineEx
            ⟨A.sub (WithArith.centers3 A rec radiusBottom).x
                (WithArith.effectiveRadius A rec radiusBottom),
              (WithArith.centers3 A rec radiusBottom).y⟩
            ⟨A.sub (WithArith.centers0 A rec radiusTop).x
                (WithArith.effectiveRadius A rec radiusTop),
              (WithArith.centers0 A rec radiusTop).y⟩ thickness color,
          Primitive.DrawLineEx
            ⟨(WithArith.centers0 A rec radiusTop).x,
              A.sub (WithArith.centers0 A rec radiusTop).y
                (WithArith.effectiveRadius A rec radiusTop)⟩
            ⟨(WithArith.centers1 A rec radiusTop slopeFactor).x,
              A.sub (WithArith.centers1 A rec radiusTop slopeFactor).y
                (WithArith.effectiveRadius A rec radiusTop)⟩ thickness color,
          Primitive.DrawLineEx
            ⟨A.add (WithArith.centers1 A rec radiusTop slopeFactor).x
                (WithArith.effectiveRadius A rec radiusTop),
              (WithArith.centers1 A rec radiusTop slopeFactor).y⟩
            ⟨A.add (WithArith.centers2 A rec radiusBottom).x
                (WithArith.effectiveRadius A rec radiusBottom),
              (WithArith.centers2 A rec radiusBottom).y⟩ thickness color,
          Primitive.DrawLineEx
            ⟨(WithArith.centers3 A rec radiusBottom).x,
              A.add (WithArith.centers3 A rec radiusBottom).y
                (WithArith.effectiveRadius A rec radiusBottom)⟩
            ⟨(WithArith.centers2 A rec radiusBottom).x,
              A.add (WithArith.centers2 A rec radiusBottom).y
                (WithArith.effectiveRadius A rec radiusBottom)⟩ thickness color,
          Primitive.DrawCircleSectorLines (WithArith.centers0 A rec radiusTop)
            (WithArith.effectiveRadius A rec radiusTop) 180 270 segments color,
          Primitive.DrawCircleSectorLines (WithArith.centers1 A rec radiusTop slopeFactor)
            (WithArith.effectiveRadius A rec radiusTop) 270 360 segments color,
          Primitive.DrawCircleSectorLines (WithArith.centers2 A rec radiusBottom)
            (WithArith.effectiveRadius A rec radiusBottom) 0 90 segments color,
          Primitive.DrawCircleSectorLines (WithArith.centers3 A rec radiusBottom)
            (WithArith.effectiveRadius A rec radiusBottom) 90 180 segments color ]
    ∧ (WithArith.Main12.MyDrawSlopedRoundedRectangleWires A rec radiusBottom radiusTop slopeFactor
        segments color thickness).map
        Primitive.kind
      = [ Kind.line, Kind.line, Kind.line, Kind.line, Kind.arc, Kind.arc, Kind.arc, Kind.arc ]
    ∧ arcsOf (WithArith.Main12.MyDrawSlopedRoundedRectangleWires A rec radiusBottom radiusTop
        slopeFactor segments color thickness)
      = sectorsOf (WithArith.Main11.MyDrawSlopedRoundedRectangle A rec radiusBottom radiusTop
          slopeFactor segments color)
    ∧ WithArith.Main12.MyDrawSlopedRoundedRectangleWires exactArith rec radiusBottom radiusTop
        slopeFactor segments color thickness
      = Main12.MyDrawSlopedRoundedRectangleWires rec radiusBottom radiusTop slopeFactor segments
          color thickness
    ∧ Main12.MyDrawSlopedRoundedRectangleWires rec radiusBottom radiusTop slopeFactor segments
        color thickness
      = [ Primitive.DrawLineEx ⟨rec.x, yB⟩ ⟨rec.x, yT⟩ thickness color,
          Primitive.DrawLineEx ⟨topLeft.x, rec.y⟩ ⟨topRight.x, rec.y⟩ thickness color,
          Primitive.DrawLineEx ⟨topRight.x + rT, yT⟩ ⟨bottomRight.x + rB, yB⟩ thickness color,
          Primitive.DrawLineEx ⟨bottomLeft.x, rec.y + rec.height⟩
            ⟨bottomRight.x, rec.y + rec.height⟩ thickness color,
          Primitive.DrawCircleSectorLines topLeft rT 180 270 segments color,
          Primitive.DrawCircleSectorLines topRight rT 270 360 segments color,
          Primitive.DrawCircleSectorLines bottomRight rB 0 90 segments color,
          Primitive.DrawCircleSectorLines bottomLeft rB 90 180 segments color ]
    ∧ axisDistance ⟨rec.x, yB⟩ bottomLeft = some |rB|
    ∧ axisDistance ⟨rec.x, yT⟩ topLeft = some |rT|
    ∧ axisDistance ⟨topLeft.x, rec.y⟩ topLeft = some |rT|
    ∧ axisDistance ⟨topRight.x, rec.y⟩ topRight = some |rT|
    ∧ axisDistance ⟨topRight.x + rT, yT⟩ topRight = some |rT|
    ∧ axisDistance ⟨bottomRight.x + rB, yB⟩ bottomRight = some |rB|
    ∧ axisDistance ⟨bottomLeft.x, rec.y + rec.height⟩ bottomLeft = some |rB|
    ∧ axisDistance ⟨bottomRight.x, rec.y + rec.height⟩ bottomRight = some |rB|
    ∧ (0 ≤ rec.width → 0 ≤ rec.height → |rT| = rT ∧ |rB| = rB)
    ∧ arcsOf (Main12.MyDrawSlopedRoundedRectangleWires rec radiusBottom radiusTop slopeFactor
        segments color thickness)
      = sectorsOf (Main11.MyDrawSlopedRoundedRectangle rec radiusBottom radiusTop slopeFactor
          segments color) := by
  intro rT rB yT yB topLeft topRight bottomRight bottomLeft
  refine ⟨WithArith_wires_eq _ _ _ _ _ _ _ _, ?_, ?_, rfl, Main12_wires_eq _ _ _ _ _ _ _,
    ?_, ?_, ?_, ?_, ?_, ?_, ?_, ?_, ?_, ?_⟩
  · rw [WithArith_wires_eq]
    rfl
  · rw [WithArith_wires_eq, WithArith_fill_sectorsOf]
    rfl
  · exact axisDistance_horizontal bottomLeft rec.x rB (Or.inr (by simp [bottomLeft]))
  · exact axisDistance_horizontal topLeft rec.x rT (Or.inr (by simp [topLeft]))
  · exact axisDistance_vertical topLeft rec.y rT (Or.inr (by simp [topLeft, yT]))
  · exact axisDistance_vertical topRight rec.y rT (Or.inr (by simp [topRight, yT]))
  · exact axisDistance_horizontal topRight (topRight.x + rT) rT (Or.inl (by simp))
  · exact axisDistance_horizontal bottomRight (bottomRight.x + rB) rB (Or.inl (by simp))
  · exact axisDistance_vertical bottomLeft (rec.y + rec.height) rB
      (Or.inl (by simp [bottomLeft, yB]))
  · exact axisDistance_vertical bottomRight (rec.y + rec.height) rB
      (Or.inl (by simp [bottomRight, yB]))
  · intro hw hh
    exact ⟨abs_of_nonneg (effectiveRadius_nonneg rec radiusTop hw hh),
      abs_of_nonneg (effectiveRadius_nonneg rec radiusBottom hw hh)⟩
  · rw [Main12_wires_eq, Main11_sectorsOf]
    rfl

/-- C7 at the `main_12.cpp` harness start `rec = {150, 100, 500, 250}`, radii
`40` (bottom) and `30` (top), thickness `2`: the four segments, with the slope
`1/5` in exact arithmetic and with the slope `0.2f` in binary32 arithmetic, and
the radii as distances. -/
theorem C7_outline_emission_witness :
    linesOf (Main12.MyDrawSlopedRoundedRectangleWires ⟨150, 100, 500, 250⟩ 40 30
        (1 / 5) 16 ⟨0, 0, 0, 255⟩ 2)
      = [ (⟨150, 310⟩, ⟨150, 130⟩, 2, ⟨0, 0, 0, 255⟩),
          (⟨180, 100⟩, ⟨570, 100⟩, 2, ⟨0, 0, 0, 255⟩),
          (⟨600, 130⟩, ⟨650, 310⟩, 2, ⟨0, 0, 0, 255⟩),
          (⟨190, 350⟩, ⟨610, 350⟩, 2, ⟨0, 0, 0, 255⟩) ]
    ∧ linesOf (WithArith.Main12.MyDrawSlopedRoundedRectangleWires binary32 ⟨150, 100, 500, 250⟩ 40
        30 (13421773 / 67108864) 16
        ⟨0, 0, 0, 255⟩ 2)
      = [ (⟨150, 310⟩, ⟨150, 130⟩, 2, ⟨0, 0, 0, 255⟩),
          (⟨180, 100⟩, ⟨570, 100⟩, 2, ⟨0, 0, 0, 255⟩),
          (⟨600, 130⟩, ⟨650, 310⟩, 2, ⟨0, 0, 0, 255⟩),
          (⟨190, 350⟩, ⟨610, 350⟩, 2, ⟨0, 0, 0, 255⟩) ]
    ∧ |effectiveRadius ⟨150, 100, 500, 250⟩ 30| = effectiveRadius ⟨150, 100, 500, 250⟩ 30
    ∧ |effectiveRadius ⟨150, 100, 500, 250⟩ 40| = effectiveRadius ⟨150, 100, 500, 250⟩ 40 := by
  have h := C7_outline_emission binary32 ⟨150, 100, 500, 250⟩ 40 30 (1 / 5) 16 ⟨0, 0, 0, 255⟩ 2
  have hd := h.2.2.2.2.2.2.2.2.2.2.2.2.2.1 (by norm_num) (by norm_num)
  have hb := (C7_outline_emission binary32 ⟨150, 100, 500, 250⟩ 40 30 (13421773 / 67108864) 16
    ⟨0, 0, 0, 255⟩ 2).1
  have w1 : fmaxf (0 : ℚ) 40 = 40 := by norm_num [fmaxf]
  have w2 : fmaxf (0 : ℚ) 30 = 30 := by norm_num [fmaxf]
  have w3 : fminf (500 : ℚ) 250 = 250 := by norm_num [fminf]
  have w4 : binary32.div 250 2 = 125 :=
    roundBinary32_pos _ _ 6 (by norm_num) (by norm_num) (by norm_num [roundHalfEven])
  have w5 : fminf (40 : ℚ) 125 = 40 := by norm_num [fminf]
  have w6 : fminf (30 : ℚ) 125 = 30 := by norm_num [fminf]
  have w7 : binary32.mul (13421773 / 67108864) 250 = 50 :=
    roundBinary32_pos _ _ 5 (by norm_num) (by norm_num) (by norm_num [roundHalfEven])
  have w8 : binary32.add 100 30 = 130 :=
    roundBinary32_pos _ _ 7 (by norm_num) (by norm_num) (by norm_num [roundHalfEven])
  have w9 : binary32.add 100 250 = 350 :=
    roundBinary32_pos _ _ 8 (by norm_num) (by norm_num) (by norm_num [roundHalfEven])
  have w10 : binary32.sub 350 40 = 310 :=
    roundBinary32_pos _ _ 8 (by norm_num) (by norm_num) (by norm_num [roundHalfEven])
  have w11 : binary32.add 150 500 = 650 :=
    roundBinary32_pos _ _ 9 (by norm_num) (by norm_num) (by norm_num [roundHalfEven])
  have w12 : binary32.sub 650 50 = 600 :=
    roundBinary32_pos _ _ 9 (by norm_num) (by norm_num) (by norm_num [roundHalfEven])
  have w13 : binary32.add 150 30 = 180 :=
    roundBinary32_pos _ _ 7 (by norm_num) (by norm_num) (by norm_num [roundHalfEven])
  have w14 : binary32.sub 600 30 = 570 :=
    roundBinary32_pos _ _ 9 (by norm_num) (by norm_num) (by norm_num [roundHalfEven])
  have w15 : binary32.sub 650 40 = 610 :=
    roundBinary32_pos _ _ 9 (by norm_num) (by norm_num) (by norm_num [roundHalfEven])
  have w16 : binary32.add 150 40 = 190 :=
    roundBinary32_pos _ _ 7 (by norm_num) (by norm_num) (by norm_num [roundHalfEven])
  have w17 : binary32.sub 570 180 = 390 :=
    roundBinary32_pos _ _ 8 (by norm_num) (by norm_num) (by norm_num [roundHalfEven])
  have w18 : binary32.sub 190 40 = 150 :=
    roundBinary32_pos _ _ 7 (by norm_num) (by norm_num) (by norm_num [roundHalfEven])
  have w19 : binary32.sub 180 30 = 150 :=
    roundBinary32_pos _ _ 7 (by norm_num) (by norm_num) (by norm_num [roundHalfEven])
  have w20 : binary32.sub 130 30 = 100 :=
    roundBinary32_pos _ _ 6 (by norm_num) (by norm_num) (by norm_num [roundHalfEven])
  have w21 : binary32.add 310 40 = 350 :=
    roundBinary32_pos _ _ 8 (by norm_num) (by norm_num) (by norm_num [roundHalfEven])
  have w22 : binary32.add 570 30 = 600 :=
    roundBinary32_pos _ _ 9 (by norm_num) (by norm_num) (by norm_num [roundHalfEven])
  have w23 : binary32.add 610 40 = 650 :=
    roundBinary32_pos _ _ 9 (by norm_num) (by norm_num) (by norm_num [roundHalfEven])
  have eRBw : WithArith.effectiveRadius binary32 ⟨150, 100, 500, 250⟩ 40
      = 40 := by
    simp only [WithArith_effectiveRadius_mk,
      w1, w2, w3, w4, w5, w6, w7, w8, w9, w10, w11, w12, w13, w14, w15, w16, w17, w18, w19,
      w20, w21, w22, w23]
  have eRTw : WithArith.effectiveRadius binary32 ⟨150, 100, 500, 250⟩ 30
      = 30 := by
    simp only [WithArith_effectiveRadius_mk,
      w1, w2, w3, w4, w5, w6, w7, w8, w9, w10, w11, w12, w13, w14, w15, w16, w17, w18, w19,
      w20, w21, w22, w23]
  have eyTw : WithArith.y_top_straight binary32 ⟨150, 100, 500, 250⟩ 30
      = 130 := by
    simp only [WithArith_y_top_straight_mk, eRTw,
      w1, w2, w3, w4, w5, w6, w7, w8, w9, w10, w11, w12, w13, w14, w15, w16, w17, w18, w19,
      w20, w21, w22, w23]
  have eyBw : WithArith.y_bottom_straight binary32 ⟨150, 100, 500, 250⟩ 40
      = 310 := by
    simp only [WithArith_y_bottom_straight_mk, eRBw,
      w1, w2, w3, w4, w5, w6, w7, w8, w9, w10, w11, w12, w13, w14, w15, w16, w17, w18, w19,
      w20, w21, w22, w23]
  have exTRw : WithArith.x_tr_corner_sloped binary32 ⟨150, 100, 500, 250⟩ (13421773 / 67108864)
      = 600 := by
    simp only [WithArith_x_tr_corner_sloped_mk,
      w1, w2, w3, w4, w5, w6, w7, w8, w9, w10, w11, w12, w13, w14, w15, w16, w17, w18, w19,
      w20, w21, w22, w23]
  have ec0w : WithArith.centers0 binary32 ⟨150, 100, 500, 250⟩ 30
      = ⟨180, 130⟩ := by
    simp only [WithArith_centers0_mk, eRTw, eyTw,
      w1, w2, w3, w4, w5, w6, w7, w8, w9, w10, w11, w12, w13, w14, w15, w16, w17, w18, w19,
      w20, w21, w22, w23]
  have ec1w : WithArith.centers1 binary32 ⟨150, 100, 500, 250⟩ 30 (13421773 / 67108864)
      = ⟨570, 130⟩ := by
    simp only [WithArith_centers1_mk, eRTw, eyTw, exTRw,
      w1, w2, w3, w4, w5, w6, w7, w8, w9, w10, w11, w12, w13, w14, w15, w16, w17, w18, w19,
      w20, w21, w22, w23]
  have ec2w : WithArith.centers2 binary32 ⟨150, 100, 500, 250⟩ 40
      = ⟨610, 310⟩ := by
    simp only [WithArith_centers2_mk, eRBw, eyBw,
      w1, w2, w3, w4, w5, w6, w7, w8, w9, w10, w11, w12, w13, w14, w15, w16, w17, w18, w19,
      w20, w21, w22, w23]
  have ec3w : WithArith.centers3 binary32 ⟨150, 100, 500, 250⟩ 40
      = ⟨190, 310⟩ := by
    simp only [WithArith_centers3_mk, eRBw, eyBw,
      w1, w2, w3, w4, w5, w6, w7, w8, w9, w10, w11, w12, w13, w14, w15, w16, w17, w18, w19,
      w20, w21, w22, w23]
  have egapw : WithArith.top_straight_width binary32 ⟨150, 100, 500, 250⟩ 30 (13421773 / 67108864)
      = 390 := by
    simp only [WithArith_top_straight_width_eq, ec0w, ec1w,
      w1, w2, w3, w4, w5, w6, w7, w8, w9, w10, w11, w12, w13, w14, w15, w16, w17, w18, w19,
      w20, w21, w22, w23]
  refine ⟨?_, ?_, hd.1, hd.2⟩
  · rw [h.2.2.2.2.1]
    norm_num [effectiveRadius, fmaxf, fminf]
    rfl
  · rw [hb]
    simp only [eRBw, eRTw, eyTw, eyBw, exTRw, ec0w, ec1w, ec2w, ec3w, egapw,
      w1, w2, w3, w4, w5, w6, w7, w8, w9, w10, w11, w12, w13, w14, w15, w16, w17, w18, w19,
      w20, w21, w22, w23]
    rfl

/-- C8 (outline and fill agree on the corner centres): for every input the
four sector outlines of the `main_12.cpp` outline routine have, in call order,
the same centre, effective radius, angular range and segment count as the four
sectors of the fill routine of `main_11.cpp` and of `main_13.cpp`; the centres
and radii are those the spec's section 4.1 gives from the effective radii. -/
theorem C8_outline_fill_agree (rec : Rectangle) (radiusBottom radiusTop slopeFactor : ℚ)
    (segments : Int) (color fillColor : Color) (thickness : ℚ) :
    arcsOf (Main12.MyDrawSlopedRoundedRectangleWires rec radiusBottom radiusTop slopeFactor
        segments color thickness)
      = sectorsOf (Main11.MyDrawSlopedRoundedRectangle rec radiusBottom radiusTop slopeFactor
        segments fillColor)
    ∧ arcsOf (Main12.MyDrawSlopedRoundedRectangleWires rec radiusBottom radiusTop slopeFactor
        segments color thickness)
      = sectorsOf (Main13.MyDrawSlopedRoundedRectangle rec radiusBottom radiusTop slopeFactor
        segments fillColor)
    ∧ (arcsOf (Main12.MyDrawSlopedRoundedRectangleWires rec radiusBottom radiusTop slopeFactor
        segments color thickness)).map (fun d => (d.center, d.radius))
      = [ (⟨rec.x + effectiveRadius rec radiusTop, rec.y + effectiveRadius rec radiusTop⟩,
            effectiveRadius rec radiusTop),
          (⟨rec.x + rec.width - slopeFactor * rec.height - effectiveRadius rec radiusTop,
             rec.y + effectiveRadius rec radiusTop⟩, effectiveRadius rec radiusTop),
          (⟨rec.x + rec.width - effectiveRadius rec radiusBottom,
             rec.y + rec.height - effectiveRadius rec radiusBottom⟩,
            effectiveRadius rec radiusBottom),
          (⟨rec.x + effectiveRadius rec radiusBottom,
             rec.y + rec.height - effectiveRadius rec radiusBottom⟩,
            effectiveRadius rec radiusBottom) ] := by
  refine ⟨?_, ?_, ?_⟩
  · rw [Main12_wires_eq, Main11_sectorsOf]
    rfl
  · rw [Main13_fill_eq_Main11, Main12_wires_eq, Main11_sectorsOf]
    rfl
  · rw [Main12_wires_eq]
    rfl

/-- C10 (plain-rectangle reduction of the outline of `main_12.cpp`): for a
rectangle with `width ≥ 0` and `height ≥ 0`, zero radii and zero slope, the
four line segments are, in call order, the left side `(x, y+h) - (x, y)`, the
top side `(x, y) - (x+w, y)`, the right side `(x+w, y) - (x+w, y+h)` and the
bottom side `(x, y+h) - (x+w, y+h)`, with the caller's thickness and colour;
their endpoints are the four corners of `rec`, each met by two segments, so
they form a closed border. -/
theorem C10_plain_rectangle_outline (rec : Rectangle) (segments : Int) (color : Color)
    (thickness : ℚ) (hw : 0 ≤ rec.width) (hh : 0 ≤ rec.height) :
    linesOf (Main12.MyDrawSlopedRoundedRectangleWires rec 0 0 0 segments color thickness)
      = [ (⟨rec.x, rec.y + rec.height⟩, ⟨rec.x, rec.y⟩, thickness, color),
          (⟨rec.x, rec.y⟩, ⟨rec.x + rec.width, rec.y⟩, thickness, color),
          (⟨rec.x + rec.width, rec.y⟩, ⟨rec.x + rec.width, rec.y + rec.height⟩, thickness,
            color),
          (⟨rec.x, rec.y + rec.height⟩, ⟨rec.x + rec.width, rec.y + rec.height⟩, thickness,
            color) ]
    ∧ (Main12.MyDrawSlopedRoundedRectangleWires rec 0 0 0 segments color thickness).take 4
      = [ Primitive.DrawLineEx ⟨rec.x, rec.y + rec.height⟩ ⟨rec.x, rec.y⟩ thickness color,
          Primitive.DrawLineEx ⟨rec.x, rec.y⟩ ⟨rec.x + rec.width, rec.y⟩ thickness color,
          Primitive.DrawLineEx ⟨rec.x + rec.width, rec.y⟩
            ⟨rec.x + rec.width, rec.y + rec.height⟩ thickness color,
          Primitive.DrawLineEx ⟨rec.x, rec.y + rec.height⟩
            ⟨rec.x + rec.width, rec.y + rec.height⟩ thickness color ]
    ∧ (endpointsOf (linesOf
          (Main12.MyDrawSlopedRoundedRectangleWires rec 0 0 0 segments color thickness))).Perm
        (rectCorners rec ++ rectCorners rec) := by
  have h : Main12.MyDrawSlopedRoundedRectangleWires rec 0 0 0 segments color thickness
      = [ Primitive.DrawLineEx ⟨rec.x, rec.y + rec.height⟩ ⟨rec.x, rec.y⟩ thickness color,
          Primitive.DrawLineEx ⟨rec.x, rec.y⟩ ⟨rec.x + rec.width, rec.y⟩ thickness color,
          Primitive.DrawLineEx ⟨rec.x + rec.width, rec.y⟩
            ⟨rec.x + rec.width, rec.y + rec.height⟩ thickness color,
          Primitive.DrawLineEx ⟨rec.x, rec.y + rec.height⟩
            ⟨rec.x + rec.width, rec.y + rec.height⟩ thickness color,
          Primitive.DrawCircleSectorLines ⟨rec.x, rec.y⟩ 0 180 270 segments color,
          Primitive.DrawCircleSectorLines ⟨rec.x + rec.width, rec.y⟩ 0 270 360 segments color,
          Primitive.DrawCircleSectorLines ⟨rec.x + rec.width, rec.y + rec.height⟩ 0 0 90
            segments color,
          Primitive.DrawCircleSectorLines ⟨rec.x, rec.y + rec.height⟩ 0 90 180 segments
            color ] := by
    rw [Main12_wires_eq, effectiveRadius_zero rec hw hh]
    simp only [add_zero, sub_zero, zero_mul]
  refine ⟨?_, ?_, ?_⟩
  · rw [h]
    rfl
  · rw [h]
    rfl
  · rw [h]
    simp only [linesOf, List.filterMap_cons, Primitive.line?, List.filterMap_nil, endpointsOf,
      List.flatMap_cons, List.flatMap_nil, rectCorners, List.cons_append, List.nil_append,
      List.append_nil]
    exact sides_perm_corners _ _ _ _

/-- C10 at `rec = {0, 0, 200, 100}`: the four sides of the rectangle. -/
theorem C10_plain_rectangle_outline_witness :
    linesOf (Main12.MyDrawSlopedRoundedRectangleWires ⟨0, 0, 200, 100⟩ 0 0 0 16
        ⟨0, 0, 0, 255⟩ 2)
      = [ (⟨0, 100⟩, ⟨0, 0⟩, 2, ⟨0, 0, 0, 255⟩),
          (⟨0, 0⟩, ⟨200, 0⟩, 2, ⟨0, 0, 0, 255⟩),
          (⟨200, 0⟩, ⟨200, 100⟩, 2, ⟨0, 0, 0, 255⟩),
          (⟨0, 100⟩, ⟨200, 100⟩, 2, ⟨0, 0, 0, 255⟩) ] := by
  have h := C10_plain_rectangle_outline ⟨0, 0, 200, 100⟩ 16 ⟨0, 0, 0, 255⟩ 2
    (by norm_num) (by norm_num)
  rw [h.1]
  norm_num

/-- C11, the claim as stated fails: for `rec = {0, 0, 0, 100}` (zero width) the
fill of `main_11.cpp` still makes four `DrawCircleSector` calls and the outline
of `main_12.cpp` four `DrawCircleSectorLines` calls, all of radius 0. -/
theorem C11_degenerate_extent_counterexample :
    sectorsOf (Main11.MyDrawSlopedRoundedRectangle ⟨0, 0, 0, 100⟩ 40 30 0 16
        ⟨0, 121, 241, 255⟩)
      = [ ⟨⟨0, 0⟩, 0, 180, 270, 16⟩, ⟨⟨0, 0⟩, 0, 270, 360, 16⟩,
          ⟨⟨0, 100⟩, 0, 0, 90, 16⟩, ⟨⟨0, 100⟩, 0, 90, 180, 16⟩ ]
    ∧ arcsOf (Main12.MyDrawSlopedRoundedRectangleWires ⟨0, 0, 0, 100⟩ 40 30 0 16
        ⟨0, 0, 0, 255⟩ 2)
      = [ ⟨⟨0, 0⟩, 0, 180, 270, 16⟩, ⟨⟨0, 0⟩, 0, 270, 360, 16⟩,
          ⟨⟨0, 100⟩, 0, 0, 90, 16⟩, ⟨⟨0, 100⟩, 0, 90, 180, 16⟩ ]
    ∧ sectorsOf (Main11.MyDrawSlopedRoundedRectangle ⟨0, 0, 0, 100⟩ 40 30 0 16
        ⟨0, 121, 241, 255⟩) ≠ []
    ∧ arcsOf (Main12.MyDrawSlopedRoundedRectangleWires ⟨0, 0, 0, 100⟩ 40 30 0 16
        ⟨0, 0, 0, 255⟩ 2) ≠ [] := by
  have e1 : effectiveRadius ⟨0, 0, 0, 100⟩ 30 = 0 := by
    norm_num [effectiveRadius, fmaxf, fminf]
  have e2 : effectiveRadius ⟨0, 0, 0, 100⟩ 40 = 0 := by
    norm_num [effectiveRadius, fmaxf, fminf]
  have h1 : sectorsOf (Main11.MyDrawSlopedRoundedRectangle ⟨0, 0, 0, 100⟩ 40 30 0 16
        ⟨0, 121, 241, 255⟩)
      = [ ⟨⟨0, 0⟩, 0, 180, 270, 16⟩, ⟨⟨0, 0⟩, 0, 270, 360, 16⟩,
          ⟨⟨0, 100⟩, 0, 0, 90, 16⟩, ⟨⟨0, 100⟩, 0, 90, 180, 16⟩ ] := by
    rw [Main11_sectorsOf, e1, e2]
    norm_num
  have h2 : arcsOf (Main12.MyDrawSlopedRoundedRectangleWires ⟨0, 0, 0, 100⟩ 40 30 0 16
        ⟨0, 0, 0, 255⟩ 2)
      = [ ⟨⟨0, 0⟩, 0, 180, 270, 16⟩, ⟨⟨0, 0⟩, 0, 270, 360, 16⟩,
          ⟨⟨0, 100⟩, 0, 0, 90, 16⟩, ⟨⟨0, 100⟩, 0, 90, 180, 16⟩ ] := by
    rw [Main12_arcsOf, e1, e2]
    norm_num
  refine ⟨h1, h2, ?_, ?_⟩
  · rw [h1]
    exact List.cons_ne_nil _ _
  · rw [h2]
    exact List.cons_ne_nil _ _

/-- C11 as amended (degenerate extents): for every input the fill of
`main_11.cpp` and the outline of `main_12.cpp` make their four sector calls
with the effective radii, also when an effective radius is 0.  When
`rec.width = 0` or `rec.height = 0` (the other extent `≥ 0`), `maxRadius` is 0,
both effective radii are 0 for every requested radius, and the four calls are
sectors of radius 0 at the corners `(x, y)`, `(x + w - slopeFactor * h, y)`,
`(x + w, y + h)`, `(x, y + h)` of the sloped quadrilateral. -/
theorem C11_degenerate_extent_arcs (rec : Rectangle) (radiusBottom radiusTop slopeFactor : ℚ)
    (segments : Int) (color : Color) (thickness : ℚ) :
    (sectorsOf (Main11.MyDrawSlopedRoundedRectangle rec radiusBottom radiusTop slopeFactor
        segments color)).map SectorData.radius
      = [ effectiveRadius rec radiusTop, effectiveRadius rec radiusTop,
          effectiveRadius rec radiusBottom, effectiveRadius rec radiusBottom ]
    ∧ (arcsOf (Main12.MyDrawSlopedRoundedRectangleWires rec radiusBottom radiusTop slopeFactor
        segments color thickness)).map SectorData.radius
      = [ effectiveRadius rec radiusTop, effectiveRadius rec radiusTop,
          effectiveRadius rec radiusBottom, effectiveRadius rec radiusBottom ]
    ∧ ((rec.width = 0 ∧ 0 ≤ rec.height) ∨ (rec.height = 0 ∧ 0 ≤ rec.width) →
        fminf rec.width rec.height / 2 = 0
        ∧ effectiveRadius rec radiusTop = 0
        ∧ effectiveRadius rec radiusBottom = 0
        ∧ sectorsOf (Main11.MyDrawSlopedRoundedRectangle rec radiusBottom radiusTop
            slopeFactor segments color)
          = [ ⟨⟨rec.x, rec.y⟩, 0, 180, 270, segments⟩,
              ⟨⟨rec.x + rec.width - slopeFactor * rec.height, rec.y⟩, 0, 270, 360, segments⟩,
              ⟨⟨rec.x + rec.width, rec.y + rec.height⟩, 0, 0, 90, segments⟩,
              ⟨⟨rec.x, rec.y + rec.height⟩, 0, 90, 180, segments⟩ ]
        ∧ arcsOf (Main12.MyDrawSlopedRoundedRectangleWires rec radiusBottom radiusTop
            slopeFactor segments color thickness)
          = [ ⟨⟨rec.x, rec.y⟩, 0, 180, 270, segments⟩,
              ⟨⟨rec.x + rec.width - slopeFactor * rec.height, rec.y⟩, 0, 270, 360, segments⟩,
              ⟨⟨rec.x + rec.width, rec.y + rec.height⟩, 0, 0, 90, segments⟩,
              ⟨⟨rec.x, rec.y + rec.height⟩, 0, 90, 180, segments⟩ ]) := by
  refine ⟨?_, ?_, ?_⟩
  · rw [Main11_sectorsOf]
    rfl
  · rw [Main12_arcsOf]
    rfl
  · intro h
    have eT := effectiveRadius_degenerate rec radiusTop h
    have eB := effectiveRadius_degenerate rec radiusBottom h
    refine ⟨halfMin_eq_zero rec h, eT, eB, ?_, ?_⟩
    · rw [Main11_sectorsOf, eT, eB]
      simp only [add_zero, sub_zero]
    · rw [Main12_arcsOf, eT, eB]
      simp only [add_zero, sub_zero]

/-- C11 as amended, at `rec = {10, 20, 0, 100}` with slope `1/5`: radii 0 and
four sector calls of radius 0 in the fill and in the outline. -/
theorem C11_degenerate_extent_arcs_witness :
    effectiveRadius ⟨10, 20, 0, 100⟩ 30 = 0
    ∧ effectiveRadius ⟨10, 20, 0, 100⟩ 40 = 0
    ∧ sectorsOf (Main11.MyDrawSlopedRoundedRectangle ⟨10, 20, 0, 100⟩ 40 30 (1 / 5) 16
        ⟨0, 121, 241, 255⟩)
      = [ ⟨⟨10, 20⟩, 0, 180, 270, 16⟩, ⟨⟨-10, 20⟩, 0, 270, 360, 16⟩,
          ⟨⟨10, 120⟩, 0, 0, 90, 16⟩, ⟨⟨10, 120⟩, 0, 90, 180, 16⟩ ]
    ∧ arcsOf (Main12.MyDrawSlopedRoundedRectangleWires ⟨10, 20, 0, 100⟩ 40 30 (1 / 5) 16
        ⟨0, 0, 0, 255⟩ 2)
      = [ ⟨⟨10, 20⟩, 0, 180, 270, 16⟩, ⟨⟨-10, 20⟩, 0, 270, 360, 16⟩,
          ⟨⟨10, 120⟩, 0, 0, 90, 16⟩, ⟨⟨10, 120⟩, 0, 90, 180, 16⟩ ] := by
  have h1 := (C11_degenerate_extent_arcs ⟨10, 20, 0, 100⟩ 40 30 (1 / 5) 16 ⟨0, 121, 241, 255⟩
    2).2.2 (Or.inl ⟨rfl, by norm_num⟩)
  have h2 := (C11_degenerate_extent_arcs ⟨10, 20, 0, 100⟩ 40 30 (1 / 5) 16 ⟨0, 0, 0, 255⟩
    2).2.2 (Or.inl ⟨rfl, by norm_num⟩)
  refine ⟨h1.2.1, h1.2.2.1, ?_, ?_⟩
  · rw [h1.2.2.2.1]
    norm_num
  · rw [h2.2.2.2.2]
    norm_num

/-- C12, the code at a negative width: for `rec = {150, 100, -4, 250}` and
requested radii `40` (bottom) and `30` (top), `maxRadius` is `-2` and the four
sectors of the `main_11.cpp` fill and the four sector outlines of the
`main_12.cpp` outline all carry the radius `-2`, which is negative. -/
theorem C12_negative_extent_radii :
    effectiveRadius ⟨150, 100, -4, 250⟩ 30 = -2
    ∧ effectiveRadius ⟨150, 100, -4, 250⟩ 40 = -2
    ∧ (sectorsOf (Main11.MyDrawSlopedRoundedRectangle ⟨150, 100, -4, 250⟩ 40 30 (1 / 5) 16
        ⟨0, 121, 241, 255⟩)).map SectorData.radius = [-2, -2, -2, -2]
    ∧ (arcsOf (Main12.MyDrawSlopedRoundedRectangleWires ⟨150, 100, -4, 250⟩ 40 30 (1 / 5) 16
        ⟨0, 0, 0, 255⟩ 2)).map SectorData.radius = [-2, -2, -2, -2] := by
  have e1 : effectiveRadius ⟨150, 100, -4, 250⟩ 30 = -2 := by
    norm_num [effectiveRadius, fmaxf, fminf]
  have e2 : effectiveRadius ⟨150, 100, -4, 250⟩ 40 = -2 := by
    norm_num [effectiveRadius, fmaxf, fminf]
  refine ⟨e1, e2, ?_, ?_⟩
  · rw [Main11_sectorsOf, e1, e2]
    rfl
  · rw [Main12_arcsOf, e1, e2]
    rfl

/-- C14, the claim as stated fails: called with `segments = 2` the fill of
`main_11.cpp` makes its nine calls and the outline of `main_12.cpp` its eight,
and every sector and sector outline carries the segment count `2`. -/
theorem C14_segment_floor_counterexample :
    (Main11.MyDrawSlopedRoundedRectangle ⟨0, 0, 200, 100⟩ 20 20 0 2 ⟨0, 121, 241, 255⟩).length
      = 9
    ∧ (sectorsOf (Main11.MyDrawSlopedRoundedRectangle ⟨0, 0, 200, 100⟩ 20 20 0 2
        ⟨0, 121, 241, 255⟩)).map SectorData.segments = [2, 2, 2, 2]
    ∧ (Main12.MyDrawSlopedRoundedRectangleWires ⟨0, 0, 200, 100⟩ 20 20 0 2
        ⟨0, 0, 0, 255⟩ 2).length = 8
    ∧ (arcsOf (Main12.MyDrawSlopedRoundedRectangleWires ⟨0, 0, 200, 100⟩ 20 20 0 2
        ⟨0, 0, 0, 255⟩ 2)).map SectorData.segments = [2, 2, 2, 2] := by
  refine ⟨?_, ?_, ?_, ?_⟩
  · rw [Main11_fill_eq]
    rfl
  · rw [Main11_sectorsOf]
    rfl
  · rw [Main12_wires_eq]
    rfl
  · rw [Main12_arcsOf]
    rfl

/-- C14 as amended (no segment floor in the draw routines): for every call of
the fill of `main_11.cpp` or the outline of `main_12.cpp`, whatever `segments`
is, the call is not rejected (nine and eight calls are made) and each of the
four sectors or sector outlines carries the caller's `segments` unchanged;
the floor of 3 is kept by the harness alone (C15). -/
theorem C14_segments_passed_through (rec : Rectangle) (radiusBottom radiusTop slopeFactor : ℚ)
    (segments : Int) (color : Color) (thickness : ℚ) :
    (Main11.MyDrawSlopedRoundedRectangle rec radiusBottom radiusTop slopeFactor segments
        color).length = 9
    ∧ (sectorsOf (Main11.MyDrawSlopedRoundedRectangle rec radiusBottom radiusTop slopeFactor
        segments color)).map SectorData.segments = [segments, segments, segments, segments]
    ∧ (Main12.MyDrawSlopedRoundedRectangleWires rec radiusBottom radiusTop slopeFactor
        segments color thickness).length = 8
    ∧ (arcsOf (Main12.MyDrawSlopedRoundedRectangleWires rec radiusBottom radiusTop slopeFactor
        segments color thickness)).map SectorData.segments
      = [segments, segments, segments, segments] := by
  refine ⟨?_, ?_, ?_, ?_⟩
  · rw [Main11_fill_eq]
    rfl
  · rw [Main11_sectorsOf]
    rfl
  · rw [Main12_wires_eq]
    rfl
  · rw [Main12_arcsOf]
    rfl

/-- C15 (the harness keeps `segments` in range): in the harnesses of
`main_11.cpp` and `main_12.cpp` one frame sets `segments` to
`max(3, segments - 1)` when F is held and then to `min(360, segments + 1)`
when G is held; started from 16, after any sequence of frames with any keys
held the value is within `[3, 360]`, and so is every value passed to the draw
routines, one per frame. -/
theorem C15_harness_segments_range (frames : List (Bool × Bool)) :
    (∀ (segments : Int) (keyF keyG : Bool),
      Main11.updateSegments segments keyF keyG
        = (if keyG then min 360 ((if keyF then max 3 (segments - 1) else segments) + 1)
            else (if keyF then max 3 (segments - 1) else segments)))
    ∧ (∀ (segments : Int) (keyF keyG : Bool),
      Main12.updateSegments segments keyF keyG
        = (if keyG then min 360 ((if keyF then max 3 (segments - 1) else segments) + 1)
            else (if keyF then max 3 (segments - 1) else segments)))
    ∧ Main11.segmentsAfter [] = 16
    ∧ Main12.segmentsAfter [] = 16
    ∧ 3 ≤ Main11.segmentsAfter frames ∧ Main11.segmentsAfter frames ≤ 360
    ∧ 3 ≤ Main12.segmentsAfter frames ∧ Main12.segmentsAfter frames ≤ 360
    ∧ (Main11.segmentsPassed frames).length = frames.length
    ∧ (Main12.segmentsPassed frames).length = frames.length
    ∧ (Main11.segmentsPassed frames).all (fun s => decide (3 ≤ s ∧ s ≤ 360)) = true
    ∧ (Main12.segmentsPassed frames).all (fun s => decide (3 ≤ s ∧ s ≤ 360)) = true := by
  have h16 : (3 : Int) ≤ 16 ∧ (16 : Int) ≤ 360 := by decide
  have hfold := Main11_foldl_range frames 16 h16
  have hscan := Main11_scanl_tail_range frames 16 h16
  refine ⟨Main11_updateSegments_eq, fun s f g => ?_, rfl, rfl, hfold.1, hfold.2, hfold.1,
    hfold.2, ?_, ?_, hscan, hscan⟩
  · rw [Main12_updateSegments_eq_Main11, Main11_updateSegments_eq]
  · simp [Main11.segmentsPassed, List.length_scanl]
  · simp [Main12.segmentsPassed, List.length_scanl]

/-- C16, the claim as stated fails in the arithmetic of the program.  In the
`main_11.cpp` harness, forty frames of `KEY_T` take `slopeFactor` from `0.2f` to
`7 / 2^27 > 0`.  For `rec = {150, 100, 500, 250}` (height `250 > 0`) the shift
`slopeFactor * rec.height` is `875 / 2^26`, about `1.3e-5`, and
`650 - 875 / 2^26` rounds to `650`: the sloped corner is at
`x = 650 = rec.x + rec.width`, not strictly left of it, and it is where the
slope factor `0` puts it, so it has not strictly decreased.  The right fan and
the TopRight centre (`x = 620`) are those of slope `0`. -/
theorem C16_slope_absorbed_counterexample :
    WithArith.Main11.slopeFactorAfter binary32 (List.replicate 40 (true, false))
      = 7 / 134217728
    ∧ (0 : ℚ) < 7 / 134217728 ∧ (0 : ℚ) < 250
    ∧ binary32.mul (7 / 134217728) 250 = 875 / 67108864
    ∧ binary32.add 150 500 = 650
    ∧ WithArith.x_tr_corner_sloped binary32 ⟨150, 100, 500, 250⟩ (7 / 134217728) = 650
    ∧ WithArith.x_tr_corner_sloped binary32 ⟨150, 100, 500, 250⟩ 0 = 650
    ∧ (WithArith.centers1 binary32 ⟨150, 100, 500, 250⟩ 30 (7 / 134217728)).x = 620
    ∧ (WithArith.centers1 binary32 ⟨150, 100, 500, 250⟩ 30 0).x = 620
    ∧ ((WithArith.Main11.MyDrawSlopedRoundedRectangle binary32 ⟨150, 100, 500, 250⟩ 40 30
        (7 / 134217728) 16
        ⟨0, 121, 241, 255⟩).drop 4).head?
      = some (Primitive.DrawTriangleFan [⟨650, 130⟩, ⟨650, 130⟩, ⟨650, 310⟩, ⟨650, 310⟩] 4
          ⟨0, 121, 241, 255⟩) := by
  have h1 : fmaxf (0 : ℚ) 40 = 40 := by norm_num [fmaxf]
  have h2 : fmaxf (0 : ℚ) 30 = 30 := by norm_num [fmaxf]
  have h3 : fminf (500 : ℚ) 250 = 250 := by norm_num [fminf]
  have h4 : binary32.div 250 2 = 125 :=
    roundBinary32_pos _ _ 6 (by norm_num) (by norm_num) (by norm_num [roundHalfEven])
  have h5 : fminf (40 : ℚ) 125 = 40 := by norm_num [fminf]
  have h6 : fminf (30 : ℚ) 125 = 30 := by norm_num [fminf]
  have h7 : binary32.mul (7 / 134217728) 250 = (875 / 67108864) :=
    roundBinary32_pos _ _ (-17) (by norm_num) (by norm_num) (by norm_num [roundHalfEven])
  have h8 : binary32.add 100 30 = 130 :=
    roundBinary32_pos _ _ 7 (by norm_num) (by norm_num) (by norm_num [roundHalfEven])
  have h9 : binary32.add 100 250 = 350 :=
    roundBinary32_pos _ _ 8 (by norm_num) (by norm_num) (by norm_num [roundHalfEven])
  have h10 : binary32.sub 350 40 = 310 :=
    roundBinary32_pos _ _ 8 (by norm_num) (by norm_num) (by norm_num [roundHalfEven])
  have h11 : binary32.add 150 500 = 650 :=
    roundBinary32_pos _ _ 9 (by norm_num) (by norm_num) (by norm_num [roundHalfEven])
  have h12 : binary32.sub 650 (875 / 67108864) = 650 :=
    roundBinary32_pos _ _ 9 (by norm_num) (by norm_num) (by norm_num [roundHalfEven])
  have h13 : binary32.add 150 30 = 180 :=
    roundBinary32_pos _ _ 7 (by norm_num) (by norm_num) (by norm_num [roundHalfEven])
  have h14 : binary32.sub 650 30 = 620 :=
    roundBinary32_pos _ _ 9 (by norm_num) (by norm_num) (by norm_num [roundHalfEven])
  have h15 : binary32.sub 650 40 = 610 :=
    roundBinary32_pos _ _ 9 (by norm_num) (by norm_num) (by norm_num [roundHalfEven])
  have h16 : binary32.add 150 40 = 190 :=
    roundBinary32_pos _ _ 7 (by norm_num) (by norm_num) (by norm_num [roundHalfEven])
  have h17 : binary32.sub 620 180 = 440 :=
    roundBinary32_pos _ _ 8 (by norm_num) (by norm_num) (by norm_num [roundHalfEven])
  have h18 : binary32.sub 310 130 = 180 :=
    roundBinary32_pos _ _ 7 (by norm_num) (by norm_num) (by norm_num [roundHalfEven])
  have h19 : binary32.sub 610 190 = 420 :=
    roundBinary32_pos _ _ 8 (by norm_num) (by norm_num) (by norm_num [roundHalfEven])
  have h20 : binary32.add 620 30 = 650 :=
    roundBinary32_pos _ _ 9 (by norm_num) (by norm_num) (by norm_num [roundHalfEven])
  have h21 : binary32.add 610 40 = 650 :=
    roundBinary32_pos _ _ 9 (by norm_num) (by norm_num) (by norm_num [roundHalfEven])
  have g1 : fmaxf (0 : ℚ) 40 = 40 := by norm_num [fmaxf]
  have g2 : fmaxf (0 : ℚ) 30 = 30 := by norm_num [fmaxf]
  have g3 : fminf (500 : ℚ) 250 = 250 := by norm_num [fminf]
  have g4 : binary32.div 250 2 = 125 :=
    roundBinary32_pos _ _ 6 (by norm_num) (by norm_num) (by norm_num [roundHalfEven])
  have g5 : fminf (40 : ℚ) 125 = 40 := by norm_num [fminf]
  have g6 : fminf (30 : ℚ) 125 = 30 := by norm_num [fminf]
  have g7 : binary32.mul 0 250 = 0 :=
    roundBinary32_of_eq_zero _ (by norm_num)
  have g8 : binary32.add 100 30 = 130 :=
    roundBinary32_pos _ _ 7 (by norm_num) (by norm_num) (by norm_num [roundHalfEven])
  have g9 : binary32.add 100 250 = 350 :=
    roundBinary32_pos _ _ 8 (by norm_num) (by norm_num) (by norm_num [roundHalfEven])
  have g10 : binary32.sub 350 40 = 310 :=
    roundBinary32_pos _ _ 8 (by norm_num) (by norm_num) (by norm_num [roundHalfEven])
  have g11 : binary32.add 150 500 = 650 :=
    roundBinary32_pos _ _ 9 (by norm_num) (by norm_num) (by norm_num [roundHalfEven])
  have g12 : binary32.sub 650 0 = 650 :=
    roundBinary32_pos _ _ 9 (by norm_num) (by norm_num) (by norm_num [roundHalfEven])
  have g13 : binary32.add 150 30 = 180 :=
    roundBinary32_pos _ _ 7 (by norm_num) (by norm_num) (by norm_num [roundHalfEven])
  have g14 : binary32.sub 650 30 = 620 :=
    roundBinary32_pos _ _ 9 (by norm_num) (by norm_num) (by norm_num [roundHalfEven])
  have g15 : binary32.sub 650 40 = 610 :=
    roundBinary32_pos _ _ 9 (by norm_num) (by norm_num) (by norm_num [roundHalfEven])
  have g16 : binary32.add 150 40 = 190 :=
    roundBinary32_pos _ _ 7 (by norm_num) (by norm_num) (by norm_num [roundHalfEven])
  have g17 : binary32.sub 620 180 = 440 :=
    roundBinary32_pos _ _ 8 (by norm_num) (by norm_num) (by norm_num [roundHalfEven])
  have eRB : WithArith.effectiveRadius binary32 ⟨150, 100, 500, 250⟩ 40
      = 40 := by
    simp only [WithArith_effectiveRadius_mk,
      h1, h2, h3, h4, h5, h6, h7, h8, h9, h10, h11, h12, h13, h14, h15, h16, h17, h18, h19,
      h20, h21]
  have eRT : WithArith.effectiveRadius binary32 ⟨150, 100, 500, 250⟩ 30
      = 30 := by
    simp only [WithArith_effectiveRadius_mk,
      h1, h2, h3, h4, h5, h6, h7, h8, h9, h10, h11, h12, h13, h14, h15, h16, h17, h18, h19,
      h20, h21]
  have eyT : WithArith.y_top_straight binary32 ⟨150, 100, 500, 250⟩ 30
      = 130 := by
    simp only [WithArith_y_top_straight_mk, eRT,
      h1, h2, h3, h4, h5, h6, h7, h8, h9, h10, h11, h12, h13, h14, h15, h16, h17, h18, h19,
      h20, h21]
  have eyB : WithArith.y_bottom_straight binary32 ⟨150, 100, 500, 250⟩ 40
      = 310 := by
    simp only [WithArith_y_bottom_straight_mk, eRB,
      h1, h2, h3, h4, h5, h6, h7, h8, h9, h10, h11, h12, h13, h14, h15, h16, h17, h18, h19,
      h20, h21]
  have exTR : WithArith.x_tr_corner_sloped binary32 ⟨150, 100, 500, 250⟩ (7 / 134217728)
      = 650 := by
    simp only [WithArith_x_tr_corner_sloped_mk,
      h1, h2, h3, h4, h5, h6, h7, h8, h9, h10, h11, h12, h13, h14, h15, h16, h17, h18, h19,
      h20, h21]
  have ec0 : WithArith.centers0 binary32 ⟨150, 100, 500, 250⟩ 30
      = ⟨180, 130⟩ := by
    simp only [WithArith_centers0_mk, eRT, eyT,
      h1, h2, h3, h4, h5, h6, h7, h8, h9, h10, h11, h12, h13, h14, h15, h16, h17, h18, h19,
      h20, h21]
  have ec1 : WithArith.centers1 binary32 ⟨150, 100, 500, 250⟩ 30 (7 / 134217728)
      = ⟨620, 130⟩ := by
    simp only [WithArith_centers1_mk, eRT, eyT, exTR,
      h1, h2, h3, h4, h5, h6, h7, h8, h9, h10, h11, h12, h13, h14, h15, h16, h17, h18, h19,
      h20, h21]
  have ec2 : WithArith.centers2 binary32 ⟨150, 100, 500, 250⟩ 40
      = ⟨610, 310⟩ := by
    simp only [WithArith_centers2_mk, eRB, eyB,
      h1, h2, h3, h4, h5, h6, h7, h8, h9, h10, h11, h12, h13, h14, h15, h16, h17, h18, h19,
      h20, h21]
  have ec3 : WithArith.centers3 binary32 ⟨150, 100, 500, 250⟩ 40
      = ⟨190, 310⟩ := by
    simp only [WithArith_centers3_mk, eRB, eyB,
      h1, h2, h3, h4, h5, h6, h7, h8, h9, h10, h11, h12, h13, h14, h15, h16, h17, h18, h19,
      h20, h21]
  have egap : WithArith.top_straight_width binary32 ⟨150, 100, 500, 250⟩ 30 (7 / 134217728)
      = 440 := by
    simp only [WithArith_top_straight_width_eq, ec0, ec1,
      h1, h2, h3, h4, h5, h6, h7, h8, h9, h10, h11, h12, h13, h14, h15, h16, h17, h18, h19,
      h20, h21]
  have eRB0 : WithArith.effectiveRadius binary32 ⟨150, 100, 500, 250⟩ 40
      = 40 := by
    simp only [WithArith_effectiveRadius_mk,
      g1, g2, g3, g4, g5, g6, g7, g8, g9, g10, g11, g12, g13, g14, g15, g16, g17]
  have eRT0 : WithArith.effectiveRadius binary32 ⟨150, 100, 500, 250⟩ 30
      = 30 := by
    simp only [WithArith_effectiveRadius_mk,
      g1, g2, g3, g4, g5, g6, g7, g8, g9, g10, g11, g12, g13, g14, g15, g16, g17]
  have eyT0 : WithArith.y_top_straight binary32 ⟨150, 100, 500, 250⟩ 30
      = 130 := by
    simp only [WithArith_y_top_straight_mk, eRT0,
      g1, g2, g3, g4, g5, g6, g7, g8, g9, g10, g11, g12, g13, g14, g15, g16, g17]
  have eyB0 : WithArith.y_bottom_straight binary32 ⟨150, 100, 500, 250⟩ 40
      = 310 := by
    simp only [WithArith_y_bottom_straight_mk, eRB0,
      g1, g2, g3, g4, g5, g6, g7, g8, g9, g10, g11, g12, g13, g14, g15, g16, g17]
  have exTR0 : WithArith.x_tr_corner_sloped binary32 ⟨150, 100, 500, 250⟩ 0
      = 650 := by
    simp only [WithArith_x_tr_corner_sloped_mk,
      g1, g2, g3, g4, g5, g6, g7, g8, g9, g10, g11, g12, g13, g14, g15, g16, g17]
  have ec00 : WithArith.centers0 binary32 ⟨150, 100, 500, 250⟩ 30
      = ⟨180, 130⟩ := by
    simp only [WithArith_centers0_mk, eRT0, eyT0,
      g1, g2, g3, g4, g5, g6, g7, g8, g9, g10, g11, g12, g13, g14, g15, g16, g17]
  have ec10 : WithArith.centers1 binary32 ⟨150, 100, 500, 250⟩ 30 0
      = ⟨620, 130⟩ := by
    simp only [WithArith_centers1_mk, eRT0, eyT0, exTR0,
      g1, g2, g3, g4, g5, g6, g7, g8, g9, g10, g11, g12, g13, g14, g15, g16, g17]
  have ec20 : WithArith.centers2 binary32 ⟨150, 100, 500, 250⟩ 40
      = ⟨610, 310⟩ := by
    simp only [WithArith_centers2_mk, eRB0, eyB0,
      g1, g2, g3, g4, g5, g6, g7, g8, g9, g10, g11, g12, g13, g14, g15, g16, g17]
  have ec30 : WithArith.centers3 binary32 ⟨150, 100, 500, 250⟩ 40
      = ⟨190, 310⟩ := by
    simp only [WithArith_centers3_mk, eRB0, eyB0,
      g1, g2, g3, g4, g5, g6, g7, g8, g9, g10, g11, g12, g13, g14, g15, g16, g17]
  have egap0 : WithArith.top_straight_width binary32 ⟨150, 100, 500, 250⟩ 30 0
      = 440 := by
    simp only [WithArith_top_straight_width_eq, ec00, ec10,
      g1, g2, g3, g4, g5, g6, g7, g8, g9, g10, g11, g12, g13, g14, g15, g16, g17]
  refine ⟨slopeFactorAfter_40_KEY_T, by norm_num, by norm_num, h7, h11, exTR, exTR0, ?_, ?_, ?_⟩
  · rw [ec1]
  · rw [ec10]
  · rw [WithArith_fill_mk]
    simp only [List.drop_succ_cons, List.drop_zero, List.head?_cons, eRB, eRT, eyT, eyB, exTR, ec0,
        ec1, ec2, ec3, egap, h1, h2, h3, h4, h5, h6, h7, h8, h9, h10, h11, h12, h13, h14, h15, h16,
        h17, h18, h19,
      h20, h21]

/-- C16 as amended (slope sign convention in the fill of `main_11.cpp`).
Whatever the rounding of the `float` operations, the sloped top-right corner,
the second vertex of the right fan, has
`x = (rec.x + rec.width) - slopeFactor * rec.height`, the TopRight centre has
that `x` minus `rT`, and the TopLeft, BottomRight and BottomLeft centres are
computed without `slopeFactor`.  In binary32 arithmetic (finite values, no
operation overflowing), for `rec.height ≥ 0`, neither the corner nor the
TopRight centre moves right when `slopeFactor` grows, a `slopeFactor ≥ 0` puts the corner at or left of the computed
`rec.x + rec.width`, a `slopeFactor ≤ 0` at or right of it, and
`slopeFactor = 0` leaves it there.  In exact arithmetic, for `rec.height > 0`,
both decrease strictly when `slopeFactor` grows, a positive `slopeFactor` puts
the corner strictly left of `rec.x + rec.width`, a negative one strictly right
of it, and the parametrised fill is the fill `Main11.MyDrawSlopedRoundedRectangle`.
The `main_9.cpp` revision, where it draws sectors, places the TopRight centre
by the same convention. -/
theorem C16_slope_sign_convention (A : FloatArith) (rec : Rectangle)
    (radiusBottom radiusTop slopeFactor slopeFactor2 : ℚ) (segments : Int) (color : Color) :
    ((WithArith.Main11.MyDrawSlopedRoundedRectangle A rec radiusBottom radiusTop slopeFactor
        segments color).drop 4).head?
      = some (Primitive.DrawTriangleFan
          [ ⟨A.add (WithArith.centers1 A rec radiusTop slopeFactor).x
               (WithArith.effectiveRadius A rec radiusTop),
              WithArith.y_top_straight A rec radiusTop⟩,
            ⟨WithArith.x_tr_corner_sloped A rec slopeFactor,
              WithArith.y_top_straight A rec radiusTop⟩,
            ⟨A.add rec.x rec.width, WithArith.y_bottom_straight A rec radiusBottom⟩,
            ⟨A.add (WithArith.centers2 A rec radiusBottom).x
               (WithArith.effectiveRadius A rec radiusBottom),
              WithArith.y_bottom_straight A rec radiusBottom⟩ ]
          4 color)
    ∧ WithArith.x_tr_corner_sloped A rec slopeFactor
      = A.sub (A.add rec.x rec.width) (A.mul slopeFactor rec.height)
    ∧ (WithArith.centers1 A rec radiusTop slopeFactor).x
      = A.sub (WithArith.x_tr_corner_sloped A rec slopeFactor)
          (WithArith.effectiveRadius A rec radiusTop)
    ∧ (sectorsOf (WithArith.Main11.MyDrawSlopedRoundedRectangle A rec radiusBottom radiusTop
        slopeFactor segments color)).map SectorData.center
      = [ WithArith.centers0 A rec radiusTop, WithArith.centers1 A rec radiusTop slopeFactor,
          WithArith.centers2 A rec radiusBottom, WithArith.centers3 A rec radiusBottom ]
    ∧ ((sectorsOf (WithArith.Main11.MyDrawSlopedRoundedRectangle A rec radiusBottom radiusTop
        slopeFactor segments color)).eraseIdx 1).map SectorData.center
      = ((sectorsOf (WithArith.Main11.MyDrawSlopedRoundedRectangle A rec radiusBottom radiusTop
        slopeFactor2 segments color)).eraseIdx 1).map SectorData.center
    ∧ (0 ≤ rec.height → slopeFactor ≤ slopeFactor2 →
        WithArith.x_tr_corner_sloped binary32 rec slopeFactor2
          ≤ WithArith.x_tr_corner_sloped binary32 rec slopeFactor
        ∧ (WithArith.centers1 binary32 rec radiusTop slopeFactor2).x
          ≤ (WithArith.centers1 binary32 rec radiusTop slopeFactor).x)
    ∧ (0 ≤ rec.height → 0 ≤ slopeFactor →
        WithArith.x_tr_corner_sloped binary32 rec slopeFactor ≤ binary32.add rec.x rec.width)
    ∧ (0 ≤ rec.height → slopeFactor ≤ 0 →
        binary32.add rec.x rec.width ≤ WithArith.x_tr_corner_sloped binary32 rec slopeFactor)
    ∧ WithArith.x_tr_corner_sloped binary32 rec 0 = binary32.add rec.x rec.width
    ∧ WithArith.x_tr_corner_sloped exactArith rec slopeFactor
      = rec.x + rec.width - slopeFactor * rec.height
    ∧ (WithArith.centers1 exactArith rec radiusTop slopeFactor).x
      = rec.x + rec.width - slopeFactor * rec.height - effectiveRadius rec radiusTop
    ∧ (0 < rec.height → slopeFactor < slopeFactor2 →
        WithArith.x_tr_corner_sloped exactArith rec slopeFactor2
          < WithArith.x_tr_corner_sloped exactArith rec slopeFactor
        ∧ (WithArith.centers1 exactArith rec radiusTop slopeFactor2).x
          < (WithArith.centers1 exactArith rec radiusTop slopeFactor).x)
    ∧ (0 < rec.height → 0 < slopeFactor →
        WithArith.x_tr_corner_sloped exactArith rec slopeFactor < rec.x + rec.width)
    ∧ (0 < rec.height → slopeFactor < 0 →
        rec.x + rec.width < WithArith.x_tr_corner_sloped exactArith rec slopeFactor)
    ∧ WithArith.x_tr_corner_sloped exactArith rec 0 = rec.x + rec.width
    ∧ WithArith.Main11.MyDrawSlopedRoundedRectangle exactArith rec radiusBottom radiusTop
        slopeFactor segments color
      = Main11.MyDrawSlopedRoundedRectangle rec radiusBottom radiusTop slopeFactor segments
          color
    ∧ ((Main11.MyDrawSlopedRoundedRectangle rec radiusBottom radiusTop slopeFactor segments
        color).drop 4).head?
      = some (Primitive.DrawTriangleFan
          [ ⟨rec.x + rec.width - slopeFactor * rec.height,
              rec.y + effectiveRadius rec radiusTop⟩,
            ⟨rec.x + rec.width - slopeFactor * rec.height,
              rec.y + effectiveRadius rec radiusTop⟩,
            ⟨rec.x + rec.width, rec.y + rec.height - effectiveRadius rec radiusBottom⟩,
            ⟨rec.x + rec.width, rec.y + rec.height - effectiveRadius rec radiusBottom⟩ ]
          4 color)
    ∧ (sectorsOf (Main11.MyDrawSlopedRoundedRectangle rec radiusBottom radiusTop slopeFactor
        segments color)).map (fun d => d.center.x)
      = [ rec.x + effectiveRadius rec radiusTop,
          rec.x + rec.width - slopeFactor * rec.height - effectiveRadius rec radiusTop,
          rec.x + rec.width - effectiveRadius rec radiusBottom,
          rec.x + effectiveRadius rec radiusBottom ]
    ∧ (sectorsOf (Main9.MyDrawSlopedRoundedRectangle rec radiusBottom radiusTop slopeFactor
        segments color)).map (fun d => d.center.x)
      = (if effectiveRadius9 rec radiusBottom ≤ 0 ∧ effectiveRadius9 rec radiusTop ≤ 0
            ∧ |slopeFactor| < 1 / 1000 then []
          else
            [ rec.x + effectiveRadius9 rec radiusBottom,
              rec.x + rec.width - effectiveRadius9 rec radiusBottom,
              rec.x + effectiveRadius9 rec radiusTop,
              rec.x + rec.width - slopeFactor * rec.height
                - effectiveRadius9 rec radiusTop ]) := by
  have hx : ∀ s : ℚ, WithArith.x_tr_corner_sloped exactArith rec s
      = rec.x + rec.width - s * rec.height := fun _ => rfl
  have hc : ∀ s : ℚ, (WithArith.centers1 exactArith rec radiusTop s).x
      = rec.x + rec.width - s * rec.height - effectiveRadius rec radiusTop := fun _ => rfl
  refine ⟨?_, rfl, rfl, ?_, ?_, ?_, ?_, ?_, binary32_x_tr_corner_sloped_zero rec, rfl, rfl,
    ?_, ?_, ?_, ?_, rfl, ?_, ?_, ?_⟩
  · rw [WithArith_fill_eq]
    rfl
  · rw [WithArith_fill_sectorsOf]
    rfl
  · rw [WithArith_fill_sectorsOf, WithArith_fill_sectorsOf]
    rfl
  · intro hh hs
    exact ⟨binary32_x_tr_corner_sloped_antitone rec _ _ hh hs,
      binary32_centers1_antitone rec radiusTop _ _ hh hs⟩
  · intro hh hs
    have h := binary32_x_tr_corner_sloped_antitone rec 0 slopeFactor hh hs
    rwa [binary32_x_tr_corner_sloped_zero] at h
  · intro hh hs
    have h := binary32_x_tr_corner_sloped_antitone rec slopeFactor 0 hh hs
    rwa [binary32_x_tr_corner_sloped_zero] at h
  · intro hh hs
    rw [hx, hx, hc, hc]
    have := mul_lt_mul_of_pos_right hs hh
    constructor <;> linarith
  · intro hh hs
    rw [hx]
    have := mul_pos hs hh
    linarith
  · intro hh hs
    rw [hx]
    have := mul_neg_of_neg_of_pos hs hh
    linarith
  · rw [hx]
    ring
  · rw [Main11_fill_eq]
    simp only [List.drop_succ_cons, List.drop_zero, List.head?_cons, sub_add_cancel]
  · rw [Main11_sectorsOf]
    rfl
  · rw [Main9_sectorsOf]
    split_ifs <;> rfl

/-- C16 at `rec = {150, 100, 500, 250}`, radii `40` and `30`.  In binary32
arithmetic the corner for the slope factor `0.2f` of the harness is at
`x = 600`, left of the computed `rec.x + rec.width = 650`; the corner for `2/5`
is at or left of the corner for `1/5`, which is at or left of `650`, and the
corner for `-1/5` is at or right of it.  In exact arithmetic the TopRight
centre for `1/5` is at `x = 570`, the corner at `600`, strictly left of `650`,
and the corner moves strictly left for `2/5` and strictly right of `650` for
`-1/5`. -/
theorem C16_slope_sign_convention_witness :
    (WithArith.x_tr_corner_sloped binary32 ⟨150, 100, 500, 250⟩ (13421773 / 67108864) = 600
      ∧ binary32.add 150 500 = 650
      ∧ WithArith.x_tr_corner_sloped binary32 ⟨150, 100, 500, 250⟩ (13421773 / 67108864)
        ≤ binary32.add 150 500
      ∧ WithArith.x_tr_corner_sloped binary32 ⟨150, 100, 500, 250⟩ (2 / 5)
        ≤ WithArith.x_tr_corner_sloped binary32 ⟨150, 100, 500, 250⟩ (1 / 5)
      ∧ WithArith.x_tr_corner_sloped binary32 ⟨150, 100, 500, 250⟩ (1 / 5)
        ≤ binary32.add 150 500
      ∧ binary32.add 150 500
        ≤ WithArith.x_tr_corner_sloped binary32 ⟨150, 100, 500, 250⟩ (-1 / 5))
    ∧ (sectorsOf (Main11.MyDrawSlopedRoundedRectangle ⟨150, 100, 500, 250⟩ 40 30 (1 / 5) 16
        ⟨0, 121, 241, 255⟩)).map (fun d => d.center.x) = [180, 570, 610, 190]
    ∧ WithArith.x_tr_corner_sloped exactArith ⟨150, 100, 500, 250⟩ (2 / 5)
      < WithArith.x_tr_corner_sloped exactArith ⟨150, 100, 500, 250⟩ (1 / 5)
    ∧ WithArith.x_tr_corner_sloped exactArith ⟨150, 100, 500, 250⟩ (1 / 5) < 150 + 500
    ∧ (150 : ℚ) + 500 < WithArith.x_tr_corner_sloped exactArith ⟨150, 100, 500, 250⟩ (-1 / 5)
    ∧ WithArith.x_tr_corner_sloped exactArith ⟨150, 100, 500, 250⟩ (1 / 5) = 600 := by
  have h := C16_slope_sign_convention binary32 ⟨150, 100, 500, 250⟩ 40 30 (1 / 5) (2 / 5) 16
    ⟨0, 121, 241, 255⟩
  have hn := C16_slope_sign_convention binary32 ⟨150, 100, 500, 250⟩ 40 30 (-1 / 5) 0 16
    ⟨0, 121, 241, 255⟩
  have hf := C16_slope_sign_convention binary32 ⟨150, 100, 500, 250⟩ 40 30
    (13421773 / 67108864) (2 / 5) 16 ⟨0, 121, 241, 255⟩
  have m1 : binary32.mul (13421773 / 67108864) 250 = 50 :=
    roundBinary32_pos _ _ 5 (by norm_num) (by norm_num) (by norm_num [roundHalfEven])
  have a1 : binary32.add 150 500 = 650 :=
    roundBinary32_pos _ _ 9 (by norm_num) (by norm_num) (by norm_num [roundHalfEven])
  have d1 : binary32.sub 650 50 = 600 :=
    roundBinary32_pos _ _ 9 (by norm_num) (by norm_num) (by norm_num [roundHalfEven])
  have ex : WithArith.x_tr_corner_sloped binary32 ⟨150, 100, 500, 250⟩ (13421773 / 67108864)
      = 600 := by
    rw [WithArith_x_tr_corner_sloped_mk, a1, m1, d1]
  obtain ⟨-, -, -, -, -, b1, b2, -, -, x1, -, e1, e2, -, -, -, -, s1, -⟩ := h
  obtain ⟨-, -, -, -, -, -, -, b3, -, -, -, -, -, e3, -, -, -, -, -⟩ := hn
  obtain ⟨-, -, -, -, -, -, f2, -, -, -, -, -, -, -, -, -, -, -, -⟩ := hf
  refine ⟨⟨ex, a1, f2 (by norm_num) (by norm_num), (b1 (by norm_num) (by norm_num)).1,
    b2 (by norm_num) (by norm_num), b3 (by norm_num) (by norm_num)⟩, ?_,
    (e1 (by norm_num) (by norm_num)).1, e2 (by norm_num) (by norm_num),
    e3 (by norm_num) (by norm_num), ?_⟩
  · rw [s1]
    norm_num [effectiveRadius, fmaxf, fminf]
  · rw [x1]
    norm_num

/-- C18, the claim as stated fails: for `rec = {150, 100, 500, 251}` with
requested radii `40` (bottom) and `126` (top), reached in the `main_11.cpp`
harness with `KEY_X` and `KEY_R`, the effective top radius is `251 / 2`,
`yTopStraight = 451 / 2` and `yBottomStraight = 311`, and the first call is
`DrawRectangle(150, 225, 500, 85)`: its top `225` is not `yTopStraight`, and its
bottom edge `225 + 85 = 310` is not `yBottomStraight = 311`.  The values are
binary32 values and every operation involved is exact, so the call is the same
in exact and in binary32 arithmetic. -/
theorem C18_central_band_counterexample :
    effectiveRadius ⟨150, 100, 500, 251⟩ 126 = 251 / 2
    ∧ (100 : ℚ) + effectiveRadius ⟨150, 100, 500, 251⟩ 126 = 451 / 2
    ∧ (100 : ℚ) + 251 - effectiveRadius ⟨150, 100, 500, 251⟩ 40 = 311
    ∧ (Main11.MyDrawSlopedRoundedRectangle ⟨150, 100, 500, 251⟩ 40 126
        (1 / 5) 16 ⟨0, 121, 241, 255⟩).head?
      = some (Primitive.DrawRectangle 150 225 500 85 ⟨0, 121, 241, 255⟩)
    ∧ (WithArith.Main11.MyDrawSlopedRoundedRectangle binary32 ⟨150, 100, 500, 251⟩ 40 126
        (13421773 / 67108864) 16 ⟨0, 121, 241, 255⟩).head?
      = some (Primitive.DrawRectangle 150 225 500 85 ⟨0, 121, 241, 255⟩)
    ∧ ((225 : Int) : ℚ) ≠ 451 / 2
    ∧ (225 : Int) + 85 ≠ 311 := by
  have e1 : effectiveRadius ⟨150, 100, 500, 251⟩ 126 = 251 / 2 := by
    norm_num [effectiveRadius, fmaxf, fminf]
  have e2 : effectiveRadius ⟨150, 100, 500, 251⟩ 40 = 40 := by
    norm_num [effectiveRadius, fmaxf, fminf]
  have h1 : fmaxf (0 : ℚ) 40 = 40 := by norm_num [fmaxf]
  have h2 : fmaxf (0 : ℚ) 126 = 126 := by norm_num [fmaxf]
  have h3 : fminf (500 : ℚ) 251 = 251 := by norm_num [fminf]
  have h4 : binary32.div 251 2 = (251 / 2) :=
    roundBinary32_pos _ _ 6 (by norm_num) (by norm_num) (by norm_num [roundHalfEven])
  have h5 : fminf (40 : ℚ) (251 / 2) = 40 := by norm_num [fminf]
  have h6 : fminf (126 : ℚ) (251 / 2) = (251 / 2) := by norm_num [fminf]
  have h7 : binary32.mul (13421773 / 67108864) 251 = (13159629 / 262144) :=
    roundBinary32_pos _ _ 5 (by norm_num) (by norm_num) (by norm_num [roundHalfEven])
  have h8 : binary32.add 100 (251 / 2) = (451 / 2) :=
    roundBinary32_pos _ _ 7 (by norm_num) (by norm_num) (by norm_num [roundHalfEven])
  have h9 : binary32.add 100 251 = 351 :=
    roundBinary32_pos _ _ 8 (by norm_num) (by norm_num) (by norm_num [roundHalfEven])
  have h10 : binary32.sub 351 40 = 311 :=
    roundBinary32_pos _ _ 8 (by norm_num) (by norm_num) (by norm_num [roundHalfEven])
  have h11 : binary32.add 150 500 = 650 :=
    roundBinary32_pos _ _ 9 (by norm_num) (by norm_num) (by norm_num [roundHalfEven])
  have h12 : binary32.sub 650 (13159629 / 262144) = (9827123 / 16384) :=
    roundBinary32_pos _ _ 9 (by norm_num) (by norm_num) (by norm_num [roundHalfEven])
  have h13 : binary32.add 150 (251 / 2) = (551 / 2) :=
    roundBinary32_pos _ _ 8 (by norm_num) (by norm_num) (by norm_num [roundHalfEven])
  have h14 : binary32.sub (9827123 / 16384) (251 / 2) = (7770931 / 16384) :=
    roundBinary32_pos _ _ 8 (by norm_num) (by norm_num) (by norm_num [roundHalfEven])
  have h15 : binary32.sub 650 40 = 610 :=
    roundBinary32_pos _ _ 9 (by norm_num) (by norm_num) (by norm_num [roundHalfEven])
  have h16 : binary32.add 150 40 = 190 :=
    roundBinary32_pos _ _ 7 (by norm_num) (by norm_num) (by norm_num [roundHalfEven])
  have h17 : binary32.sub (7770931 / 16384) (551 / 2) = (3257139 / 16384) :=
    roundBinary32_pos _ _ 7 (by norm_num) (by norm_num) (by norm_num [roundHalfEven])
  have h18 : binary32.sub 311 (451 / 2) = (171 / 2) :=
    roundBinary32_pos _ _ 6 (by norm_num) (by norm_num) (by norm_num [roundHalfEven])
  have h19 : binary32.sub 610 190 = 420 :=
    roundBinary32_pos _ _ 8 (by norm_num) (by norm_num) (by norm_num [roundHalfEven])
  have h20 : binary32.add (7770931 / 16384) (251 / 2) = (9827123 / 16384) :=
    roundBinary32_pos _ _ 9 (by norm_num) (by norm_num) (by norm_num [roundHalfEven])
  have h21 : binary32.add 610 40 = 650 :=
    roundBinary32_pos _ _ 9 (by norm_num) (by norm_num) (by norm_num [roundHalfEven])
  have eRB : WithArith.effectiveRadius binary32 ⟨150, 100, 500, 251⟩ 40
      = 40 := by
    simp only [WithArith_effectiveRadius_mk,
      h1, h2, h3, h4, h5, h6, h7, h8, h9, h10, h11, h12, h13, h14, h15, h16, h17, h18, h19,
      h20, h21]
  have eRT : WithArith.effectiveRadius binary32 ⟨150, 100, 500, 251⟩ 126
      = 251 / 2 := by
    simp only [WithArith_effectiveRadius_mk,
      h1, h2, h3, h4, h5, h6, h7, h8, h9, h10, h11, h12, h13, h14, h15, h16, h17, h18, h19,
      h20, h21]
  have eyT : WithArith.y_top_straight binary32 ⟨150, 100, 500, 251⟩ 126
      = 451 / 2 := by
    simp only [WithArith_y_top_straight_mk, eRT,
      h1, h2, h3, h4, h5, h6, h7, h8, h9, h10, h11, h12, h13, h14, h15, h16, h17, h18, h19,
      h20, h21]
  have eyB : WithArith.y_bottom_straight binary32 ⟨150, 100, 500, 251⟩ 40
      = 311 := by
    simp only [WithArith_y_bottom_straight_mk, eRB,
      h1, h2, h3, h4, h5, h6, h7, h8, h9, h10, h11, h12, h13, h14, h15, h16, h17, h18, h19,
      h20, h21]
  have exTR : WithArith.x_tr_corner_sloped binary32 ⟨150, 100, 500, 251⟩ (13421773 / 67108864)
      = 9827123 / 16384 := by
    simp only [WithArith_x_tr_corner_sloped_mk,
      h1, h2, h3, h4, h5, h6, h7, h8, h9, h10, h11, h12, h13, h14, h15, h16, h17, h18, h19,
      h20, h21]
  have ec0 : WithArith.centers0 binary32 ⟨150, 100, 500, 251⟩ 126
      = ⟨551 / 2, 451 / 2⟩ := by
    simp only [WithArith_centers0_mk, eRT, eyT,
      h1, h2, h3, h4, h5, h6, h7, h8, h9, h10, h11, h12, h13, h14, h15, h16, h17, h18, h19,
      h20, h21]
  have ec1 : WithArith.centers1 binary32 ⟨150, 100, 500, 251⟩ 126 (13421773 / 67108864)
      = ⟨7770931 / 16384, 451 / 2⟩ := by
    simp only [WithArith_centers1_mk, eRT, eyT, exTR,
      h1, h2, h3, h4, h5, h6, h7, h8, h9, h10, h11, h12, h13, h14, h15, h16, h17, h18, h19,
      h20, h21]
  have ec2 : WithArith.centers2 binary32 ⟨150, 100, 500, 251⟩ 40
      = ⟨610, 311⟩ := by
    simp only [WithArith_centers2_mk, eRB, eyB,
      h1, h2, h3, h4, h5, h6, h7, h8, h9, h10, h11, h12, h13, h14, h15, h16, h17, h18, h19,
      h20, h21]
  have ec3 : WithArith.centers3 binary32 ⟨150, 100, 500, 251⟩ 40
      = ⟨190, 311⟩ := by
    simp only [WithArith_centers3_mk, eRB, eyB,
      h1, h2, h3, h4, h5, h6, h7, h8, h9, h10, h11, h12, h13, h14, h15, h16, h17, h18, h19,
      h20, h21]
  have egap : WithArith.top_straight_width binary32 ⟨150, 100, 500, 251⟩ 126 (13421773 / 67108864)
      = 3257139 / 16384 := by
    simp only [WithArith_top_straight_width_eq, ec0, ec1,
      h1, h2, h3, h4, h5, h6, h7, h8, h9, h10, h11, h12, h13, h14, h15, h16, h17, h18, h19,
      h20, h21]
  refine ⟨e1, ?_, ?_, ?_, ?_, by norm_num, by norm_num⟩
  · rw [e1]
    norm_num
  · rw [e2]
    norm_num
  · rw [Main11_fill_eq, e1, e2]
    simp only [List.head?_cons]
    norm_num [toInt]
    decide
  · rw [WithArith_fill_mk]
    simp only [List.head?_cons, eyT, eyB, h18]
    norm_num [toInt]
    decide

/-- C18 as amended (central band geometry, with the conversion to `int`):
whatever the rounding of the `float` operations, the first call of the fill of
`main_11.cpp` is `DrawRectangle(rec.x, yTopStraight, rec.width,
yBottomStraight - yTopStraight)` with each argument converted to `int`, that
is truncated toward zero: its left edge is `(int)rec.x`, its width
`(int)rec.width`, its top `(int)yTopStraight` and its bottom edge
`(int)yTopStraight + (int)(yBottomStraight - yTopStraight)`.  When the
difference `yBottomStraight - yTopStraight` is computed without rounding, as it
always is in exact arithmetic: if `yTopStraight` and `yBottomStraight` are
integers the top is `yTopStraight` and the bottom edge is `yBottomStraight`; and
if `0 ≤ yTopStraight ≤ yBottomStraight` the bottom edge is
`(int)yBottomStraight` or one less. -/
theorem C18_central_band (A : FloatArith) (rec : Rectangle)
    (radiusBottom radiusTop slopeFactor : ℚ) (segments : Int) (color : Color) :
    (WithArith.Main11.MyDrawSlopedRoundedRectangle A rec radiusBottom radiusTop slopeFactor
        segments color).head?
      = some (Primitive.DrawRectangle (toInt rec.x)
          (toInt (WithArith.y_top_straight A rec radiusTop)) (toInt rec.width)
          (toInt (A.sub (WithArith.y_bottom_straight A rec radiusBottom)
            (WithArith.y_top_straight A rec radiusTop))) color)
    ∧ WithArith.y_top_straight A rec radiusTop
      = A.add rec.y (WithArith.effectiveRadius A rec radiusTop)
    ∧ WithArith.y_bottom_straight A rec radiusBottom
      = A.sub (A.add rec.y rec.height) (WithArith.effectiveRadius A rec radiusBottom)
    ∧ (∀ a b : Int, WithArith.y_top_straight A rec radiusTop = a →
        WithArith.y_bottom_straight A rec radiusBottom = b →
        A.sub (WithArith.y_bottom_straight A rec radiusBottom)
            (WithArith.y_top_straight A rec radiusTop)
          = WithArith.y_bottom_straight A rec radiusBottom
            - WithArith.y_top_straight A rec radiusTop →
        toInt (WithArith.y_top_straight A rec radiusTop) = a
        ∧ toInt (WithArith.y_top_straight A rec radiusTop)
            + toInt (A.sub (WithArith.y_bottom_straight A rec radiusBottom)
              (WithArith.y_top_straight A rec radiusTop)) = b)
    ∧ (0 ≤ WithArith.y_top_straight A rec radiusTop →
        WithArith.y_top_straight A rec radiusTop
          ≤ WithArith.y_bottom_straight A rec radiusBottom →
        A.sub (WithArith.y_bottom_straight A rec radiusBottom)
            (WithArith.y_top_straight A rec radiusTop)
          = WithArith.y_bottom_straight A rec radiusBottom
            - WithArith.y_top_straight A rec radiusTop →
        toInt (WithArith.y_bottom_straight A rec radiusBottom) - 1
          ≤ toInt (WithArith.y_top_straight A rec radiusTop)
            + toInt (A.sub (WithArith.y_bottom_straight A rec radiusBottom)
              (WithArith.y_top_straight A rec radiusTop))
        ∧ toInt (WithArith.y_top_straight A rec radiusTop)
            + toInt (A.sub (WithArith.y_bottom_straight A rec radiusBottom)
              (WithArith.y_top_straight A rec radiusTop))
          ≤ toInt (WithArith.y_bottom_straight A rec radiusBottom))
    ∧ exactArith.sub (WithArith.y_bottom_straight exactArith rec radiusBottom)
          (WithArith.y_top_straight exactArith rec radiusTop)
        = WithArith.y_bottom_straight exactArith rec radiusBottom
          - WithArith.y_top_straight exactArith rec radiusTop
    ∧ WithArith.Main11.MyDrawSlopedRoundedRectangle exactArith rec radiusBottom radiusTop
        slopeFactor segments color
      = Main11.MyDrawSlopedRoundedRectangle rec radiusBottom radiusTop slopeFactor segments
          color
    ∧ (Main11.MyDrawSlopedRoundedRectangle rec radiusBottom radiusTop slopeFactor segments
        color).head?
      = some (Primitive.DrawRectangle (toInt rec.x)
          (toInt (rec.y + effectiveRadius rec radiusTop)) (toInt rec.width)
          (toInt (rec.y + rec.height - effectiveRadius rec radiusBottom
            - (rec.y + effectiveRadius rec radiusTop))) color) := by
  refine ⟨?_, rfl, rfl, ?_, ?_, rfl, rfl, ?_⟩
  · rw [WithArith_fill_eq]
    rfl
  · intro a b ha hb hd
    rw [hd, hb, ha, ← Int.cast_sub, toInt_intCast, toInt_intCast]
    exact ⟨rfl, by ring⟩
  · intro h0 hle hd
    rw [hd]
    have h := toInt_add_bounds (WithArith.y_top_straight A rec radiusTop)
      (WithArith.y_bottom_straight A rec radiusBottom
        - WithArith.y_top_straight A rec radiusTop) h0 (by linarith)
    rw [add_sub_cancel] at h
    exact h
  · rw [Main11_fill_eq]
    rfl

/-- C18 at the spec's scenario `rec = {0, 0, 200, 100}`, radii `20`, slope `0`,
segments `16`, in binary32 arithmetic: `yTopStraight = 20` and
`yBottomStraight = 80` are integers, their difference `60` is computed without
rounding, and the first call is `DrawRectangle(0, 20, 200, 60)`, with top `20`
and bottom edge `80`; in exact arithmetic the first call is the same. -/
theorem C18_central_band_witness :
    (WithArith.Main11.MyDrawSlopedRoundedRectangle binary32 ⟨0, 0, 200, 100⟩ 20 20 0 16
        ⟨0, 121, 241, 255⟩).head?
      = some (Primitive.DrawRectangle 0 20 200 60 ⟨0, 121, 241, 255⟩)
    ∧ toInt (WithArith.y_top_straight binary32 ⟨0, 0, 200, 100⟩ 20) = 20
    ∧ toInt (WithArith.y_top_straight binary32 ⟨0, 0, 200, 100⟩ 20)
        + toInt (binary32.sub (WithArith.y_bottom_straight binary32 ⟨0, 0, 200, 100⟩ 20)
          (WithArith.y_top_straight binary32 ⟨0, 0, 200, 100⟩ 20)) = 80
    ∧ (Main11.MyDrawSlopedRoundedRectangle ⟨0, 0, 200, 100⟩ 20 20 0 16 ⟨0, 121, 241, 255⟩).head?
      = some (Primitive.DrawRectangle 0 20 200 60 ⟨0, 121, 241, 255⟩) := by
  have e : effectiveRadius ⟨0, 0, 200, 100⟩ 20 = 20 := by
    norm_num [effectiveRadius, fmaxf, fminf]
  have h := C18_central_band binary32 ⟨0, 0, 200, 100⟩ 20 20 0 16 ⟨0, 121, 241, 255⟩
  have w1 : fmaxf (0 : ℚ) 20 = 20 := by norm_num [fmaxf]
  have w2 : fminf (200 : ℚ) 100 = 100 := by norm_num [fminf]
  have w3 : binary32.div 100 2 = 50 :=
    roundBinary32_pos _ _ 5 (by norm_num) (by norm_num) (by norm_num [roundHalfEven])
  have w4 : fminf (20 : ℚ) 50 = 20 := by norm_num [fminf]
  have w5 : binary32.mul 0 100 = 0 :=
    roundBinary32_of_eq_zero _ (by norm_num)
  have w6 : binary32.add 0 20 = 20 :=
    roundBinary32_pos _ _ 4 (by norm_num) (by norm_num) (by norm_num [roundHalfEven])
  have w7 : binary32.add 0 100 = 100 :=
    roundBinary32_pos _ _ 6 (by norm_num) (by norm_num) (by norm_num [roundHalfEven])
  have w8 : binary32.sub 100 20 = 80 :=
    roundBinary32_pos _ _ 6 (by norm_num) (by norm_num) (by norm_num [roundHalfEven])
  have w9 : binary32.add 0 200 = 200 :=
    roundBinary32_pos _ _ 7 (by norm_num) (by norm_num) (by norm_num [roundHalfEven])
  have w10 : binary32.sub 200 0 = 200 :=
    roundBinary32_pos _ _ 7 (by norm_num) (by norm_num) (by norm_num [roundHalfEven])
  have w11 : binary32.sub 200 20 = 180 :=
    roundBinary32_pos _ _ 7 (by norm_num) (by norm_num) (by norm_num [roundHalfEven])
  have w12 : binary32.sub 180 20 = 160 :=
    roundBinary32_pos _ _ 7 (by norm_num) (by norm_num) (by norm_num [roundHalfEven])
  have w13 : binary32.sub 80 20 = 60 :=
    roundBinary32_pos _ _ 5 (by norm_num) (by norm_num) (by norm_num [roundHalfEven])
  have w14 : binary32.add 180 20 = 200 :=
    roundBinary32_pos _ _ 7 (by norm_num) (by norm_num) (by norm_num [roundHalfEven])
  have eRBw : WithArith.effectiveRadius binary32 ⟨0, 0, 200, 100⟩ 20
      = 20 := by
    simp only [WithArith_effectiveRadius_mk,
      w1, w2, w3, w4, w5, w6, w7, w8, w9, w10, w11, w12, w13, w14]
  have eRTw : WithArith.effectiveRadius binary32 ⟨0, 0, 200, 100⟩ 20
      = 20 := by
    simp only [WithArith_effectiveRadius_mk,
      w1, w2, w3, w4, w5, w6, w7, w8, w9, w10, w11, w12, w13, w14]
  have eyTw : WithArith.y_top_straight binary32 ⟨0, 0, 200, 100⟩ 20
      = 20 := by
    simp only [WithArith_y_top_straight_mk, eRTw,
      w1, w2, w3, w4, w5, w6, w7, w8, w9, w10, w11, w12, w13, w14]
  have eyBw : WithArith.y_bottom_straight binary32 ⟨0, 0, 200, 100⟩ 20
      = 80 := by
    simp only [WithArith_y_bottom_straight_mk, eRBw,
      w1, w2, w3, w4, w5, w6, w7, w8, w9, w10, w11, w12, w13, w14]
  have exTRw : WithArith.x_tr_corner_sloped binary32 ⟨0, 0, 200, 100⟩ 0
      = 200 := by
    simp only [WithArith_x_tr_corner_sloped_mk,
      w1, w2, w3, w4, w5, w6, w7, w8, w9, w10, w11, w12, w13, w14]
  have ec0w : WithArith.centers0 binary32 ⟨0, 0, 200, 100⟩ 20
      = ⟨20, 20⟩ := by
    simp only [WithArith_centers0_mk, eRTw, eyTw,
      w1, w2, w3, w4, w5, w6, w7, w8, w9, w10, w11, w12, w13, w14]
  have ec1w : WithArith.centers1 binary32 ⟨0, 0, 200, 100⟩ 20 0
      = ⟨180, 20⟩ := by
    simp only [WithArith_centers1_mk, eRTw, eyTw, exTRw,
      w1, w2, w3, w4, w5, w6, w7, w8, w9, w10, w11, w12, w13, w14]
  have ec2w : WithArith.centers2 binary32 ⟨0, 0, 200, 100⟩ 20
      = ⟨180, 80⟩ := by
    simp only [WithArith_centers2_mk, eRBw, eyBw,
      w1, w2, w3, w4, w5, w6, w7, w8, w9, w10, w11, w12, w13, w14]
  have ec3w : WithArith.centers3 binary32 ⟨0, 0, 200, 100⟩ 20
      = ⟨20, 80⟩ := by
    simp only [WithArith_centers3_mk, eRBw, eyBw,
      w1, w2, w3, w4, w5, w6, w7, w8, w9, w10, w11, w12, w13, w14]
  have egapw : WithArith.top_straight_width binary32 ⟨0, 0, 200, 100⟩ 20 0
      = 160 := by
    simp only [WithArith_top_straight_width_eq, ec0w, ec1w,
      w1, w2, w3, w4, w5, w6, w7, w8, w9, w10, w11, w12, w13, w14]
  obtain ⟨h1, -, -, h4, -, -, -, h8⟩ := h
  have hi := h4 20 80 (by rw [eyTw]; norm_num) (by rw [eyBw]; norm_num)
    (by rw [eyTw, eyBw, w13]; norm_num)
  refine ⟨?_, hi.1, hi.2, ?_⟩
  · rw [h1, eyTw, eyBw, w13]
    norm_num [toInt]
  · rw [h8, e]
    norm_num [toInt]

/-- C19, the claim as stated fails: for `rec = {150, 100, 500, 251}` with
requested `radiusBottom = 126`, reached in the `main_11.cpp` harness with
`KEY_X` and `KEY_W`, the effective bottom radius is `251 / 2`,
`BottomLeft.x = 551 / 2`, `BottomRight.x = 1049 / 2` and
`yBottomStraight = 451 / 2`, and the second call is
`DrawRectangle(275, 225, 249, 125)`: its left edge `275` is not `BottomLeft.x`,
its right edge `275 + 249 = 524` is not `BottomRight.x`, its height `125` is not
the effective `radiusBottom`, and its bottom edge `225 + 125 = 350` is not
`rec.y + rec.height = 351`.  Every operation involved is exact, so the call is
the same in exact and in binary32 arithmetic. -/
theorem C19_bottom_band_counterexample :
    effectiveRadius ⟨150, 100, 500, 251⟩ 126 = 251 / 2
    ∧ (150 : ℚ) + effectiveRadius ⟨150, 100, 500, 251⟩ 126 = 551 / 2
    ∧ (150 : ℚ) + 500 - effectiveRadius ⟨150, 100, 500, 251⟩ 126 = 1049 / 2
    ∧ (100 : ℚ) + 251 - effectiveRadius ⟨150, 100, 500, 251⟩ 126 = 451 / 2
    ∧ ((Main11.MyDrawSlopedRoundedRectangle ⟨150, 100, 500, 251⟩ 126 30
        (1 / 5) 16 ⟨0, 121, 241, 255⟩).drop 1).head?
      = some (Primitive.DrawRectangle 275 225 249 125 ⟨0, 121, 241, 255⟩)
    ∧ ((WithArith.Main11.MyDrawSlopedRoundedRectangle binary32 ⟨150, 100, 500, 251⟩ 126 30
        (13421773 / 67108864) 16 ⟨0, 121, 241, 255⟩).drop 1).head?
      = some (Primitive.DrawRectangle 275 225 249 125 ⟨0, 121, 241, 255⟩)
    ∧ ((275 : Int) : ℚ) ≠ 551 / 2
    ∧ (((275 : Int) + 249 : Int) : ℚ) ≠ 1049 / 2
    ∧ ((125 : Int) : ℚ) ≠ 251 / 2
    ∧ (225 : Int) + 125 ≠ 100 + 251 := by
  have e1 : effectiveRadius ⟨150, 100, 500, 251⟩ 126 = 251 / 2 := by
    norm_num [effectiveRadius, fmaxf, fminf]
  have h1 : fmaxf (0 : ℚ) 126 = 126 := by norm_num [fmaxf]
  have h2 : fmaxf (0 : ℚ) 30 = 30 := by norm_num [fmaxf]
  have h3 : fminf (500 : ℚ) 251 = 251 := by norm_num [fminf]
  have h4 : binary32.div 251 2 = (251 / 2) :=
    roundBinary32_pos _ _ 6 (by norm_num) (by norm_num) (by norm_num [roundHalfEven])
  have h5 : fminf (126 : ℚ) (251 / 2) = (251 / 2) := by norm_num [fminf]
  have h6 : fminf (30 : ℚ) (251 / 2) = 30 := by norm_num [fminf]
  have h7 : binary32.mul (13421773 / 67108864) 251 = (13159629 / 262144) :=
    roundBinary32_pos _ _ 5 (by norm_num) (by norm_num) (by norm_num [roundHalfEven])
  have h8 : binary32.add 100 30 = 130 :=
    roundBinary32_pos _ _ 7 (by norm_num) (by norm_num) (by norm_num [roundHalfEven])
  have h9 : binary32.add 100 251 = 351 :=
    roundBinary32_pos _ _ 8 (by norm_num) (by norm_num) (by norm_num [roundHalfEven])
  have h10 : binary32.sub 351 (251 / 2) = (451 / 2) :=
    roundBinary32_pos _ _ 7 (by norm_num) (by norm_num) (by norm_num [roundHalfEven])
  have h11 : binary32.add 150 500 = 650 :=
    roundBinary32_pos _ _ 9 (by norm_num) (by norm_num) (by norm_num [roundHalfEven])
  have h12 : binary32.sub 650 (13159629 / 262144) = (9827123 / 16384) :=
    roundBinary32_pos _ _ 9 (by norm_num) (by norm_num) (by norm_num [roundHalfEven])
  have h13 : binary32.add 150 30 = 180 :=
    roundBinary32_pos _ _ 7 (by norm_num) (by norm_num) (by norm_num [roundHalfEven])
  have h14 : binary32.sub (9827123 / 16384) 30 = (9335603 / 16384) :=
    roundBinary32_pos _ _ 9 (by norm_num) (by norm_num) (by norm_num [roundHalfEven])
  have h15 : binary32.sub 650 (251 / 2) = (1049 / 2) :=
    roundBinary32_pos _ _ 9 (by norm_num) (by norm_num) (by norm_num [roundHalfEven])
  have h16 : binary32.add 150 (251 / 2) = (551 / 2) :=
    roundBinary32_pos _ _ 8 (by norm_num) (by norm_num) (by norm_num [roundHalfEven])
  have h17 : binary32.sub (9335603 / 16384) 180 = (6386483 / 16384) :=
    roundBinary32_pos _ _ 8 (by norm_num) (by norm_num) (by norm_num [roundHalfEven])
  have h18 : binary32.sub (451 / 2) 130 = (191 / 2) :=
    roundBinary32_pos _ _ 6 (by norm_num) (by norm_num) (by norm_num [roundHalfEven])
  have h19 : binary32.sub (1049 / 2) (551 / 2) = 249 :=
    roundBinary32_pos _ _ 7 (by norm_num) (by norm_num) (by norm_num [roundHalfEven])
  have h20 : binary32.add (9335603 / 16384) 30 = (9827123 / 16384) :=
    roundBinary32_pos _ _ 9 (by norm_num) (by norm_num) (by norm_num [roundHalfEven])
  have h21 : binary32.add (1049 / 2) (251 / 2) = 650 :=
    roundBinary32_pos _ _ 9 (by norm_num) (by norm_num) (by norm_num [roundHalfEven])
  have eRB : WithArith.effectiveRadius binary32 ⟨150, 100, 500, 251⟩ 126
      = 251 / 2 := by
    simp only [WithArith_effectiveRadius_mk,
      h1, h2, h3, h4, h5, h6, h7, h8, h9, h10, h11, h12, h13, h14, h15, h16, h17, h18, h19,
      h20, h21]
  have eRT : WithArith.effectiveRadius binary32 ⟨150, 100, 500, 251⟩ 30
      = 30 := by
    simp only [WithArith_effectiveRadius_mk,
      h1, h2, h3, h4, h5, h6, h7, h8, h9, h10, h11, h12, h13, h14, h15, h16, h17, h18, h19,
      h20, h21]
  have eyT : WithArith.y_top_straight binary32 ⟨150, 100, 500, 251⟩ 30
      = 130 := by
    simp only [WithArith_y_top_straight_mk, eRT,
      h1, h2, h3, h4, h5, h6, h7, h8, h9, h10, h11, h12, h13, h14, h15, h16, h17, h18, h19,
      h20, h21]
  have eyB : WithArith.y_bottom_straight binary32 ⟨150, 100, 500, 251⟩ 126
      = 451 / 2 := by
    simp only [WithArith_y_bottom_straight_mk, eRB,
      h1, h2, h3, h4, h5, h6, h7, h8, h9, h10, h11, h12, h13, h14, h15, h16, h17, h18, h19,
      h20, h21]
  have exTR : WithArith.x_tr_corner_sloped binary32 ⟨150, 100, 500, 251⟩ (13421773 / 67108864)
      = 9827123 / 16384 := by
    simp only [WithArith_x_tr_corner_sloped_mk,
      h1, h2, h3, h4, h5, h6, h7, h8, h9, h10, h11, h12, h13, h14, h15, h16, h17, h18, h19,
      h20, h21]
  have ec0 : WithArith.centers0 binary32 ⟨150, 100, 500, 251⟩ 30
      = ⟨180, 130⟩ := by
    simp only [WithArith_centers0_mk, eRT, eyT,
      h1, h2, h3, h4, h5, h6, h7, h8, h9, h10, h11, h12, h13, h14, h15, h16, h17, h18, h19,
      h20, h21]
  have ec1 : WithArith.centers1 binary32 ⟨150, 100, 500, 251⟩ 30 (13421773 / 67108864)
      = ⟨9335603 / 16384, 130⟩ := by
    simp only [WithArith_centers1_mk, eRT, eyT, exTR,
      h1, h2, h3, h4, h5, h6, h7, h8, h9, h10, h11, h12, h13, h14, h15, h16, h17, h18, h19,
      h20, h21]
  have ec2 : WithArith.centers2 binary32 ⟨150, 100, 500, 251⟩ 126
      = ⟨1049 / 2, 451 / 2⟩ := by
    simp only [WithArith_centers2_mk, eRB, eyB,
      h1, h2, h3, h4, h5, h6, h7, h8, h9, h10, h11, h12, h13, h14, h15, h16, h17, h18, h19,
      h20, h21]
  have ec3 : WithArith.centers3 binary32 ⟨150, 100, 500, 251⟩ 126
      = ⟨551 / 2, 451 / 2⟩ := by
    simp only [WithArith_centers3_mk, eRB, eyB,
      h1, h2, h3, h4, h5, h6, h7, h8, h9, h10, h11, h12, h13, h14, h15, h16, h17, h18, h19,
      h20, h21]
  have egap : WithArith.top_straight_width binary32 ⟨150, 100, 500, 251⟩ 30 (13421773 / 67108864)
      = 6386483 / 16384 := by
    simp only [WithArith_top_straight_width_eq, ec0, ec1,
      h1, h2, h3, h4, h5, h6, h7, h8, h9, h10, h11, h12, h13, h14, h15, h16, h17, h18, h19,
      h20, h21]
  refine ⟨e1, ?_, ?_, ?_, ?_, ?_, by norm_num, by norm_num, by norm_num, by norm_num⟩
  · rw [e1]
    norm_num
  · rw [e1]
    norm_num
  · rw [e1]
    norm_num
  · rw [Main11_fill_eq, e1]
    simp only [List.drop_succ_cons, List.drop_zero, List.head?_cons]
    norm_num [toInt]
    decide
  · rw [WithArith_fill_mk]
    simp only [List.drop_succ_cons, List.drop_zero, List.head?_cons, ec2, ec3, eyB, eRB, h19]
    norm_num [toInt]
    decide

/-- C19 as amended (bottom band geometry, with the conversion to `int`):
whatever the rounding of the `float` operations, the second call of the fill
of `main_11.cpp` is `DrawRectangle(BottomLeft.x, yBottomStraight,
BottomRight.x - BottomLeft.x, radiusBottom)` with each argument converted to
`int`, that is truncated toward zero: its left edge is `(int)BottomLeft.x`, its
right edge `(int)BottomLeft.x + (int)(BottomRight.x - BottomLeft.x)`, its top
`(int)yBottomStraight`, its height `(int)radiusBottom` (the effective radius)
and its bottom edge `(int)yBottomStraight + (int)radiusBottom`.  When the
differences `BottomRight.x - BottomLeft.x` and
`yBottomStraight = (rec.y + rec.height) - radiusBottom` are computed without
rounding, as they always are in exact arithmetic: if `BottomLeft.x`,
`BottomRight.x`, `yBottomStraight` and `radiusBottom` are integers, the edges
are `BottomLeft.x`, `BottomRight.x`, `yBottomStraight` and `rec.y + rec.height`,
and the height is `radiusBottom`; and if `0 ≤ BottomLeft.x ≤ BottomRight.x`,
resp. `0 ≤ yBottomStraight` and `0 ≤ radiusBottom`, the right edge is
`(int)BottomRight.x` or one less, resp. the bottom edge is
`(int)(rec.y + rec.height)` or one less. -/
theorem C19_bottom_band (A : FloatArith) (rec : Rectangle)
    (radiusBottom radiusTop slopeFactor : ℚ) (segments : Int) (color : Color) :
    ((WithArith.Main11.MyDrawSlopedRoundedRectangle A rec radiusBottom radiusTop slopeFactor
        segments color).drop 1).head?
      = some (Primitive.DrawRectangle (toInt (WithArith.centers3 A rec radiusBottom).x)
          (toInt (WithArith.y_bottom_straight A rec radiusBottom))
          (toInt (A.sub (WithArith.centers2 A rec radiusBottom).x
            (WithArith.centers3 A rec radiusBottom).x))
          (toInt (WithArith.effectiveRadius A rec radiusBottom)) color)
    ∧ (sectorsOf (WithArith.Main11.MyDrawSlopedRoundedRectangle A rec radiusBottom radiusTop
        slopeFactor segments color)).drop 2
      = [ ⟨WithArith.centers2 A rec radiusBottom, WithArith.effectiveRadius A rec radiusBottom,
            0, 90, segments⟩,
          ⟨WithArith.centers3 A rec radiusBottom, WithArith.effectiveRadius A rec radiusBottom,
            90, 180, segments⟩ ]
    ∧ WithArith.centers2 A rec radiusBottom
      = ⟨A.sub (A.add rec.x rec.width) (WithArith.effectiveRadius A rec radiusBottom),
          WithArith.y_bottom_straight A rec radiusBottom⟩
    ∧ WithArith.centers3 A rec radiusBottom
      = ⟨A.add rec.x (WithArith.effectiveRadius A rec radiusBottom),
          WithArith.y_bottom_straight A rec radiusBottom⟩
    ∧ (∀ a b c d : Int, (WithArith.centers3 A rec radiusBottom).x = a →
        (WithArith.centers2 A rec radiusBottom).x = b →
        WithArith.y_bottom_straight A rec radiusBottom = c →
        WithArith.effectiveRadius A rec radiusBottom = d →
        A.sub (WithArith.centers2 A rec radiusBottom).x
            (WithArith.centers3 A rec radiusBottom).x
          = (WithArith.centers2 A rec radiusBottom).x
            - (WithArith.centers3 A rec radiusBottom).x →
        WithArith.y_bottom_straight A rec radiusBottom
          = rec.y + rec.height - WithArith.effectiveRadius A rec radiusBottom →
        toInt (WithArith.centers3 A rec radiusBottom).x = a
        ∧ toInt (WithArith.centers3 A rec radiusBottom).x
            + toInt (A.sub (WithArith.centers2 A rec radiusBottom).x
              (WithArith.centers3 A rec radiusBottom).x) = b
        ∧ toInt (WithArith.y_bottom_straight A rec radiusBottom) = c
        ∧ toInt (WithArith.effectiveRadius A rec radiusBottom) = d
        ∧ ((toInt (WithArith.y_bottom_straight A rec radiusBottom)
            + toInt (WithArith.effectiveRadius A rec radiusBottom) : Int) : ℚ)
          = rec.y + rec.height)
    ∧ (0 ≤ (WithArith.centers3 A rec radiusBottom).x →
        (WithArith.centers3 A rec radiusBottom).x ≤ (WithArith.centers2 A rec radiusBottom).x →
        A.sub (WithArith.centers2 A rec radiusBottom).x
            (WithArith.centers3 A rec radiusBottom).x
          = (WithArith.centers2 A rec radiusBottom).x
            - (WithArith.centers3 A rec radiusBottom).x →
        toInt (WithArith.centers2 A rec radiusBottom).x - 1
          ≤ toInt (WithArith.centers3 A rec radiusBottom).x
            + toInt (A.sub (WithArith.centers2 A rec radiusBottom).x
              (WithArith.centers3 A rec radiusBottom).x)
        ∧ toInt (WithArith.centers3 A rec radiusBottom).x
            + toInt (A.sub (WithArith.centers2 A rec radiusBottom).x
              (WithArith.centers3 A rec radiusBottom).x)
          ≤ toInt (WithArith.centers2 A rec radiusBottom).x)
    ∧ (0 ≤ WithArith.y_bottom_straight A rec radiusBottom →
        0 ≤ WithArith.effectiveRadius A rec radiusBottom →
        WithArith.y_bottom_straight A rec radiusBottom
          = rec.y + rec.height - WithArith.effectiveRadius A rec radiusBottom →
        toInt (rec.y + rec.height) - 1
          ≤ toInt (WithArith.y_bottom_straight A rec radiusBottom)
            + toInt (WithArith.effectiveRadius A rec radiusBottom)
        ∧ toInt (WithArith.y_bottom_straight A rec radiusBottom)
            + toInt (WithArith.effectiveRadius A rec radiusBottom)
          ≤ toInt (rec.y + rec.height))
    ∧ exactArith.sub (WithArith.centers2 exactArith rec radiusBottom).x
          (WithArith.centers3 exactArith rec radiusBottom).x
        = (WithArith.centers2 exactArith rec radiusBottom).x
          - (WithArith.centers3 exactArith rec radiusBottom).x
    ∧ WithArith.y_bottom_straight exactArith rec radiusBottom
        = rec.y + rec.height - WithArith.effectiveRadius exactArith rec radiusBottom
    ∧ WithArith.Main11.MyDrawSlopedRoundedRectangle exactArith rec radiusBottom radiusTop
        slopeFactor segments color
      = Main11.MyDrawSlopedRoundedRectangle rec radiusBottom radiusTop slopeFactor segments
          color
    ∧ ((Main11.MyDrawSlopedRoundedRectangle rec radiusBottom radiusTop slopeFactor segments
        color).drop 1).head?
      = some (Primitive.DrawRectangle (toInt (rec.x + effectiveRadius rec radiusBottom))
          (toInt (rec.y + rec.height - effectiveRadius rec radiusBottom))
          (toInt (rec.x + rec.width - effectiveRadius rec radiusBottom
            - (rec.x + effectiveRadius rec radiusBottom)))
          (toInt (effectiveRadius rec radiusBottom)) color) := by
  refine ⟨?_, ?_, rfl, rfl, ?_, ?_, ?_, rfl, rfl, rfl, ?_⟩
  · rw [WithArith_fill_eq]
    rfl
  · rw [WithArith_fill_sectorsOf]
    rfl
  · intro a b c d ha hb hc hd hx hy
    have hsum : rec.y + rec.height = ((c + d : Int) : ℚ) := by
      push_cast
      rw [← hc, ← hd, hy]
      ring
    rw [hx, hb, ha, hc, hd, ← Int.cast_sub, toInt_intCast, toInt_intCast, toInt_intCast,
      toInt_intCast, hsum]
    exact ⟨rfl, by ring, rfl, rfl, rfl⟩
  · intro h0 hle hx
    rw [hx]
    have h := toInt_add_bounds (WithArith.centers3 A rec radiusBottom).x
      ((WithArith.centers2 A rec radiusBottom).x - (WithArith.centers3 A rec radiusBottom).x)
      h0 (by linarith)
    rw [add_sub_cancel] at h
    exact h
  · intro h0 hr hy
    have h := toInt_add_bounds (WithArith.y_bottom_straight A rec radiusBottom)
      (WithArith.effectiveRadius A rec radiusBottom) h0 hr
    have hs : WithArith.y_bottom_straight A rec radiusBottom
        + WithArith.effectiveRadius A rec radiusBottom = rec.y + rec.height := by
      rw [hy]
      ring
    rw [hs] at h
    exact h
  · rw [Main11_fill_eq]
    rfl

/-- C19 at the spec's scenario `rec = {0, 0, 200, 100}`, radii `20`, slope `0`,
in binary32 arithmetic: `BottomLeft.x = 20`, `BottomRight.x = 180`,
`yBottomStraight = 80` and `radiusBottom = 20` are integers, the differences
are computed without rounding, and the second call is
`DrawRectangle(20, 80, 160, 20)`: right edge `180`, bottom edge `100`; in exact
arithmetic the second call is the same. -/
theorem C19_bottom_band_witness :
    ((WithArith.Main11.MyDrawSlopedRoundedRectangle binary32 ⟨0, 0, 200, 100⟩ 20 20 0 16
        ⟨0, 121, 241, 255⟩).drop 1).head?
      = some (Primitive.DrawRectangle 20 80 160 20 ⟨0, 121, 241, 255⟩)
    ∧ toInt (WithArith.centers3 binary32 ⟨0, 0, 200, 100⟩ 20).x
        + toInt (binary32.sub (WithArith.centers2 binary32 ⟨0, 0, 200, 100⟩ 20).x
          (WithArith.centers3 binary32 ⟨0, 0, 200, 100⟩ 20).x) = 180
    ∧ ((toInt (WithArith.y_bottom_straight binary32 ⟨0, 0, 200, 100⟩ 20)
        + toInt (WithArith.effectiveRadius binary32 ⟨0, 0, 200, 100⟩ 20) : Int) : ℚ) = 0 + 100
    ∧ ((Main11.MyDrawSlopedRoundedRectangle ⟨0, 0, 200, 100⟩ 20 20 0 16
        ⟨0, 121, 241, 255⟩).drop 1).head?
      = some (Primitive.DrawRectangle 20 80 160 20 ⟨0, 121, 241, 255⟩) := by
  have e : effectiveRadius ⟨0, 0, 200, 100⟩ 20 = 20 := by
    norm_num [effectiveRadius, fmaxf, fminf]
  have h := C19_bottom_band binary32 ⟨0, 0, 200, 100⟩ 20 20 0 16 ⟨0, 121, 241, 255⟩
  have w1 : fmaxf (0 : ℚ) 20 = 20 := by norm_num [fmaxf]
  have w2 : fminf (200 : ℚ) 100 = 100 := by norm_num [fminf]
  have w3 : binary32.div 100 2 = 50 :=
    roundBinary32_pos _ _ 5 (by norm_num) (by norm_num) (by norm_num [roundHalfEven])
  have w4 : fminf (20 : ℚ) 50 = 20 := by norm_num [fminf]
  have w5 : binary32.mul 0 100 = 0 :=
    roundBinary32_of_eq_zero _ (by norm_num)
  have w6 : binary32.add 0 20 = 20 :=
    roundBinary32_pos _ _ 4 (by norm_num) (by norm_num) (by norm_num [roundHalfEven])
  have w7 : binary32.add 0 100 = 100 :=
    roundBinary32_pos _ _ 6 (by norm_num) (by norm_num) (by norm_num [roundHalfEven])
  have w8 : binary32.sub 100 20 = 80 :=
    roundBinary32_pos _ _ 6 (by norm_num) (by norm_num) (by norm_num [roundHalfEven])
  have w9 : binary32.add 0 200 = 200 :=
    roundBinary32_pos _ _ 7 (by norm_num) (by norm_num) (by norm_num [roundHalfEven])
  have w10 : binary32.sub 200 0 = 200 :=
    roundBinary32_pos _ _ 7 (by norm_num) (by norm_num) (by norm_num [roundHalfEven])
  have w11 : binary32.sub 200 20 = 180 :=
    roundBinary32_pos _ _ 7 (by norm_num) (by norm_num) (by norm_num [roundHalfEven])
  have w12 : binary32.sub 180 20 = 160 :=
    roundBinary32_pos _ _ 7 (by norm_num) (by norm_num) (by norm_num [roundHalfEven])
  have w13 : binary32.sub 80 20 = 60 :=
    roundBinary32_pos _ _ 5 (by norm_num) (by norm_num) (by norm_num [roundHalfEven])
  have w14 : binary32.add 180 20 = 200 :=
    roundBinary32_pos _ _ 7 (by norm_num) (by norm_num) (by norm_num [roundHalfEven])
  have eRBw : WithArith.effectiveRadius binary32 ⟨0, 0, 200, 100⟩ 20
      = 20 := by
    simp only [WithArith_effectiveRadius_mk,
      w1, w2, w3, w4, w5, w6, w7, w8, w9, w10, w11, w12, w13, w14]
  have eRTw : WithArith.effectiveRadius binary32 ⟨0, 0, 200, 100⟩ 20
      = 20 := by
    simp only [WithArith_effectiveRadius_mk,
      w1, w2, w3, w4, w5, w6, w7, w8, w9, w10, w11, w12, w13, w14]
  have eyTw : WithArith.y_top_straight binary32 ⟨0, 0, 200, 100⟩ 20
      = 20 := by
    simp only [WithArith_y_top_straight_mk, eRTw,
      w1, w2, w3, w4, w5, w6, w7, w8, w9, w10, w11, w12, w13, w14]
  have eyBw : WithArith.y_bottom_straight binary32 ⟨0, 0, 200, 100⟩ 20
      = 80 := by
    simp only [WithArith_y_bottom_straight_mk, eRBw,
      w1, w2, w3, w4, w5, w6, w7, w8, w9, w10, w11, w12, w13, w14]
  have exTRw : WithArith.x_tr_corner_sloped binary32 ⟨0, 0, 200, 100⟩ 0
      = 200 := by
    simp only [WithArith_x_tr_corner_sloped_mk,
      w1, w2, w3, w4, w5, w6, w7, w8, w9, w10, w11, w12, w13, w14]
  have ec0w : WithArith.centers0 binary32 ⟨0, 0, 200, 100⟩ 20
      = ⟨20, 20⟩ := by
    simp only [WithArith_centers0_mk, eRTw, eyTw,
      w1, w2, w3, w4, w5, w6, w7, w8, w9, w10, w11, w12, w13, w14]
  have ec1w : WithArith.centers1 binary32 ⟨0, 0, 200, 100⟩ 20 0
      = ⟨180, 20⟩ := by
    simp only [WithArith_centers1_mk, eRTw, eyTw, exTRw,
      w1, w2, w3, w4, w5, w6, w7, w8, w9, w10, w11, w12, w13, w14]
  have ec2w : WithArith.centers2 binary32 ⟨0, 0, 200, 100⟩ 20
      = ⟨180, 80⟩ := by
    simp only [WithArith_centers2_mk, eRBw, eyBw,
      w1, w2, w3, w4, w5, w6, w7, w8, w9, w10, w11, w12, w13, w14]
  have ec3w : WithArith.centers3 binary32 ⟨0, 0, 200, 100⟩ 20
      = ⟨20, 80⟩ := by
    simp only [WithArith_centers3_mk, eRBw, eyBw,
      w1, w2, w3, w4, w5, w6, w7, w8, w9, w10, w11, w12, w13, w14]
  have egapw : WithArith.top_straight_width binary32 ⟨0, 0, 200, 100⟩ 20 0
      = 160 := by
    simp only [WithArith_top_straight_width_eq, ec0w, ec1w,
      w1, w2, w3, w4, w5, w6, w7, w8, w9, w10, w11, w12, w13, w14]
  obtain ⟨h1, -, -, -, h5, -, -, -, -, -, h11⟩ := h
  have hi := h5 20 180 80 20 (by rw [ec3w]; norm_num) (by rw [ec2w]; norm_num)
    (by rw [eyBw]; norm_num) (by rw [eRBw]; norm_num)
    (by rw [ec2w, ec3w]; simp only [w12]; norm_num)
    (by rw [eyBw, eRBw]; norm_num)
  refine ⟨?_, hi.2.1, hi.2.2.2.2, ?_⟩
  · rw [h1, ec2w, ec3w, eyBw, eRBw]
    simp only [w12]
    norm_num [toInt]
  · rw [h11, e]
    norm_num [toInt]

/-- C20, the code at the spec's scenario `rec = {0, 0, 200, 100}`, radii `20`,
slope `0`, segments `16`: the right fan of the `main_11.cpp` fill has the
vertices `(200,20)`, `(200,20)`, `(200,80)`, `(200,80)`, all at `x = 200`,
whereas the right fan of the `main_10.cpp` revision has `(180,20)`,
`(200,20)`, `(200,80)`, `(180,80)`, spanning `x = 180..200` at `y = 20..80`.
For every input the first two vertices of the `main_11.cpp` right fan
coincide and so do the last two. -/
theorem C20_right_fan_collapsed :
    ((Main11.MyDrawSlopedRoundedRectangle ⟨0, 0, 200, 100⟩ 20 20 0 16
        ⟨0, 121, 241, 255⟩).drop 4).head?
      = some (Primitive.DrawTriangleFan [⟨200, 20⟩, ⟨200, 20⟩, ⟨200, 80⟩, ⟨200, 80⟩] 4
          ⟨0, 121, 241, 255⟩)
    ∧ ((Main10.MyDrawSlopedRoundedRectangle ⟨0, 0, 200, 100⟩ 20 20 0 16
        ⟨0, 121, 241, 255⟩).drop 4).head?
      = some (Primitive.DrawTriangleFan [⟨180, 20⟩, ⟨200, 20⟩, ⟨200, 80⟩, ⟨180, 80⟩] 4
          ⟨0, 121, 241, 255⟩)
    ∧ (∀ (rec : Rectangle) (radiusBottom radiusTop slopeFactor : ℚ) (segments : Int)
        (color : Color),
        ((Main11.MyDrawSlopedRoundedRectangle rec radiusBottom radiusTop slopeFactor segments
            color).drop 4).head?
          = some (Primitive.DrawTriangleFan
              [ ⟨rec.x + rec.width - slopeFactor * rec.height,
                  rec.y + effectiveRadius rec radiusTop⟩,
                ⟨rec.x + rec.width - slopeFactor * rec.height,
                  rec.y + effectiveRadius rec radiusTop⟩,
                ⟨rec.x + rec.width, rec.y + rec.height - effectiveRadius rec radiusBottom⟩,
                ⟨rec.x + rec.width, rec.y + rec.height - effectiveRadius rec radiusBottom⟩ ]
              4 color)) := by
  have hg : ∀ (rec : Rectangle) (radiusBottom radiusTop slopeFactor : ℚ) (segments : Int)
      (color : Color),
      ((Main11.MyDrawSlopedRoundedRectangle rec radiusBottom radiusTop slopeFactor segments
          color).drop 4).head?
        = some (Primitive.DrawTriangleFan
            [ ⟨rec.x + rec.width - slopeFactor * rec.height,
                rec.y + effectiveRadius rec radiusTop⟩,
              ⟨rec.x + rec.width - slopeFactor * rec.height,
                rec.y + effectiveRadius rec radiusTop⟩,
              ⟨rec.x + rec.width, rec.y + rec.height - effectiveRadius rec radiusBottom⟩,
              ⟨rec.x + rec.width, rec.y + rec.height - effectiveRadius rec radiusBottom⟩ ]
            4 color) := by
    intro rec radiusBottom radiusTop slopeFactor segments color
    rw [Main11_fill_eq]
    simp only [List.drop_succ_cons, List.drop_zero, List.head?_cons, sub_add_cancel]
  refine ⟨?_, ?_, hg⟩
  · rw [hg]
    norm_num [effectiveRadius, fmaxf, fminf]
  · norm_num [Main10.MyDrawSlopedRoundedRectangle, fmaxf, fminf]

/-- C21, the claim as stated fails: the fill of `main_11.cpp` converts
`rec.width` to `int` in its first call, and for `rec = {0, 0, 2^31, 100}` (the
width `2147483648` is a binary32 value) the truncated value is above the
greatest `int`, so the conversion is undefined in C: whatever the arithmetic,
the radii, the slope factor and the segment count, the fill has no defined
call sequence. -/
theorem C21_conversion_undefined_counterexample :
    toInt 2147483648 = 2147483648
    ∧ INT_MAX < toInt 2147483648
    ∧ roundBinary32 2147483648 = 2147483648
    ∧ toIntChecked 2147483648 = none
    ∧ (∀ (A : FloatArith) (radiusBottom radiusTop slopeFactor : ℚ) (segments : Int)
        (color : Color),
        WithArith.Main11.MyDrawSlopedRoundedRectangleChecked A ⟨0, 0, 2147483648, 100⟩
          radiusBottom radiusTop slopeFactor segments color = none) := by
  have h1 : toInt 2147483648 = 2147483648 := by norm_num [toInt]
  have h2 : toIntChecked 2147483648 = none := by
    unfold toIntChecked
    rw [h1]
    decide
  refine ⟨h1, ?_, ?_, h2, ?_⟩
  · rw [h1]
    decide
  · exact roundBinary32_pos _ _ 31 (by norm_num) (by norm_num) (by norm_num [roundHalfEven])
  · intro A radiusBottom radiusTop slopeFactor segments color
    unfold WithArith.Main11.MyDrawSlopedRoundedRectangleChecked
    dsimp only
    rw [drawRectangleChecked_width_none _ _ _ _ _ h2]
    rfl

/-- C21 as amended (totality of the emission within the range of `int`).
Whatever the rounding of the `float` operations and for every rectangle
(zero or negative extents included), radii, slope factor, segment count,
colour and thickness: the outline of `main_12.cpp` converts no value to `int`
and returns exactly eight calls; the fill of `main_11.cpp` converts the values
`rec.x`, `rec.y`, `rec.width`, `yTopStraight`, `yBottomStraight`,
`yBottomStraight - yTopStraight`, `BottomLeft.x`,
`BottomRight.x - BottomLeft.x` and the two effective radii, and when each of
them truncates to a value in the range of `int` the fill is defined and
returns exactly nine calls; whenever the fill is defined, it returns exactly
nine calls, those of the routine with unchecked conversions. -/
theorem C21_totality (A : FloatArith) (rec : Rectangle)
    (radiusBottom radiusTop slopeFactor : ℚ) (segments : Int) (color : Color)
    (thickness : ℚ) :
    (WithArith.Main12.MyDrawSlopedRoundedRectangleWires A rec radiusBottom radiusTop
        slopeFactor segments color thickness).length = 8
    ∧ WithArith.Main12.MyDrawSlopedRoundedRectangleWires A rec radiusBottom radiusTop
        slopeFactor segments color thickness ≠ []
    ∧ (WithArith.Main11.MyDrawSlopedRoundedRectangle A rec radiusBottom radiusTop slopeFactor
        segments color).length = 9
    ∧ ((∀ q ∈ [ rec.x, rec.y, rec.width, WithArith.y_top_straight A rec radiusTop,
          WithArith.y_bottom_straight A rec radiusBottom,
          A.sub (WithArith.y_bottom_straight A rec radiusBottom)
            (WithArith.y_top_straight A rec radiusTop),
          (WithArith.centers3 A rec radiusBottom).x,
          A.sub (WithArith.centers2 A rec radiusBottom).x
            (WithArith.centers3 A rec radiusBottom).x,
          WithArith.effectiveRadius A rec radiusBottom,
          WithArith.effectiveRadius A rec radiusTop ],
        INT_MIN ≤ toInt q ∧ toInt q ≤ INT_MAX) →
        ∃ l : List Primitive,
          WithArith.Main11.MyDrawSlopedRoundedRectangleChecked A rec radiusBottom radiusTop
            slopeFactor segments color = some l
          ∧ l.length = 9 ∧ l ≠ [])
    ∧ (∀ l : List Primitive,
        WithArith.Main11.MyDrawSlopedRoundedRectangleChecked A rec radiusBottom radiusTop
          slopeFactor segments color = some l →
        l = WithArith.Main11.MyDrawSlopedRoundedRectangle A rec radiusBottom radiusTop
            slopeFactor segments color
        ∧ l.length = 9 ∧ l ≠ []) := by
  have h11 : (WithArith.Main11.MyDrawSlopedRoundedRectangle A rec radiusBottom radiusTop
      slopeFactor segments color).length = 9 := by
    rw [WithArith_fill_eq]
    rfl
  have h12 : (WithArith.Main12.MyDrawSlopedRoundedRectangleWires A rec radiusBottom radiusTop
      slopeFactor segments color thickness).length = 8 := by
    rw [WithArith_wires_eq]
    rfl
  have hne : WithArith.Main11.MyDrawSlopedRoundedRectangle A rec radiusBottom radiusTop
      slopeFactor segments color ≠ [] := by
    intro h
    rw [h] at h11
    exact absurd h11 (by decide)
  refine ⟨h12, ?_, h11, ?_, ?_⟩
  · intro h
    rw [h] at h12
    exact absurd h12 (by decide)
  · intro hr
    exact ⟨_, Checked_fill_of_inRange A rec radiusBottom radiusTop slopeFactor segments color hr,
      h11, hne⟩
  · intro l hl
    rw [Checked_fill_eq_some A rec radiusBottom radiusTop slopeFactor segments color l hl]
    exact ⟨rfl, h11, hne⟩

/-- C21 at the spec's scenario `rec = {0, 0, 200, 100}`, radii `20`, slope `0`,
segments `16`, in binary32 arithmetic: every converted value is in the range of
`int`, the fill is defined and makes nine calls, the first of them
`DrawRectangle(0, 20, 200, 60)`. -/
theorem C21_totality_witness :
    ∃ l : List Primitive,
      WithArith.Main11.MyDrawSlopedRoundedRectangleChecked binary32 ⟨0, 0, 200, 100⟩ 20 20 0
          16 ⟨0, 121, 241, 255⟩ = some l
      ∧ l.length = 9
      ∧ l.head? = some (Primitive.DrawRectangle 0 20 200 60 ⟨0, 121, 241, 255⟩) := by
  have h := C21_totality binary32 ⟨0, 0, 200, 100⟩ 20 20 0 16 ⟨0, 121, 241, 255⟩ 2
  have w1 : fmaxf (0 : ℚ) 20 = 20 := by norm_num [fmaxf]
  have w2 : fminf (200 : ℚ) 100 = 100 := by norm_num [fminf]
  have w3 : binary32.div 100 2 = 50 :=
    roundBinary32_pos _ _ 5 (by norm_num) (by norm_num) (by norm_num [roundHalfEven])
  have w4 : fminf (20 : ℚ) 50 = 20 := by norm_num [fminf]
  have w5 : binary32.mul 0 100 = 0 :=
    roundBinary32_of_eq_zero _ (by norm_num)
  have w6 : binary32.add 0 20 = 20 :=
    roundBinary32_pos _ _ 4 (by norm_num) (by norm_num) (by norm_num [roundHalfEven])
  have w7 : binary32.add 0 100 = 100 :=
    roundBinary32_pos _ _ 6 (by norm_num) (by norm_num) (by norm_num [roundHalfEven])
  have w8 : binary32.sub 100 20 = 80 :=
    roundBinary32_pos _ _ 6 (by norm_num) (by norm_num) (by norm_num [roundHalfEven])
  have w9 : binary32.add 0 200 = 200 :=
    roundBinary32_pos _ _ 7 (by norm_num) (by norm_num) (by norm_num [roundHalfEven])
  have w10 : binary32.sub 200 0 = 200 :=
    roundBinary32_pos _ _ 7 (by norm_num) (by norm_num) (by norm_num [roundHalfEven])
  have w11 : binary32.sub 200 20 = 180 :=
    roundBinary32_pos _ _ 7 (by norm_num) (by norm_num) (by norm_num [roundHalfEven])
  have w12 : binary32.sub 180 20 = 160 :=
    roundBinary32_pos _ _ 7 (by norm_num) (by norm_num) (by norm_num [roundHalfEven])
  have w13 : binary32.sub 80 20 = 60 :=
    roundBinary32_pos _ _ 5 (by norm_num) (by norm_num) (by norm_num [roundHalfEven])
  have w14 : binary32.add 180 20 = 200 :=
    roundBinary32_pos _ _ 7 (by norm_num) (by norm_num) (by norm_num [roundHalfEven])
  have eRBw : WithArith.effectiveRadius binary32 ⟨0, 0, 200, 100⟩ 20
      = 20 := by
    simp only [WithArith_effectiveRadius_mk,
      w1, w2, w3, w4, w5, w6, w7, w8, w9, w10, w11, w12, w13, w14]
  have eRTw : WithArith.effectiveRadius binary32 ⟨0, 0, 200, 100⟩ 20
      = 20 := by
    simp only [WithArith_effectiveRadius_mk,
      w1, w2, w3, w4, w5, w6, w7, w8, w9, w10, w11, w12, w13, w14]
  have eyTw : WithArith.y_top_straight binary32 ⟨0, 0, 200, 100⟩ 20
      = 20 := by
    simp only [WithArith_y_top_straight_mk, eRTw,
      w1, w2, w3, w4, w5, w6, w7, w8, w9, w10, w11, w12, w13, w14]
  have eyBw : WithArith.y_bottom_straight binary32 ⟨0, 0, 200, 100⟩ 20
      = 80 := by
    simp only [WithArith_y_bottom_straight_mk, eRBw,
      w1, w2, w3, w4, w5, w6, w7, w8, w9, w10, w11, w12, w13, w14]
  have exTRw : WithArith.x_tr_corner_sloped binary32 ⟨0, 0, 200, 100⟩ 0
      = 200 := by
    simp only [WithArith_x_tr_corner_sloped_mk,
      w1, w2, w3, w4, w5, w6, w7, w8, w9, w10, w11, w12, w13, w14]
  have ec0w : WithArith.centers0 binary32 ⟨0, 0, 200, 100⟩ 20
      = ⟨20, 20⟩ := by
    simp only [WithArith_centers0_mk, eRTw, eyTw,
      w1, w2, w3, w4, w5, w6, w7, w8, w9, w10, w11, w12, w13, w14]
  have ec1w : WithArith.centers1 binary32 ⟨0, 0, 200, 100⟩ 20 0
      = ⟨180, 20⟩ := by
    simp only [WithArith_centers1_mk, eRTw, eyTw, exTRw,
      w1, w2, w3, w4, w5, w6, w7, w8, w9, w10, w11, w12, w13, w14]
  have ec2w : WithArith.centers2 binary32 ⟨0, 0, 200, 100⟩ 20
      = ⟨180, 80⟩ := by
    simp only [WithArith_centers2_mk, eRBw, eyBw,
      w1, w2, w3, w4, w5, w6, w7, w8, w9, w10, w11, w12, w13, w14]
  have ec3w : WithArith.centers3 binary32 ⟨0, 0, 200, 100⟩ 20
      = ⟨20, 80⟩ := by
    simp only [WithArith_centers3_mk, eRBw, eyBw,
      w1, w2, w3, w4, w5, w6, w7, w8, w9, w10, w11, w12, w13, w14]
  have egapw : WithArith.top_straight_width binary32 ⟨0, 0, 200, 100⟩ 20 0
      = 160 := by
    simp only [WithArith_top_straight_width_eq, ec0w, ec1w,
      w1, w2, w3, w4, w5, w6, w7, w8, w9, w10, w11, w12, w13, w14]
  obtain ⟨l, hl, hlen, -⟩ := h.2.2.2.1 (by
    intro q hq
    simp only [List.mem_cons, List.mem_singleton, List.not_mem_nil, or_false] at hq
    rw [eRBw, eyTw, eyBw, ec3w, ec2w, w13] at hq
    simp only [w12] at hq
    rcases hq with rfl | rfl | rfl | rfl | rfl | rfl | rfl | rfl | rfl | rfl <;>
      norm_num [toInt, INT_MIN, INT_MAX])
  refine ⟨l, hl, hlen, ?_⟩
  rw [(h.2.2.2.2 l hl).1, WithArith_fill_eq]
  simp only [List.head?_cons, eyTw, eyBw, w13]
  norm_num [toInt]

/-- C22 (the clamp revisions agree): for every rectangle and requested radius
the clamp of `main_9.cpp` (`max(0, r)`, then `min` with `height / 2`, then
`min` with `width / 2`) gives the effective radius of the clamp of
`main_10.cpp` / `main_11.cpp` (`max(0, r)`, then `min` with
`min(width, height) / 2`), for `radiusTop` and for `radiusBottom`; the sectors
that the three routines draw carry these radii. -/
theorem C22_clamp_revisions_agree (rec : Rectangle) (radiusBottom radiusTop slopeFactor : ℚ)
    (segments : Int) (color : Color) :
    fminf (fminf (fmaxf 0 radiusTop) (rec.height / 2)) (rec.width / 2)
      = fminf (fmaxf 0 radiusTop) (fminf rec.width rec.height / 2)
    ∧ fminf (fminf (fmaxf 0 radiusBottom) (rec.height / 2)) (rec.width / 2)
      = fminf (fmaxf 0 radiusBottom) (fminf rec.width rec.height / 2)
    ∧ effectiveRadius9 rec radiusTop = effectiveRadius rec radiusTop
    ∧ effectiveRadius9 rec radiusBottom = effectiveRadius rec radiusBottom
    ∧ (sectorsOf (Main9.MyDrawSlopedRoundedRectangle rec radiusBottom radiusTop slopeFactor
        segments color)).map (fun d => (d.startAngle, d.radius))
      = (if effectiveRadius rec radiusBottom ≤ 0 ∧ effectiveRadius rec radiusTop ≤ 0
            ∧ |slopeFactor| < 1 / 1000 then []
          else
            [ (90, effectiveRadius rec radiusBottom), (0, effectiveRadius rec radiusBottom),
              (180, effectiveRadius rec radiusTop), (270, effectiveRadius rec radiusTop) ])
    ∧ (sectorsOf (Main10.MyDrawSlopedRoundedRectangle rec radiusBottom radiusTop slopeFactor
        segments color)).map (fun d => (d.startAngle, d.radius))
      = [ (180, effectiveRadius rec radiusTop), (270, effectiveRadius rec radiusTop),
          (0, effectiveRadius rec radiusBottom), (90, effectiveRadius rec radiusBottom) ]
    ∧ (sectorsOf (Main11.MyDrawSlopedRoundedRectangle rec radiusBottom radiusTop slopeFactor
        segments color)).map (fun d => (d.startAngle, d.radius))
      = [ (180, effectiveRadius rec radiusTop), (270, effectiveRadius rec radiusTop),
          (0, effectiveRadius rec radiusBottom), (90, effectiveRadius rec radiusBottom) ] := by
  refine ⟨effectiveRadius9_eq rec radiusTop, effectiveRadius9_eq rec radiusBottom,
    effectiveRadius9_eq rec radiusTop, effectiveRadius9_eq rec radiusBottom, ?_, ?_, ?_⟩
  · rw [Main9_sectorsOf, effectiveRadius9_eq, effectiveRadius9_eq]
    split_ifs <;> rfl
  · rw [Main10_sectorsOf]
    rfl
  · rw [Main11_sectorsOf]
    rfl

/-- C26, the claim as stated fails in the arithmetic of the program, in both
directions of its "if and only if".  (a) In the `main_12.cpp` harness
(`shapeRec = {150, 100, 500, 250}`, radii `40` and `30`), forty frames of
`KEY_T` take `slopeFactor` to `7 / 2^27`; then `slopeFactor * rec.height` is
`875 / 2^26`, not `0`, but both endpoints of the right segment have `x = 650`:
the segment is vertical and the offset between its endpoints is `0`.  (b) For
`rec = {1.4f, 100, 500, 250}`, `radiusTop = 67.2f`, `radiusBottom = 40` and
`slopeFactor = 0` the product is `0`, but the right segment runs from
`x = 4107469 / 8192` to `x = 16429875 / 32768`: it is not vertical; and the left
segment is at `x = 183501 / 131072`, which is not `rec.x = 11744051 / 8388608`. -/
theorem C26_right_edge_counterexample :
    WithArith.Main12.slopeFactorAfter binary32 (List.replicate 40 (true, false))
      = 7 / 134217728
    ∧ binary32.mul (7 / 134217728) 250 = 875 / 67108864
    ∧ (7 / 134217728 : ℚ) * 250 ≠ 0
    ∧ (linesOf (WithArith.Main12.MyDrawSlopedRoundedRectangleWires binary32 ⟨150, 100, 500, 250⟩ 40
        30 (7 / 134217728) 16 ⟨0, 0, 0, 255⟩ 2)).map
        (fun l => (l.1, l.2.1))
      = [ (⟨150, 310⟩, ⟨150, 130⟩), (⟨180, 100⟩, ⟨620, 100⟩), (⟨650, 130⟩, ⟨650, 310⟩),
          (⟨190, 350⟩, ⟨610, 350⟩) ]
    ∧ roundBinary32 (14 / 10) = 11744051 / 8388608
    ∧ roundBinary32 (672 / 10) = 4404019 / 65536
    ∧ binary32.mul 0 250 = 0
    ∧ (linesOf (WithArith.Main12.MyDrawSlopedRoundedRectangleWires binary32
        ⟨11744051 / 8388608, 100, 500, 250⟩ 40 (4404019 / 65536) 0 16 ⟨0, 0, 0, 255⟩ 2)).map
        (fun l => (l.1, l.2.1))
      = [ (⟨183501 / 131072, 310⟩, ⟨183501 / 131072, 10957619 / 65536⟩),
          (⟨8991539 / 131072, 100⟩, ⟨7113933 / 16384, 100⟩),
          (⟨4107469 / 8192, 10957619 / 65536⟩, ⟨16429875 / 32768, 310⟩),
          (⟨5426381 / 131072, 350⟩, ⟨15119155 / 32768, 350⟩) ]
    ∧ (4107469 / 8192 : ℚ) ≠ 16429875 / 32768
    ∧ (183501 / 131072 : ℚ) ≠ 11744051 / 8388608 := by
  have h1 : fmaxf (0 : ℚ) 40 = 40 := by norm_num [fmaxf]
  have h2 : fmaxf (0 : ℚ) 30 = 30 := by norm_num [fmaxf]
  have h3 : fminf (500 : ℚ) 250 = 250 := by norm_num [fminf]
  have h4 : binary32.div 250 2 = 125 :=
    roundBinary32_pos _ _ 6 (by norm_num) (by norm_num) (by norm_num [roundHalfEven])
  have h5 : fminf (40 : ℚ) 125 = 40 := by norm_num [fminf]
  have h6 : fminf (30 : ℚ) 125 = 30 := by norm_num [fminf]
  have h7 : binary32.mul (7 / 134217728) 250 = (875 / 67108864) :=
    roundBinary32_pos _ _ (-17) (by norm_num) (by norm_num) (by norm_num [roundHalfEven])
  have h8 : binary32.add 100 30 = 130 :=
    roundBinary32_pos _ _ 7 (by norm_num) (by norm_num) (by norm_num [roundHalfEven])
  have h9 : binary32.add 100 250 = 350 :=
    roundBinary32_pos _ _ 8 (by norm_num) (by norm_num) (by norm_num [roundHalfEven])
  have h10 : binary32.sub 350 40 = 310 :=
    roundBinary32_pos _ _ 8 (by norm_num) (by norm_num) (by norm_num [roundHalfEven])
  have h11 : binary32.add 150 500 = 650 :=
    roundBinary32_pos _ _ 9 (by norm_num) (by norm_num) (by norm_num [roundHalfEven])
  have h12 : binary32.sub 650 (875 / 67108864) = 650 :=
    roundBinary32_pos _ _ 9 (by norm_num) (by norm_num) (by norm_num [roundHalfEven])
  have h13 : binary32.add 150 30 = 180 :=
    roundBinary32_pos _ _ 7 (by norm_num) (by norm_num) (by norm_num [roundHalfEven])
  have h14 : binary32.sub 650 30 = 620 :=
    roundBinary32_pos _ _ 9 (by norm_num) (by norm_num) (by norm_num [roundHalfEven])
  have h15 : binary32.sub 650 40 = 610 :=
    roundBinary32_pos _ _ 9 (by norm_num) (by norm_num) (by norm_num [roundHalfEven])
  have h16 : binary32.add 150 40 = 190 :=
    roundBinary32_pos _ _ 7 (by norm_num) (by norm_num) (by norm_num [roundHalfEven])
  have h17 : binary32.sub 620 180 = 440 :=
    roundBinary32_pos _ _ 8 (by norm_num) (by norm_num) (by norm_num [roundHalfEven])
  have h18 : binary32.sub 190 40 = 150 :=
    roundBinary32_pos _ _ 7 (by norm_num) (by norm_num) (by norm_num [roundHalfEven])
  have h19 : binary32.sub 180 30 = 150 :=
    roundBinary32_pos _ _ 7 (by norm_num) (by norm_num) (by norm_num [roundHalfEven])
  have h20 : binary32.sub 130 30 = 100 :=
    roundBinary32_pos _ _ 6 (by norm_num) (by norm_num) (by norm_num [roundHalfEven])
  have h21 : binary32.add 310 40 = 350 :=
    roundBinary32_pos _ _ 8 (by norm_num) (by norm_num) (by norm_num [roundHalfEven])
  have h22 : binary32.add 620 30 = 650 :=
    roundBinary32_pos _ _ 9 (by norm_num) (by norm_num) (by norm_num [roundHalfEven])
  have h23 : binary32.add 610 40 = 650 :=
    roundBinary32_pos _ _ 9 (by norm_num) (by norm_num) (by norm_num [roundHalfEven])
  have eRB : WithArith.effectiveRadius binary32 ⟨150, 100, 500, 250⟩ 40
      = 40 := by
    simp only [WithArith_effectiveRadius_mk,
      h1, h2, h3, h4, h5, h6, h7, h8, h9, h10, h11, h12, h13, h14, h15, h16, h17, h18, h19,
      h20, h21, h22, h23]
  have eRT : WithArith.effectiveRadius binary32 ⟨150, 100, 500, 250⟩ 30
      = 30 := by
    simp only [WithArith_effectiveRadius_mk,
      h1, h2, h3, h4, h5, h6, h7, h8, h9, h10, h11, h12, h13, h14, h15, h16, h17, h18, h19,
      h20, h21, h22, h23]
  have eyT : WithArith.y_top_straight binary32 ⟨150, 100, 500, 250⟩ 30
      = 130 := by
    simp only [WithArith_y_top_straight_mk, eRT,
      h1, h2, h3, h4, h5, h6, h7, h8, h9, h10, h11, h12, h13, h14, h15, h16, h17, h18, h19,
      h20, h21, h22, h23]
  have eyB : WithArith.y_bottom_straight binary32 ⟨150, 100, 500, 250⟩ 40
      = 310 := by
    simp only [WithArith_y_bottom_straight_mk, eRB,
      h1, h2, h3, h4, h5, h6, h7, h8, h9, h10, h11, h12, h13, h14, h15, h16, h17, h18, h19,
      h20, h21, h22, h23]
  have exTR : WithArith.x_tr_corner_sloped binary32 ⟨150, 100, 500, 250⟩ (7 / 134217728)
      = 650 := by
    simp only [WithArith_x_tr_corner_sloped_mk,
      h1, h2, h3, h4, h5, h6, h7, h8, h9, h10, h11, h12, h13, h14, h15, h16, h17, h18, h19,
      h20, h21, h22, h23]
  have ec0 : WithArith.centers0 binary32 ⟨150, 100, 500, 250⟩ 30
      = ⟨180, 130⟩ := by
    simp only [WithArith_centers0_mk, eRT, eyT,
      h1, h2, h3, h4, h5, h6, h7, h8, h9, h10, h11, h12, h13, h14, h15, h16, h17, h18, h19,
      h20, h21, h22, h23]
  have ec1 : WithArith.centers1 binary32 ⟨150, 100, 500, 250⟩ 30 (7 / 134217728)
      = ⟨620, 130⟩ := by
    simp only [WithArith_centers1_mk, eRT, eyT, exTR,
      h1, h2, h3, h4, h5, h6, h7, h8, h9, h10, h11, h12, h13, h14, h15, h16, h17, h18, h19,
      h20, h21, h22, h23]
  have ec2 : WithArith.centers2 binary32 ⟨150, 100, 500, 250⟩ 40
      = ⟨610, 310⟩ := by
    simp only [WithArith_centers2_mk, eRB, eyB,
      h1, h2, h3, h4, h5, h6, h7, h8, h9, h10, h11, h12, h13, h14, h15, h16, h17, h18, h19,
      h20, h21, h22, h23]
  have ec3 : WithArith.centers3 binary32 ⟨150, 100, 500, 250⟩ 40
      = ⟨190, 310⟩ := by
    simp only [WithArith_centers3_mk, eRB, eyB,
      h1, h2, h3, h4, h5, h6, h7, h8, h9, h10, h11, h12, h13, h14, h15, h16, h17, h18, h19,
      h20, h21, h22, h23]
  have egap : WithArith.top_straight_width binary32 ⟨150, 100, 500, 250⟩ 30 (7 / 134217728)
      = 440 := by
    simp only [WithArith_top_straight_width_eq, ec0, ec1,
      h1, h2, h3, h4, h5, h6, h7, h8, h9, h10, h11, h12, h13, h14, h15, h16, h17, h18, h19,
      h20, h21, h22, h23]
  have g1 : fmaxf (0 : ℚ) 40 = 40 := by norm_num [fmaxf]
  have g2 : fmaxf (0 : ℚ) (4404019 / 65536) = (4404019 / 65536) := by norm_num [fmaxf]
  have g3 : fminf (500 : ℚ) 250 = 250 := by norm_num [fminf]
  have g4 : binary32.div 250 2 = 125 :=
    roundBinary32_pos _ _ 6 (by norm_num) (by norm_num) (by norm_num [roundHalfEven])
  have g5 : fminf (40 : ℚ) 125 = 40 := by norm_num [fminf]
  have g6 : fminf ((4404019 / 65536) : ℚ) 125 = (4404019 / 65536) := by norm_num [fminf]
  have g7 : binary32.mul 0 250 = 0 :=
    roundBinary32_of_eq_zero _ (by norm_num)
  have g8 : binary32.add 100 (4404019 / 65536) = (10957619 / 65536) :=
    roundBinary32_pos _ _ 7 (by norm_num) (by norm_num) (by norm_num [roundHalfEven])
  have g9 : binary32.add 100 250 = 350 :=
    roundBinary32_pos _ _ 8 (by norm_num) (by norm_num) (by norm_num [roundHalfEven])
  have g10 : binary32.sub 350 40 = 310 :=
    roundBinary32_pos _ _ 8 (by norm_num) (by norm_num) (by norm_num [roundHalfEven])
  have g11 : binary32.add (11744051 / 8388608) 500 = (16429875 / 32768) :=
    roundBinary32_pos _ _ 8 (by norm_num) (by norm_num) (by norm_num [roundHalfEven])
  have g12 : binary32.sub (16429875 / 32768) 0 = (16429875 / 32768) :=
    roundBinary32_pos _ _ 8 (by norm_num) (by norm_num) (by norm_num [roundHalfEven])
  have g13 : binary32.add (11744051 / 8388608) (4404019 / 65536) = (8991539 / 131072) :=
    roundBinary32_pos _ _ 6 (by norm_num) (by norm_num) (by norm_num [roundHalfEven])
  have g14 : binary32.sub (16429875 / 32768) (4404019 / 65536) = (7113933 / 16384) :=
    roundBinary32_pos _ _ 8 (by norm_num) (by norm_num) (by norm_num [roundHalfEven])
  have g15 : binary32.sub (16429875 / 32768) 40 = (15119155 / 32768) :=
    roundBinary32_pos _ _ 8 (by norm_num) (by norm_num) (by norm_num [roundHalfEven])
  have g16 : binary32.add (11744051 / 8388608) 40 = (5426381 / 131072) :=
    roundBinary32_pos _ _ 5 (by norm_num) (by norm_num) (by norm_num [roundHalfEven])
  have g17 : binary32.sub (7113933 / 16384) (8991539 / 131072) = (11979981 / 32768) :=
    roundBinary32_pos _ _ 8 (by norm_num) (by norm_num) (by norm_num [roundHalfEven])
  have g18 : binary32.sub (5426381 / 131072) 40 = (183501 / 131072) :=
    roundBinary32_pos _ _ 0 (by norm_num) (by norm_num) (by norm_num [roundHalfEven])
  have g19 : binary32.sub (8991539 / 131072) (4404019 / 65536) = (183501 / 131072) :=
    roundBinary32_pos _ _ 0 (by norm_num) (by norm_num) (by norm_num [roundHalfEven])
  have g20 : binary32.sub (10957619 / 65536) (4404019 / 65536) = 100 :=
    roundBinary32_pos _ _ 6 (by norm_num) (by norm_num) (by norm_num [roundHalfEven])
  have g21 : binary32.add 310 40 = 350 :=
    roundBinary32_pos _ _ 8 (by norm_num) (by norm_num) (by norm_num [roundHalfEven])
  have g22 : binary32.add (7113933 / 16384) (4404019 / 65536) = (4107469 / 8192) :=
    roundBinary32_pos _ _ 8 (by norm_num) (by norm_num) (by norm_num [roundHalfEven])
  have g23 : binary32.add (15119155 / 32768) 40 = (16429875 / 32768) :=
    roundBinary32_pos _ _ 8 (by norm_num) (by norm_num) (by norm_num [roundHalfEven])
  have eRB2 : WithArith.effectiveRadius binary32 ⟨11744051 / 8388608, 100, 500, 250⟩ 40
      = 40 := by
    simp only [WithArith_effectiveRadius_mk,
      g1, g2, g3, g4, g5, g6, g7, g8, g9, g10, g11, g12, g13, g14, g15, g16, g17, g18, g19,
      g20, g21, g22, g23]
  have eRT2 : WithArith.effectiveRadius binary32 ⟨11744051 / 8388608, 100, 500, 250⟩
      (4404019 / 65536)
      = 4404019 / 65536 := by
    simp only [WithArith_effectiveRadius_mk,
      g1, g2, g3, g4, g5, g6, g7, g8, g9, g10, g11, g12, g13, g14, g15, g16, g17, g18, g19,
      g20, g21, g22, g23]
  have eyT2 : WithArith.y_top_straight binary32 ⟨11744051 / 8388608, 100, 500, 250⟩
      (4404019 / 65536)
      = 10957619 / 65536 := by
    simp only [WithArith_y_top_straight_mk, eRT2,
      g1, g2, g3, g4, g5, g6, g7, g8, g9, g10, g11, g12, g13, g14, g15, g16, g17, g18, g19,
      g20, g21, g22, g23]
  have eyB2 : WithArith.y_bottom_straight binary32 ⟨11744051 / 8388608, 100, 500, 250⟩ 40
      = 310 := by
    simp only [WithArith_y_bottom_straight_mk, eRB2,
      g1, g2, g3, g4, g5, g6, g7, g8, g9, g10, g11, g12, g13, g14, g15, g16, g17, g18, g19,
      g20, g21, g22, g23]
  have exTR2 : WithArith.x_tr_corner_sloped binary32 ⟨11744051 / 8388608, 100, 500, 250⟩ 0
      = 16429875 / 32768 := by
    simp only [WithArith_x_tr_corner_sloped_mk,
      g1, g2, g3, g4, g5, g6, g7, g8, g9, g10, g11, g12, g13, g14, g15, g16, g17, g18, g19,
      g20, g21, g22, g23]
  have ec02 : WithArith.centers0 binary32 ⟨11744051 / 8388608, 100, 500, 250⟩ (4404019 / 65536)
      = ⟨8991539 / 131072, 10957619 / 65536⟩ := by
    simp only [WithArith_centers0_mk, eRT2, eyT2,
      g1, g2, g3, g4, g5, g6, g7, g8, g9, g10, g11, g12, g13, g14, g15, g16, g17, g18, g19,
      g20, g21, g22, g23]
  have ec12 : WithArith.centers1 binary32 ⟨11744051 / 8388608, 100, 500, 250⟩ (4404019 / 65536) 0
      = ⟨7113933 / 16384, 10957619 / 65536⟩ := by
    simp only [WithArith_centers1_mk, eRT2, eyT2, exTR2,
      g1, g2, g3, g4, g5, g6, g7, g8, g9, g10, g11, g12, g13, g14, g15, g16, g17, g18, g19,
      g20, g21, g22, g23]
  have ec22 : WithArith.centers2 binary32 ⟨11744051 / 8388608, 100, 500, 250⟩ 40
      = ⟨15119155 / 32768, 310⟩ := by
    simp only [WithArith_centers2_mk, eRB2, eyB2,
      g1, g2, g3, g4, g5, g6, g7, g8, g9, g10, g11, g12, g13, g14, g15, g16, g17, g18, g19,
      g20, g21, g22, g23]
  have ec32 : WithArith.centers3 binary32 ⟨11744051 / 8388608, 100, 500, 250⟩ 40
      = ⟨5426381 / 131072, 310⟩ := by
    simp only [WithArith_centers3_mk, eRB2, eyB2,
      g1, g2, g3, g4, g5, g6, g7, g8, g9, g10, g11, g12, g13, g14, g15, g16, g17, g18, g19,
      g20, g21, g22, g23]
  have egap2 : WithArith.top_straight_width binary32 ⟨11744051 / 8388608, 100, 500, 250⟩
      (4404019 / 65536) 0
      = 11979981 / 32768 := by
    simp only [WithArith_top_straight_width_eq, ec02, ec12,
      g1, g2, g3, g4, g5, g6, g7, g8, g9, g10, g11, g12, g13, g14, g15, g16, g17, g18, g19,
      g20, g21, g22, g23]
  refine ⟨?_, h7, by norm_num, ?_,
    roundBinary32_pos _ _ 0 (by norm_num) (by norm_num) (by norm_num [roundHalfEven]),
    roundBinary32_pos _ _ 6 (by norm_num) (by norm_num) (by norm_num [roundHalfEven]),
    g7, ?_, by norm_num, by norm_num⟩
  · rw [Main12_slopeFactorAfter_eq]
    exact slopeFactorAfter_40_KEY_T
  · rw [WithArith_wires_eq]
    simp only [eRB, eRT, eyT, eyB, exTR, ec0, ec1, ec2, ec3, egap,
      h1, h2, h3, h4, h5, h6, h7, h8, h9, h10, h11, h12, h13, h14, h15, h16, h17, h18, h19,
      h20, h21, h22, h23]
    rfl
  · rw [WithArith_wires_eq]
    simp only [eRB2, eRT2, eyT2, eyB2, exTR2, ec02, ec12, ec22, ec32, egap2,
      g1, g2, g3, g4, g5, g6, g7, g8, g9, g10, g11, g12, g13, g14, g15, g16, g17, g18, g19,
      g20, g21, g22, g23]
    rfl

/-- C26 as amended (the slope is carried by the right edge).  Whatever the
rounding of the `float` operations, in the outline of `main_12.cpp` the left
segment runs from `(BottomLeft.x - rB, yBottomStraight)` to
`(TopLeft.x - rT, yTopStraight)` and is computed without `slopeFactor`, the
top segment has both ends at the same `y = yTopStraight - rT`, computed
without `slopeFactor`, so it is horizontal, and the right segment runs from
`(TopRight.x + rT, yTopStraight)` to `(BottomRight.x + rB, yBottomStraight)`,
where only `TopRight.x = ((rec.x + rec.width) - slopeFactor * rec.height) - rT`
depends on `slopeFactor`.  In binary32 arithmetic (finite values, no operation
overflowing), for `rec.height ≥ 0`, the upper end of the right segment does not
move right when `slopeFactor` grows.
In exact arithmetic the left segment is vertical at `x = rec.x`, the top
segment is at `y = rec.y`, the right segment runs from
`(rec.x + rec.width - slopeFactor * rec.height, yTopStraight)` to
`(rec.x + rec.width, yBottomStraight)`, the horizontal offset between its
endpoints is `slopeFactor * rec.height`, and it is vertical if and only if
`slopeFactor * rec.height = 0`. -/
theorem C26_slope_on_right_edge (A : FloatArith) (rec : Rectangle)
    (radiusBottom radiusTop slopeFactor slopeFactor2 : ℚ) (segments : Int) (color : Color)
    (thickness : ℚ) :
    ((linesOf (WithArith.Main12.MyDrawSlopedRoundedRectangleWires A rec radiusBottom radiusTop
        slopeFactor segments color thickness)).take 3).map (fun l => (l.1, l.2.1))
      = [ (⟨A.sub (WithArith.centers3 A rec radiusBottom).x
               (WithArith.effectiveRadius A rec radiusBottom),
             WithArith.y_bottom_straight A rec radiusBottom⟩,
            ⟨A.sub (WithArith.centers0 A rec radiusTop).x
               (WithArith.effectiveRadius A rec radiusTop),
             WithArith.y_top_straight A rec radiusTop⟩),
          (⟨(WithArith.centers0 A rec radiusTop).x,
             A.sub (WithArith.y_top_straight A rec radiusTop)
               (WithArith.effectiveRadius A rec radiusTop)⟩,
            ⟨(WithArith.centers1 A rec radiusTop slopeFactor).x,
             A.sub (WithArith.y_top_straight A rec radiusTop)
               (WithArith.effectiveRadius A rec radiusTop)⟩),
          (⟨A.add (WithArith.centers1 A rec radiusTop slopeFactor).x
               (WithArith.effectiveRadius A rec radiusTop),
             WithArith.y_top_straight A rec radiusTop⟩,
            ⟨A.add (WithArith.centers2 A rec radiusBottom).x
               (WithArith.effectiveRadius A rec radiusBottom),
             WithArith.y_bottom_straight A rec radiusBottom⟩) ]
    ∧ (WithArith.centers1 A rec radiusTop slopeFactor).x
      = A.sub (A.sub (A.add rec.x rec.width) (A.mul slopeFactor rec.height))
          (WithArith.effectiveRadius A rec radiusTop)
    ∧ (linesOf (WithArith.Main12.MyDrawSlopedRoundedRectangleWires A rec radiusBottom radiusTop
        slopeFactor segments color thickness)).head?
      = (linesOf (WithArith.Main12.MyDrawSlopedRoundedRectangleWires A rec radiusBottom radiusTop
        slopeFactor2 segments color thickness)).head?
    ∧ ((linesOf (Main12.MyDrawSlopedRoundedRectangleWires rec radiusBottom radiusTop slopeFactor
        segments color thickness)).take 3).map (fun l => (l.1, l.2.1))
      = [ (⟨rec.x, rec.y + rec.height - effectiveRadius rec radiusBottom⟩,
            ⟨rec.x, rec.y + effectiveRadius rec radiusTop⟩),
          (⟨rec.x + effectiveRadius rec radiusTop, rec.y⟩,
            ⟨rec.x + rec.width - slopeFactor * rec.height - effectiveRadius rec radiusTop,
              rec.y⟩),
          (⟨rec.x + rec.width - slopeFactor * rec.height,
              rec.y + effectiveRadius rec radiusTop⟩,
            ⟨rec.x + rec.width, rec.y + rec.height - effectiveRadius rec radiusBottom⟩) ]
    ∧ (0 ≤ rec.height → slopeFactor ≤ slopeFactor2 →
        binary32.add (WithArith.centers1 binary32 rec radiusTop slopeFactor2).x
            (WithArith.effectiveRadius binary32 rec radiusTop)
          ≤ binary32.add (WithArith.centers1 binary32 rec radiusTop slopeFactor).x
            (WithArith.effectiveRadius binary32 rec radiusTop))
    ∧ WithArith.Main12.MyDrawSlopedRoundedRectangleWires exactArith rec radiusBottom radiusTop
        slopeFactor segments color thickness
      = Main12.MyDrawSlopedRoundedRectangleWires rec radiusBottom radiusTop slopeFactor segments
          color thickness
    ∧ ((linesOf (Main12.MyDrawSlopedRoundedRectangleWires rec radiusBottom radiusTop slopeFactor
        segments color thickness))[2]?).map (fun l => l.2.1.x - l.1.x)
      = some (slopeFactor * rec.height)
    ∧ ((linesOf (Main12.MyDrawSlopedRoundedRectangleWires rec radiusBottom radiusTop slopeFactor
        segments color thickness))[2]?).map (fun l => decide (l.1.x = l.2.1.x))
      = some (decide (slopeFactor * rec.height = 0)) := by
  have key : (linesOf (Main12.MyDrawSlopedRoundedRectangleWires rec radiusBottom radiusTop
      slopeFactor segments color thickness))[2]?
      = some (⟨rec.x + rec.width - slopeFactor * rec.height,
            rec.y + effectiveRadius rec radiusTop⟩,
          ⟨rec.x + rec.width, rec.y + rec.height - effectiveRadius rec radiusBottom⟩,
          thickness, color) := by
    rw [Main12_wires_eq]
    simp only [sub_add_cancel]
    rfl
  refine ⟨?_, rfl, ?_, ?_, ?_, rfl, ?_, ?_⟩
  · rw [WithArith_wires_eq]
    rfl
  · rw [WithArith_wires_eq, WithArith_wires_eq]
    rfl
  · rw [Main12_wires_eq]
    simp only [sub_add_cancel]
    rfl
  · intro hh hs
    have h := binary32_centers1_antitone rec radiusTop _ _ hh hs
    exact roundBinary32_mono _ _ (by linarith)
  · rw [key]
    simp only [Option.map_some', Option.some.injEq]
    ring
  · rw [key]
    simp only [Option.map_some', Option.some.injEq, decide_eq_decide]
    constructor
    · intro h
      linarith
    · intro h
      rw [h, sub_zero]

/-- C26 at the `main_12.cpp` harness start `rec = {150, 100, 500, 250}`, radii
`40` and `30`: in binary32 arithmetic the upper end of the right segment for
the slope factor `2/5` is at or left of the one for `1/5`; in exact arithmetic
the offset between the ends of the right segment for `1/5` is `50`, and the
segment is not vertical. -/
theorem C26_slope_on_right_edge_witness :
    binary32.add (WithArith.centers1 binary32 ⟨150, 100, 500, 250⟩ 30 (2 / 5)).x
        (WithArith.effectiveRadius binary32 ⟨150, 100, 500, 250⟩ 30)
      ≤ binary32.add (WithArith.centers1 binary32 ⟨150, 100, 500, 250⟩ 30 (1 / 5)).x
        (WithArith.effectiveRadius binary32 ⟨150, 100, 500, 250⟩ 30)
    ∧ ((linesOf (Main12.MyDrawSlopedRoundedRectangleWires ⟨150, 100, 500, 250⟩ 40 30 (1 / 5) 16
        ⟨0, 0, 0, 255⟩ 2))[2]?).map (fun l => l.2.1.x - l.1.x) = some 50
    ∧ ((linesOf (Main12.MyDrawSlopedRoundedRectangleWires ⟨150, 100, 500, 250⟩ 40 30 (1 / 5) 16
        ⟨0, 0, 0, 255⟩ 2))[2]?).map (fun l => decide (l.1.x = l.2.1.x)) = some false := by
  have h := C26_slope_on_right_edge binary32 ⟨150, 100, 500, 250⟩ 40 30 (1 / 5) (2 / 5) 16
    ⟨0, 0, 0, 255⟩ 2
  obtain ⟨-, -, -, -, b, -, e1, e2⟩ := h
  refine ⟨b (by norm_num) (by norm_num), ?_, ?_⟩
  · rw [e1]
    norm_num
  · rw [e2]
    norm_num

/-- C23, the claim as stated fails for a negative extent: for
`rec = {0, 0, -4, 10}` and `roundness = 1/2`, which is in `[0, 1]`, the radius is
`(1/2 * fminf(-4, 10)) / 2 = -1`, which exceeds half the shorter side,
`fminf(-4, 10) / 2 = -2`, in exact and in binary32 arithmetic.  (The radius is
not positive, so the routine makes the single call `DrawRectangleRec(rec)`.) -/
theorem C23_radius_bound_counterexample :
    (0 : ℚ) ≤ 1 / 2 ∧ (1 / 2 : ℚ) ≤ 1
    ∧ (1 / 2 : ℚ) * fminf (-4) 10 / 2 = -1
    ∧ fminf (-4 : ℚ) 10 / 2 = -2
    ∧ ¬ ((1 / 2 : ℚ) * fminf (-4) 10 / 2 ≤ fminf (-4 : ℚ) 10 / 2)
    ∧ Main8Basic.MyDrawRectangleRounded ⟨0, 0, -4, 10⟩ (1 / 2) 30 ⟨102, 191, 255, 255⟩
      = [ Primitive.DrawRectangleRec ⟨0, 0, -4, 10⟩ ⟨102, 191, 255, 255⟩ ]
    ∧ WithArith.Main8Basic.radius binary32 ⟨0, 0, -4, 10⟩ (1 / 2) = -1
    ∧ binary32.div (fminf (-4) 10) 2 = -2
    ∧ ¬ (WithArith.Main8Basic.radius binary32 ⟨0, 0, -4, 10⟩ (1 / 2)
          ≤ binary32.div (fminf (-4) 10) 2)
    ∧ WithArith.Main8Basic.MyDrawRectangleRounded binary32 ⟨0, 0, -4, 10⟩ (1 / 2) 30
        ⟨102, 191, 255, 255⟩
      = [ Primitive.DrawRectangleRec ⟨0, 0, -4, 10⟩ ⟨102, 191, 255, 255⟩ ] := by
  have hm : fminf (-4 : ℚ) 10 = -4 := by norm_num [fminf]
  have b1 : binary32.mul (1 / 2) (-4) = -2 :=
    roundBinary32_neg _ _ 1 (by norm_num) (by norm_num) (by norm_num [roundHalfEven])
  have b2 : binary32.div (-2) 2 = -1 :=
    roundBinary32_neg _ _ 0 (by norm_num) (by norm_num) (by norm_num [roundHalfEven])
  have b3 : binary32.div (-4) 2 = -2 :=
    roundBinary32_neg _ _ 1 (by norm_num) (by norm_num) (by norm_num [roundHalfEven])
  have er : WithArith.Main8Basic.radius binary32 ⟨0, 0, -4, 10⟩ (1 / 2) = -1 := by
    rw [WithArith_rounded_radius_mk, hm, b1, b2]
  refine ⟨by norm_num, by norm_num, by norm_num [fminf], by norm_num [fminf],
    by norm_num [fminf], ?_, er, ?_, ?_, ?_⟩
  · norm_num [Main8Basic.MyDrawRectangleRounded, fminf]
  · rw [hm, b3]
  · rw [er, hm, b3]
    norm_num
  · rw [WithArith_rounded_eq, er]
    norm_num

/-- C23 as amended (`MyDrawRectangleRounded` of `main_8_basic.cpp`).  Whatever
the rounding of the `float` operations, with
`radius = (roundness * fminf(rec.width, rec.height)) / 2`: if `radius ≤ 0` the
routine makes the single call `DrawRectangleRec(rec)`; otherwise it makes three
`DrawRectangle` calls (centre, top, bottom; arguments converted to `int`)
followed by four sectors of that radius centred at `(x+r, y+r)`, `(x+w-r, y+r)`,
`(x+w-r, y+h-r)`, `(x+r, y+h-r)` with the ranges 180-270, 270-360, 0-90, 90-180.
In binary32 and in exact arithmetic the radius for `roundness = 0` is `0`, so
the single call is made.  For `roundness` in `[0, 1]` the radius is at most half
the shorter side, for non-negative extents and whenever the radius is positive
(sectors are drawn): in exact arithmetic, and in binary32 arithmetic (no
operation overflowing) for a shorter side that is a binary32 value, with the
half as the routine would compute it, `minSide / 2.0f`.  The harness keeps `Roundness` in `[0, 1]`. -/
theorem C23_rounded_rectangle (A : FloatArith) (rec : Rectangle) (roundness : ℚ)
    (segments : Int) (color : Color) :
    WithArith.Main8Basic.radius A rec roundness
      = A.div (A.mul roundness (fminf rec.width rec.height)) 2
    ∧ WithArith.Main8Basic.MyDrawRectangleRounded A rec roundness segments color
      = (if WithArith.Main8Basic.radius A rec roundness ≤ 0 then
          [ Primitive.DrawRectangleRec rec color ]
        else
          [ Primitive.DrawRectangle (toInt rec.x)
              (toInt (A.add rec.y (WithArith.Main8Basic.radius A rec roundness)))
              (toInt rec.width)
              (toInt (A.sub rec.height (A.mul 2 (WithArith.Main8Basic.radius A rec roundness))))
              color,
            Primitive.DrawRectangle
              (toInt (A.add rec.x (WithArith.Main8Basic.radius A rec roundness))) (toInt rec.y)
              (toInt (A.sub rec.width (A.mul 2 (WithArith.Main8Basic.radius A rec roundness))))
              (toInt (WithArith.Main8Basic.radius A rec roundness)) color,
            Primitive.DrawRectangle
              (toInt (A.add rec.x (WithArith.Main8Basic.radius A rec roundness)))
              (toInt (A.sub (A.add rec.y rec.height)
                (WithArith.Main8Basic.radius A rec roundness)))
              (toInt (A.sub rec.width (A.mul 2 (WithArith.Main8Basic.radius A rec roundness))))
              (toInt (WithArith.Main8Basic.radius A rec roundness)) color,
            Primitive.DrawCircleSector
              ⟨A.add rec.x (WithArith.Main8Basic.radius A rec roundness),
                A.add rec.y (WithArith.Main8Basic.radius A rec roundness)⟩
              (WithArith.Main8Basic.radius A rec roundness) 180 270 segments color,
            Primitive.DrawCircleSector
              ⟨A.sub (A.add rec.x rec.width) (WithArith.Main8Basic.radius A rec roundness),
                A.add rec.y (WithArith.Main8Basic.radius A rec roundness)⟩
              (WithArith.Main8Basic.radius A rec roundness) 270 360 segments color,
            Primitive.DrawCircleSector
              ⟨A.sub (A.add rec.x rec.width) (WithArith.Main8Basic.radius A rec roundness),
                A.sub (A.add rec.y rec.height) (WithArith.Main8Basic.radius A rec roundness)⟩
              (WithArith.Main8Basic.radius A rec roundness) 0 90 segments color,
            Primitive.DrawCircleSector
              ⟨A.add rec.x (WithArith.Main8Basic.radius A rec roundness),
                A.sub (A.add rec.y rec.height) (WithArith.Main8Basic.radius A rec roundness)⟩
              (WithArith.Main8Basic.radius A rec roundness) 90 180 segments color ])
    ∧ WithArith.Main8Basic.MyDrawRectangleRounded binary32 rec 0 segments color
      = [ Primitive.DrawRectangleRec rec color ]
    ∧ (0 ≤ roundness → roundness ≤ 1 →
        roundBinary32 (fminf rec.width rec.height) = fminf rec.width rec.height →
        (0 ≤ rec.width → 0 ≤ rec.height →
          WithArith.Main8Basic.radius binary32 rec roundness
            ≤ binary32.div (fminf rec.width rec.height) 2)
        ∧ (0 < WithArith.Main8Basic.radius binary32 rec roundness →
          WithArith.Main8Basic.radius binary32 rec roundness
            ≤ binary32.div (fminf rec.width rec.height) 2))
    ∧ (∀ (Roundness : ℚ) (keyRight keyLeft : Bool),
        0 ≤ WithArith.Main8Basic.updateRoundness A Roundness keyRight keyLeft
        ∧ WithArith.Main8Basic.updateRoundness A Roundness keyRight keyLeft ≤ 1)
    ∧ WithArith.Main8Basic.MyDrawRectangleRounded exactArith rec roundness segments color
      = Main8Basic.MyDrawRectangleRounded rec roundness segments color
    ∧ Main8Basic.MyDrawRectangleRounded rec roundness segments color
      = (if roundness * min rec.width rec.height / 2 ≤ 0 then
          [ Primitive.DrawRectangleRec rec color ]
        else
          [ Primitive.DrawRectangle (toInt rec.x)
              (toInt (rec.y + roundness * min rec.width rec.height / 2)) (toInt rec.width)
              (toInt (rec.height - 2 * (roundness * min rec.width rec.height / 2))) color,
            Primitive.DrawRectangle
              (toInt (rec.x + roundness * min rec.width rec.height / 2)) (toInt rec.y)
              (toInt (rec.width - 2 * (roundness * min rec.width rec.height / 2)))
              (toInt (roundness * min rec.width rec.height / 2)) color,
            Primitive.DrawRectangle
              (toInt (rec.x + roundness * min rec.width rec.height / 2))
              (toInt (rec.y + rec.height - roundness * min rec.width rec.height / 2))
              (toInt (rec.width - 2 * (roundness * min rec.width rec.height / 2)))
              (toInt (roundness * min rec.width rec.height / 2)) color,
            Primitive.DrawCircleSector
              ⟨rec.x + roundness * min rec.width rec.height / 2,
                rec.y + roundness * min rec.width rec.height / 2⟩
              (roundness * min rec.width rec.height / 2) 180 270 segments color,
            Primitive.DrawCircleSector
              ⟨rec.x + rec.width - roundness * min rec.width rec.height / 2,
                rec.y + roundness * min rec.width rec.height / 2⟩
              (roundness * min rec.width rec.height / 2) 270 360 segments color,
            Primitive.DrawCircleSector
              ⟨rec.x + rec.width - roundness * min rec.width rec.height / 2,
                rec.y + rec.height - roundness * min rec.width rec.height / 2⟩
              (roundness * min rec.width rec.height / 2) 0 90 segments color,
            Primitive.DrawCircleSector
              ⟨rec.x + roundness * min rec.width rec.height / 2,
                rec.y + rec.height - roundness * min rec.width rec.height / 2⟩
              (roundness * min rec.width rec.height / 2) 90 180 segments color ])
    ∧ Main8Basic.MyDrawRectangleRounded rec 0 segments color
      = [ Primitive.DrawRectangleRec rec color ]
    ∧ (0 ≤ roundness → roundness ≤ 1 →
        (0 ≤ rec.width → 0 ≤ rec.height →
          roundness * min rec.width rec.height / 2 ≤ min rec.width rec.height / 2)
        ∧ (0 < roundness * min rec.width rec.height / 2 →
          roundness * min rec.width rec.height / 2 ≤ min rec.width rec.height / 2))
    ∧ (∀ (Roundness : ℚ) (keyRight keyLeft : Bool),
        0 ≤ Main8Basic.updateRoundness Roundness keyRight keyLeft
        ∧ Main8Basic.updateRoundness Roundness keyRight keyLeft ≤ 1) := by
  refine ⟨rfl, WithArith_rounded_eq A rec roundness segments color, ?_, ?_, ?_, rfl,
    ?_, ?_, ?_, ?_⟩
  · rw [WithArith_rounded_eq, binary32_rounded_radius_zero]
    simp
  · intro h0 h1 hrep
    constructor
    · intro hw hh
      exact binary32_rounded_radius_le rec roundness h1 (le_min hw hh) hrep
    · intro hr
      exact binary32_rounded_radius_le rec roundness h1
        (binary32_rounded_radius_pos_imp rec roundness h0 hr).le hrep
  · intro R kr kl
    unfold WithArith.Main8Basic.updateRoundness fmaxf fminf
    exact ⟨le_max_left _ _, max_le (by norm_num) (min_le_left _ _)⟩
  · unfold Main8Basic.MyDrawRectangleRounded fminf
    by_cases h : roundness * min rec.width rec.height / 2 ≤ 0
    · simp only [h, if_true]
    · simp only [h, if_false]
      norm_num [List.range, List.range.loop]
  · unfold Main8Basic.MyDrawRectangleRounded
    simp
  · intro h0 h1
    constructor
    · intro hw hh
      have hm : 0 ≤ min rec.width rec.height := le_min hw hh
      have : roundness * min rec.width rec.height ≤ 1 * min rec.width rec.height :=
        mul_le_mul_of_nonneg_right h1 hm
      linarith
    · intro hr
      have hpos : 0 < roundness * min rec.width rec.height := by linarith
      have hm : 0 < min rec.width rec.height := by
        by_contra hneg
        have := mul_nonpos_of_nonneg_of_nonpos h0 (not_lt.mp hneg)
        linarith
      have : roundness * min rec.width rec.height ≤ 1 * min rec.width rec.height :=
        mul_le_mul_of_nonneg_right h1 hm.le
      linarith
  · intro R kr kl
    unfold Main8Basic.updateRoundness fmaxf fminf
    exact ⟨le_max_left _ _, max_le (by norm_num) (min_le_left _ _)⟩

/-- C23 at `rec = {200, 100, 400, 200}` (positive extents) and
`roundness = 1/2`: radius `50`, three rectangles and four sectors, in exact and
in binary32 arithmetic, and the radius is at most half the shorter side. -/
theorem C23_rounded_rectangle_witness :
    Main8Basic.MyDrawRectangleRounded ⟨200, 100, 400, 200⟩ (1 / 2) 30 ⟨102, 191, 255, 255⟩
      = [ Primitive.DrawRectangle 200 150 400 100 ⟨102, 191, 255, 255⟩,
          Primitive.DrawRectangle 250 100 300 50 ⟨102, 191, 255, 255⟩,
          Primitive.DrawRectangle 250 250 300 50 ⟨102, 191, 255, 255⟩,
          Primitive.DrawCircleSector ⟨250, 150⟩ 50 180 270 30 ⟨102, 191, 255, 255⟩,
          Primitive.DrawCircleSector ⟨550, 150⟩ 50 270 360 30 ⟨102, 191, 255, 255⟩,
          Primitive.DrawCircleSector ⟨550, 250⟩ 50 0 90 30 ⟨102, 191, 255, 255⟩,
          Primitive.DrawCircleSector ⟨250, 250⟩ 50 90 180 30 ⟨102, 191, 255, 255⟩ ]
    ∧ (1 / 2 : ℚ) * min (400 : ℚ) 200 / 2 ≤ min (400 : ℚ) 200 / 2
    ∧ WithArith.Main8Basic.MyDrawRectangleRounded binary32 ⟨200, 100, 400, 200⟩ (1 / 2) 30
        ⟨102, 191, 255, 255⟩
      = [ Primitive.DrawRectangle 200 150 400 100 ⟨102, 191, 255, 255⟩,
          Primitive.DrawRectangle 250 100 300 50 ⟨102, 191, 255, 255⟩,
          Primitive.DrawRectangle 250 250 300 50 ⟨102, 191, 255, 255⟩,
          Primitive.DrawCircleSector ⟨250, 150⟩ 50 180 270 30 ⟨102, 191, 255, 255⟩,
          Primitive.DrawCircleSector ⟨550, 150⟩ 50 270 360 30 ⟨102, 191, 255, 255⟩,
          Primitive.DrawCircleSector ⟨550, 250⟩ 50 0 90 30 ⟨102, 191, 255, 255⟩,
          Primitive.DrawCircleSector ⟨250, 250⟩ 50 90 180 30 ⟨102, 191, 255, 255⟩ ]
    ∧ WithArith.Main8Basic.radius binary32 ⟨200, 100, 400, 200⟩ (1 / 2)
      ≤ binary32.div (fminf 400 200) 2 := by
  have h := C23_rounded_rectangle binary32 ⟨200, 100, 400, 200⟩ (1 / 2) 30
    ⟨102, 191, 255, 255⟩
  obtain ⟨-, h2, -, h4, -, -, h7, -, h9, -⟩ := h
  have hm : fminf (400 : ℚ) 200 = 200 := by norm_num [fminf]
  have b1 : binary32.mul (1 / 2) 200 = 100 :=
    roundBinary32_pos _ _ 6 (by norm_num) (by norm_num) (by norm_num [roundHalfEven])
  have b2 : binary32.div 100 2 = 50 :=
    roundBinary32_pos _ _ 5 (by norm_num) (by norm_num) (by norm_num [roundHalfEven])
  have b3 : binary32.add 100 50 = 150 :=
    roundBinary32_pos _ _ 7 (by norm_num) (by norm_num) (by norm_num [roundHalfEven])
  have b4 : binary32.mul 2 50 = 100 :=
    roundBinary32_pos _ _ 6 (by norm_num) (by norm_num) (by norm_num [roundHalfEven])
  have b5 : binary32.sub 200 100 = 100 :=
    roundBinary32_pos _ _ 6 (by norm_num) (by norm_num) (by norm_num [roundHalfEven])
  have b6 : binary32.add 200 50 = 250 :=
    roundBinary32_pos _ _ 7 (by norm_num) (by norm_num) (by norm_num [roundHalfEven])
  have b7 : binary32.sub 400 100 = 300 :=
    roundBinary32_pos _ _ 8 (by norm_num) (by norm_num) (by norm_num [roundHalfEven])
  have b8 : binary32.add 100 200 = 300 :=
    roundBinary32_pos _ _ 8 (by norm_num) (by norm_num) (by norm_num [roundHalfEven])
  have b9 : binary32.sub 300 50 = 250 :=
    roundBinary32_pos _ _ 7 (by norm_num) (by norm_num) (by norm_num [roundHalfEven])
  have b10 : binary32.add 200 400 = 600 :=
    roundBinary32_pos _ _ 9 (by norm_num) (by norm_num) (by norm_num [roundHalfEven])
  have b11 : binary32.sub 600 50 = 550 :=
    roundBinary32_pos _ _ 9 (by norm_num) (by norm_num) (by norm_num [roundHalfEven])
  have er : WithArith.Main8Basic.radius binary32 ⟨200, 100, 400, 200⟩ (1 / 2) = 50 := by
    rw [WithArith_rounded_radius_mk, hm, b1, b2]
  have hrep : roundBinary32 (fminf (400 : ℚ) 200) = fminf (400 : ℚ) 200 := by
    rw [hm]
    exact roundBinary32_pos _ _ 7 (by norm_num) (by norm_num) (by norm_num [roundHalfEven])
  refine ⟨?_, (h9 (by norm_num) (by norm_num)).1 (by norm_num) (by norm_num), ?_,
    (h4 (by norm_num) (by norm_num) hrep).1 (by norm_num) (by norm_num)⟩
  · rw [h7]
    norm_num [toInt]
  · rw [h2, er]
    simp only [b3, b4, b5, b6, b7, b8, b9, b10, b11]
    norm_num [toInt]

/-- C24 (the star outline of `DrawStar`, `main_7.cpp`, is a closed polyline):
the last ten calls are the lines from `vertices[i]` to `vertices[(i+1) % 10]`
for `i = 0, .., 9`, with thickness 3 and colour `BLACK`.  Every index is
within `0..9`, the end of each segment is the start of the next, the end of
the last is `vertices[0]`, where the first starts, and every index `0..9` is
the start of exactly one segment and the end of exactly one. -/
theorem C24_star_outline_closed (lib : FloatLib) (cfg : StarConfig) :
    linesOf (Main7.PolygonDrawer.DrawStar lib cfg)
      = Main7.PolygonDrawer.outlineIndices.map (fun ij =>
          (Main7.PolygonDrawer.vertices lib cfg ij.1, Main7.PolygonDrawer.vertices lib cfg ij.2,
            3, BLACK))
    ∧ (Main7.PolygonDrawer.DrawStar lib cfg).drop 5
      = Main7.PolygonDrawer.outlineIndices.map (fun ij =>
          Primitive.DrawLineEx (Main7.PolygonDrawer.vertices lib cfg ij.1)
            (Main7.PolygonDrawer.vertices lib cfg ij.2) 3 BLACK)
    ∧ Main7.PolygonDrawer.outlineIndices = (List.range 10).map (fun i => (i, (i + 1) % 10))
    ∧ Main7.PolygonDrawer.outlineIndices.length = 10
    ∧ Main7.PolygonDrawer.outlineIndices.all (fun ij => decide (ij.1 < 10 ∧ ij.2 < 10)) = true
    ∧ Main7.PolygonDrawer.outlineIndices.Chain' (fun a b => a.2 = b.1)
    ∧ Main7.PolygonDrawer.outlineIndices.head?.map Prod.fst = some 0
    ∧ Main7.PolygonDrawer.outlineIndices.getLast?.map Prod.snd = some 0
    ∧ (List.range 10).all (fun k =>
        decide ((Main7.PolygonDrawer.outlineIndices.map Prod.fst).count k = 1
          ∧ (Main7.PolygonDrawer.outlineIndices.map Prod.snd).count k = 1)) = true := by
  refine ⟨?_, ?_, rfl, by decide, by decide, ?_, by decide, by decide, by decide⟩
  · rw [DrawStar_eq, fillIndices_eq, outlineIndices_eq]
    rfl
  · rw [DrawStar_eq, fillIndices_eq, outlineIndices_eq]
    rfl
  · rw [outlineIndices_eq]
    simp

/-- C30 (the star fill of `DrawStar`, `main_7.cpp`, ignores the inner radius):
the first five calls are the triangles
`(centre, vertices[i], vertices[(i+2) % 10])` for `i = 0, 2, 4, 6, 8`; every
index is within `0..9` and even, and a vertex of even index does not depend on
`InnerRadius`.  So two configurations that differ only in `InnerRadius` give
the same fill triangles, while their outlines can differ. -/
theorem C30_star_fill_ignores_inner_radius (lib : FloatLib) (cfg : StarConfig)
    (innerRadius : ℚ) :
    trianglesOf (Main7.PolygonDrawer.DrawStar lib cfg)
      = Main7.PolygonDrawer.fillIndices.map (fun ij =>
          (⟨cfg.CenterX, cfg.CenterY⟩, Main7.PolygonDrawer.vertices lib cfg ij.1,
            Main7.PolygonDrawer.vertices lib cfg ij.2,
            ⟨toUChar cfg.R, toUChar cfg.G, toUChar cfg.B, toUChar cfg.A⟩))
    ∧ ((Main7.PolygonDrawer.DrawStar lib cfg).take 5).map Primitive.kind
      = [ Kind.triangle, Kind.triangle, Kind.triangle, Kind.triangle, Kind.triangle ]
    ∧ (trianglesOf (Main7.PolygonDrawer.DrawStar lib cfg)).length = 5
    ∧ Main7.PolygonDrawer.fillIndices = [(0, 2), (2, 4), (4, 6), (6, 8), (8, 0)]
    ∧ Main7.PolygonDrawer.fillIndices.all (fun ij =>
        decide (ij.1 < 10 ∧ ij.2 < 10 ∧ ij.1 % 2 = 0 ∧ ij.2 % 2 = 0)) = true
    ∧ (∀ k : Nat,
        Main7.PolygonDrawer.vertices lib
            ⟨cfg.CenterX, cfg.CenterY, cfg.OuterRadius, innerRadius, cfg.RotationDeg, cfg.R,
              cfg.G, cfg.B, cfg.A⟩ (2 * k)
          = Main7.PolygonDrawer.vertices lib cfg (2 * k))
    ∧ trianglesOf (Main7.PolygonDrawer.DrawStar lib
          ⟨cfg.CenterX, cfg.CenterY, cfg.OuterRadius, innerRadius, cfg.RotationDeg, cfg.R,
            cfg.G, cfg.B, cfg.A⟩)
      = trianglesOf (Main7.PolygonDrawer.DrawStar lib cfg)
    ∧ linesOf (Main7.PolygonDrawer.DrawStar ⟨fun _ => 1, fun _ => 0, 0, fun _ => 0, fun v => v⟩
          ⟨400, 300, 100, 50, 0, 255, 200, 0, 255⟩)
      ≠ linesOf (Main7.PolygonDrawer.DrawStar ⟨fun _ => 1, fun _ => 0, 0, fun _ => 0, fun v => v⟩
          ⟨400, 300, 100, 40, 0, 255, 200, 0, 255⟩) := by
  have ht : ∀ c : StarConfig, trianglesOf (Main7.PolygonDrawer.DrawStar lib c)
      = Main7.PolygonDrawer.fillIndices.map (fun ij =>
          (⟨c.CenterX, c.CenterY⟩, Main7.PolygonDrawer.vertices lib c ij.1,
            Main7.PolygonDrawer.vertices lib c ij.2,
            ⟨toUChar c.R, toUChar c.G, toUChar c.B, toUChar c.A⟩)) := by
    intro c
    rw [DrawStar_eq, fillIndices_eq, outlineIndices_eq]
    rfl
  have hv := vertices_even lib cfg innerRadius
  refine ⟨ht cfg, ?_, ?_, fillIndices_eq, by decide, hv, ?_, ?_⟩
  · rw [DrawStar_eq, fillIndices_eq, outlineIndices_eq]
    rfl
  · rw [ht, fillIndices_eq]
    rfl
  · rw [ht, ht, fillIndices_eq]
    have h0 := hv 0
    have h1 := hv 1
    have h2 := hv 2
    have h3 := hv 3
    have h4 := hv 4
    simp only [Nat.mul_zero, Nat.mul_one] at h0 h1
    norm_num at h2 h3 h4
    simp only [List.map_cons, List.map_nil, h0, h1, h2, h3, h4]
  · intro h
    rw [DrawStar_eq, DrawStar_eq, fillIndices_eq, outlineIndices_eq] at h
    have h2 := congrArg (fun l => l.head?) h
    norm_num [linesOf, Primitive.line?, Main7.PolygonDrawer.vertices] at h2

/-- C28, the claim as stated fails in the arithmetic of the program, inside the
slider ranges: for `Height = 10`, zero slopes, `Radius_Top = 0` and
`Radius_Bottom = 17.5` the total height is `10`, the sum `17.5` exceeds
`totalHeight - 1 = 9`, the scale `9 / 17.5` rounds to `8628283 / 16777216` and
`rBottom = 17.5 * scale` rounds to `9437185 / 1048576`, about `9.00000095`:
afterwards `rTop + rBottom` is not `totalHeight - 1` and exceeds it. -/
theorem C28_scaling_counterexample :
    WithArith.Main4.EyeDrawer.totalHeight binary32
        ⟨0, 0, 10, 50, 0, 0, 0, 35 / 2, false, false, false, false⟩ = 10
    ∧ binary32.sub (WithArith.Main4.EyeDrawer.totalHeight binary32
        ⟨0, 0, 10, 50, 0, 0, 0, 35 / 2, false, false, false, false⟩) 1 = 9
    ∧ binary32.add 0 (35 / 2) = 35 / 2 ∧ (35 / 2 : ℚ) > 9 ∧ (0 : ℚ) < 35 / 2
    ∧ binary32.div 9 (35 / 2) = 8628283 / 16777216
    ∧ WithArith.Main4.EyeDrawer.scaledRadii binary32
        ⟨0, 0, 10, 50, 0, 0, 0, 35 / 2, false, false, false, false⟩ = (0, 9437185 / 1048576)
    ∧ binary32.add (WithArith.Main4.EyeDrawer.scaledRadii binary32
        ⟨0, 0, 10, 50, 0, 0, 0, 35 / 2, false, false, false, false⟩).1
        (WithArith.Main4.EyeDrawer.scaledRadii binary32
        ⟨0, 0, 10, 50, 0, 0, 0, 35 / 2, false, false, false, false⟩).2 = 9437185 / 1048576
    ∧ (9437185 / 1048576 : ℚ) > 9
    ∧ (WithArith.Main4.EyeDrawer.scaledRadii binary32
        ⟨0, 0, 10, 50, 0, 0, 0, 35 / 2, false, false, false, false⟩).1 +
        (WithArith.Main4.EyeDrawer.scaledRadii binary32
        ⟨0, 0, 10, 50, 0, 0, 0, 35 / 2, false, false, false, false⟩).2 > 9 := by
  have h1 : binary32.mul 10 0 = 0 :=
    roundBinary32_of_eq_zero _ (by norm_num)
  have h2 : binary32.div 0 2 = 0 :=
    roundBinary32_of_eq_zero _ (by norm_num)
  have h3 : binary32.add 10 0 = 10 :=
    roundBinary32_pos _ _ 3 (by norm_num) (by norm_num) (by norm_num [roundHalfEven])
  have h4 : binary32.sub 10 0 = 10 :=
    roundBinary32_pos _ _ 3 (by norm_num) (by norm_num) (by norm_num [roundHalfEven])
  have h5 : binary32.sub 10 1 = 9 :=
    roundBinary32_pos _ _ 3 (by norm_num) (by norm_num) (by norm_num [roundHalfEven])
  have h6 : binary32.add 0 (35 / 2) = (35 / 2) :=
    roundBinary32_pos _ _ 4 (by norm_num) (by norm_num) (by norm_num [roundHalfEven])
  have h7 : binary32.div 9 (35 / 2) = (8628283 / 16777216) :=
    roundBinary32_pos _ _ (-1) (by norm_num) (by norm_num) (by norm_num [roundHalfEven])
  have h8 : binary32.mul 0 (8628283 / 16777216) = 0 :=
    roundBinary32_of_eq_zero _ (by norm_num)
  have h9 : binary32.mul (35 / 2) (8628283 / 16777216) = (9437185 / 1048576) :=
    roundBinary32_pos _ _ 3 (by norm_num) (by norm_num) (by norm_num [roundHalfEven])
  have h10 : binary32.add 0 (9437185 / 1048576) = (9437185 / 1048576) :=
    roundBinary32_pos _ _ 3 (by norm_num) (by norm_num) (by norm_num [roundHalfEven])
  have eH : WithArith.Main4.EyeDrawer.totalHeight binary32
      ⟨0, 0, 10, 50, 0, 0, 0, 35 / 2, false, false, false, false⟩ = 10 := by
    simp only [WithArith_totalHeight_mk,
      h1, h2, h3, h4, h5, h6, h7, h8, h9, h10]
  have eS : WithArith.Main4.EyeDrawer.scaledRadii binary32
      ⟨0, 0, 10, 50, 0, 0, 0, 35 / 2, false, false, false, false⟩ = (0, 9437185 / 1048576) := by
    rw [WithArith_scaledRadii_mk, eH]
    simp only [h1, h2, h3, h4, h5, h6, h7, h8, h9, h10]
    norm_num
  refine ⟨eH, ?_, h6, by norm_num, by norm_num, h7, eS, ?_,
    by norm_num, ?_⟩
  · rw [eH]
    exact h5
  · rw [eS]
    exact h10
  · rw [eS]
    norm_num

/-- C28 as amended (proportional radius scaling in `EyeDrawer::Draw`,
`src/main_4.cpp`).  Whatever the rounding of the `float` operations, with
`totalHeight = Height + Height * Slope_Top / 2 - Height * Slope_Bottom / 2` the
step tests `Radius_Top + Radius_Bottom > totalHeight - 1`; when the test fails
the radii are used unchanged, otherwise both are multiplied by the same factor
`scale = (totalHeight - 1) / (Radius_Top + Radius_Bottom)`.  In exact
arithmetic, when moreover `Radius_Top + Radius_Bottom > 0`, afterwards
`rTop + rBottom = totalHeight - 1` and
`rTop * Radius_Bottom = rBottom * Radius_Top`, and in both cases
`rTop + rBottom ≤ totalHeight - 1`.  The four edge lines of `Draw` join the
corner centres computed from these radii. -/
theorem C28_proportional_radius_scaling (A : FloatArith) (centerX centerY : Int)
    (cfg : EyeConfig) (color : Color) :
    WithArith.Main4.EyeDrawer.totalHeight A cfg
      = A.sub (A.add cfg.Height (A.div (A.mul cfg.Height cfg.Slope_Top) 2))
          (A.div (A.mul cfg.Height cfg.Slope_Bottom) 2)
    ∧ WithArith.Main4.EyeDrawer.scaledRadii A cfg
      = (if A.add cfg.Radius_Top cfg.Radius_Bottom > A.sub
          (WithArith.Main4.EyeDrawer.totalHeight A cfg) 1 then
          (A.mul cfg.Radius_Top
              (A.div (A.sub (WithArith.Main4.EyeDrawer.totalHeight A cfg) 1)
                  (A.add cfg.Radius_Top cfg.Radius_Bottom)),
            A.mul cfg.Radius_Bottom
              (A.div (A.sub (WithArith.Main4.EyeDrawer.totalHeight A cfg) 1)
                  (A.add cfg.Radius_Top cfg.Radius_Bottom)))
        else (cfg.Radius_Top, cfg.Radius_Bottom))
    ∧ WithArith.Main4.EyeDrawer.scaledRadii exactArith cfg = Main4.EyeDrawer.scaledRadii cfg
    ∧ Main4.EyeDrawer.totalHeight cfg
      = cfg.Height + cfg.Height * cfg.Slope_Top / 2 - cfg.Height * cfg.Slope_Bottom / 2
    ∧ (cfg.Radius_Top + cfg.Radius_Bottom ≤ Main4.EyeDrawer.totalHeight cfg - 1 →
        Main4.EyeDrawer.scaledRadii cfg = (cfg.Radius_Top, cfg.Radius_Bottom))
    ∧ (Main4.EyeDrawer.totalHeight cfg - 1 < cfg.Radius_Top + cfg.Radius_Bottom →
        0 < cfg.Radius_Top + cfg.Radius_Bottom →
        Main4.EyeDrawer.scaledRadii cfg
          = (cfg.Radius_Top
              * ((Main4.EyeDrawer.totalHeight cfg - 1) / (cfg.Radius_Top + cfg.Radius_Bottom)),
            cfg.Radius_Bottom
              * ((Main4.EyeDrawer.totalHeight cfg - 1) / (cfg.Radius_Top + cfg.Radius_Bottom)))
        ∧ (Main4.EyeDrawer.scaledRadii cfg).1 + (Main4.EyeDrawer.scaledRadii cfg).2
          = Main4.EyeDrawer.totalHeight cfg - 1
        ∧ (Main4.EyeDrawer.scaledRadii cfg).1 * cfg.Radius_Bottom
          = (Main4.EyeDrawer.scaledRadii cfg).2 * cfg.Radius_Top)
    ∧ (cfg.Radius_Top + cfg.Radius_Bottom ≤ Main4.EyeDrawer.totalHeight cfg - 1
          ∨ 0 < cfg.Radius_Top + cfg.Radius_Bottom →
        (Main4.EyeDrawer.scaledRadii cfg).1 + (Main4.EyeDrawer.scaledRadii cfg).2
          ≤ Main4.EyeDrawer.totalHeight cfg - 1)
    ∧ ((Main4.EyeDrawer.Draw centerX centerY cfg color).take 4).map
        (fun p => match p with
          | Primitive.DrawLineV a b _ => (a, b)
          | _ => (⟨0, 0⟩, ⟨0, 0⟩))
      = [ (⟨(centerX : ℚ) + cfg.OffsetX - cfg.Width / 2 + (Main4.EyeDrawer.scaledRadii cfg).1,
             (centerY : ℚ) + cfg.OffsetY - cfg.Height / 2 + (Main4.EyeDrawer.scaledRadii cfg).1
               - cfg.Height * cfg.Slope_Top / 2⟩,
           ⟨(centerX : ℚ) + cfg.OffsetX + cfg.Width / 2 - (Main4.EyeDrawer.scaledRadii cfg).1,
             (centerY : ℚ) + cfg.OffsetY - cfg.Height / 2 + (Main4.EyeDrawer.scaledRadii cfg).1
               + cfg.Height * cfg.Slope_Top / 2⟩),
          (⟨(centerX : ℚ) + cfg.OffsetX - cfg.Width / 2 + (Main4.EyeDrawer.scaledRadii cfg).2,
             (centerY : ℚ) + cfg.OffsetY + cfg.Height / 2 - (Main4.EyeDrawer.scaledRadii cfg).2
               - cfg.Height * cfg.Slope_Bottom / 2⟩,
           ⟨(centerX : ℚ) + cfg.OffsetX + cfg.Width / 2 - (Main4.EyeDrawer.scaledRadii cfg).2,
             (centerY : ℚ) + cfg.OffsetY + cfg.Height / 2 - (Main4.EyeDrawer.scaledRadii cfg).2
               + cfg.Height * cfg.Slope_Bottom / 2⟩),
          (⟨(centerX : ℚ) + cfg.OffsetX - cfg.Width / 2 + (Main4.EyeDrawer.scaledRadii cfg).1,
             (centerY : ℚ) + cfg.OffsetY - cfg.Height / 2 + (Main4.EyeDrawer.scaledRadii cfg).1
               - cfg.Height * cfg.Slope_Top / 2⟩,
           ⟨(centerX : ℚ) + cfg.OffsetX - cfg.Width / 2 + (Main4.EyeDrawer.scaledRadii cfg).2,
             (centerY : ℚ) + cfg.OffsetY + cfg.Height / 2 - (Main4.EyeDrawer.scaledRadii cfg).2
               - cfg.Height * cfg.Slope_Bottom / 2⟩),
          (⟨(centerX : ℚ) + cfg.OffsetX + cfg.Width / 2 - (Main4.EyeDrawer.scaledRadii cfg).1,
             (centerY : ℚ) + cfg.OffsetY - cfg.Height / 2 + (Main4.EyeDrawer.scaledRadii cfg).1
               + cfg.Height * cfg.Slope_Top / 2⟩,
           ⟨(centerX : ℚ) + cfg.OffsetX + cfg.Width / 2 - (Main4.EyeDrawer.scaledRadii cfg).2,
             (centerY : ℚ) + cfg.OffsetY + cfg.Height / 2 - (Main4.EyeDrawer.scaledRadii cfg).2
               + cfg.Height * cfg.Slope_Bottom / 2⟩) ] := by
  have hun : cfg.Radius_Top + cfg.Radius_Bottom ≤ Main4.EyeDrawer.totalHeight cfg - 1 →
      Main4.EyeDrawer.scaledRadii cfg = (cfg.Radius_Top, cfg.Radius_Bottom) := by
    intro h
    unfold Main4.EyeDrawer.scaledRadii
    simp only [gt_iff_lt, not_lt.mpr h, if_false]
  have hsc : Main4.EyeDrawer.totalHeight cfg - 1 < cfg.Radius_Top + cfg.Radius_Bottom →
      Main4.EyeDrawer.scaledRadii cfg
        = (cfg.Radius_Top
            * ((Main4.EyeDrawer.totalHeight cfg - 1) / (cfg.Radius_Top + cfg.Radius_Bottom)),
          cfg.Radius_Bottom
            * ((Main4.EyeDrawer.totalHeight cfg - 1) / (cfg.Radius_Top + cfg.Radius_Bottom))) := by
    intro h
    unfold Main4.EyeDrawer.scaledRadii
    simp only [gt_iff_lt, h, if_true]
  have hsum : Main4.EyeDrawer.totalHeight cfg - 1 < cfg.Radius_Top + cfg.Radius_Bottom →
      0 < cfg.Radius_Top + cfg.Radius_Bottom →
      (Main4.EyeDrawer.scaledRadii cfg).1 + (Main4.EyeDrawer.scaledRadii cfg).2
        = Main4.EyeDrawer.totalHeight cfg - 1 := by
    intro h hpos
    rw [hsc h]
    have hne : cfg.Radius_Top + cfg.Radius_Bottom ≠ 0 := ne_of_gt hpos
    show cfg.Radius_Top * _ + cfg.Radius_Bottom * _ = _
    field_simp
    ring
  refine ⟨rfl, rfl, rfl, rfl, hun, ?_, ?_, ?_⟩
  · intro h hpos
    refine ⟨hsc h, hsum h hpos, ?_⟩
    rw [hsc h]
    show cfg.Radius_Top * _ * cfg.Radius_Bottom = cfg.Radius_Bottom * _ * cfg.Radius_Top
    ring
  · intro h
    by_cases hle : cfg.Radius_Top + cfg.Radius_Bottom ≤ Main4.EyeDrawer.totalHeight cfg - 1
    · rw [hun hle]
      exact hle
    · rcases h with h | h
      · exact absurd h hle
      · exact le_of_eq (hsum (not_le.mp hle) h)
  · unfold Main4.EyeDrawer.Draw
    rfl

/-- C28 at `Height = 40`, zero slopes and requested radii `30` and `30`, in
exact arithmetic:
`totalHeight = 40`, the radii are scaled by `39/60` to `39/2` each, and add up
to `39`. -/
theorem C28_proportional_radius_scaling_witness :
    Main4.EyeDrawer.scaledRadii ⟨0, 0, 40, 50, 0, 0, 30, 30, false, false, false, false⟩
      = (39 / 2, 39 / 2)
    ∧ (Main4.EyeDrawer.scaledRadii ⟨0, 0, 40, 50, 0, 0, 30, 30, false, false, false, false⟩).1
        + (Main4.EyeDrawer.scaledRadii
            ⟨0, 0, 40, 50, 0, 0, 30, 30, false, false, false, false⟩).2
      = Main4.EyeDrawer.totalHeight ⟨0, 0, 40, 50, 0, 0, 30, 30, false, false, false, false⟩ - 1
    ∧ Main4.EyeDrawer.scaledRadii ⟨0, 0, 40, 50, 0, 0, 10, 10, false, false, false, false⟩
      = (10, 10) := by
  have h := (C28_proportional_radius_scaling exactArith 425 300
    ⟨0, 0, 40, 50, 0, 0, 30, 30, false, false, false, false⟩ ⟨102, 191, 255, 255⟩).2.2.2.2.2.1
    (by norm_num [Main4.EyeDrawer.totalHeight]) (by norm_num)
  have h2 := (C28_proportional_radius_scaling exactArith 425 300
    ⟨0, 0, 40, 50, 0, 0, 10, 10, false, false, false, false⟩ ⟨102, 191, 255, 255⟩).2.2.2.2.1
    (by norm_num [Main4.EyeDrawer.totalHeight])
  refine ⟨?_, h.2.1, h2⟩
  rw [h.1]
  norm_num [Main4.EyeDrawer.totalHeight]

/-- C29, the code inside the slider ranges: for `Height = 10`,
`Slope_Top = -1`, `Slope_Bottom = 1` the total height is `0`, so
`totalHeight - 1 = -1`.  With `Radius_Top = Radius_Bottom = 0` the scaling
branch is taken (`0 > -1`) and its divisor `Radius_Top + Radius_Bottom` is `0`.
With `Radius_Top = Radius_Bottom = 10` the scale is `-1/20`, the radii become
`-1/2` each, and the top edge of `Draw(425, 300)` joins corner centres placed
with that negative radius. -/
theorem C29_scaling_unsafe :
    Main4.EyeDrawer.totalHeight ⟨0, 0, 10, 50, -1, 1, 0, 0, false, false, false, false⟩ = 0
    ∧ (0 : ℚ) + 0
        > Main4.EyeDrawer.totalHeight ⟨0, 0, 10, 50, -1, 1, 0, 0, false, false, false, false⟩
          - 1
    ∧ (⟨0, 0, 10, 50, -1, 1, 0, 0, false, false, false, false⟩ : EyeConfig).Radius_Top
        + (⟨0, 0, 10, 50, -1, 1, 0, 0, false, false, false, false⟩ : EyeConfig).Radius_Bottom
      = 0
    ∧ Main4.EyeDrawer.scaledRadii ⟨0, 0, 10, 50, -1, 1, 10, 10, false, false, false, false⟩
      = (-1 / 2, -1 / 2)
    ∧ (Main4.EyeDrawer.Draw 425 300
        ⟨0, 0, 10, 50, -1, 1, 10, 10, false, false, false, false⟩ ⟨102, 191, 255, 255⟩).head?
      = some (Primitive.DrawLineV ⟨799 / 2, 599 / 2⟩ ⟨901 / 2, 579 / 2⟩ ⟨102, 191, 255, 255⟩) := by
  have e : Main4.EyeDrawer.scaledRadii
      ⟨0, 0, 10, 50, -1, 1, 10, 10, false, false, false, false⟩ = (-1 / 2, -1 / 2) := by
    norm_num [Main4.EyeDrawer.scaledRadii, Main4.EyeDrawer.totalHeight]
  refine ⟨by norm_num [Main4.EyeDrawer.totalHeight],
    by norm_num [Main4.EyeDrawer.totalHeight], by norm_num, e, ?_⟩
  unfold Main4.EyeDrawer.Draw
  rw [e]
  norm_num

/-- C27 (the left strip adds no coverage): in the fill of `main_11.cpp`, for a
rectangle with `width ≥ 0` and `height ≥ 0`, the left strip (fourth call) has
the left edge `(int)rec.x`, the truncated `y` and the truncated height of the
central band (first call), and the truncated width `(int)radiusTop` with
`0 ≤ (int)radiusTop ≤ (int)rec.width`.  So every pixel of the left strip is a
pixel of the central band, and the pixels covered by the fill are the same
when the left strip is left out, whatever the other calls cover. -/
theorem C27_left_strip_no_coverage (rec : Rectangle) (radiusBottom radiusTop slopeFactor : ℚ)
    (segments : Int) (color : Color) (hw : 0 ≤ rec.width) (hh : 0 ≤ rec.height) :
    (Main11.MyDrawSlopedRoundedRectangle rec radiusBottom radiusTop slopeFactor segments
        color).head?
      = some (Primitive.DrawRectangle (toInt rec.x)
          (toInt (rec.y + effectiveRadius rec radiusTop)) (toInt rec.width)
          (toInt (rec.y + rec.height - effectiveRadius rec radiusBottom
            - (rec.y + effectiveRadius rec radiusTop))) color)
    ∧ ((Main11.MyDrawSlopedRoundedRectangle rec radiusBottom radiusTop slopeFactor segments
        color).drop 3).head?
      = some (Primitive.DrawRectangle (toInt rec.x)
          (toInt (rec.y + effectiveRadius rec radiusTop))
          (toInt (effectiveRadius rec radiusTop))
          (toInt (rec.y + rec.height - effectiveRadius rec radiusBottom
            - (rec.y + effectiveRadius rec radiusTop))) color)
    ∧ 0 ≤ toInt (effectiveRadius rec radiusTop)
    ∧ toInt (effectiveRadius rec radiusTop) ≤ toInt rec.width
    ∧ (∀ p : Int × Int,
        rectPixels (toInt rec.x) (toInt (rec.y + effectiveRadius rec radiusTop))
          (toInt (effectiveRadius rec radiusTop))
          (toInt (rec.y + rec.height - effectiveRadius rec radiusBottom
            - (rec.y + effectiveRadius rec radiusTop))) p →
        rectPixels (toInt rec.x) (toInt (rec.y + effectiveRadius rec radiusTop))
          (toInt rec.width)
          (toInt (rec.y + rec.height - effectiveRadius rec radiusBottom
            - (rec.y + effectiveRadius rec radiusTop))) p)
    ∧ (∀ other : Primitive → Set (Int × Int),
        covered other (Main11.MyDrawSlopedRoundedRectangle rec radiusBottom radiusTop
            slopeFactor segments color)
          = covered other ((Main11.MyDrawSlopedRoundedRectangle rec radiusBottom radiusTop
              slopeFactor segments color).eraseIdx 3)) := by
  have h0 : 0 ≤ effectiveRadius rec radiusTop := effectiveRadius_nonneg rec radiusTop hw hh
  have hle : effectiveRadius rec radiusTop ≤ rec.width := by
    have h1 := effectiveRadius_le_halfMin rec radiusTop
    have h2 : min rec.width rec.height ≤ rec.width := min_le_left _ _
    linarith
  have hwid : toInt (effectiveRadius rec radiusTop) ≤ toInt rec.width :=
    toInt_mono _ _ h0 hle
  refine ⟨?_, ?_, toInt_nonneg _ h0, hwid, ?_, ?_⟩
  · rw [Main11_fill_eq]
    rfl
  · rw [Main11_fill_eq]
    rfl
  · intro p hp
    exact rectPixels_mono_width _ _ _ _ _ hwid p hp
  · intro other
    refine covered_eraseIdx other _ 3
      (Primitive.DrawRectangle (toInt rec.x)
        (toInt (rec.y + effectiveRadius rec radiusTop))
        (toInt (effectiveRadius rec radiusTop))
        (toInt (rec.y + rec.height - effectiveRadius rec radiusBottom
          - (rec.y + effectiveRadius rec radiusTop))) color)
      (Primitive.DrawRectangle (toInt rec.x)
        (toInt (rec.y + effectiveRadius rec radiusTop)) (toInt rec.width)
        (toInt (rec.y + rec.height - effectiveRadius rec radiusBottom
          - (rec.y + effectiveRadius rec radiusTop))) color) ?_ ?_ ?_
    · rw [Main11_fill_eq]
      rfl
    · rw [Main11_fill_eq]
      exact List.mem_cons_self _ _
    · intro p hp
      exact rectPixels_mono_width _ _ _ _ _ hwid p hp

/-- C27 at `rec = {0, 0, 200, 100}`, radii `20`, slope `0`: the central band is
`{0, 20, 200, 60}`, the left strip `{0, 20, 20, 60}`, and `20 ≤ 200`. -/
theorem C27_left_strip_no_coverage_witness :
    (Main11.MyDrawSlopedRoundedRectangle ⟨0, 0, 200, 100⟩ 20 20 0 16 ⟨0, 121, 241, 255⟩).head?
      = some (Primitive.DrawRectangle 0 20 200 60 ⟨0, 121, 241, 255⟩)
    ∧ ((Main11.MyDrawSlopedRoundedRectangle ⟨0, 0, 200, 100⟩ 20 20 0 16
        ⟨0, 121, 241, 255⟩).drop 3).head?
      = some (Primitive.DrawRectangle 0 20 20 60 ⟨0, 121, 241, 255⟩)
    ∧ toInt (effectiveRadius ⟨0, 0, 200, 100⟩ 20) ≤ toInt 200 := by
  have h := C27_left_strip_no_coverage ⟨0, 0, 200, 100⟩ 20 20 0 16 ⟨0, 121, 241, 255⟩
    (by norm_num) (by norm_num)
  have e : effectiveRadius ⟨0, 0, 200, 100⟩ 20 = 20 := by
    norm_num [effectiveRadius, fmaxf, fminf]
  refine ⟨?_, ?_, h.2.2.2.1⟩
  · rw [h.1, e]
    norm_num [toInt]
  · rw [h.2.1, e]
    norm_num [toInt]

/-- In exact arithmetic `DrawLineDashed` of `main_5.cpp` terminates and stays
on the line: for `dashLength > 0` and `spaceLength ≥ 0` the loop ends: some number of
iterations suffices, and allowing more gives the same calls.  The calls are
the dashes from parameter `s` to parameter `e` along the line, each with
`0 ≤ s < e ≤ L` for the line length `L`; successive dashes start
`dashLength + spaceLength` apart and the next starts at or after the end of
the previous one; for `L = 0` (indeed `L ≤ 0`) no dash is drawn. -/
theorem DrawLineDashed_exact (lib : FloatLib) (x1 y1 x2 y2 dashLength spaceLength : ℚ)
    (color : Color) (hd : 0 < dashLength) (hsp : 0 ≤ spaceLength) :
    ∃ (fuel : Nat) (dashes : List (ℚ × ℚ)),
      (∀ k : Nat,
        Main5.ShapeDrawer.DrawLineDashed lib x1 y1 x2 y2 dashLength spaceLength color (fuel + k)
          = some (dashes.map (fun se =>
              Primitive.DrawLineV
                (Vector2Add ⟨x1, y1⟩
                  (Vector2Scale (lib.Vector2Normalize (Vector2Subtract ⟨x2, y2⟩ ⟨x1, y1⟩)) se.1))
                (Vector2Add ⟨x1, y1⟩
                  (Vector2Scale (lib.Vector2Normalize (Vector2Subtract ⟨x2, y2⟩ ⟨x1, y1⟩)) se.2))
                color)))
      ∧ (∀ se ∈ dashes, 0 ≤ se.1 ∧ se.1 < se.2
          ∧ se.2 ≤ lib.Vector2Length (Vector2Subtract ⟨x2, y2⟩ ⟨x1, y1⟩))
      ∧ dashes.Chain' (fun a b => b.1 = a.1 + dashLength + spaceLength ∧ a.2 ≤ b.1)
      ∧ (lib.Vector2Length (Vector2Subtract ⟨x2, y2⟩ ⟨x1, y1⟩) ≤ 0 → dashes = []) := by
  have hfuel : lib.Vector2Length (Vector2Subtract ⟨x2, y2⟩ ⟨x1, y1⟩) - 0
      ≤ (⌈lib.Vector2Length (Vector2Subtract ⟨x2, y2⟩ ⟨x1, y1⟩) / dashLength⌉₊ : ℚ)
          * dashLength := by
    rw [sub_zero, ← div_le_iff₀ hd]
    exact Nat.le_ceil _
  obtain ⟨dashes, hdashes⟩ := dashLoop_terminates _ dashLength spaceLength hd hsp _ 0 hfuel
  obtain ⟨hall, hchain, -⟩ := dashLoop_spec _ dashLength spaceLength hd hsp _ 0 dashes hdashes
  refine ⟨⌈lib.Vector2Length (Vector2Subtract ⟨x2, y2⟩ ⟨x1, y1⟩) / dashLength⌉₊, dashes, ?_,
    hall, hchain, ?_⟩
  · intro k
    unfold Main5.ShapeDrawer.DrawLineDashed
    simp only [dashLoop_mono _ _ _ _ _ _ hdashes k, Option.map_some']
  · intro hL
    rw [dashLoop_of_not_lt _ _ _ _ _ (not_lt.mpr hL)] at hdashes
    exact (Option.some.inj hdashes).symm

/-- In exact arithmetic, for the horizontal line from `(0, 0)` to `(5, 0)` with dashes of
length `2` and spaces of length `1`: the loop ends and the two dashes
`0..2` and `3..5` are drawn, the second capped at the end of the line. -/
theorem DrawLineDashed_exact_example :
    (∃ (fuel : Nat) (calls : List Primitive),
      Main5.ShapeDrawer.DrawLineDashed
        ⟨fun _ => 0, fun _ => 0, 0, fun v => |v.x| + |v.y|, fun _ => ⟨1, 0⟩⟩
        0 0 5 0 2 1 ⟨130, 130, 130, 255⟩ fuel = some calls)
    ∧ Main5.ShapeDrawer.DrawLineDashed
        ⟨fun _ => 0, fun _ => 0, 0, fun v => |v.x| + |v.y|, fun _ => ⟨1, 0⟩⟩
        0 0 5 0 2 1 ⟨130, 130, 130, 255⟩ 2
      = some [ Primitive.DrawLineV ⟨0, 0⟩ ⟨2, 0⟩ ⟨130, 130, 130, 255⟩,
               Primitive.DrawLineV ⟨3, 0⟩ ⟨5, 0⟩ ⟨130, 130, 130, 255⟩ ] := by
  obtain ⟨fuel, dashes, h, -⟩ := DrawLineDashed_exact
    ⟨fun _ => 0, fun _ => 0, 0, fun v => |v.x| + |v.y|, fun _ => ⟨1, 0⟩⟩
    0 0 5 0 2 1 ⟨130, 130, 130, 255⟩ (by norm_num) (by norm_num)
  refine ⟨⟨fuel, _, h 0⟩, ?_⟩
  norm_num [Main5.ShapeDrawer.DrawLineDashed, Main5.ShapeDrawer.dashLoop, Vector2Subtract,
    Vector2Add, Vector2Scale]

end RayLIBCozmo
